import Mathlib

/-!
# Datalogger: the persistent circular telemetry buffer

A shallow embedding of `Datalogger_Lib/src/sd_card_manager.c` (STM32 firmware).

* Machine integers are natural numbers; `uint32_t` arithmetic is reduced modulo `2^32`
  wherever the C code can wrap.
* `float` fields are carried as their raw 32-bit patterns: the buffer manager only copies
  them, it never computes with them.
* The three file-scope statics (`sd_initialized`, `g_metadata`, `sd_last_error`) and the
  card behind the driver form one explicit state, threaded through every function.
* The block driver (`sd_card.c`) is seen at its interface: a call returns a status byte and,
  when that byte is `0`, has transferred one 512-byte block.  The status bytes of the
  upcoming calls are supplied by the environment as a script.
* `PRINT_CLI` log lines have no effect on the buffer and are left out.
-/

namespace Datalogger

/-! ## Constants (`sd_card_manager.h`, `sd_card.h`) -/

/-- Max number of records to buffer. -/
def SD_BUFFER_SIZE : Nat := 204800

/-- SD block address that stores the buffer metadata. -/
def SD_DATA_BLOCK : Nat := 1

/-- Starting block for the actual data. -/
def SD_DATA_START_BLOCK : Nat := 2

/-- Bytes in one block of the card. -/
def SD_BLOCK_SIZE : Nat := 512

/-- Number of values of a `uint32_t`. -/
def U32 : Nat := 4294967296

/-! ## Bytes -/

/-- One 512-byte block of the card, as a list of bytes. -/
abbrev Block := List Nat

/-- The four bytes of a `uint32_t` in memory order (little-endian, Cortex-M). -/
def le32 (x : Nat) : List Nat :=
  [x % 256, x / 256 % 256, x / 65536 % 256, x / 16777216 % 256]

/-- The `uint32_t` stored at byte offset `off` of a buffer. -/
def rd32 (b : List Nat) (off : Nat) : Nat :=
  b.getD off 0 + 256 * b.getD (off + 1) 0 + 65536 * b.getD (off + 2) 0
    + 16777216 * b.getD (off + 3) 0

/-- A fixed-size byte array of `n` bytes holding `l` (cut or zero-filled to size). -/
def fitTo (n : Nat) (l : List Nat) : List Nat :=
  (l ++ List.replicate n 0).take n

/-- C `strncpy(dst, src, n)`: the characters of `src` up to its terminating NUL, at most `n`
of them, then NUL bytes up to `n`; the bytes of `dst` past `n` are kept.  `src` is the
content of the C string; a `0` in it, or its end, is the terminator. -/
def strncpy (dst src : List Nat) (n : Nat) : List Nat :=
  ((src.takeWhile (fun c => c ≠ 0)).take n)
    ++ List.replicate (n - ((src.takeWhile (fun c => c ≠ 0)).take n).length) 0
    ++ dst.drop n

/-! ## Data model (`sd_card_manager.h`) -/

/-- Sensor data record: 512 bytes, one SD block. -/
structure sd_data_record_t where
  timestamp : Nat
  temperature : Nat
  humidity : Nat
  mode : List Nat
  sequence_num : Nat
  padding : List Nat
deriving DecidableEq, Repr

/-- Buffer metadata. -/
structure sd_buffer_metadata_t where
  write_index : Nat
  read_index : Nat
  count : Nat
  sequence_num : Nat
deriving DecidableEq, Repr

/-- The record produced by the initialiser `= {0}`. -/
def zero_record : sd_data_record_t :=
  { timestamp := 0, temperature := 0, humidity := 0, mode := List.replicate 16 0,
    sequence_num := 0, padding := List.replicate 480 0 }

/-- The metadata produced by `memset(&g_metadata, 0, ...)` and by the static initialiser. -/
def zero_metadata : sd_buffer_metadata_t :=
  { write_index := 0, read_index := 0, count := 0, sequence_num := 0 }

/-- The 512 bytes behind `(uint8_t *)&record`. -/
def record_bytes (r : sd_data_record_t) : Block :=
  le32 r.timestamp ++ le32 r.temperature ++ le32 r.humidity ++ fitTo 16 r.mode
    ++ le32 r.sequence_num ++ fitTo 480 r.padding

/-- The record seen through a `sd_data_record_t *` that points at 512 bytes. -/
def record_of_bytes (b : Block) : sd_data_record_t :=
  { timestamp := rd32 b 0, temperature := rd32 b 4, humidity := rd32 b 8,
    mode := (b.drop 12).take 16, sequence_num := rd32 b 28,
    padding := (b.drop 32).take 480 }

/-- The 512-byte buffer of `_write_metadata`: zeroed, then the 16 bytes of the metadata. -/
def metadata_bytes (m : sd_buffer_metadata_t) : Block :=
  le32 m.write_index ++ le32 m.read_index ++ le32 m.count ++ le32 m.sequence_num
    ++ List.replicate 496 0

/-- The metadata that `memcpy(&g_metadata, buffer, 16)` loads. -/
def metadata_of_bytes (b : Block) : sd_buffer_metadata_t :=
  { write_index := rd32 b 0, read_index := rd32 b 4, count := rd32 b 8,
    sequence_num := rd32 b 12 }

/-! ## The card behind the block driver -/

/-- One call of the block driver, as seen on the card. -/
inductive BusOp where
  | init
  | read (addr : Nat)
  | write (addr : Nat) (data : Block)
deriving DecidableEq, Repr

/-- Outcome of one driver call, chosen by the environment: the status byte returned, and
for a write that fails what the addressed block holds afterwards (`none`: untouched). -/
structure Reply where
  ret : Nat
  residue : Option Block
deriving DecidableEq, Repr

/-- The card: block contents, the outcomes of the upcoming driver calls (once the script is
used up every call succeeds), and the calls made so far, oldest first. -/
structure SDCard where
  blocks : Nat → Block
  replies : List Reply
  trace : List BusOp

/-- The status byte of the next driver call. -/
def SDCard.nextRet (c : SDCard) : Nat :=
  match c.replies with
  | [] => 0
  | r :: _ => r.ret % 256

/-- What a failing write leaves in the addressed block. -/
def SDCard.nextResidue (c : SDCard) : Option Block :=
  match c.replies with
  | [] => none
  | r :: _ => r.residue

/-- The card with block `addr` holding `data`. -/
def SDCard.store (c : SDCard) (addr : Nat) (data : Block) : Nat → Block :=
  fun a => if a = addr then data else c.blocks a

namespace BlockDevice

/-- Interface view of `SD_Init`: returns the status byte. -/
def SD_Init (c : SDCard) : SDCard × Nat :=
  ({ c with replies := c.replies.tail, trace := c.trace ++ [BusOp.init] }, c.nextRet)

/-- Interface view of `SD_ReadBlock`: returns the status byte and the 512 bytes placed in
the caller's buffer; the driver stores into the buffer only on the path that returns 0. -/
def SD_ReadBlock (c : SDCard) (block_addr : Nat) : SDCard × Nat × Block :=
  ({ c with replies := c.replies.tail, trace := c.trace ++ [BusOp.read block_addr] },
    c.nextRet, c.blocks block_addr)

/-- Interface view of `SD_WriteBlock`: returns the status byte; on 0 the block holds the
buffer. -/
def SD_WriteBlock (c : SDCard) (block_addr : Nat) (buffer : Block) : SDCard × Nat :=
  ({ blocks :=
       if c.nextRet = 0 then c.store block_addr buffer
       else match c.nextResidue with
         | none => c.blocks
         | some b => c.store block_addr b,
     replies := c.replies.tail,
     trace := c.trace ++ [BusOp.write block_addr buffer] },
    c.nextRet)

end BlockDevice

/-! ## Manager state and private functions (`sd_card_manager.c`) -/

/-- The file-scope statics of `sd_card_manager.c` together with the card. -/
structure ManagerState where
  sd_initialized : Bool
  g_metadata : sd_buffer_metadata_t
  sd_last_error : Nat
  card : SDCard

/-- Read buffer metadata from SD card. -/
def _read_metadata (s : ManagerState) : ManagerState × Bool :=
  let r := BlockDevice.SD_ReadBlock s.card SD_DATA_BLOCK
  if r.2.1 ≠ 0 then
    ({ s with card := r.1, sd_last_error := r.2.1 }, false)
  else
    ({ s with card := r.1, g_metadata := metadata_of_bytes r.2.2 }, true)

/-- Write buffer metadata to SD card. -/
def _write_metadata (s : ManagerState) : ManagerState × Bool :=
  let r := BlockDevice.SD_WriteBlock s.card SD_DATA_BLOCK (metadata_bytes s.g_metadata)
  if r.2 ≠ 0 then
    ({ s with card := r.1, sd_last_error := r.2 }, false)
  else
    ({ s with card := r.1 }, true)

/-- Get SD card block address for given record index. -/
def _get_data_block_addr (index : Nat) : Nat :=
  SD_DATA_START_BLOCK + (index % SD_BUFFER_SIZE)

/-! ## Public API (`sd_card_manager.c`) -/

/-- Initialize SD Card Manager. -/
def SDCardManager_Init (s : ManagerState) : ManagerState × Bool :=
  let r := BlockDevice.SD_Init s.card
  if r.2 ≠ 0 then
    ({ s with card := r.1, sd_last_error := r.2, sd_initialized := false }, false)
  else
    let rm := _read_metadata { s with card := r.1 }
    if rm.2 = false then
      let wm := _write_metadata { rm.1 with g_metadata := zero_metadata }
      if wm.2 = false then
        ({ wm.1 with sd_initialized := false }, false)
      else
        ({ wm.1 with sd_initialized := true }, true)
    else
      ({ rm.1 with sd_initialized := true }, true)

/-- The metadata after the buffer-full branch of `SDCardManager_WriteData` (lines 143-150). -/
def make_room (m : sd_buffer_metadata_t) : sd_buffer_metadata_t :=
  if m.count ≥ SD_BUFFER_SIZE then
    { m with read_index := ((m.read_index + 1) % U32) % SD_BUFFER_SIZE,
             count := (m.count + U32 - 1) % U32 }
  else m

/-- The record built by `SDCardManager_WriteData` (lines 152-158) for sequence number `seq`. -/
def make_record (timestamp temperature humidity : Nat) (mode_str : List Nat) (seq : Nat) :
    sd_data_record_t :=
  { zero_record with
    timestamp := timestamp, temperature := temperature, humidity := humidity,
    sequence_num := seq, mode := strncpy zero_record.mode mode_str (16 - 1) }

/-- `SDCardManager_WriteData`, lines 137-170: the guard, the buffer-full branch, the record
and its block write.  The flag tells whether the function goes on to the metadata update
(`true`) or has returned `false` here. -/
def WriteData_record (s : ManagerState) (timestamp temperature humidity : Nat)
    (mode_str : List Nat) : ManagerState × Bool :=
  if s.sd_initialized = false then (s, false)
  else
    let m1 := make_room s.g_metadata
    let record := make_record timestamp temperature humidity mode_str m1.sequence_num
    let m2 := { m1 with sequence_num := (m1.sequence_num + 1) % U32 }
    let block_addr := _get_data_block_addr m2.write_index
    let r := BlockDevice.SD_WriteBlock s.card block_addr (record_bytes record)
    if r.2 ≠ 0 then
      ({ s with g_metadata := m2, card := r.1, sd_last_error := r.2 }, false)
    else
      ({ s with g_metadata := m2, card := r.1 }, true)

/-- `SDCardManager_WriteData`, lines 172-186: the metadata update and its save. -/
def WriteData_commit (s : ManagerState) : ManagerState × Bool :=
  let m := { s.g_metadata with
             write_index := ((s.g_metadata.write_index + 1) % U32) % SD_BUFFER_SIZE,
             count := (s.g_metadata.count + 1) % U32 }
  let wm := _write_metadata { s with g_metadata := m }
  if wm.2 = false then (wm.1, false) else (wm.1, true)

/-- Write sensor data to SD card buffer. -/
def SDCardManager_WriteData (s : ManagerState) (timestamp temperature humidity : Nat)
    (mode_str : List Nat) : ManagerState × Bool :=
  let r := WriteData_record s timestamp temperature humidity mode_str
  if r.2 = true then WriteData_commit r.1 else (r.1, false)

/-- Read next buffered data record from SD card.  `record` is the caller's pointer: `none`
is `NULL`, `some r` a record buffer currently holding `r`.  The result carries the return
value and the record buffer after the call. -/
def SDCardManager_ReadData (s : ManagerState) (record : Option sd_data_record_t) :
    ManagerState × Bool × Option sd_data_record_t :=
  if s.sd_initialized = false ∨ record = none then (s, false, record)
  else if s.g_metadata.count = 0 then (s, false, record)
  else
    let block_addr := _get_data_block_addr s.g_metadata.read_index
    let r := BlockDevice.SD_ReadBlock s.card block_addr
    if r.2.1 ≠ 0 then
      ({ s with card := r.1, sd_last_error := r.2.1 }, false, record)
    else
      ({ s with card := r.1 }, true, some (record_of_bytes r.2.2))

/-- Get number of buffered records waiting to be sent. -/
def SDCardManager_GetBufferedCount (s : ManagerState) : Nat :=
  if s.sd_initialized = false then 0 else s.g_metadata.count

/-- Remove the oldest record from the buffer after successful sending. -/
def SDCardManager_RemoveRecord (s : ManagerState) : ManagerState × Bool :=
  if s.sd_initialized = false ∨ s.g_metadata.count = 0 then (s, false)
  else
    let m := { s.g_metadata with
               read_index := ((s.g_metadata.read_index + 1) % U32) % SD_BUFFER_SIZE,
               count := (s.g_metadata.count + U32 - 1) % U32 }
    _write_metadata { s with g_metadata := m }

/-- Clear entire buffer. -/
def SDCardManager_ClearBuffer (s : ManagerState) : ManagerState × Bool :=
  if s.sd_initialized = false then (s, false)
  else _write_metadata { s with g_metadata := zero_metadata }

/-- Check if SD Card Manager is initialized. -/
def SDCardManager_IsReady (s : ManagerState) : Bool := s.sd_initialized

/-- Get last SD card error code. -/
def SDCardManager_GetLastError (s : ManagerState) : Nat := s.sd_last_error

/-! ## Typing and invariants -/

/-- A record whose integer fields fit `uint32_t` and whose arrays have their declared size. -/
def sd_data_record_t.wellTyped (r : sd_data_record_t) : Prop :=
  r.timestamp < U32 ∧ r.temperature < U32 ∧ r.humidity < U32 ∧ r.mode.length = 16
    ∧ r.sequence_num < U32 ∧ r.padding.length = 480

/-- Metadata whose four fields fit `uint32_t`. -/
def sd_buffer_metadata_t.wellTyped (m : sd_buffer_metadata_t) : Prop :=
  m.write_index < U32 ∧ m.read_index < U32 ∧ m.count < U32 ∧ m.sequence_num < U32

/-- The metadata invariant of the circular buffer: both indices are slots, the count is at
most the capacity, and the `count` live slots starting at `read_index` end just before
`write_index`. -/
def metadata_invariant (m : sd_buffer_metadata_t) : Prop :=
  m.write_index < SD_BUFFER_SIZE ∧ m.read_index < SD_BUFFER_SIZE ∧ m.count ≤ SD_BUFFER_SIZE
    ∧ m.write_index = (m.read_index + m.count) % SD_BUFFER_SIZE

/-- The C string held in a `char` array: the bytes before the first NUL. -/
def cstring (field : List Nat) : List Nat := field.takeWhile (fun c => c ≠ 0)

/-- The metadata block on the card holds the in-memory metadata (the last save went
through). -/
def persisted (s : ManagerState) : Prop :=
  s.card.blocks SD_DATA_BLOCK = metadata_bytes s.g_metadata

/-! ## Scenario drivers -/

/-- The arguments of one `SDCardManager_WriteData` call. -/
structure Sample where
  timestamp : Nat
  temperature : Nat
  humidity : Nat
  mode_str : List Nat
deriving DecidableEq, Repr

/-- Arguments that fit the parameter types `uint32_t`, `float`, `float`. -/
def Sample.wellTyped (x : Sample) : Prop :=
  x.timestamp < U32 ∧ x.temperature < U32 ∧ x.humidity < U32

/-- The record `SDCardManager_WriteData` builds from a sample and a sequence number. -/
def Sample.record (x : Sample) (seq : Nat) : sd_data_record_t :=
  make_record x.timestamp x.temperature x.humidity x.mode_str seq

/-- Calls `SDCardManager_WriteData` once per sample, in order; collects the return values. -/
def appendAll (s : ManagerState) : List Sample → ManagerState × List Bool
  | [] => (s, [])
  | x :: xs =>
    let r := SDCardManager_WriteData s x.timestamp x.temperature x.humidity x.mode_str
    let rest := appendAll r.1 xs
    (rest.1, r.2 :: rest.2)

/-- What one (`SDCardManager_ReadData`, `SDCardManager_RemoveRecord`) pair reported. -/
structure DrainStep where
  read_ok : Bool
  record : Option sd_data_record_t
  remove_ok : Bool
deriving DecidableEq, Repr

/-- Runs `n` pairs of `SDCardManager_ReadData` (into a zeroed record buffer) and
`SDCardManager_RemoveRecord`. -/
def drainAll (s : ManagerState) : Nat → ManagerState × List DrainStep
  | 0 => (s, [])
  | n + 1 =>
    let rd := SDCardManager_ReadData s (some zero_record)
    let rm := SDCardManager_RemoveRecord rd.1
    let rest := drainAll rm.1 n
    (rest.1, { read_ok := rd.2.1, record := rd.2.2, remove_ok := rm.2 } :: rest.2)

/-- Power loss and restart: the statics are back at their initialisers, the card keeps
its blocks. -/
def power_loss (s : ManagerState) : ManagerState :=
  { sd_initialized := false, g_metadata := zero_metadata, sd_last_error := 0, card := s.card }

/-! ## Concrete states used below -/

/-- The ASCII string `SINGLE`. -/
def mode_SINGLE : List Nat := [83, 73, 78, 71, 76, 69]

/-- The ASCII string `PERIODIC`. -/
def mode_PERIODIC : List Nat := [80, 69, 82, 73, 79, 68, 73, 67]

/-- A card of zeroed blocks on which every driver call succeeds. -/
def blank_card : SDCard :=
  { blocks := fun _ => List.replicate 512 0, replies := [], trace := [] }

/-- An initialised manager with zeroed metadata on a blank card. -/
def fresh_state : ManagerState :=
  { sd_initialized := true, g_metadata := zero_metadata, sd_last_error := 0,
    card := blank_card }

/-- Metadata of a buffer that has taken exactly `SD_BUFFER_SIZE` appends. -/
def full_metadata : sd_buffer_metadata_t :=
  { write_index := 0, read_index := 0, count := SD_BUFFER_SIZE,
    sequence_num := SD_BUFFER_SIZE }

/-- A card holding `full_metadata` in the metadata block and, in slot `i`, the record with
sequence number `i`; the outcomes of the upcoming driver calls are `replies`. -/
def full_card (replies : List Reply) : SDCard :=
  { blocks := fun a =>
      if a = SD_DATA_BLOCK then metadata_bytes full_metadata
      else record_bytes (make_record 1000 1103888384 1114636288 mode_SINGLE (a - SD_DATA_START_BLOCK)),
    replies := replies, trace := [] }

/-- An initialised manager whose buffer is full, as after `SD_BUFFER_SIZE` appends. -/
def full_state (replies : List Reply) : ManagerState :=
  { sd_initialized := true, g_metadata := full_metadata, sd_last_error := 0,
    card := full_card replies }

/-- An initialised manager holding one record, on a card whose upcoming driver outcomes
are `replies`. -/
def one_record_state (replies : List Reply) : ManagerState :=
  { sd_initialized := true,
    g_metadata := { write_index := 1, read_index := 0, count := 1, sequence_num := 1 },
    sd_last_error := 0,
    card := { blocks := fun a =>
                if a = SD_DATA_BLOCK then
                  metadata_bytes { write_index := 1, read_index := 0, count := 1,
                                   sequence_num := 1 }
                else record_bytes (make_record 1000 1103888384 1114636288 mode_SINGLE 0),
              replies := replies, trace := [] } }

/-- A card never written by this firmware: every byte of every block is `0xFF`. -/
def erased_card : SDCard :=
  { blocks := fun _ => List.replicate 512 255, replies := [], trace := [] }

/-- The manager at power-up (statics at their initialisers) on an erased card. -/
def boot_state_erased : ManagerState :=
  { sd_initialized := false, g_metadata := zero_metadata, sd_last_error := 0,
    card := erased_card }

/-! ## Decidability of the predicates -/

instance (m : sd_buffer_metadata_t) : Decidable (metadata_invariant m) := by
  unfold metadata_invariant; infer_instance

instance (x : Sample) : Decidable x.wellTyped := by
  unfold Sample.wellTyped; infer_instance

instance (m : sd_buffer_metadata_t) : Decidable m.wellTyped := by
  unfold sd_buffer_metadata_t.wellTyped; infer_instance

instance (r : sd_data_record_t) : Decidable r.wellTyped := by
  unfold sd_data_record_t.wellTyped; infer_instance

instance (s : ManagerState) : Decidable (persisted s) := by
  unfold persisted; infer_instance

/-- The two measurements of the end-to-end example: 25.50 C, 60.00 % at 1000 in mode
`SINGLE`, then 25.60 C, 61.00 % at 1005 in mode `PERIODIC` (floats as IEEE-754 bits). -/
def example_samples : List Sample :=
  [{ timestamp := 1000, temperature := 1103888384, humidity := 1114636288,
     mode_str := mode_SINGLE },
   { timestamp := 1005, temperature := 1103941837, humidity := 1114898432,
     mode_str := mode_PERIODIC }]

/-- One more sample than the buffer has slots. -/
def overflow_samples : List Sample :=
  List.replicate (SD_BUFFER_SIZE + 1)
    { timestamp := 1000, temperature := 1103888384, humidity := 1114636288,
      mode_str := mode_SINGLE }

/-! ## Driver outcomes by position -/

/-- The status byte the driver returns to the `k`-th upcoming call (`k = 0` is the next
call). -/
def SDCard.retAt (c : SDCard) (k : Nat) : Nat :=
  match c.replies.drop k with
  | [] => 0
  | r :: _ => r.ret % 256

/-- The manager at power-up: the statics at their initialisers. -/
def power_on (card : SDCard) : ManagerState :=
  { sd_initialized := false, g_metadata := zero_metadata, sd_last_error := 0, card := card }

/-! ## JSON output (`sensor_json_output.c`, `print_cli.c`) -/

/-- The bytes of an ASCII string literal. -/
def ascii (s : String) : List Nat := s.toList.map (fun c => c.toNat)

/-- What `snprintf` writes for `%lu`: the decimal digits of the number. -/
def fmt_lu (n : Nat) : List Nat := (Nat.toDigits 10 n).map (fun c => c.toNat)

/-- The part of the C library's `snprintf` that the firmware relies on and the repository
does not contain: the characters `%.2f` produces for a `float`, given by its bits. -/
structure CLib where
  fmt_f2 : Nat → List Nat

/-- Size of the JSON buffers (`JSON_BUFFER_SIZE`, and `json_buffer[128]` in `main`). -/
def JSON_BUFFER_SIZE : Nat := 128

/-- The line sent in place of a JSON object that does not fit the buffer. -/
def ERROR_JSON : List Nat := ascii "\x7b\"error\":\"buffer_overflow\"\x7d\r\n"

/-- What `DS3231_Get_Time` and `mktime` deliver in one reading: `none` when
`DS3231_Get_Time` does not return `HAL_OK`, otherwise the value of `mktime`. -/
abbrev RtcReading := Option Nat

/-- Retrieves the current Unix timestamp from the DS3231 RTC, or 0 on error. -/
def get_unix_timestamp (rtc : RtcReading) : Nat :=
  match rtc with
  | some t => t
  | none => 0

/-- The characters produced by the format string of `sensor_json_format` for a mode string,
a timestamp and two floats. -/
def json_text (lib : CLib) (mode : List Nat) (timestamp temperature humidity : Nat) :
    List Nat :=
  ascii "\x7b\"mode\":\"" ++ mode ++ ascii "\",\"timestamp\":" ++ fmt_lu timestamp
    ++ ascii ",\"temperature\":" ++ lib.fmt_f2 temperature
    ++ ascii ",\"humidity\":" ++ lib.fmt_f2 humidity ++ ascii "\x7d\r\n"

/-- Formats sensor data into a JSON string and writes to provided buffer.  `buffer` is the
caller's pointer (`none` is `NULL`, `some b` a buffer whose C string is `b`), `mode` the
content of the C string passed as mode.  Returns the return value and the buffer;
`snprintf` stores at most `buffer_size - 1` characters. -/
def sensor_json_format (lib : CLib) (rtc : RtcReading) (buffer : Option (List Nat))
    (buffer_size : Nat) (mode : List Nat) (temperature humidity timestamp : Nat) :
    Int × Option (List Nat) :=
  if buffer = none ∨ buffer_size = 0 then (-1, buffer)
  else
    let timestamp1 := if timestamp = 0 then get_unix_timestamp rtc % U32 else timestamp
    let text := json_text lib mode timestamp1 temperature humidity
    let written : Int := text.length
    if written < 0 ∨ written ≥ (buffer_size : Int) then
      (-1, some (text.take (buffer_size - 1)))
    else
      (written, some (text.take (buffer_size - 1)))

/-- `PRINT_CLI(fmt)` called with a format string and no further argument, on the log of
the strings handed to the UART.  The log keeps the format string itself; `vsprintf` copies
it unchanged when it has no `%`, which holds for every JSON line whose mode string has
none.  Nothing is transmitted when the length, as `uint8_t`, is 0. -/
def PRINT_CLI (tx : List (List Nat)) (fmt : List Nat) : List (List Nat) :=
  if fmt.length % 256 > 0 then tx ++ [fmt] else tx

/-- Formats sensor data into a JSON string and prints it via UART. -/
def sensor_json_output_send (lib : CLib) (rtc : RtcReading) (tx : List (List Nat))
    (mode : List Nat) (temperature humidity : Nat) : List (List Nat) :=
  let r := sensor_json_format lib rtc (some []) JSON_BUFFER_SIZE mode temperature humidity 0
  if r.1 < 0 then PRINT_CLI tx ERROR_JSON
  else PRINT_CLI tx (r.2.getD [])

/-! ## Data manager (`data_manager.c`) -/

/-- Measurement mode enumeration. -/
inductive data_manager_mode_t where
  | DATA_MANAGER_MODE_IDLE
  | DATA_MANAGER_MODE_SINGLE
  | DATA_MANAGER_MODE_PERIODIC
deriving DecidableEq, Repr

/-- Sensor data structure for SHT3X. -/
structure sensor_data_sht3x_t where
  temperature : Nat
  humidity : Nat
  valid : Bool
deriving DecidableEq, Repr

/-- Complete data manager state structure. -/
structure data_manager_state_t where
  mode : data_manager_mode_t
  timestamp : Nat
  sht3x : sensor_data_sht3x_t
  data_ready : Bool
deriving DecidableEq, Repr

/-- Initialize the Data Manager. -/
def DataManager_Init (_g : data_manager_state_t) : data_manager_state_t :=
  { mode := data_manager_mode_t.DATA_MANAGER_MODE_IDLE, timestamp := 0,
    sht3x := { temperature := 0, humidity := 0, valid := false }, data_ready := false }

/-- Update data manager with single measurement data. -/
def DataManager_UpdateSingle (g : data_manager_state_t) (temperature humidity : Nat) :
    data_manager_state_t :=
  { g with mode := data_manager_mode_t.DATA_MANAGER_MODE_SINGLE,
           sht3x := { temperature := temperature, humidity := humidity, valid := true },
           data_ready := true }

/-- Update data manager with periodic measurement data. -/
def DataManager_UpdatePeriodic (g : data_manager_state_t) (temperature humidity : Nat) :
    data_manager_state_t :=
  { g with mode := data_manager_mode_t.DATA_MANAGER_MODE_PERIODIC,
           sht3x := { temperature := temperature, humidity := humidity, valid := true },
           data_ready := true }

/-- Print the current data in JSON format.  Returns the state, the UART log and the return
value. -/
def DataManager_Print (lib : CLib) (rtc : RtcReading) (g : data_manager_state_t)
    (tx : List (List Nat)) : data_manager_state_t × List (List Nat) × Bool :=
  if g.data_ready = false then (g, tx, false)
  else if g.sht3x.valid = false then (g, tx, false)
  else
    match g.mode with
    | data_manager_mode_t.DATA_MANAGER_MODE_SINGLE =>
      ({ g with data_ready := false },
        sensor_json_output_send lib rtc tx mode_SINGLE g.sht3x.temperature g.sht3x.humidity,
        true)
    | data_manager_mode_t.DATA_MANAGER_MODE_PERIODIC =>
      ({ g with data_ready := false },
        sensor_json_output_send lib rtc tx mode_PERIODIC g.sht3x.temperature
          g.sht3x.humidity,
        true)
    | _ => (g, tx, false)

/-- Clear the data_ready flag. -/
def DataManager_ClearDataReady (g : data_manager_state_t) : data_manager_state_t :=
  { g with data_ready := false }

/-- Check if new data is ready to be printed. -/
def DataManager_IsDataReady (g : data_manager_state_t) : Bool := g.data_ready

/-- One call of the data manager's API. -/
inductive DataManagerCall where
  | Init
  | UpdateSingle (temperature humidity : Nat)
  | UpdatePeriodic (temperature humidity : Nat)
  | Print (rtc : RtcReading)
  | ClearDataReady
deriving DecidableEq, Repr

/-- The data manager state and UART log after one API call. -/
def DataManager_call (lib : CLib) (st : data_manager_state_t × List (List Nat)) :
    DataManagerCall → data_manager_state_t × List (List Nat)
  | DataManagerCall.Init => (DataManager_Init st.1, st.2)
  | DataManagerCall.UpdateSingle t h => (DataManager_UpdateSingle st.1 t h, st.2)
  | DataManagerCall.UpdatePeriodic t h => (DataManager_UpdatePeriodic st.1 t h, st.2)
  | DataManagerCall.Print rtc =>
    ((DataManager_Print lib rtc st.1 st.2).1, (DataManager_Print lib rtc st.1 st.2).2.1)
  | DataManagerCall.ClearDataReady => (DataManager_ClearDataReady st.1, st.2)

/-- The data manager state and UART log after a sequence of API calls. -/
def DataManager_run (lib : CLib) (st : data_manager_state_t × List (List Nat)) :
    List DataManagerCall → data_manager_state_t × List (List Nat)
  | [] => st
  | c :: cs => DataManager_run lib (DataManager_call lib st c) cs

/-- The mode string `DataManager_Print` selects for a pending measurement. -/
def print_mode_str (m : data_manager_mode_t) : List Nat :=
  match m with
  | data_manager_mode_t.DATA_MANAGER_MODE_SINGLE => mode_SINGLE
  | _ => mode_PERIODIC

/-! ## A reference `%.2f` -/

/-- The quotient `n / d` rounded to the nearest integer, ties to even. -/
def round_half_even (n d : Nat) : Nat :=
  if 2 * (n % d) < d then n / d
  else if 2 * (n % d) > d then n / d + 1
  else if (n / d) % 2 = 0 then n / d else n / d + 1

/-- Modelled from the spec: `snprintf` is not part of the repository; the spec gives the
float fields as `<float, 2 decimals>`.  This is the correctly rounded `%.2f` rendering of
an IEEE-754 single-precision value given by its bits. -/
def ieee_fmt_f2 (bits : Nat) : List Nat :=
  let sgn : List Nat := if bits / 2147483648 % 2 = 1 then ascii "-" else []
  let e := bits / 8388608 % 256
  let m := bits % 8388608
  if e = 255 then sgn ++ (if m = 0 then ascii "inf" else ascii "nan")
  else
    let sig := if e = 0 then m else m + 8388608
    let ex := if e = 0 then 1 else e
    let q := if ex ≥ 150 then sig * 100 * 2 ^ (ex - 150)
             else round_half_even (sig * 100) (2 ^ (150 - ex))
    sgn ++ fmt_lu (q / 100) ++ ascii "." ++ [48 + q % 100 / 10, 48 + q % 10]

/-- A C library whose `%.2f` is the reference rendering. -/
def reference_clib : CLib := { fmt_f2 := ieee_fmt_f2 }

/-! ## Router (`main.c`, `cmd_parser.c`, `wifi_manager.h`) -/

/-- MQTT connection state enumeration. -/
inductive mqtt_state_t where
  | MQTT_STATE_DISCONNECTED
  | MQTT_STATE_CONNECTED
deriving DecidableEq, Repr

/-- The state the main loop works on: the buffer manager with its card, the data manager's
`g_data_manager_state`, `mqtt_current_state`, the statics `last_sd_send_ms` and
`buffered_record` of the drain, and the log of the strings handed to `PRINT_CLI` by
`sensor_json_output_send` and by the drain (the `[SD]` and `[CMD]` log lines of the other
modules are left out). -/
structure Firmware where
  sd : ManagerState
  g_data_manager_state : data_manager_state_t
  mqtt_current_state : mqtt_state_t
  last_sd_send_ms : Nat
  buffered_record : sd_data_record_t
  uart_tx : List (List Nat)

/-- What the environment supplies to one pass of the routing block: the value of
`HAL_GetTick()`, the RTC reading seen by `DataManager_Print`, and the RTC reading seen by
the drain's `sensor_json_format` or by the disconnected branch. -/
structure RouteInput where
  tick : Nat
  rtc_live : RtcReading
  rtc : RtcReading
deriving DecidableEq, Repr

/-- The C string that starts at `record.mode`: the bytes of the record from offset 12 up to
the first NUL. -/
def record_mode_cstr (r : sd_data_record_t) : List Nat :=
  cstring ((record_bytes r).drop 12)

/-- The buffered-data drain of the connected branch (`main`, lines 228-255), after
`DataManager_Print`. -/
def drain_step (lib : CLib) (w : Firmware) (i : RouteInput) : Firmware :=
  let now_ms := i.tick
  if SDCardManager_GetBufferedCount w.sd > 0
      ∧ (now_ms + U32 - w.last_sd_send_ms) % U32 ≥ 100 then
    let rd := SDCardManager_ReadData w.sd (some w.buffered_record)
    let w1 := { w with sd := rd.1, buffered_record := rd.2.2.getD w.buffered_record }
    if rd.2.1 = true then
      let f := sensor_json_format lib i.rtc (some []) 128
        (record_mode_cstr w1.buffered_record) w1.buffered_record.temperature
        w1.buffered_record.humidity w1.buffered_record.timestamp
      if f.1 > 0 then
        let w2 := { w1 with uart_tx := PRINT_CLI w1.uart_tx (f.2.getD []) }
        let rm := SDCardManager_RemoveRecord w2.sd
        { w2 with sd := rm.1, last_sd_send_ms := now_ms }
      else w1
    else w1
  else w

/-- The disconnected branch (`main`, lines 257-286). -/
def buffer_step (w : Firmware) (i : RouteInput) : Firmware :=
  if DataManager_IsDataReady w.g_data_manager_state = true then
    let state := w.g_data_manager_state
    let timestamp :=
      match i.rtc with
      | some t => t % U32
      | none => i.tick / 1000
    let mode_str :=
      if state.mode = data_manager_mode_t.DATA_MANAGER_MODE_SINGLE then mode_SINGLE
      else mode_PERIODIC
    let wr := SDCardManager_WriteData w.sd timestamp state.sht3x.temperature
      state.sht3x.humidity mode_str
    { w with sd := wr.1,
             g_data_manager_state := DataManager_ClearDataReady w.g_data_manager_state }
  else w

/-- The call `DataManager_Print()` of the connected branch (`main`, line 226); its return
value is not used. -/
def live_emit (lib : CLib) (w : Firmware) (i : RouteInput) : Firmware :=
  { w with
    g_data_manager_state :=
      (DataManager_Print lib i.rtc_live w.g_data_manager_state w.uart_tx).1,
    uart_tx := (DataManager_Print lib i.rtc_live w.g_data_manager_state w.uart_tx).2.1 }

/-- The MQTT-aware data routing block of the main loop (`main`, lines 219-286). -/
def route (lib : CLib) (w : Firmware) (i : RouteInput) : Firmware :=
  if w.mqtt_current_state = mqtt_state_t.MQTT_STATE_CONNECTED then
    drain_step lib (live_emit lib w i) i
  else
    buffer_step w i

/-- Command parser for SINGLE measurement command; `sensor_ok`, `temp`, `hum` are what
`SHT3X_Single` delivered. -/
def SINGLE_PARSER (w : Firmware) (argc : Nat) (sensor_ok : Bool) (temp hum : Nat) :
    Firmware :=
  if argc ≠ 1 then w
  else if sensor_ok = true then
    { w with g_data_manager_state := DataManager_UpdateSingle w.g_data_manager_state temp hum }
  else
    { w with g_data_manager_state := DataManager_UpdateSingle w.g_data_manager_state 0 0 }

/-- Command parser for PERIODIC ON command; `sensor_ok`, `temp`, `hum` are what
`SHT3X_Periodic` delivered. -/
def PERIODIC_ON_PARSER (w : Firmware) (argc : Nat) (sensor_ok : Bool) (temp hum : Nat) :
    Firmware :=
  if argc ≠ 2 then w
  else if sensor_ok = true then
    { w with
      g_data_manager_state := DataManager_UpdatePeriodic w.g_data_manager_state temp hum }
  else
    { w with g_data_manager_state := DataManager_UpdatePeriodic w.g_data_manager_state 0 0 }

/-- Command parser for MQTT CONNECTED notification. -/
def MQTT_CONNECTED_PARSER (w : Firmware) (argc : Nat) : Firmware :=
  if argc ≠ 2 then w
  else { w with mqtt_current_state := mqtt_state_t.MQTT_STATE_CONNECTED }

/-- Command parser for MQTT DISCONNECTED notification. -/
def MQTT_DISCONNECTED_PARSER (w : Firmware) (argc : Nat) : Firmware :=
  if argc ≠ 2 then w
  else { w with mqtt_current_state := mqtt_state_t.MQTT_STATE_DISCONNECTED }

/-- Command parser for SD CLEAR command. -/
def SD_CLEAR_PARSER (w : Firmware) (argc : Nat) : Firmware :=
  if argc ≠ 2 then w
  else { w with sd := (SDCardManager_ClearBuffer w.sd).1 }

/-- The handler that `COMMAND_EXECUTE` invokes for the line `UART_Handle` completed, with
its `argc` and, for the measurement commands, what the sensor delivered.  `other` stands
for the handlers that touch nothing of `Firmware`. -/
inductive Dispatch where
  | single (argc : Nat) (sensor_ok : Bool) (temp hum : Nat)
  | periodic_on (argc : Nat) (sensor_ok : Bool) (temp hum : Nat)
  | mqtt_connected (argc : Nat)
  | mqtt_disconnected (argc : Nat)
  | sd_clear (argc : Nat)
  | other
deriving DecidableEq, Repr

/-- Handle UART data processing: `none` when no command line was completed. -/
def UART_Handle (w : Firmware) (d : Option Dispatch) : Firmware :=
  match d with
  | none => w
  | some (Dispatch.single argc ok t h) => SINGLE_PARSER w argc ok t h
  | some (Dispatch.periodic_on argc ok t h) => PERIODIC_ON_PARSER w argc ok t h
  | some (Dispatch.mqtt_connected argc) => MQTT_CONNECTED_PARSER w argc
  | some (Dispatch.mqtt_disconnected argc) => MQTT_DISCONNECTED_PARSER w argc
  | some (Dispatch.sd_clear argc) => SD_CLEAR_PARSER w argc
  | some Dispatch.other => w

/-- What the environment supplies to one pass of the `while (1)` body: the command
dispatched by `UART_Handle`, the measurement fetched by the periodic branch (lines 190-217)
when it ran, and the inputs of the routing block. -/
structure LoopInput where
  dispatch : Option Dispatch
  fetch : Option (Nat × Nat)
  route : RouteInput
deriving DecidableEq, Repr

/-- The state at the routing block of one pass of the main loop: after `UART_Handle` and
the periodic fetch. -/
def before_route (w : Firmware) (inp : LoopInput) : Firmware :=
  match inp.fetch with
  | some m =>
    { UART_Handle w inp.dispatch with
      g_data_manager_state :=
        DataManager_UpdatePeriodic (UART_Handle w inp.dispatch).g_data_manager_state m.1 m.2 }
  | none => UART_Handle w inp.dispatch

/-- One pass of the `while (1)` body of `main`, as far as it touches `Firmware`; the
display update has no effect on it. -/
def main_loop_iteration (lib : CLib) (w : Firmware) (inp : LoopInput) : Firmware :=
  route lib (before_route w inp) inp.route

/-- The firmware when the main loop is entered, for a given buffer manager state. -/
def firmware_start (sd : ManagerState) : Firmware :=
  { sd := sd,
    g_data_manager_state := DataManager_Init
      { mode := data_manager_mode_t.DATA_MANAGER_MODE_IDLE, timestamp := 0,
        sht3x := { temperature := 0, humidity := 0, valid := false }, data_ready := false },
    mqtt_current_state := mqtt_state_t.MQTT_STATE_DISCONNECTED,
    last_sd_send_ms := 0,
    buffered_record := zero_record,
    uart_tx := [] }

/-- The pending-event invariant of the data manager: a set `data_ready` comes with valid
sensor data and a measurement mode. -/
def data_manager_invariant (g : data_manager_state_t) : Prop :=
  g.data_ready = true →
    g.sht3x.valid = true
      ∧ (g.mode = data_manager_mode_t.DATA_MANAGER_MODE_SINGLE
          ∨ g.mode = data_manager_mode_t.DATA_MANAGER_MODE_PERIODIC)

instance (g : data_manager_state_t) : Decidable (data_manager_invariant g) := by
  unfold data_manager_invariant; infer_instance

/-- The number written in decimal by a list of ASCII digits. -/
def decimal_value (l : List Nat) : Nat :=
  l.foldl (fun acc c => 10 * acc + (c - 48)) 0

/-! ## Scenarios for the router -/

/-- A pass of the main loop in which a SINGLE command measures 25.50 C and 60.00 % while
the RTC does not answer, 500 ms after start. -/
def single_without_rtc : LoopInput :=
  { dispatch := some (Dispatch.single 1 true 1103888384 1114636288), fetch := none,
    route := { tick := 500, rtc_live := none, rtc := none } }

/-- A pass of the main loop in which the gateway reports MQTT CONNECTED, at tick 1000,
with the RTC reading 1700000000. -/
def connect_with_rtc : LoopInput :=
  { dispatch := some (Dispatch.mqtt_connected 2), fetch := none,
    route := { tick := 1000, rtc_live := some 1700000000, rtc := some 1700000000 } }

/-- Three buffered measurements: the two of the end-to-end example and a third. -/
def three_samples : List Sample :=
  example_samples ++
    [{ timestamp := 1010, temperature := 1103888384, humidity := 1114636288,
       mode_str := mode_SINGLE }]

/-- A pass of the main loop in which the SD CLEAR command arrives. -/
def sd_clear_pass : LoopInput :=
  { dispatch := some (Dispatch.sd_clear 2), fetch := none,
    route := { tick := 2000, rtc_live := some 1700000000, rtc := some 1700000000 } }

/-- A measurement event: a SINGLE command answered by the sensor, or (`periodic`) a
periodic fetch, with the tick and the RTC reading of the pass in which it is routed. -/
structure MeasurementEvent where
  periodic : Bool
  temperature : Nat
  humidity : Nat
  tick : Nat
  rtc : RtcReading
deriving DecidableEq, Repr

/-- Values that fit the types `float`, `float` and `uint32_t`. -/
def MeasurementEvent.wellTyped (e : MeasurementEvent) : Prop :=
  e.temperature < U32 ∧ e.humidity < U32 ∧ e.tick < U32

instance (e : MeasurementEvent) : Decidable e.wellTyped := by
  unfold MeasurementEvent.wellTyped; infer_instance

/-- The pass of the main loop in which the event becomes pending and is routed. -/
def MeasurementEvent.pass (e : MeasurementEvent) : LoopInput :=
  { dispatch :=
      if e.periodic = true then none
      else some (Dispatch.single 1 true e.temperature e.humidity),
    fetch := if e.periodic = true then some (e.temperature, e.humidity) else none,
    route := { tick := e.tick, rtc_live := e.rtc, rtc := e.rtc } }

/-- The arguments with which the disconnected branch calls `SDCardManager_WriteData` for
the event. -/
def MeasurementEvent.sample (e : MeasurementEvent) : Sample :=
  { timestamp :=
      match e.rtc with
      | some t => t % U32
      | none => e.tick / 1000,
    temperature := e.temperature,
    humidity := e.humidity,
    mode_str := if e.periodic = true then mode_PERIODIC else mode_SINGLE }

/-- A pass of the main loop in which the gateway reports MQTT CONNECTED and no measurement
arrives. -/
def connect_pass (r : RouteInput) : LoopInput :=
  { dispatch := some (Dispatch.mqtt_connected 2), fetch := none, route := r }

/-- A pass of the main loop with no command and no measurement. -/
def idle_pass (r : RouteInput) : LoopInput :=
  { dispatch := none, fetch := none, route := r }

/-- The return value of the drain's `sensor_json_format` call for a record. -/
def drain_len (lib : CLib) (rtc : RtcReading) (r : sd_data_record_t) : Int :=
  (sensor_json_format lib rtc (some []) 128 (record_mode_cstr r) r.temperature r.humidity
    r.timestamp).1

/-- The line the drain hands to `PRINT_CLI` for a record. -/
def drain_line (lib : CLib) (rtc : RtcReading) (r : sd_data_record_t) : List Nat :=
  (sensor_json_format lib rtc (some []) 128 (record_mode_cstr r) r.temperature r.humidity
    r.timestamp).2.getD []

/-- The three measurement events of the mode-switch example: a SINGLE measurement of
25.50 C / 60.00 % at RTC time 1000, periodic measurements of 25.60 C / 61.00 % at 1005
and of 25.50 C / 60.00 % at 1010. -/
def switch_events : MeasurementEvent × MeasurementEvent × MeasurementEvent :=
  ({ periodic := false, temperature := 1103888384, humidity := 1114636288, tick := 5000,
     rtc := some 1000 },
   { periodic := true, temperature := 1103941837, humidity := 1114898432, tick := 10000,
     rtc := some 1005 },
   { periodic := true, temperature := 1103888384, humidity := 1114636288, tick := 15000,
     rtc := some 1010 })

/-- The routing inputs of three drain passes 100 ms apart. -/
def switch_drains : RouteInput × RouteInput × RouteInput :=
  ({ tick := 20000, rtc_live := some 1015, rtc := some 1015 },
   { tick := 20100, rtc_live := some 1015, rtc := some 1015 },
   { tick := 20200, rtc_live := some 1015, rtc := some 1015 })

/-! ## Block driver over SPI (`sd_card.c`, `sd_card.h`)

The driver at the level of single byte exchanges.  The card is an arbitrary infinite
sequence `miso` of bytes: the `k`-th exchange on the bus returns `miso k`.  Every loop of
the source is written with its own counter and guard as in the source, and recurses on a
fuel argument; the callers pass enough fuel for the guard to end the loop first (the
lemmas `wait_r1_fuel`, `wait_token_fuel`, `wait_response_fuel`, `wait_busy_fuel`,
`cmd0_loop_fuel` and `acmd41_loop_fuel` show that more fuel changes nothing). -/

/-- GO_IDLE_STATE. -/
def CMD0 : Nat := 0
/-- SEND_IF_COND. -/
def CMD8 : Nat := 8
/-- READ_SINGLE_BLOCK. -/
def CMD17 : Nat := 17
/-- WRITE_BLOCK. -/
def CMD24 : Nat := 24
/-- SEND_OP_COND (ACMD). -/
def CMD41 : Nat := 41
/-- APP_CMD. -/
def CMD55 : Nat := 55
/-- READ_OCR. -/
def CMD58 : Nat := 58

/-- R1 response: idle state. -/
def R1_IDLE_STATE : Nat := 1
/-- R1 response: illegal command. -/
def R1_ILLEGAL_COMMAND : Nat := 4
/-- R1 response: ready. -/
def R1_READY : Nat := 0

/-- Card type: unknown. -/
def SD_TYPE_UNKNOWN : Nat := 0
/-- Card type: SD v1. -/
def SD_TYPE_SDV1 : Nat := 2
/-- Card type: SD v2. -/
def SD_TYPE_SDV2 : Nat := 3
/-- Card type: SDHC. -/
def SD_TYPE_SDHC : Nat := 4

/-- What the driver does on the bus and to the clock. -/
inductive SpiEvent where
  | cs_low
  | cs_high
  | xfer (tx rx : Nat)
  | delay (ms : Nat)
  | speed_low
  | speed_high
deriving DecidableEq, Repr

/-- The bus and the driver's statics: the card's byte sequence, the number of exchanges
made, the number of calls of `SD_SPI_ReadWrite`, the events so far (oldest first), whether
`g_hspi` has been set, `SD_Type`, and the lines handed to the UART by `PRINT_CLI`. -/
structure Spi where
  miso : Nat → Nat
  pos : Nat
  calls : Nat
  log : List SpiEvent
  g_hspi : Bool
  SD_Type : Nat
  uart : List (List Nat)

/-- `HAL_Delay(ms)`. -/
def HAL_Delay (b : Spi) (ms : Nat) : Spi :=
  { b with log := b.log ++ [SpiEvent.delay ms] }

/-- Set low SPI speed (initialization). -/
def SD_SetSpeedLow (b : Spi) : Spi :=
  if b.g_hspi = false then b else { b with log := b.log ++ [SpiEvent.speed_low] }

/-- Set high SPI speed. -/
def SD_SetSpeedHigh (b : Spi) : Spi :=
  if b.g_hspi = false then b else { b with log := b.log ++ [SpiEvent.speed_high] }

/-- CS pin - High. -/
def SD_CS_High (b : Spi) : Spi :=
  { b with log := b.log ++ [SpiEvent.cs_high] }

/-- CS pin - Low. -/
def SD_CS_Low (b : Spi) : Spi :=
  { b with log := b.log ++ [SpiEvent.cs_low] }

/-- Initialize GPIO pins for SD card. -/
def SD_GPIO_Init (b : Spi) : Spi :=
  { b with log := b.log ++ [SpiEvent.cs_high] }

/-- Initialize SPI for SD card; `hspi_valid` tells that neither `hspi` nor its `Instance`
is `NULL`. -/
def SD_SPI_Init (b : Spi) (hspi_valid : Bool) : Spi × Nat :=
  if hspi_valid = false then (b, 1)
  else (SD_SetSpeedLow { b with g_hspi := true }, 0)

/-- Send and receive one byte via SPI. -/
def SD_SPI_ReadWrite (b : Spi) (data : Nat) : Spi × Nat :=
  if b.g_hspi = false then ({ b with calls := b.calls + 1 }, 0xFF)
  else
    ({ b with pos := b.pos + 1, calls := b.calls + 1,
              log := b.log ++ [SpiEvent.xfer data (b.miso b.pos % 256)] },
      b.miso b.pos % 256)

/-- Send clock cycles. -/
def SD_SendClock : Nat → Spi → Spi
  | 0, b => b
  | count + 1, b => SD_SendClock count (SD_SPI_ReadWrite b 0xFF).1

/-- The R1 wait of `SD_SendCommandRaw`:
`while ((r1 = SD_SPI_ReadWrite(0xFF)) == 0xFF) { if (retry++ > 8) break; }`. -/
def wait_r1 : Nat → Nat → Spi → Spi × Nat
  | 0, _, b => (b, 0xFF)
  | fuel + 1, retry, b =>
    if (SD_SPI_ReadWrite b 0xFF).2 = 0xFF then
      if retry > 8 then SD_SPI_ReadWrite b 0xFF
      else wait_r1 fuel ((retry + 1) % 65536) (SD_SPI_ReadWrite b 0xFF).1
    else SD_SPI_ReadWrite b 0xFF

/-- Send command to SD card (assumes CS already controlled externally). -/
def SD_SendCommandRaw (b : Spi) (cmd arg crc : Nat) : Spi × Nat :=
  let b1 := (SD_SPI_ReadWrite b ((0x40 ||| cmd) % 256)).1
  let b2 := (SD_SPI_ReadWrite b1 (arg / 16777216 % 256)).1
  let b3 := (SD_SPI_ReadWrite b2 (arg / 65536 % 256)).1
  let b4 := (SD_SPI_ReadWrite b3 (arg / 256 % 256)).1
  let b5 := (SD_SPI_ReadWrite b4 (arg % 256)).1
  let b6 := (SD_SPI_ReadWrite b5 crc).1
  wait_r1 10 0 b6

/-- Send command to SD card (with CS control). -/
def SD_SendCommand (b : Spi) (cmd arg crc : Nat) : Spi × Nat :=
  let b1 := (SD_SPI_ReadWrite (SD_CS_Low b) 0xFF).1
  let r := SD_SendCommandRaw b1 cmd arg crc
  let b2 := (SD_SPI_ReadWrite r.1 0xFF).1
  let b3 := (SD_SPI_ReadWrite (SD_CS_High b2) 0xFF).1
  (b3, r.2)

/-- The CMD0 loop of `SD_Init`:
`while (r1 != R1_IDLE_STATE && retry < 100) { r1 = SD_SendCommand(CMD0, 0, 0x95);
if (r1 == R1_IDLE_STATE) break; HAL_Delay(10); retry++; }`. -/
def cmd0_loop : Nat → Nat → Nat → Spi → Spi × Nat
  | 0, _, r1, b => (b, r1)
  | fuel + 1, retry, r1, b =>
    if r1 ≠ R1_IDLE_STATE ∧ retry < 100 then
      if (SD_SendCommand b CMD0 0 0x95).2 = R1_IDLE_STATE then SD_SendCommand b CMD0 0 0x95
      else
        cmd0_loop fuel ((retry + 1) % 65536) (SD_SendCommand b CMD0 0 0x95).2
          (HAL_Delay (SD_SendCommand b CMD0 0 0x95).1 10)
    else (b, r1)

/-- One pass of the body of the ACMD41 loop up to the deselect: CMD55, CMD41, deselect. -/
def acmd41_attempt (b : Spi) (arg : Nat) : Spi × Nat :=
  let b1 := (SD_SPI_ReadWrite (SD_CS_Low b) 0xFF).1
  let r55 := SD_SendCommandRaw b1 CMD55 0 0
  let r41 := SD_SendCommandRaw r55.1 CMD41 arg 0
  let b2 := (SD_SPI_ReadWrite r41.1 0xFF).1
  let b3 := (SD_SPI_ReadWrite (SD_CS_High b2) 0xFF).1
  (b3, r41.2)

/-- The ACMD41 loop of `SD_Init`:
`while (r1 != R1_READY && retry < 200) { ...; if (r1 == R1_READY) break; HAL_Delay(10);
retry++; }`. -/
def acmd41_loop : Nat → Nat → Nat → Nat → Spi → Spi × Nat
  | 0, _, r1, _, b => (b, r1)
  | fuel + 1, retry, r1, arg, b =>
    if r1 ≠ R1_READY ∧ retry < 200 then
      if (acmd41_attempt b arg).2 = R1_READY then acmd41_attempt b arg
      else
        acmd41_loop fuel ((retry + 1) % 65536) (acmd41_attempt b arg).2 arg
          (HAL_Delay (acmd41_attempt b arg).1 10)
    else (b, r1)

/-- The OCR read of `SD_Init`: four bytes, the first of which sets `SD_TYPE_SDHC` when its
bit `0x40` is set. -/
def read_ocr (b : Spi) : Spi :=
  let x0 := SD_SPI_ReadWrite b 0xFF
  let b0 := if x0.2 / 64 % 2 = 1 then { x0.1 with SD_Type := SD_TYPE_SDHC } else x0.1
  SD_SendClock 3 b0

/-- `PRINT_CLI(msg)` from the driver, for a message without conversion. -/
def print_line (b : Spi) (msg : String) : Spi :=
  { b with uart := PRINT_CLI b.uart (ascii msg) }

/-- Initialize SD card.  Returns the status byte. -/
def SD_Init (b : Spi) (hspi_valid : Bool) : Spi × Nat :=
  if (SD_SPI_Init b hspi_valid).2 ≠ 0 then ((SD_SPI_Init b hspi_valid).1, 1)
  else
    let b1 := SD_GPIO_Init (SD_SPI_Init b hspi_valid).1
    let b2 := HAL_Delay (SD_CS_High (HAL_Delay (SD_CS_Low b1) 1)) 50
    let b3 := HAL_Delay (SD_SendClock 20 (SD_CS_High b2)) 10
    let c0 := cmd0_loop 101 0 0xFF b3
    if c0.2 ≠ R1_IDLE_STATE then (print_line c0.1 "[SD] CMD0 FAILED\r\n", 1)
    else
      let c1 := print_line c0.1 "[SD] CMD0 OK! Card in IDLE state.\r\n"
      let b4 := HAL_Delay (SD_SendClock 2 c1) 1
      let c8 := SD_SendCommandRaw (SD_SPI_ReadWrite (SD_CS_Low b4) 0xFF).1 CMD8 0x1AA 0x87
      let b5 :=
        if c8.2 = R1_IDLE_STATE then { SD_SendClock 4 c8.1 with SD_Type := SD_TYPE_SDV2 }
        else { c8.1 with SD_Type := SD_TYPE_SDV1 }
      let arg := if c8.2 = R1_IDLE_STATE then 0x40000000 else 0
      let b6 := (SD_SPI_ReadWrite (SD_CS_High (SD_SPI_ReadWrite b5 0xFF).1) 0xFF).1
      let b7 := HAL_Delay (SD_SendClock 2 b6) 1
      let c41 := acmd41_loop 201 0 0xFF arg b7
      if c41.2 ≠ R1_READY then (c41.1, 2)
      else
        let c58 := SD_SendCommandRaw (SD_SPI_ReadWrite (SD_CS_Low c41.1) 0xFF).1 CMD58 0 0
        if c58.2 ≠ R1_READY then (SD_CS_High c58.1, 3)
        else
          let b8 := read_ocr c58.1
          let b9 := (SD_SPI_ReadWrite (SD_CS_High (SD_SPI_ReadWrite b8 0xFF).1) 0xFF).1
          (SD_SetSpeedHigh (SD_SendClock 2 b9), 0)

/-- The data-token wait of `SD_ReadBlock`:
`while (SD_SPI_ReadWrite(0xFF) != 0xFE) { if (retry++ > 10000) { SD_CS_High(); return 2; } }`.
The flag is `true` when the token arrived, `false` on the timeout return. -/
def wait_token : Nat → Nat → Spi → Spi × Bool
  | 0, _, b => (b, false)
  | fuel + 1, retry, b =>
    if (SD_SPI_ReadWrite b 0xFF).2 ≠ 0xFE then
      if retry > 10000 then (SD_CS_High (SD_SPI_ReadWrite b 0xFF).1, false)
      else wait_token fuel ((retry + 1) % 65536) (SD_SPI_ReadWrite b 0xFF).1
    else ((SD_SPI_ReadWrite b 0xFF).1, true)

/-- Reads `n` bytes into a buffer: `for (...) buffer[i] = SD_SPI_ReadWrite(0xFF);`. -/
def read_bytes : Nat → Spi → Spi × List Nat
  | 0, b => (b, [])
  | n + 1, b =>
    ((read_bytes n (SD_SPI_ReadWrite b 0xFF).1).1,
      (SD_SPI_ReadWrite b 0xFF).2 :: (read_bytes n (SD_SPI_ReadWrite b 0xFF).1).2)

/-- The block address sent with CMD17 and CMD24: shifted left by 9 unless the card is
SDHC. -/
def card_address (b : Spi) (block_addr : Nat) : Nat :=
  if b.SD_Type ≠ SD_TYPE_SDHC then (block_addr * 512) % U32 else block_addr

/-- Read a block from SD card.  Returns the status byte and the caller's buffer, which is
given as `buffer` and is stored to only after the data token. -/
def SD_ReadBlock (b : Spi) (block_addr : Nat) (buffer : List Nat) : Spi × Nat × List Nat :=
  let c := SD_SendCommandRaw (SD_SPI_ReadWrite (SD_CS_Low b) 0xFF).1 CMD17
    (card_address b block_addr) 0
  if c.2 ≠ R1_READY then (SD_CS_High (SD_SPI_ReadWrite c.1 0xFF).1, 1, buffer)
  else
    let t := wait_token 10002 0 c.1
    if t.2 = false then (t.1, 2, buffer)
    else
      let d := read_bytes 512 t.1
      let b1 := SD_SendClock 2 d.1
      let b2 := (SD_SPI_ReadWrite (SD_CS_High (SD_SPI_ReadWrite b1 0xFF).1) 0xFF).1
      (b2, 0, d.2)

/-- Writes the bytes of a buffer: `for (...) SD_SPI_ReadWrite(buffer[i]);`. -/
def write_bytes : List Nat → Spi → Spi
  | [], b => b
  | x :: xs, b => write_bytes xs (SD_SPI_ReadWrite b x).1

/-- The data-response wait of `SD_WriteBlock`:
`while (response == 0xFF && retry++ < 100) { response = SD_SPI_ReadWrite(0xFF); }`. -/
def wait_response : Nat → Nat → Nat → Spi → Spi × Nat
  | 0, _, response, b => (b, response)
  | fuel + 1, retry, response, b =>
    if response = 0xFF ∧ retry < 100 then
      wait_response fuel ((retry + 1) % 65536) (SD_SPI_ReadWrite b 0xFF).2
        (SD_SPI_ReadWrite b 0xFF).1
    else (b, response)

/-- The busy wait of `SD_WriteBlock`:
`while (SD_SPI_ReadWrite(0xFF) == 0x00) { if (retry++ > 50000) { SD_CS_High(); return 3; } }`.
The flag is `true` when the card stopped being busy, `false` on the timeout return. -/
def wait_busy : Nat → Nat → Spi → Spi × Bool
  | 0, _, b => (b, false)
  | fuel + 1, retry, b =>
    if (SD_SPI_ReadWrite b 0xFF).2 = 0x00 then
      if retry > 50000 then (SD_CS_High (SD_SPI_ReadWrite b 0xFF).1, false)
      else wait_busy fuel ((retry + 1) % 65536) (SD_SPI_ReadWrite b 0xFF).1
    else ((SD_SPI_ReadWrite b 0xFF).1, true)

/-- Write a block to SD card; `buffer` holds the `SD_BLOCK_SIZE` bytes to send.  Returns
the status byte. -/
def SD_WriteBlock (b : Spi) (block_addr : Nat) (buffer : List Nat) : Spi × Nat :=
  let c := SD_SendCommandRaw (SD_SPI_ReadWrite (SD_CS_Low b) 0xFF).1 CMD24
    (card_address b block_addr) 0
  if c.2 ≠ R1_READY then (SD_CS_High (SD_SPI_ReadWrite c.1 0xFF).1, 1)
  else
    let b1 := (SD_SPI_ReadWrite (SD_SendClock 2 c.1) 0xFE).1
    let b2 := SD_SendClock 2 (write_bytes (fitTo SD_BLOCK_SIZE buffer) b1)
    let r := wait_response 101 0 (SD_SPI_ReadWrite b2 0xFF).2 (SD_SPI_ReadWrite b2 0xFF).1
    if r.2 % 32 ≠ 0x05 then (SD_CS_High (SD_SPI_ReadWrite r.1 0xFF).1, 2)
    else
      let w := wait_busy 50002 0 r.1
      if w.2 = false then (w.1, 3)
      else ((SD_SPI_ReadWrite (SD_CS_High (SD_SPI_ReadWrite w.1 0xFF).1) 0xFF).1, 0)

/-- Get SD card type. -/
def SD_GetType (b : Spi) : Nat := b.SD_Type

/-- The number of chip-select assertions in a list of events. -/
def selects (l : List SpiEvent) : Nat :=
  l.countP (fun e => e = SpiEvent.cs_low)

/-- From `b` to `r` at most `n` calls of `SD_SPI_ReadWrite` were made, and at most `n`
bytes were exchanged. -/
def Spi.within (b r : Spi) (n : Nat) : Prop :=
  r.calls ≤ b.calls + n ∧ r.pos ≤ b.pos + n

/-- The card's byte sequence, the SPI handle and the detected card type are the same in
both states. -/
def Spi.frame (b r : Spi) : Prop :=
  r.miso = b.miso ∧ r.g_hspi = b.g_hspi ∧ r.SD_Type = b.SD_Type

/-- A card that never answers: every byte read is `0xFF`. -/
def silent_card : Spi :=
  { miso := fun _ => 0xFF, pos := 0, calls := 0, log := [], g_hspi := true,
    SD_Type := SD_TYPE_UNKNOWN, uart := [] }

/-- The first steps of `SD_ReadBlock` and `SD_WriteBlock`: select the card, one dummy byte,
the command with CRC byte 0 and its R1 wait. -/
def select_and_send (b : Spi) (cmd arg : Nat) : Spi × Nat :=
  SD_SendCommandRaw (SD_SPI_ReadWrite (SD_CS_Low b) 0xFF).1 cmd arg 0

/-- A card that answers the first command with ready at once and is silent afterwards. -/
def ready_then_silent : Spi :=
  { silent_card with miso := fun k => if k = 7 then 0x00 else 0xFF }

/-- A card that answers the first command with ready at once, accepts the data with the
third byte after the CRC (token `0xE5`), and stays busy for ever. -/
def busy_for_ever : Spi :=
  { silent_card with
    miso := fun k => if k = 7 then 0x00 else if k < 527 then 0xFF else if k = 527 then 0xE5
      else 0x00 }

/-- The driver before `SD_Init` has stored a handle: `g_hspi` is `NULL`. -/
def no_handle : Spi :=
  { silent_card with g_hspi := false }

/-! ## Views of `SD_WriteBlock` and `SD_ReadBlock` used in the statements -/

/-- The state and the value of `response` in `SD_WriteBlock` when the data-response wait is
over: the card was selected, CMD24 sent, then two dummy bytes, the token `0xFE`, the 512
data bytes and two CRC bytes. -/
def data_response (b : Spi) (block_addr : Nat) (buffer : List Nat) : Spi × Nat :=
  wait_response 101 0
    (SD_SPI_ReadWrite (SD_SendClock 2 (write_bytes (fitTo SD_BLOCK_SIZE buffer)
      (SD_SPI_ReadWrite (SD_SendClock 2
        (select_and_send b CMD24 (card_address b block_addr)).1) 0xFE).1)) 0xFF).2
    (SD_SPI_ReadWrite (SD_SendClock 2 (write_bytes (fitTo SD_BLOCK_SIZE buffer)
      (SD_SPI_ReadWrite (SD_SendClock 2
        (select_and_send b CMD24 (card_address b block_addr)).1) 0xFE).1)) 0xFF).1

/-- A card that answers CMD24 with ready at once and answers the data with the token
`0x15`, whose low nibble is `0x5` and whose bit 4 is set. -/
def token_0x15_card : Spi :=
  { silent_card with
    miso := fun k => if k = 7 then 0x00 else if k = 525 then 0x15 else 0xFF }

/-- A card that answers CMD24 with ready at once, accepts the data with the token `0xE5`
at once, is busy for three bytes and then idle. -/
def accepting_card : Spi :=
  { silent_card with
    miso := fun k => if k = 7 then 0x00 else if k = 525 then 0xE5
      else if 526 ≤ k ∧ k < 529 then 0x00 else 0xFF }

/-! ## Bus traces -/

/-- A byte exchange. -/
def SpiEvent.isXfer : SpiEvent → Bool
  | SpiEvent.xfer _ _ => true
  | _ => false

/-- An idle byte exchange: the driver sends `0xFF`. -/
def SpiEvent.isIdle : SpiEvent → Bool
  | SpiEvent.xfer tx _ => tx == 0xFF
  | _ => false

/-- A chip-select low transition. -/
def SpiEvent.isLow : SpiEvent → Bool
  | SpiEvent.cs_low => true
  | _ => false

/-- A chip-select high transition. -/
def SpiEvent.isHigh : SpiEvent → Bool
  | SpiEvent.cs_high => true
  | _ => false

/-- Every event of the list that satisfies `p` is immediately followed by an event that
satisfies `q`. -/
def each_followed (p q : SpiEvent → Bool) : List SpiEvent → Bool
  | [] => true
  | [e] => !p e
  | e1 :: e2 :: rest => (!p e1 || q e2) && each_followed p q (e2 :: rest)

/-- Every event of the list that satisfies `p` is immediately preceded by an event that
satisfies `q`. -/
def each_preceded (p q : SpiEvent → Bool) (l : List SpiEvent) : Bool :=
  each_followed p q l.reverse

/-- The events that a call added to the log: those after the first `n`. -/
def new_events (n : Nat) (r : Spi) : List SpiEvent := r.log.drop n

/-- The log of `r` is the log of `b` followed by further events. -/
def Spi.grows (b r : Spi) : Prop := ∃ ext, r.log = b.log ++ ext

/-- The log of `r` is the log of `b` followed by byte exchanges only. -/
def Spi.exchanges (b r : Spi) : Prop :=
  ∃ ext, r.log = b.log ++ ext ∧ ext.all SpiEvent.isXfer = true

/-- The shape of the events of one command transaction: chip-select low, one idle byte, the
six bytes of the command frame (command, argument most significant byte first, CRC), then
byte exchanges only, one idle byte, chip-select high, and after that one more idle byte when
`done` is `true` and nothing when it is `false`. -/
def call_trace (cmd arg crc : Nat) (ext : List SpiEvent) (done : Bool) : Prop :=
  ∃ (rx0 r1 r2 r3 r4 r5 r6 rxl : Nat) (body tail : List SpiEvent),
    ext = [SpiEvent.cs_low, SpiEvent.xfer 0xFF rx0,
        SpiEvent.xfer ((0x40 ||| cmd) % 256) r1,
        SpiEvent.xfer (arg / 16777216 % 256) r2, SpiEvent.xfer (arg / 65536 % 256) r3,
        SpiEvent.xfer (arg / 256 % 256) r4, SpiEvent.xfer (arg % 256) r5,
        SpiEvent.xfer crc r6] ++ body ++ [SpiEvent.xfer 0xFF rxl, SpiEvent.cs_high] ++ tail
      ∧ body.all SpiEvent.isXfer = true
      ∧ (done = true → ∃ rx, tail = [SpiEvent.xfer 0xFF rx])
      ∧ (done = false → tail = [])

/-- A card that answers the first command with illegal command (`0x04`) at once. -/
def rejecting_card : Spi :=
  { silent_card with miso := fun k => if k = 7 then 0x04 else 0xFF }

/-- A card that answers a read: ready to CMD17 at once, two bytes later the token `0xFE`,
then data bytes `k % 251` (`k` the number of the exchange). -/
def reading_card : Spi :=
  { silent_card with
    miso := fun k => if k = 7 then 0x00 else if k < 10 then 0xFF else if k = 10 then 0xFE
      else k % 251 }

/-- A card, before `SD_Init`, that answers CMD0 with idle (`0x01`) at once, CMD8 with
`0x09` (idle with the CRC error bit, neither `0x01` nor `0x05`), and every byte after that
with `0x00`. -/
def odd_cmd8_card : Spi :=
  { no_handle with
    miso := fun k => if k = 27 then 0x01 else if k = 39 then 0x09 else if k < 39 then 0xFF
      else 0x00 }

/-- A card, before `SD_Init`, that answers every byte with `0x01` (idle). -/
def idle_card : Spi :=
  { no_handle with miso := fun _ => 0x01 }

/-! ## The steps of `SD_Init`, one definition per step

Each definition is the state (and R1 answer) that `SD_Init`, called with a valid handle,
has reached after the step, provided it has not returned before. -/

/-- After the power-up sequence: handle stored, low speed, CS pulse, 20 idle bytes. -/
def init_power_up (b : Spi) : Spi :=
  HAL_Delay (SD_SendClock 20 (SD_CS_High (HAL_Delay (SD_CS_High
    (HAL_Delay (SD_CS_Low (SD_GPIO_Init (SD_SPI_Init b true).1)) 1)) 50))) 10

/-- After the CMD0 loop. -/
def init_cmd0 (b : Spi) : Spi × Nat :=
  cmd0_loop 101 0 0xFF (init_power_up b)

/-- After CMD8 and its R1 wait. -/
def init_cmd8 (b : Spi) : Spi × Nat :=
  SD_SendCommandRaw (SD_SPI_ReadWrite (SD_CS_Low (HAL_Delay (SD_SendClock 2
    (print_line (init_cmd0 b).1 "[SD] CMD0 OK! Card in IDLE state.\r\n")) 1)) 0xFF).1
    CMD8 0x1AA 0x87

/-- The value of `arg` chosen from the answer to CMD8. -/
def init_acmd41_arg (b : Spi) : Nat :=
  if (init_cmd8 b).2 = R1_IDLE_STATE then 0x40000000 else 0

/-- After the branch on the answer to CMD8. -/
def init_card_type (b : Spi) : Spi :=
  if (init_cmd8 b).2 = R1_IDLE_STATE then
    { SD_SendClock 4 (init_cmd8 b).1 with SD_Type := SD_TYPE_SDV2 }
  else { (init_cmd8 b).1 with SD_Type := SD_TYPE_SDV1 }

/-- After the deselect that follows CMD8, just before the ACMD41 loop. -/
def init_before_acmd41 (b : Spi) : Spi :=
  HAL_Delay (SD_SendClock 2 (SD_SPI_ReadWrite (SD_CS_High
    (SD_SPI_ReadWrite (init_card_type b) 0xFF).1) 0xFF).1) 1

/-- After the ACMD41 loop. -/
def init_acmd41 (b : Spi) : Spi × Nat :=
  acmd41_loop 201 0 0xFF (init_acmd41_arg b) (init_before_acmd41 b)

/-- After CMD58 and its R1 wait. -/
def init_cmd58 (b : Spi) : Spi × Nat :=
  SD_SendCommandRaw (SD_SPI_ReadWrite (SD_CS_Low (init_acmd41 b).1) 0xFF).1 CMD58 0 0

/-- After the OCR read, the deselect and the switch to high speed. -/
def init_finish (b : Spi) : Spi :=
  SD_SetSpeedHigh (SD_SendClock 2 (SD_SPI_ReadWrite (SD_CS_High
    (SD_SPI_ReadWrite (read_ocr (init_cmd58 b).1) 0xFF).1) 0xFF).1)

/-- The answer to attempt number `k` (from 0) of the CMD0 loop started in state `b`, when
no earlier attempt was answered idle: each earlier attempt is followed by `HAL_Delay(10)`. -/
def cmd0_try : Nat → Spi → Spi × Nat
  | 0, b => SD_SendCommand b CMD0 0 0x95
  | k + 1, b => cmd0_try k (HAL_Delay (SD_SendCommand b CMD0 0 0x95).1 10)

/-- The answer to attempt number `k` (from 0) of the ACMD41 loop started in state `b`, when
no earlier attempt was answered ready. -/
def acmd41_try : Nat → Nat → Spi → Spi × Nat
  | 0, arg, b => acmd41_attempt b arg
  | k + 1, arg, b => acmd41_try k arg (HAL_Delay (acmd41_attempt b arg).1 10)

/-- The block numbers that the buffer manager passes to the driver: the metadata block and
the data blocks `SD_DATA_START_BLOCK + i` for `i < SD_BUFFER_SIZE`. -/
def manager_block (a : Nat) : Prop :=
  a = SD_DATA_BLOCK ∨ ∃ i, i < SD_BUFFER_SIZE ∧ a = SD_DATA_START_BLOCK + i

/-! ## Ring buffer (`ESP32/components/ring_buffer`) -/

/-- Size of the data array. -/
def RING_BUFFER_SIZE : Nat := 256

/-- Circular FIFO buffer: data array (index to byte), write position, read position. -/
structure ring_buffer_t where
  buffer : Nat → Nat
  head : Nat
  tail : Nat

/-- Initialize ring buffer. -/
def RingBuffer_Init (rb : ring_buffer_t) : ring_buffer_t :=
  { rb with head := 0, tail := 0 }

/-- Put data into ring buffer. -/
def RingBuffer_Put (rb : ring_buffer_t) (data : Nat) : ring_buffer_t × Bool :=
  let next := (rb.head + 1) % RING_BUFFER_SIZE
  if next = rb.tail then (rb, false)
  else
    ({ rb with buffer := fun i => if i = rb.head then data else rb.buffer i, head := next },
      true)

/-- Get data from ring buffer.  `data` is the value of `*data` before the call; the result
carries the return value and the value of `*data` after the call. -/
def RingBuffer_Get (rb : ring_buffer_t) (data : Nat) : ring_buffer_t × Bool × Nat :=
  if rb.head = rb.tail then (rb, false, data)
  else ({ rb with tail := (rb.tail + 1) % RING_BUFFER_SIZE }, true, rb.buffer rb.tail)

/-- Get number of available bytes in ring buffer. -/
def RingBuffer_Available (rb : ring_buffer_t) : Nat :=
  if rb.head ≥ rb.tail then rb.head - rb.tail
  else RING_BUFFER_SIZE - (rb.tail - rb.head)

/-- Clear all data in ring buffer. -/
def RingBuffer_Clear (rb : ring_buffer_t) : ring_buffer_t :=
  { rb with head := 0, tail := 0 }

/-- Get number of free bytes in ring buffer. -/
def RingBuffer_Free (rb : ring_buffer_t) : Nat :=
  RING_BUFFER_SIZE - RingBuffer_Available rb - 1

/-- The bytes stored in the ring buffer, oldest first: the array entries from `tail` up to
`head`, `tail` included, `head` excluded, indices taken modulo the size. -/
def ring_contents (rb : ring_buffer_t) : List Nat :=
  (List.range ((rb.head + RING_BUFFER_SIZE - rb.tail) % RING_BUFFER_SIZE)).map
    (fun i => rb.buffer ((rb.tail + i) % RING_BUFFER_SIZE))

/-- A call on the ring buffer. -/
inductive RingOp where
  | put (data : Nat)
  | get
deriving DecidableEq, Repr

/-- What a call returns: the return value, and for a successful `get` the byte stored
through the pointer. -/
abbrev RingOut := Bool × Option Nat

/-- Runs the calls on the ring buffer; the second component lists what they returned. -/
def ring_run : ring_buffer_t → List RingOp → ring_buffer_t × List RingOut
  | rb, [] => (rb, [])
  | rb, RingOp.put data :: ops =>
    ((ring_run (RingBuffer_Put rb data).1 ops).1,
      ((RingBuffer_Put rb data).2, none) :: (ring_run (RingBuffer_Put rb data).1 ops).2)
  | rb, RingOp.get :: ops =>
    ((ring_run (RingBuffer_Get rb 0).1 ops).1,
      ((RingBuffer_Get rb 0).2.1,
        if (RingBuffer_Get rb 0).2.1 = true then some (RingBuffer_Get rb 0).2.2 else none)
        :: (ring_run (RingBuffer_Get rb 0).1 ops).2)

/-- Specification queue: capacity of the bounded FIFO queue. -/
def QUEUE_CAPACITY : Nat := 255

/-- Specification queue: put returns false and changes nothing when 255 bytes are stored,
and otherwise appends the byte and returns true. -/
def queue_put (q : List Nat) (data : Nat) : List Nat × Bool :=
  if q.length = QUEUE_CAPACITY then (q, false) else (q ++ [data], true)

/-- Specification queue: get returns false when no byte is stored, and otherwise removes
and returns the oldest stored byte. -/
def queue_get (q : List Nat) : List Nat × Bool × Option Nat :=
  match q with
  | [] => ([], false, none)
  | x :: xs => (xs, true, some x)

/-- Runs the calls on the specification queue. -/
def queue_run : List Nat → List RingOp → List Nat × List RingOut
  | q, [] => (q, [])
  | q, RingOp.put data :: ops =>
    ((queue_run (queue_put q data).1 ops).1,
      ((queue_put q data).2, none) :: (queue_run (queue_put q data).1 ops).2)
  | q, RingOp.get :: ops =>
    ((queue_run (queue_get q).1 ops).1,
      ((queue_get q).2.1, (queue_get q).2.2) :: (queue_run (queue_get q).1 ops).2)

/-- An uninitialised ring buffer: arbitrary indices, array filled with `0xAA`. -/
def stale_ring : ring_buffer_t :=
  { buffer := fun _ => 0xAA, head := 700, tail := 3 }

/-! ## Sequence numbers of the buffered records -/

/-- A call on the buffer manager. -/
inductive ManagerOp where
  | write (timestamp temperature humidity : Nat) (mode_str : List Nat)
  | remove
  | read (record : Option sd_data_record_t)
  | clear

/-- The manager state after the call. -/
def ManagerOp.step (s : ManagerState) : ManagerOp → ManagerState
  | ManagerOp.write timestamp temperature humidity mode_str =>
    (SDCardManager_WriteData s timestamp temperature humidity mode_str).1
  | ManagerOp.remove => (SDCardManager_RemoveRecord s).1
  | ManagerOp.read record => (SDCardManager_ReadData s record).1
  | ManagerOp.clear => (SDCardManager_ClearBuffer s).1

/-- The manager state after the calls, made in order. -/
def run_ops (s : ManagerState) (ops : List ManagerOp) : ManagerState :=
  ops.foldl ManagerOp.step s

/-- The number of `SDCardManager_WriteData` calls among the calls. -/
def write_attempts : List ManagerOp → Nat
  | [] => 0
  | ManagerOp.write _ _ _ _ :: ops => write_attempts ops + 1
  | _ :: ops => write_attempts ops

/-- The `sequence_num` field of the record stored in the block of slot index `i`. -/
def seq_at (blocks : Nat → Block) (i : Nat) : Nat :=
  (record_of_bytes (blocks (_get_data_block_addr i))).sequence_num

/-- The records in the `count` live slots starting at `read_index` have strictly increasing
sequence numbers, all below the metadata `sequence_num`. -/
def ordered (blocks : Nat → Block) (m : sd_buffer_metadata_t) : Prop :=
  (∀ j k, j < k → k < m.count →
      seq_at blocks (m.read_index + j) < seq_at blocks (m.read_index + k))
    ∧ ∀ j, j < m.count → seq_at blocks (m.read_index + j) < m.sequence_num

/-- The records in the live slots of the manager state are ordered by sequence number. -/
def sequence_ordered (s : ManagerState) : Prop :=
  ordered s.card.blocks s.g_metadata

/-- Outcomes of driver calls in which the second and the fifth call fail, the second
leaving garbage in the addressed block. -/
def flaky_replies : List Reply :=
  [{ ret := 0, residue := none }, { ret := 2, residue := some (List.replicate 512 0xFF) },
   { ret := 0, residue := none }, { ret := 0, residue := none },
   { ret := 3, residue := none }]

/-- Three appends, a removal, a read and two more appends. -/
def mixed_ops : List ManagerOp :=
  [ManagerOp.write 1000 1103888384 1114636288 mode_SINGLE,
   ManagerOp.write 1001 1103888384 1114636288 mode_SINGLE,
   ManagerOp.write 1002 1103888384 1114636288 mode_PERIODIC,
   ManagerOp.remove, ManagerOp.read (some zero_record),
   ManagerOp.write 1003 1103888384 1114636288 mode_PERIODIC,
   ManagerOp.write 1004 1103888384 1114636288 mode_SINGLE]

/-- An initialised manager with zeroed metadata on a blank card whose driver fails as in
`flaky_replies`. -/
def flaky_state : ManagerState :=
  { fresh_state with card := { blank_card with replies := flaky_replies } }

/-! ## Command dispatch (`command_execute.c`, `cmd_func.c`) -/

/-- The handlers named in the command table. -/
inductive CmdHandlerFunc where
  | CHECK_UART_STATUS
  | SHT3X_Heater_Parser
  | SHT3X_ART_Parser
  | DS3231_Set_Time_Parser
  | SINGLE_PARSER
  | PERIODIC_ON_PARSER
  | PERIODIC_OFF_PARSER
  | SET_TIME_PARSER
  | SET_PERIODIC_INTERVAL_PARSER
  | MQTT_CONNECTED_PARSER
  | MQTT_DISCONNECTED_PARSER
  | SD_CLEAR_PARSER
deriving DecidableEq, Repr

/-- Command function structure: command string and handler. -/
structure command_function_t where
  cmdString : List Nat
  func : CmdHandlerFunc
deriving DecidableEq, Repr

/-- Command function table, without its `NULL` terminator entry. -/
def cmdTable : List command_function_t :=
  [{ cmdString := ascii "CHECK UART STATUS", func := CmdHandlerFunc.CHECK_UART_STATUS },
   { cmdString := ascii "SHT3X HEATER ENABLE", func := CmdHandlerFunc.SHT3X_Heater_Parser },
   { cmdString := ascii "SHT3X HEATER DISABLE", func := CmdHandlerFunc.SHT3X_Heater_Parser },
   { cmdString := ascii "SHT3X ART", func := CmdHandlerFunc.SHT3X_ART_Parser },
   { cmdString := ascii "DS3231 SET TIME", func := CmdHandlerFunc.DS3231_Set_Time_Parser },
   { cmdString := ascii "SINGLE", func := CmdHandlerFunc.SINGLE_PARSER },
   { cmdString := ascii "PERIODIC ON", func := CmdHandlerFunc.PERIODIC_ON_PARSER },
   { cmdString := ascii "PERIODIC OFF", func := CmdHandlerFunc.PERIODIC_OFF_PARSER },
   { cmdString := ascii "SET TIME", func := CmdHandlerFunc.SET_TIME_PARSER },
   { cmdString := ascii "SET PERIODIC INTERVAL",
     func := CmdHandlerFunc.SET_PERIODIC_INTERVAL_PARSER },
   { cmdString := ascii "MQTT CONNECTED", func := CmdHandlerFunc.MQTT_CONNECTED_PARSER },
   { cmdString := ascii "MQTT DISCONNECTED", func := CmdHandlerFunc.MQTT_DISCONNECTED_PARSER },
   { cmdString := ascii "SD CLEAR", func := CmdHandlerFunc.SD_CLEAR_PARSER }]

/-- The tokens that repeated `strtok` calls with the delimiter set `delims` find in a C
string: the maximal runs of characters that are not delimiters, up to the terminating
NUL. -/
def strtok_tokens (delims : List Nat) (str : List Nat) : List (List Nat) :=
  ((cstring str).splitOnP (fun c => decide (c ∈ delims))).filter (fun t => !t.isEmpty)

/-- Tokenizes the input string into arguments: the first `max_tokens` tokens. -/
def tokenize_string (str : List Nat) (max_tokens : Nat) : List (List Nat) :=
  (strtok_tokens (ascii " \t\r\n") str).take max_tokens

/-- The string built in `testCmd`: the tokens joined by single spaces. -/
def join_tokens : List (List Nat) → List Nat
  | [] => []
  | [t] => t
  | t :: rest => t ++ ascii " " ++ join_tokens rest

/-- The loop of `find_command` over the entries of the table from the current one on. -/
def find_in (argv : List (List Nat)) : List command_function_t → Option command_function_t
  | [] => none
  | e :: rest =>
    let cmdTokens := (strtok_tokens (ascii " ") e.cmdString).length % 256
    if cmdTokens > argv.length then find_in argv rest
    else if e.cmdString = join_tokens (argv.take cmdTokens) then some e
    else find_in argv rest

/-- Finds a command in the command table by matching prefix; `none` is `NULL`. -/
def find_command (argv : List (List Nat)) : Option command_function_t :=
  if argv.length = 0 then none else find_in argv cmdTable

/-- How a call of `COMMAND_EXECUTE` ends: it returns without calling a handler, it calls
the handler of a table entry with `argc` and `argv`, or it evaluates `command->func` with
`command == NULL`. -/
inductive ExecResult where
  | returned
  | called (entry : command_function_t) (argc : Nat) (argv : List (List Nat))
  | null_dereference (argc : Nat) (argv : List (List Nat))
deriving DecidableEq, Repr

/-- Executes a command from the command buffer; `none` is a `NULL` pointer. -/
def COMMAND_EXECUTE (commandBuffer : Option (List Nat)) : ExecResult :=
  match commandBuffer with
  | none => ExecResult.returned
  | some line =>
    let buffer := (cstring line).take 255
    let argv := tokenize_string buffer 20
    if argv.length = 0 then ExecResult.returned
    else
      match find_command argv with
      | some command => ExecResult.called command argv.length argv
      | none => ExecResult.null_dereference argv.length argv

/-! # Theorems -/

/-! ## Bytes: lengths and round trips -/

theorem le32_length (x : Nat) : (le32 x).length = 4 := rfl

theorem fitTo_length (n : Nat) (l : List Nat) : (fitTo n l).length = n := by
  simp [fitTo]

theorem fitTo_eq_self (n : Nat) (l : List Nat) (h : l.length = n) : fitTo n l = l := by
  subst h
  simp [fitTo]

theorem rd32_le32_append (x : Nat) (post : List Nat) (hx : x < U32) :
    rd32 (le32 x ++ post) 0 = x := by
  simp only [U32] at hx
  simp [rd32, le32]
  omega

theorem strncpy_length (dst src : List Nat) (n : Nat) :
    (strncpy dst src n).length = n + (dst.length - n) := by
  simp [strncpy]
  omega

theorem rd32_skip (pre rest : List Nat) (n k : Nat) (h : pre.length = k) (hk : k ≤ n) :
    rd32 (pre ++ rest) n = rd32 rest (n - k) := by
  subst h
  have e : ∀ j, (pre ++ rest).getD (n + j) 0 = rest.getD (n - pre.length + j) 0 := by
    intro j
    simp only [List.getD_eq_getElem?_getD]
    rw [List.getElem?_append_right (by omega)]
    congr 2
    omega
  have e0 := e 0
  simp only [Nat.add_zero] at e0
  simp only [rd32, e0, e 1, e 2, e 3]

theorem drop_skip (pre rest : List Nat) (n k : Nat) (h : pre.length = k) (hk : k ≤ n) :
    (pre ++ rest).drop n = rest.drop (n - k) := by
  subst h
  rw [List.drop_append_eq_append_drop, List.drop_of_length_le hk, List.nil_append]

theorem record_of_bytes_record_bytes (r : sd_data_record_t) (h : r.wellTyped) :
    record_of_bytes (record_bytes r) = r := by
  obtain ⟨h1, h2, h3, h4, h5, h6⟩ := h
  have hb : record_bytes r = le32 r.timestamp ++ (le32 r.temperature ++ (le32 r.humidity
      ++ (fitTo 16 r.mode ++ (le32 r.sequence_num ++ fitTo 480 r.padding)))) := by
    simp only [record_bytes, List.append_assoc]
  have e0 : rd32 (record_bytes r) 0 = r.timestamp := by
    rw [hb]
    exact rd32_le32_append _ _ h1
  have e4 : rd32 (record_bytes r) 4 = r.temperature := by
    rw [hb, rd32_skip _ _ 4 4 (le32_length _) (by omega)]
    exact rd32_le32_append _ _ h2
  have e8 : rd32 (record_bytes r) 8 = r.humidity := by
    rw [hb, rd32_skip _ _ 8 4 (le32_length _) (by omega),
      rd32_skip _ _ (8 - 4) 4 (le32_length _) (by omega)]
    exact rd32_le32_append _ _ h3
  have e28 : rd32 (record_bytes r) 28 = r.sequence_num := by
    rw [hb, rd32_skip _ _ 28 4 (le32_length _) (by omega),
      rd32_skip _ _ (28 - 4) 4 (le32_length _) (by omega),
      rd32_skip _ _ (28 - 4 - 4) 4 (le32_length _) (by omega),
      rd32_skip _ _ (28 - 4 - 4 - 4) 16 (fitTo_length _ _) (by omega)]
    exact rd32_le32_append _ _ h5
  have em : ((record_bytes r).drop 12).take 16 = r.mode := by
    rw [hb, drop_skip _ _ 12 4 (le32_length _) (by omega),
      drop_skip _ _ (12 - 4) 4 (le32_length _) (by omega),
      drop_skip _ _ (12 - 4 - 4) 4 (le32_length _) (by omega)]
    rw [show 12 - 4 - 4 - 4 = 0 from rfl, List.drop_zero, List.take_left' (fitTo_length _ _)]
    exact fitTo_eq_self _ _ h4
  have ep : ((record_bytes r).drop 32).take 480 = r.padding := by
    rw [hb, drop_skip _ _ 32 4 (le32_length _) (by omega),
      drop_skip _ _ (32 - 4) 4 (le32_length _) (by omega),
      drop_skip _ _ (32 - 4 - 4) 4 (le32_length _) (by omega),
      drop_skip _ _ (32 - 4 - 4 - 4) 16 (fitTo_length _ _) (by omega),
      drop_skip _ _ (32 - 4 - 4 - 4 - 16) 4 (le32_length _) (by omega)]
    rw [show 32 - 4 - 4 - 4 - 16 - 4 = 0 from rfl, List.drop_zero, fitTo_eq_self _ _ h6,
      List.take_of_length_le (by omega)]
  cases r
  simp only [record_of_bytes, e0, e4, e8, e28, em, ep]

theorem metadata_of_bytes_metadata_bytes (m : sd_buffer_metadata_t) (h : m.wellTyped) :
    metadata_of_bytes (metadata_bytes m) = m := by
  obtain ⟨h1, h2, h3, h4⟩ := h
  have hb : metadata_bytes m = le32 m.write_index ++ (le32 m.read_index ++ (le32 m.count
      ++ (le32 m.sequence_num ++ List.replicate 496 0))) := by
    simp only [metadata_bytes, List.append_assoc]
  have e0 : rd32 (metadata_bytes m) 0 = m.write_index := by
    rw [hb]
    exact rd32_le32_append _ _ h1
  have e4 : rd32 (metadata_bytes m) 4 = m.read_index := by
    rw [hb, rd32_skip _ _ 4 4 (le32_length _) (by omega)]
    exact rd32_le32_append _ _ h2
  have e8 : rd32 (metadata_bytes m) 8 = m.count := by
    rw [hb, rd32_skip _ _ 8 4 (le32_length _) (by omega),
      rd32_skip _ _ (8 - 4) 4 (le32_length _) (by omega)]
    exact rd32_le32_append _ _ h3
  have e12 : rd32 (metadata_bytes m) 12 = m.sequence_num := by
    rw [hb, rd32_skip _ _ 12 4 (le32_length _) (by omega),
      rd32_skip _ _ (12 - 4) 4 (le32_length _) (by omega),
      rd32_skip _ _ (12 - 4 - 4) 4 (le32_length _) (by omega)]
    exact rd32_le32_append _ _ h4
  cases m
  simp only [metadata_of_bytes, e0, e4, e8, e12]

theorem make_record_wellTyped (ts t h : Nat) (mode_str : List Nat) (seq : Nat)
    (h1 : ts < U32) (h2 : t < U32) (h3 : h < U32) (h4 : seq < U32) :
    (make_record ts t h mode_str seq).wellTyped := by
  refine ⟨h1, h2, h3, ?_, h4, ?_⟩
  · simp only [make_record, strncpy_length, zero_record, List.length_replicate]
  · simp only [make_record, zero_record, List.length_replicate]

theorem cstring_strncpy (src : List Nat) (h0 : ∀ c ∈ src, c ≠ 0) (hlen : src.length ≤ 15) :
    cstring (strncpy zero_record.mode src (16 - 1)) = src := by
  have htw : src.takeWhile (fun c => c ≠ 0) = src := by
    rw [List.takeWhile_eq_self_iff]
    intro c hc
    simpa using h0 c hc
  unfold cstring strncpy
  rw [htw, List.take_of_length_le (by omega)]
  simp only [zero_record]
  rw [List.append_assoc, List.takeWhile_append_of_pos]
  · have : List.takeWhile (fun c => decide (c ≠ 0))
        (List.replicate (16 - 1 - src.length) 0 ++ List.drop (16 - 1) (List.replicate 16 0)) = [] := by
      have : List.drop (16 - 1) (List.replicate 16 0) = [0] := by decide
      rw [this]
      cases hk : (16 - 1 - src.length) with
      | zero => simp
      | succ k => simp [List.replicate_succ]
    rw [this, List.append_nil]
  · intro c hc
    simpa using h0 c hc

/-! ## One call on a card where every driver call succeeds -/

theorem make_room_write_index (m : sd_buffer_metadata_t) :
    (make_room m).write_index = m.write_index := by
  unfold make_room; split <;> rfl

theorem make_room_sequence_num (m : sd_buffer_metadata_t) :
    (make_room m).sequence_num = m.sequence_num := by
  unfold make_room; split <;> rfl

theorem make_room_of_lt (m : sd_buffer_metadata_t) (h : m.count < SD_BUFFER_SIZE) :
    make_room m = m := by
  unfold make_room; rw [if_neg (by omega)]

theorem WriteData_ok (s : ManagerState) (ts t h : Nat) (md : List Nat)
    (hinit : s.sd_initialized = true) (hio : s.card.replies = []) :
    (SDCardManager_WriteData s ts t h md).2 = true
      ∧ (SDCardManager_WriteData s ts t h md).1.sd_initialized = true
      ∧ (SDCardManager_WriteData s ts t h md).1.card.replies = []
      ∧ (SDCardManager_WriteData s ts t h md).1.g_metadata =
          { write_index := ((s.g_metadata.write_index + 1) % U32) % SD_BUFFER_SIZE,
            read_index := (make_room s.g_metadata).read_index,
            count := ((make_room s.g_metadata).count + 1) % U32,
            sequence_num := (s.g_metadata.sequence_num + 1) % U32 }
      ∧ (SDCardManager_WriteData s ts t h md).1.card.blocks =
          (fun a => if a = SD_DATA_BLOCK then
              metadata_bytes (SDCardManager_WriteData s ts t h md).1.g_metadata
            else if a = _get_data_block_addr s.g_metadata.write_index then
              record_bytes (make_record ts t h md s.g_metadata.sequence_num)
            else s.card.blocks a)
      ∧ (SDCardManager_WriteData s ts t h md).1.card.trace = s.card.trace ++
          [BusOp.write (_get_data_block_addr s.g_metadata.write_index)
              (record_bytes (make_record ts t h md s.g_metadata.sequence_num)),
           BusOp.write SD_DATA_BLOCK
              (metadata_bytes (SDCardManager_WriteData s ts t h md).1.g_metadata)] := by
  simp [SDCardManager_WriteData, WriteData_record, WriteData_commit, _write_metadata,
    BlockDevice.SD_WriteBlock, SDCard.nextRet, hinit, hio,
    make_room_write_index, make_room_sequence_num]
  rfl

theorem ReadData_ok (s : ManagerState) (buf : sd_data_record_t)
    (hinit : s.sd_initialized = true) (hio : s.card.replies = [])
    (hcount : s.g_metadata.count ≠ 0) :
    (SDCardManager_ReadData s (some buf)).2 =
        (true, some (record_of_bytes
          (s.card.blocks (_get_data_block_addr s.g_metadata.read_index))))
      ∧ (SDCardManager_ReadData s (some buf)).1.sd_initialized = true
      ∧ (SDCardManager_ReadData s (some buf)).1.card.replies = []
      ∧ (SDCardManager_ReadData s (some buf)).1.g_metadata = s.g_metadata
      ∧ (SDCardManager_ReadData s (some buf)).1.card.blocks = s.card.blocks := by
  simp [SDCardManager_ReadData, BlockDevice.SD_ReadBlock, SDCard.nextRet, hinit, hio, hcount]

theorem ReadData_empty (s : ManagerState) (record : Option sd_data_record_t)
    (hcount : s.g_metadata.count = 0) :
    SDCardManager_ReadData s record = (s, false, record) := by
  simp [SDCardManager_ReadData, hcount]

theorem RemoveRecord_ok (s : ManagerState)
    (hinit : s.sd_initialized = true) (hio : s.card.replies = [])
    (hcount : s.g_metadata.count ≠ 0) :
    (SDCardManager_RemoveRecord s).2 = true
      ∧ (SDCardManager_RemoveRecord s).1.sd_initialized = true
      ∧ (SDCardManager_RemoveRecord s).1.card.replies = []
      ∧ (SDCardManager_RemoveRecord s).1.g_metadata =
          { s.g_metadata with
            read_index := ((s.g_metadata.read_index + 1) % U32) % SD_BUFFER_SIZE,
            count := (s.g_metadata.count + U32 - 1) % U32 }
      ∧ (SDCardManager_RemoveRecord s).1.card.blocks =
          (fun a => if a = SD_DATA_BLOCK then
              metadata_bytes (SDCardManager_RemoveRecord s).1.g_metadata
            else s.card.blocks a) := by
  simp [SDCardManager_RemoveRecord, _write_metadata, BlockDevice.SD_WriteBlock,
    SDCard.nextRet, hinit, hio, hcount]
  rfl

theorem Init_ok (s : ManagerState) (hio : s.card.replies = []) :
    (SDCardManager_Init s).2 = true
      ∧ (SDCardManager_Init s).1.sd_initialized = true
      ∧ (SDCardManager_Init s).1.card.replies = []
      ∧ (SDCardManager_Init s).1.g_metadata = metadata_of_bytes (s.card.blocks SD_DATA_BLOCK)
      ∧ (SDCardManager_Init s).1.card.blocks = s.card.blocks := by
  simp [SDCardManager_Init, _read_metadata, BlockDevice.SD_ReadBlock, BlockDevice.SD_Init,
    SDCard.nextRet, hio]

/-! ## Draining -/

theorem drainAll_length (n : Nat) : ∀ s : ManagerState, (drainAll s n).2.length = n := by
  induction n with
  | zero => intro s; rfl
  | succ n ih => intro s; simp [drainAll, ih]

/-- On a card where every call succeeds, `n ≤ count` drain steps deliver the blocks of the
slots `read_index, read_index + 1, ...` in that order, and leave `count - n` records. -/
theorem drainAll_spec (n : Nat) : ∀ s : ManagerState,
    s.sd_initialized = true → s.card.replies = [] →
    s.g_metadata.read_index < SD_BUFFER_SIZE → n ≤ s.g_metadata.count →
    s.g_metadata.count < U32 →
    (∀ i, i < n → (drainAll s n).2[i]? = some
        { read_ok := true,
          record := some (record_of_bytes (s.card.blocks
            (SD_DATA_START_BLOCK + (s.g_metadata.read_index + i) % SD_BUFFER_SIZE))),
          remove_ok := true })
      ∧ (drainAll s n).1.g_metadata.count = s.g_metadata.count - n
      ∧ (drainAll s n).1.sd_initialized = true
      ∧ (drainAll s n).1.card.replies = [] := by
  induction n with
  | zero =>
    intro s hinit hio _ _ _
    exact ⟨fun i hi => absurd hi (Nat.not_lt_zero i), rfl, hinit, hio⟩
  | succ n ih =>
    intro s hinit hio hr hn hc
    have hcount : s.g_metadata.count ≠ 0 := by omega
    obtain ⟨rd2, rdi, rdio, rdm, rdb⟩ := ReadData_ok s zero_record hinit hio hcount
    have hcount1 : (SDCardManager_ReadData s (some zero_record)).1.g_metadata.count ≠ 0 := by
      rw [rdm]; exact hcount
    obtain ⟨rm2, rmi, rmio, rmm, rmb⟩ :=
      RemoveRecord_ok (SDCardManager_ReadData s (some zero_record)).1 rdi rdio hcount1
    rw [rdm] at rmm
    rw [rdb] at rmb
    have hr1 : (SDCardManager_RemoveRecord
        (SDCardManager_ReadData s (some zero_record)).1).1.g_metadata.read_index
          = (s.g_metadata.read_index + 1) % SD_BUFFER_SIZE := by
      rw [rmm]
      simp only [SD_BUFFER_SIZE, U32] at hr ⊢
      omega
    have hc1 : (SDCardManager_RemoveRecord
        (SDCardManager_ReadData s (some zero_record)).1).1.g_metadata.count
          = s.g_metadata.count - 1 := by
      rw [rmm]
      simp only [U32] at hc ⊢
      omega
    obtain ⟨ih1, ih2, ih3, ih4⟩ := ih
      (SDCardManager_RemoveRecord (SDCardManager_ReadData s (some zero_record)).1).1
      rmi rmio (by rw [hr1]; exact Nat.mod_lt _ (by decide)) (by rw [hc1]; omega)
      (by rw [hc1]; omega)
    refine ⟨?_, ?_, ih3, ih4⟩
    · intro i hi
      cases i with
      | zero =>
        simp only [drainAll, List.getElem?_cons_zero, rd2, rm2, Nat.add_zero]
        rfl
      | succ j =>
        simp only [drainAll, List.getElem?_cons_succ]
        rw [ih1 j (by omega), hr1, rmb]
        have haddr : SD_DATA_START_BLOCK + ((s.g_metadata.read_index + 1) % SD_BUFFER_SIZE + j)
            % SD_BUFFER_SIZE = SD_DATA_START_BLOCK
              + (s.g_metadata.read_index + (j + 1)) % SD_BUFFER_SIZE := by
          simp only [SD_BUFFER_SIZE]
          omega
        have hne : ¬ (SD_DATA_START_BLOCK + (s.g_metadata.read_index + (j + 1)) % SD_BUFFER_SIZE
            = SD_DATA_BLOCK) := by
          simp only [SD_DATA_START_BLOCK, SD_DATA_BLOCK]
          omega
        rw [haddr]
        simp only [hne, if_false]
    · simp only [drainAll]
      rw [ih2, hc1]
      omega

/-! ## Appending -/

theorem appendAll_append (xs ys : List Sample) : ∀ s : ManagerState,
    appendAll s (xs ++ ys)
      = ((appendAll (appendAll s xs).1 ys).1, (appendAll s xs).2 ++ (appendAll (appendAll s xs).1 ys).2) := by
  induction xs with
  | nil => intro s; rfl
  | cons x xs ih => intro s; simp [appendAll, ih]

/-- Appending without overflow: starting with `k` records in slots `0 .. k-1` and sequence
counter `k`, the samples land in slots `k, k+1, ...` with sequence numbers `k, k+1, ...`. -/
theorem appendAll_spec (xs : List Sample) : ∀ (s : ManagerState) (k : Nat),
    s.sd_initialized = true → s.card.replies = [] →
    s.g_metadata = { write_index := k % SD_BUFFER_SIZE, read_index := 0, count := k,
                     sequence_num := k } →
    k + xs.length ≤ SD_BUFFER_SIZE →
    (appendAll s xs).2 = List.replicate xs.length true
      ∧ (appendAll s xs).1.sd_initialized = true
      ∧ (appendAll s xs).1.card.replies = []
      ∧ (appendAll s xs).1.g_metadata =
          { write_index := (k + xs.length) % SD_BUFFER_SIZE, read_index := 0,
            count := k + xs.length, sequence_num := k + xs.length }
      ∧ (∀ i x, xs[i]? = some x →
          (appendAll s xs).1.card.blocks (SD_DATA_START_BLOCK + (k + i))
            = record_bytes (x.record (k + i)))
      ∧ (∀ a, a ≠ SD_DATA_BLOCK →
          (a < SD_DATA_START_BLOCK + k ∨ SD_DATA_START_BLOCK + k + xs.length ≤ a) →
          (appendAll s xs).1.card.blocks a = s.card.blocks a) := by
  induction xs with
  | nil =>
    intro s k hinit hio hm _
    refine ⟨rfl, hinit, hio, ?_, ?_, ?_⟩
    · simpa [appendAll] using hm
    · intro i x hx; simp at hx
    · intro a _ _; rfl
  | cons y ys ih =>
    intro s k hinit hio hm hlen
    simp only [List.length_cons] at hlen
    obtain ⟨w2, wi, wio, wm, wb, _⟩ :=
      WriteData_ok s y.timestamp y.temperature y.humidity y.mode_str hinit hio
    have hk : k < SD_BUFFER_SIZE := by omega
    have hroom : make_room s.g_metadata = s.g_metadata :=
      make_room_of_lt _ (by rw [hm]; exact hk)
    have wm1 : (SDCardManager_WriteData s y.timestamp y.temperature y.humidity
        y.mode_str).1.g_metadata = sd_buffer_metadata_t.mk ((k + 1) % SD_BUFFER_SIZE) 0
          (k + 1) (k + 1) := by
      rw [wm, hroom, hm]
      simp only [SD_BUFFER_SIZE, U32] at hk ⊢
      congr 1 <;> omega
    obtain ⟨i1, i2, i3, i4, i5, i6⟩ := ih _ (k + 1) wi wio wm1 (by omega)
    have haddr : _get_data_block_addr s.g_metadata.write_index = SD_DATA_START_BLOCK + k := by
      rw [hm]
      simp only [_get_data_block_addr, SD_BUFFER_SIZE] at hk ⊢
      omega
    refine ⟨?_, i2, i3, ?_, ?_, ?_⟩
    · simp only [appendAll, i1, w2, List.length_cons, List.replicate_succ]
    · simp only [appendAll, i4, List.length_cons]
      rw [show k + 1 + ys.length = k + (ys.length + 1) by omega]
    · intro i x hx
      cases i with
      | zero =>
        simp only [List.getElem?_cons_zero, Option.some.injEq] at hx
        subst hx
        simp only [appendAll, Nat.add_zero]
        rw [i6 _ (by simp only [SD_DATA_START_BLOCK, SD_DATA_BLOCK]; omega)
          (Or.inl (by omega)), wb, haddr]
        have hne : ¬ (SD_DATA_START_BLOCK + k = SD_DATA_BLOCK) := by
          simp only [SD_DATA_START_BLOCK, SD_DATA_BLOCK]; omega
        simp only [hne, if_false, if_true, hm, Sample.record]
      | succ j =>
        simp only [List.getElem?_cons_succ] at hx
        simp only [appendAll]
        have := i5 j x hx
        rw [show k + (j + 1) = k + 1 + j by omega]
        exact this
    · intro a ha hrange
      simp only [appendAll]
      simp only [List.length_cons] at hrange
      rw [i6 a ha (by omega), wb, haddr]
      have hne : ¬ (a = SD_DATA_START_BLOCK + k) := by omega
      simp only [ha, hne, if_false]

/-! ## Claims -/

/-- C1 (FIFO order).  From zeroed metadata on an initialised manager whose driver calls all
succeed, `N ≤ SD_BUFFER_SIZE` calls of `SDCardManager_WriteData` all return `true`, and the
`N` following (`SDCardManager_ReadData`, `SDCardManager_RemoveRecord`) pairs all return
`true` and deliver, at position `i`, the record of sample `i`: its timestamp, temperature
and humidity, its mode field as `strncpy` stored it (read back as the very mode string when
that is a C string of at most 15 characters), and `sequence_num = i`; afterwards
`count = 0`. -/
theorem fifo_order (s : ManagerState) (xs : List Sample)
    (hinit : s.sd_initialized = true) (hzero : s.g_metadata = zero_metadata)
    (hio : s.card.replies = []) (hlen : xs.length ≤ SD_BUFFER_SIZE)
    (hty : ∀ x ∈ xs, x.wellTyped) :
    (appendAll s xs).2 = List.replicate xs.length true
      ∧ (drainAll (appendAll s xs).1 xs.length).2.length = xs.length
      ∧ (∀ (i : Nat) (x : Sample), xs[i]? = some x → ∃ r : sd_data_record_t,
          (drainAll (appendAll s xs).1 xs.length).2[i]? = some (DrainStep.mk true (some r) true)
            ∧ r.timestamp = x.timestamp ∧ r.temperature = x.temperature
            ∧ r.humidity = x.humidity
            ∧ r.mode = strncpy zero_record.mode x.mode_str 15
            ∧ ((∀ c ∈ x.mode_str, c ≠ 0) → x.mode_str.length ≤ 15 →
                cstring r.mode = x.mode_str)
            ∧ r.sequence_num = i)
      ∧ (drainAll (appendAll s xs).1 xs.length).1.g_metadata.count = 0
      ∧ SDCardManager_GetBufferedCount (drainAll (appendAll s xs).1 xs.length).1 = 0 := by
  have hm : s.g_metadata = sd_buffer_metadata_t.mk (0 % SD_BUFFER_SIZE) 0 0 0 := by
    rw [hzero]; rfl
  obtain ⟨a1, a2, a3, a4, a5, _⟩ := appendAll_spec xs s 0 hinit hio hm (by omega)
  simp only [Nat.zero_add] at a4 a5
  have hS : SD_BUFFER_SIZE < U32 := by decide
  obtain ⟨d1, d2, d3, d4⟩ := drainAll_spec xs.length (appendAll s xs).1 a2 a3
    (by rw [a4]; show 0 < SD_BUFFER_SIZE; decide) (by rw [a4]) (by rw [a4]; exact Nat.lt_of_le_of_lt hlen hS)
  have hcount : (drainAll (appendAll s xs).1 xs.length).1.g_metadata.count = 0 := by
    rw [d2, a4]; exact Nat.sub_self _
  refine ⟨a1, drainAll_length _ _, ?_, hcount, ?_⟩
  · intro i x hx
    have hi : i < xs.length := by
      rcases Nat.lt_or_ge i xs.length with h | h
      · exact h
      · rw [List.getElem?_eq_none h] at hx; cases hx
    have hxmem : x ∈ xs := List.getElem?_mem hx
    obtain ⟨t1, t2, t3⟩ := hty x hxmem
    have hslot : SD_DATA_START_BLOCK + ((appendAll s xs).1.g_metadata.read_index + i)
        % SD_BUFFER_SIZE = SD_DATA_START_BLOCK + i := by
      rw [a4]
      simp only [Nat.zero_add]
      rw [Nat.mod_eq_of_lt (by omega)]
    have hwt : (x.record i).wellTyped :=
      make_record_wellTyped _ _ _ _ _ t1 t2 t3 (by omega)
    refine ⟨x.record i, ?_, rfl, rfl, rfl, rfl, ?_, rfl⟩
    · rw [d1 i hi, hslot, a5 i x hx, record_of_bytes_record_bytes _ hwt]
    · intro h0 h15
      exact cstring_strncpy _ h0 h15
  · simp only [SDCardManager_GetBufferedCount, d3, hcount]
    rfl

/-- Witness for C1: the two measurements of the end-to-end example on a fresh buffer. -/
theorem fifo_order_witness :
    (fresh_state.sd_initialized = true ∧ fresh_state.g_metadata = zero_metadata
        ∧ fresh_state.card.replies = [] ∧ example_samples.length ≤ SD_BUFFER_SIZE
        ∧ ∀ x ∈ example_samples, x.wellTyped)
      ∧ (appendAll fresh_state example_samples).2
          = List.replicate example_samples.length true
      ∧ (drainAll (appendAll fresh_state example_samples).1
          example_samples.length).1.g_metadata.count = 0 :=
  ⟨⟨rfl, rfl, rfl, by decide, by decide⟩,
    (fifo_order fresh_state example_samples rfl rfl rfl (by decide) (by decide)).1,
    (fifo_order fresh_state example_samples rfl rfl rfl (by decide) (by decide)).2.2.2.1⟩

/-- The state after `SD_BUFFER_SIZE + 1` appends: the last one overwrote slot 0. -/
theorem overflow_state (s : ManagerState) (ys : List Sample) (z : Sample)
    (hinit : s.sd_initialized = true) (hzero : s.g_metadata = zero_metadata)
    (hio : s.card.replies = []) (hlen : ys.length = SD_BUFFER_SIZE) :
    (appendAll s (ys ++ [z])).2 = List.replicate (SD_BUFFER_SIZE + 1) true
      ∧ (appendAll s (ys ++ [z])).1.sd_initialized = true
      ∧ (appendAll s (ys ++ [z])).1.card.replies = []
      ∧ (appendAll s (ys ++ [z])).1.g_metadata =
          sd_buffer_metadata_t.mk 1 1 SD_BUFFER_SIZE (SD_BUFFER_SIZE + 1)
      ∧ (appendAll s (ys ++ [z])).1.card.blocks SD_DATA_START_BLOCK
          = record_bytes (z.record SD_BUFFER_SIZE)
      ∧ (∀ (i : Nat) (x : Sample), 0 < i → ys[i]? = some x →
          (appendAll s (ys ++ [z])).1.card.blocks (SD_DATA_START_BLOCK + i)
            = record_bytes (x.record i)) := by
  have hm : s.g_metadata = sd_buffer_metadata_t.mk (0 % SD_BUFFER_SIZE) 0 0 0 := by
    rw [hzero]; rfl
  obtain ⟨a1, a2, a3, a4, a5, _⟩ := appendAll_spec ys s 0 hinit hio hm (by omega)
  simp only [Nat.zero_add] at a4 a5
  rw [hlen] at a1 a4
  obtain ⟨w2, wi, wio, wm, wb, _⟩ := WriteData_ok (appendAll s ys).1
    z.timestamp z.temperature z.humidity z.mode_str a2 a3
  have wm1 : (SDCardManager_WriteData (appendAll s ys).1 z.timestamp z.temperature z.humidity
      z.mode_str).1.g_metadata = sd_buffer_metadata_t.mk 1 1 SD_BUFFER_SIZE
        (SD_BUFFER_SIZE + 1) := by
    rw [wm, a4]
    decide
  have haddr : _get_data_block_addr (appendAll s ys).1.g_metadata.write_index
      = SD_DATA_START_BLOCK := by
    rw [a4]; decide
  rw [appendAll_append]
  simp only [appendAll]
  refine ⟨?_, wi, wio, wm1, ?_, ?_⟩
  · rw [a1, w2, List.replicate_succ']
  · rw [wb, haddr]
    have hne : ¬ (SD_DATA_START_BLOCK = SD_DATA_BLOCK) := by decide
    simp only [hne, if_false, if_true, a4, Sample.record]
  · intro i x hi hx
    rw [wb, haddr]
    have hne : ¬ (SD_DATA_START_BLOCK + i = SD_DATA_BLOCK) := by
      simp only [SD_DATA_START_BLOCK, SD_DATA_BLOCK]; omega
    have hne2 : ¬ (SD_DATA_START_BLOCK + i = SD_DATA_START_BLOCK) := by omega
    simp only [hne, hne2, if_false]
    exact a5 i x hx

/-- C2 (overwrite-oldest).  From zeroed metadata with every driver call succeeding,
`SD_BUFFER_SIZE + 1` calls of `SDCardManager_WriteData` all return `true` and leave
`count = SD_BUFFER_SIZE`; `SDCardManager_ReadData` then returns the record of the second
sample, whose `sequence_num` is 1; draining the whole buffer delivers the records of
samples `1 .. SD_BUFFER_SIZE` in order, none of them with `sequence_num = 0`, and empties
the buffer. -/
theorem overwrite_oldest (s : ManagerState) (xs : List Sample)
    (hinit : s.sd_initialized = true) (hzero : s.g_metadata = zero_metadata)
    (hio : s.card.replies = []) (hlen : xs.length = SD_BUFFER_SIZE + 1)
    (hty : ∀ x ∈ xs, x.wellTyped) :
    (appendAll s xs).2 = List.replicate (SD_BUFFER_SIZE + 1) true
      ∧ (appendAll s xs).1.g_metadata.count = SD_BUFFER_SIZE
      ∧ SDCardManager_GetBufferedCount (appendAll s xs).1 = SD_BUFFER_SIZE
      ∧ (∀ x : Sample, xs[1]? = some x → ∃ r : sd_data_record_t,
          (SDCardManager_ReadData (appendAll s xs).1 (some zero_record)).2 = (true, some r)
            ∧ r.sequence_num = 1 ∧ r = x.record 1)
      ∧ (∀ (i : Nat) (x : Sample), i < SD_BUFFER_SIZE → xs[i + 1]? = some x →
          (drainAll (appendAll s xs).1 SD_BUFFER_SIZE).2[i]?
            = some (DrainStep.mk true (some (x.record (i + 1))) true))
      ∧ (∀ d ∈ (drainAll (appendAll s xs).1 SD_BUFFER_SIZE).2, ∀ r : sd_data_record_t,
          d.record = some r → r.sequence_num ≠ 0)
      ∧ (drainAll (appendAll s xs).1 SD_BUFFER_SIZE).1.g_metadata.count = 0 := by
  have hsplit : xs = xs.take SD_BUFFER_SIZE ++ xs.drop SD_BUFFER_SIZE :=
    (List.take_append_drop _ _).symm
  have hys : (xs.take SD_BUFFER_SIZE).length = SD_BUFFER_SIZE := by
    rw [List.length_take, hlen]; omega
  have hzs : (xs.drop SD_BUFFER_SIZE).length = 1 := by
    rw [List.length_drop, hlen]; omega
  obtain ⟨z, hz⟩ := List.length_eq_one.mp hzs
  rw [hz] at hsplit
  generalize xs.take SD_BUFFER_SIZE = ys at hsplit hys
  subst hsplit
  obtain ⟨o1, o2, o3, o4, o5, o6⟩ := overflow_state s ys z hinit hzero hio hys
  have hS : SD_BUFFER_SIZE < U32 := by decide
  have hSpos : 1 < SD_BUFFER_SIZE := by decide
  obtain ⟨d1, d2, d3, d4⟩ := drainAll_spec SD_BUFFER_SIZE (appendAll s (ys ++ [z])).1 o2 o3
    (by rw [o4]; exact hSpos) (by rw [o4]) (by rw [o4]; exact hS)
  have hblock : ∀ (i : Nat) (x : Sample), i < SD_BUFFER_SIZE → (ys ++ [z])[i + 1]? = some x →
      record_of_bytes ((appendAll s (ys ++ [z])).1.card.blocks
        (SD_DATA_START_BLOCK + (1 + i) % SD_BUFFER_SIZE)) = x.record (i + 1) := by
    intro i x hi hx
    have hxmem : x ∈ ys ++ [z] := List.getElem?_mem hx
    obtain ⟨t1, t2, t3⟩ := hty x hxmem
    have hwt : (x.record (i + 1)).wellTyped :=
      make_record_wellTyped _ _ _ _ _ t1 t2 t3 (by omega)
    rcases Nat.lt_or_ge (i + 1) SD_BUFFER_SIZE with h | h
    · rw [List.getElem?_append_left (by omega)] at hx
      have hslot : SD_DATA_START_BLOCK + (1 + i) % SD_BUFFER_SIZE
          = SD_DATA_START_BLOCK + (i + 1) := by
        rw [Nat.mod_eq_of_lt (by omega)]; omega
      rw [hslot, o6 (i + 1) x (by omega) hx, record_of_bytes_record_bytes _ hwt]
    · have hi1 : i + 1 = SD_BUFFER_SIZE := by omega
      rw [hi1, List.getElem?_append_right (by omega), hys] at hx
      simp only [Nat.sub_self, List.getElem?_cons_zero, Option.some.injEq] at hx
      subst hx
      have hslot : SD_DATA_START_BLOCK + (1 + i) % SD_BUFFER_SIZE = SD_DATA_START_BLOCK := by
        rw [show 1 + i = SD_BUFFER_SIZE by omega, Nat.mod_self]; rfl
      rw [hslot, o5]
      rw [hi1] at hwt ⊢
      rw [record_of_bytes_record_bytes _ hwt]
  have hdrain : ∀ (i : Nat) (x : Sample), i < SD_BUFFER_SIZE → (ys ++ [z])[i + 1]? = some x →
      (drainAll (appendAll s (ys ++ [z])).1 SD_BUFFER_SIZE).2[i]?
        = some (DrainStep.mk true (some (x.record (i + 1))) true) := by
    intro i x hi hx
    rw [d1 i hi, o4]
    simp only []
    rw [hblock i x hi hx]
  have hcount : (appendAll s (ys ++ [z])).1.g_metadata.count = SD_BUFFER_SIZE := by rw [o4]
  refine ⟨o1, hcount, ?_, ?_, hdrain, ?_, ?_⟩
  · simp only [SDCardManager_GetBufferedCount, o2, hcount]
    rfl
  · intro x hx
    have h0 := hblock 0 x (by omega) hx
    have hne : (appendAll s (ys ++ [z])).1.g_metadata.count ≠ 0 := by
      rw [hcount]; decide
    obtain ⟨r2, _⟩ := ReadData_ok (appendAll s (ys ++ [z])).1 zero_record o2 o3 hne
    refine ⟨x.record 1, ?_, rfl, rfl⟩
    rw [r2, o4]
    simp only [_get_data_block_addr]
    rw [show (1 : Nat) = 1 + 0 from rfl, h0]
  · intro d hd r hr
    obtain ⟨i, hi⟩ := List.mem_iff_getElem?.mp hd
    have hilt : i < SD_BUFFER_SIZE := by
      rcases Nat.lt_or_ge i SD_BUFFER_SIZE with h | h
      · exact h
      · rw [List.getElem?_eq_none (by rw [drainAll_length]; exact h)] at hi; cases hi
    have hx : ∃ x, (ys ++ [z])[i + 1]? = some x := by
      have : i + 1 < (ys ++ [z]).length := by rw [hlen]; omega
      exact ⟨(ys ++ [z])[i + 1], List.getElem?_eq_getElem this⟩
    obtain ⟨x, hx⟩ := hx
    rw [hdrain i x hilt hx] at hi
    simp only [Option.some.injEq] at hi
    subst hi
    simp only [Option.some.injEq] at hr
    subst hr
    show i + 1 ≠ 0
    omega
  · rw [d2, o4]
    exact Nat.sub_self _

/-- Witness for C2: `SD_BUFFER_SIZE + 1` measurements on a fresh buffer. -/
theorem overwrite_oldest_witness :
    (fresh_state.sd_initialized = true ∧ fresh_state.g_metadata = zero_metadata
        ∧ fresh_state.card.replies = [] ∧ overflow_samples.length = SD_BUFFER_SIZE + 1
        ∧ ∀ x ∈ overflow_samples, x.wellTyped)
      ∧ (appendAll fresh_state overflow_samples).1.g_metadata.count = SD_BUFFER_SIZE
      ∧ (drainAll (appendAll fresh_state overflow_samples).1
          SD_BUFFER_SIZE).1.g_metadata.count = 0 :=
  ⟨⟨rfl, rfl, rfl, List.length_replicate _ _,
      fun x hx => by rw [List.eq_of_mem_replicate hx]; decide⟩,
    (overwrite_oldest fresh_state overflow_samples rfl rfl rfl (List.length_replicate _ _)
      (fun x hx => by rw [List.eq_of_mem_replicate hx]; decide)).2.1,
    (overwrite_oldest fresh_state overflow_samples rfl rfl rfl (List.length_replicate _ _)
      (fun x hx => by rw [List.eq_of_mem_replicate hx]; decide)).2.2.2.2.2.2⟩

/-! ## In-memory metadata along every path -/

theorem write_metadata_g_metadata (s : ManagerState) :
    (_write_metadata s).1.g_metadata = s.g_metadata := by
  unfold _write_metadata
  simp only []
  split <;> rfl

theorem WriteData_record_g_metadata (s : ManagerState) (ts t h : Nat) (md : List Nat) :
    (WriteData_record s ts t h md).1.g_metadata =
      if s.sd_initialized = false then s.g_metadata
      else { make_room s.g_metadata with
             sequence_num := ((make_room s.g_metadata).sequence_num + 1) % U32 } := by
  unfold WriteData_record
  simp only []
  split
  · rfl
  · split <;> rfl

theorem WriteData_commit_g_metadata (s : ManagerState) :
    (WriteData_commit s).1.g_metadata =
      { s.g_metadata with
        write_index := ((s.g_metadata.write_index + 1) % U32) % SD_BUFFER_SIZE,
        count := (s.g_metadata.count + 1) % U32 } := by
  unfold WriteData_commit
  simp only []
  split <;> exact write_metadata_g_metadata _

theorem metadata_invariant_make_room (m : sd_buffer_metadata_t) (h : metadata_invariant m) :
    metadata_invariant (make_room m) ∧ (make_room m).count < SD_BUFFER_SIZE := by
  unfold metadata_invariant at h ⊢
  unfold make_room
  split
  · simp only [SD_BUFFER_SIZE, U32] at *
    omega
  · simp only [SD_BUFFER_SIZE, U32] at *
    omega

theorem metadata_invariant_push (m : sd_buffer_metadata_t) (seq : Nat)
    (h : metadata_invariant m) (hc : m.count < SD_BUFFER_SIZE) :
    metadata_invariant { write_index := ((m.write_index + 1) % U32) % SD_BUFFER_SIZE,
                         read_index := m.read_index,
                         count := (m.count + 1) % U32,
                         sequence_num := seq } := by
  unfold metadata_invariant at h ⊢
  simp only [SD_BUFFER_SIZE, U32] at *
  omega

theorem metadata_invariant_pop (m : sd_buffer_metadata_t)
    (h : metadata_invariant m) (hc : m.count ≠ 0) :
    metadata_invariant { write_index := m.write_index,
                         read_index := ((m.read_index + 1) % U32) % SD_BUFFER_SIZE,
                         count := (m.count + U32 - 1) % U32,
                         sequence_num := m.sequence_num } := by
  unfold metadata_invariant at h ⊢
  simp only [SD_BUFFER_SIZE, U32] at *
  omega

theorem WriteData_invariant (s : ManagerState) (ts t h : Nat) (md : List Nat)
    (hinv : metadata_invariant s.g_metadata) :
    metadata_invariant (SDCardManager_WriteData s ts t h md).1.g_metadata := by
  have hrec := WriteData_record_g_metadata s ts t h md
  obtain ⟨hroom, hlt⟩ := metadata_invariant_make_room _ hinv
  have hrecinv : metadata_invariant (WriteData_record s ts t h md).1.g_metadata
      ∧ ((WriteData_record s ts t h md).2 = true →
          (WriteData_record s ts t h md).1.g_metadata.count < SD_BUFFER_SIZE) := by
    rw [hrec]
    split
    · rename_i hni
      refine ⟨hinv, ?_⟩
      intro h2
      simp [WriteData_record, hni] at h2
    · exact ⟨hroom, fun _ => hlt⟩
  unfold SDCardManager_WriteData
  simp only []
  split
  · rename_i h2
    rw [WriteData_commit_g_metadata]
    exact metadata_invariant_push _ _ hrecinv.1 (hrecinv.2 h2)
  · exact hrecinv.1

theorem RemoveRecord_invariant (s : ManagerState)
    (hinv : metadata_invariant s.g_metadata) :
    metadata_invariant (SDCardManager_RemoveRecord s).1.g_metadata := by
  unfold SDCardManager_RemoveRecord
  split
  · exact hinv
  · rename_i hc
    rw [write_metadata_g_metadata]
    exact metadata_invariant_pop _ hinv (fun h0 => hc (Or.inr h0))

theorem ClearBuffer_invariant (s : ManagerState)
    (hinv : metadata_invariant s.g_metadata) :
    metadata_invariant (SDCardManager_ClearBuffer s).1.g_metadata := by
  unfold SDCardManager_ClearBuffer
  split
  · exact hinv
  · rw [write_metadata_g_metadata]
    show metadata_invariant zero_metadata
    decide

/-- C4 (metadata invariant).  `write_index < SD_BUFFER_SIZE`, `read_index < SD_BUFFER_SIZE`,
`count ≤ SD_BUFFER_SIZE` and `write_index = (read_index + count) mod SD_BUFFER_SIZE` hold
for zeroed metadata, and the in-memory metadata keeps them across
`SDCardManager_WriteData`, `SDCardManager_RemoveRecord` and `SDCardManager_ClearBuffer`,
whatever the driver answers to the data-block write and to the metadata write (every
script of status bytes), initialised or not. -/
theorem metadata_invariant_preserved :
    metadata_invariant zero_metadata
      ∧ ∀ (s : ManagerState) (ts t h : Nat) (md : List Nat),
          metadata_invariant s.g_metadata →
            metadata_invariant (SDCardManager_WriteData s ts t h md).1.g_metadata
              ∧ metadata_invariant (SDCardManager_RemoveRecord s).1.g_metadata
              ∧ metadata_invariant (SDCardManager_ClearBuffer s).1.g_metadata :=
  ⟨by decide, fun s ts t h md hinv =>
    ⟨WriteData_invariant s ts t h md hinv, RemoveRecord_invariant s hinv,
      ClearBuffer_invariant s hinv⟩⟩

/-- Witness for C4: a full buffer whose data-block write is rejected. -/
theorem metadata_invariant_preserved_witness :
    metadata_invariant (full_state [Reply.mk 2 none]).g_metadata
      ∧ metadata_invariant (SDCardManager_WriteData (full_state [Reply.mk 2 none])
          1005 1103941837 1114898432 mode_PERIODIC).1.g_metadata
      ∧ metadata_invariant (SDCardManager_RemoveRecord (full_state [Reply.mk 2 none])).1.g_metadata
      ∧ metadata_invariant (SDCardManager_ClearBuffer (full_state [Reply.mk 2 none])).1.g_metadata :=
  ⟨by decide, metadata_invariant_preserved.2 (full_state [Reply.mk 2 none])
    1005 1103941837 1114898432 mode_PERIODIC (by decide)⟩

/-- C3 (append on block-write failure), evaluated on a full buffer whose data-block write
fails with status 1: `SDCardManager_WriteData` returns `false` after that single driver
call, yet `read_index` has gone from 0 to 1, `count` from `SD_BUFFER_SIZE` to
`SD_BUFFER_SIZE - 1` and `sequence_num` from `SD_BUFFER_SIZE` to `SD_BUFFER_SIZE + 1`; only
`write_index` is as before.  On a buffer holding one record the same failure returns
`false` and moves `sequence_num` from 1 to 2. -/
theorem WriteData_failed_block_write_changes_metadata :
    (full_state [Reply.mk 1 none]).sd_initialized = true
      ∧ (full_state [Reply.mk 1 none]).g_metadata = sd_buffer_metadata_t.mk 0 0 204800 204800
      ∧ (SDCardManager_WriteData (full_state [Reply.mk 1 none])
          1005 1103941837 1114898432 mode_PERIODIC).2 = false
      ∧ (SDCardManager_WriteData (full_state [Reply.mk 1 none])
          1005 1103941837 1114898432 mode_PERIODIC).1.g_metadata
          = sd_buffer_metadata_t.mk 0 1 204799 204801
      ∧ (SDCardManager_WriteData (full_state [Reply.mk 1 none])
          1005 1103941837 1114898432 mode_PERIODIC).1.card.trace.length = 1
      ∧ (one_record_state [Reply.mk 1 none]).g_metadata = sd_buffer_metadata_t.mk 1 0 1 1
      ∧ (SDCardManager_WriteData (one_record_state [Reply.mk 1 none])
          1005 1103941837 1114898432 mode_PERIODIC).2 = false
      ∧ (SDCardManager_WriteData (one_record_state [Reply.mk 1 none])
          1005 1103941837 1114898432 mode_PERIODIC).1.g_metadata
          = sd_buffer_metadata_t.mk 1 0 1 2 := by
  decide

/-- C9 (remove-oldest), evaluated on a buffer holding one record when the metadata write
fails with status 2: `SDCardManager_RemoveRecord` returns `false` although the record has
been removed from the in-memory buffer (`read_index` 0 to 1, `count` 1 to 0). -/
theorem RemoveRecord_false_after_removal :
    (one_record_state [Reply.mk 2 none]).sd_initialized = true
      ∧ (one_record_state [Reply.mk 2 none]).g_metadata = sd_buffer_metadata_t.mk 1 0 1 1
      ∧ (SDCardManager_RemoveRecord (one_record_state [Reply.mk 2 none])).2 = false
      ∧ (SDCardManager_RemoveRecord (one_record_state [Reply.mk 2 none])).1.g_metadata
          = sd_buffer_metadata_t.mk 1 1 0 1
      ∧ SDCardManager_GetBufferedCount
          (SDCardManager_RemoveRecord (one_record_state [Reply.mk 2 none])).1 = 0 := by
  decide

/-- C10 (loaded metadata in range), evaluated on an erased card (every byte `0xFF`) with
every driver call succeeding: `SDCardManager_Init` returns `true` and the loaded metadata
has all four fields equal to `0xFFFFFFFF`, so `SDCardManager_GetBufferedCount` returns
4294967295, above `SD_BUFFER_SIZE`. -/
theorem Init_loads_out_of_range_metadata :
    (SDCardManager_Init boot_state_erased).2 = true
      ∧ (SDCardManager_Init boot_state_erased).1.sd_initialized = true
      ∧ (SDCardManager_Init boot_state_erased).1.g_metadata
          = sd_buffer_metadata_t.mk 4294967295 4294967295 4294967295 4294967295
      ∧ SDCardManager_GetBufferedCount (SDCardManager_Init boot_state_erased).1 = 4294967295
      ∧ ¬ (SDCardManager_GetBufferedCount (SDCardManager_Init boot_state_erased).1
            ≤ SD_BUFFER_SIZE) := by
  decide

/-! ## Crash between the record write and the metadata save -/

theorem WriteData_record_ok (s : ManagerState) (ts t h : Nat) (md : List Nat)
    (hinit : s.sd_initialized = true) (hio : s.card.replies = []) :
    (WriteData_record s ts t h md).2 = true
      ∧ (WriteData_record s ts t h md).1.card.replies = []
      ∧ (WriteData_record s ts t h md).1.card.blocks =
          (fun a => if a = _get_data_block_addr s.g_metadata.write_index then
              record_bytes (make_record ts t h md s.g_metadata.sequence_num)
            else s.card.blocks a)
      ∧ (WriteData_record s ts t h md).1.card.trace = s.card.trace ++
          [BusOp.write (_get_data_block_addr s.g_metadata.write_index)
              (record_bytes (make_record ts t h md s.g_metadata.sequence_num))] := by
  simp [WriteData_record, BlockDevice.SD_WriteBlock, SDCard.nextRet, hinit, hio,
    make_room_write_index, make_room_sequence_num]
  rfl

theorem data_block_addr_ne_metadata (index : Nat) :
    _get_data_block_addr index ≠ SD_DATA_BLOCK := by
  simp only [_get_data_block_addr, SD_DATA_START_BLOCK, SD_DATA_BLOCK]
  omega

/-- After a crash that follows the record write, reopening loads the metadata as it was
before the append, and the card differs from the one before the append only in the slot at
`write_index`. -/
theorem reopen_after_crash (s : ManagerState) (ts t h : Nat) (md : List Nat)
    (hinit : s.sd_initialized = true) (hio : s.card.replies = [])
    (hsync : persisted s) (hty : s.g_metadata.wellTyped) :
    (WriteData_record s ts t h md).2 = true
      ∧ (SDCardManager_Init (power_loss (WriteData_record s ts t h md).1)).2 = true
      ∧ (SDCardManager_Init (power_loss (WriteData_record s ts t h md).1)).1.sd_initialized
          = true
      ∧ (SDCardManager_Init (power_loss (WriteData_record s ts t h md).1)).1.card.replies = []
      ∧ (SDCardManager_Init (power_loss (WriteData_record s ts t h md).1)).1.g_metadata
          = s.g_metadata
      ∧ (SDCardManager_Init (power_loss (WriteData_record s ts t h md).1)).1.card.blocks =
          (fun a => if a = _get_data_block_addr s.g_metadata.write_index then
              record_bytes (make_record ts t h md s.g_metadata.sequence_num)
            else s.card.blocks a) := by
  obtain ⟨r1, r2, r3, _⟩ := WriteData_record_ok s ts t h md hinit hio
  have hpl : (power_loss (WriteData_record s ts t h md).1).card.replies = [] := r2
  obtain ⟨i1, i2, i3, i4, i5⟩ := Init_ok _ hpl
  have hcard : (power_loss (WriteData_record s ts t h md).1).card.blocks
      = (WriteData_record s ts t h md).1.card.blocks := rfl
  refine ⟨r1, i1, i2, i3, ?_, ?_⟩
  · rw [i4, hcard, r3]
    have hne : ¬ (SD_DATA_BLOCK = _get_data_block_addr s.g_metadata.write_index) :=
      fun e => data_block_addr_ne_metadata _ e.symm
    simp only [hne, if_false]
    rw [hsync, metadata_of_bytes_metadata_bytes _ hty]
  · rw [i5, hcard, r3]

/-- C6 (crash-consistency simulation).  On an initialised manager whose metadata block
holds the in-memory metadata and whose driver calls succeed: if `SDCardManager_WriteData`
stops after its data-block write (the metadata block on the card is untouched) and the
manager is reopened with `SDCardManager_Init` after power loss, then `Init` returns `true`,
the loaded `count` and `write_index` (the whole metadata) equal their values before that
append, and the next `SDCardManager_WriteData` first writes its record to the same block
address the skipped append wrote to. -/
theorem crash_consistency (s : ManagerState) (ts t h : Nat) (md : List Nat)
    (ts2 t2 h2 : Nat) (md2 : List Nat)
    (hinit : s.sd_initialized = true) (hio : s.card.replies = [])
    (hsync : persisted s) (hty : s.g_metadata.wellTyped) :
    (WriteData_record s ts t h md).1.card.trace = s.card.trace ++
        [BusOp.write (_get_data_block_addr s.g_metadata.write_index)
          (record_bytes (make_record ts t h md s.g_metadata.sequence_num))]
      ∧ (power_loss (WriteData_record s ts t h md).1).card.blocks SD_DATA_BLOCK
          = s.card.blocks SD_DATA_BLOCK
      ∧ (SDCardManager_Init (power_loss (WriteData_record s ts t h md).1)).2 = true
      ∧ (SDCardManager_Init (power_loss (WriteData_record s ts t h md).1)).1.g_metadata.count
          = s.g_metadata.count
      ∧ (SDCardManager_Init
            (power_loss (WriteData_record s ts t h md).1)).1.g_metadata.write_index
          = s.g_metadata.write_index
      ∧ (SDCardManager_Init (power_loss (WriteData_record s ts t h md).1)).1.g_metadata
          = s.g_metadata
      ∧ ∃ last : BusOp,
          (SDCardManager_WriteData
              (SDCardManager_Init (power_loss (WriteData_record s ts t h md).1)).1
              ts2 t2 h2 md2).1.card.trace
            = (SDCardManager_Init (power_loss (WriteData_record s ts t h md).1)).1.card.trace
              ++ [BusOp.write (_get_data_block_addr s.g_metadata.write_index)
                    (record_bytes (make_record ts2 t2 h2 md2 s.g_metadata.sequence_num)),
                  last] := by
  obtain ⟨_, _, r3, r4⟩ := WriteData_record_ok s ts t h md hinit hio
  obtain ⟨_, o2, o3, o4, o5, _⟩ := reopen_after_crash s ts t h md hinit hio hsync hty
  obtain ⟨_, _, _, _, _, w6⟩ := WriteData_ok
    (SDCardManager_Init (power_loss (WriteData_record s ts t h md).1)).1 ts2 t2 h2 md2 o3 o4
  refine ⟨r4, ?_, o2, by rw [o5], by rw [o5], o5, ?_⟩
  · show (WriteData_record s ts t h md).1.card.blocks SD_DATA_BLOCK = _
    rw [r3]
    have hne : ¬ (SD_DATA_BLOCK = _get_data_block_addr s.g_metadata.write_index) :=
      fun e => data_block_addr_ne_metadata _ e.symm
    simp only [hne, if_false]
  · rw [o5] at w6
    exact ⟨_, w6⟩

/-- Witness for C6: a buffer holding one record. -/
theorem crash_consistency_witness :
    ((one_record_state []).sd_initialized = true ∧ (one_record_state []).card.replies = []
        ∧ persisted (one_record_state []) ∧ (one_record_state []).g_metadata.wellTyped)
      ∧ (SDCardManager_Init (power_loss (WriteData_record (one_record_state [])
            1005 1103941837 1114898432 mode_PERIODIC).1)).1.g_metadata.count
          = (one_record_state []).g_metadata.count
      ∧ (SDCardManager_Init (power_loss (WriteData_record (one_record_state [])
            1005 1103941837 1114898432 mode_PERIODIC).1)).1.g_metadata.write_index
          = (one_record_state []).g_metadata.write_index :=
  ⟨⟨rfl, rfl, rfl, by decide⟩,
    (crash_consistency (one_record_state []) 1005 1103941837 1114898432 mode_PERIODIC
      1010 1103941837 1114898432 mode_SINGLE rfl rfl rfl (by decide)).2.2.2.1,
    (crash_consistency (one_record_state []) 1005 1103941837 1114898432 mode_PERIODIC
      1010 1103941837 1114898432 mode_SINGLE rfl rfl rfl (by decide)).2.2.2.2.1⟩

/-- C5, as stated, fails on a full buffer.  `full_state []` satisfies the metadata
invariant with `count = SD_BUFFER_SIZE` and has its metadata saved on the card; its oldest
record has timestamp 1000 and sequence number 0.  After the data-block write of an append
(timestamp 1005), power loss and `SDCardManager_Init`, the count is still
`SD_BUFFER_SIZE`, but `SDCardManager_ReadData` now delivers the new record (timestamp 1005,
sequence number 204800) in place of the oldest one. -/
theorem crash_on_full_buffer_replaces_oldest :
    metadata_invariant (full_state []).g_metadata
      ∧ (full_state []).g_metadata.count = SD_BUFFER_SIZE
      ∧ persisted (full_state [])
      ∧ (SDCardManager_Init (power_loss (WriteData_record (full_state [])
            1005 1103941837 1114898432 mode_PERIODIC).1)).2 = true
      ∧ (SDCardManager_Init (power_loss (WriteData_record (full_state [])
            1005 1103941837 1114898432 mode_PERIODIC).1)).1.g_metadata.count = SD_BUFFER_SIZE
      ∧ (SDCardManager_ReadData (full_state []) (some zero_record)).2.2.map
            (fun r => (r.timestamp, r.sequence_num)) = some (1000, 0)
      ∧ (SDCardManager_ReadData
            (SDCardManager_Init (power_loss (WriteData_record (full_state [])
              1005 1103941837 1114898432 mode_PERIODIC).1)).1 (some zero_record)).2.2.map
            (fun r => (r.timestamp, r.sequence_num)) = some (1005, 204800) := by
  refine ⟨by decide, rfl, rfl, by decide, by decide, by decide, by decide⟩

/-- C5, amended (crash between record write and metadata save, buffer not full).  For an
initialised manager whose metadata satisfies the invariant, is saved on the card, and has
`count < SD_BUFFER_SIZE`, with every driver call succeeding: if `SDCardManager_WriteData`
performs its data-block write and power is lost before the metadata write, then
`SDCardManager_Init` returns `true`, the count is the count before the append, every live
slot holds the bytes it held before, and the `count` (`SDCardManager_ReadData`,
`SDCardManager_RemoveRecord`) pairs deliver exactly what they would have delivered before
the append, after which the buffer is empty. -/
theorem crash_loses_only_new_record (s : ManagerState) (ts t h : Nat) (md : List Nat)
    (hinit : s.sd_initialized = true) (hio : s.card.replies = [])
    (hsync : persisted s) (hty : s.g_metadata.wellTyped)
    (hinv : metadata_invariant s.g_metadata) (hroom : s.g_metadata.count < SD_BUFFER_SIZE) :
    (WriteData_record s ts t h md).2 = true
      ∧ (SDCardManager_Init (power_loss (WriteData_record s ts t h md).1)).2 = true
      ∧ (SDCardManager_Init (power_loss (WriteData_record s ts t h md).1)).1.g_metadata.count
          = s.g_metadata.count
      ∧ (∀ i : Nat, i < s.g_metadata.count →
          (SDCardManager_Init (power_loss (WriteData_record s ts t h md).1)).1.card.blocks
              (_get_data_block_addr (s.g_metadata.read_index + i))
            = s.card.blocks (_get_data_block_addr (s.g_metadata.read_index + i)))
      ∧ (drainAll (SDCardManager_Init (power_loss (WriteData_record s ts t h md).1)).1
            s.g_metadata.count).2
          = (drainAll s s.g_metadata.count).2
      ∧ (drainAll (SDCardManager_Init (power_loss (WriteData_record s ts t h md).1)).1
            s.g_metadata.count).1.g_metadata.count = 0 := by
  obtain ⟨o1, o2, o3, o4, o5, o6⟩ := reopen_after_crash s ts t h md hinit hio hsync hty
  obtain ⟨hw, hr, hc, hwe⟩ := hinv
  have hS : SD_BUFFER_SIZE < U32 := by decide
  have hslot : ∀ i : Nat, i < s.g_metadata.count →
      (SDCardManager_Init (power_loss (WriteData_record s ts t h md).1)).1.card.blocks
          (_get_data_block_addr (s.g_metadata.read_index + i))
        = s.card.blocks (_get_data_block_addr (s.g_metadata.read_index + i)) := by
    intro i hi
    rw [o6]
    have hne : ¬ (_get_data_block_addr (s.g_metadata.read_index + i)
        = _get_data_block_addr s.g_metadata.write_index) := by
      simp only [_get_data_block_addr, SD_BUFFER_SIZE] at *
      omega
    simp only [hne, if_false]
  obtain ⟨d1, d2, _, _⟩ := drainAll_spec s.g_metadata.count
    (SDCardManager_Init (power_loss (WriteData_record s ts t h md).1)).1 o3 o4
    (by rw [o5]; exact hr) (by rw [o5]) (by rw [o5]; omega)
  obtain ⟨e1, _, _, _⟩ := drainAll_spec s.g_metadata.count s hinit hio hr (Nat.le_refl _)
    (by omega)
  refine ⟨o1, o2, by rw [o5], hslot, ?_, ?_⟩
  · apply List.ext_getElem?
    intro i
    rcases Nat.lt_or_ge i s.g_metadata.count with hi | hi
    · rw [d1 i hi, e1 i hi, o5]
      have := hslot i hi
      simp only [_get_data_block_addr] at this
      rw [this]
    · rw [List.getElem?_eq_none (by rw [drainAll_length]; exact hi),
        List.getElem?_eq_none (by rw [drainAll_length]; exact hi)]
  · rw [d2, o5]
    exact Nat.sub_self _

/-- Witness for C5 (amended): a buffer holding one record. -/
theorem crash_loses_only_new_record_witness :
    ((one_record_state []).sd_initialized = true ∧ (one_record_state []).card.replies = []
        ∧ persisted (one_record_state []) ∧ (one_record_state []).g_metadata.wellTyped
        ∧ metadata_invariant (one_record_state []).g_metadata
        ∧ (one_record_state []).g_metadata.count < SD_BUFFER_SIZE)
      ∧ (drainAll (SDCardManager_Init (power_loss (WriteData_record (one_record_state [])
            1005 1103941837 1114898432 mode_PERIODIC).1)).1
            (one_record_state []).g_metadata.count).2
          = (drainAll (one_record_state []) (one_record_state []).g_metadata.count).2 :=
  ⟨⟨rfl, rfl, rfl, by decide, by decide, by decide⟩,
    (crash_loses_only_new_record (one_record_state []) 1005 1103941837 1114898432
      mode_PERIODIC rfl rfl rfl (by decide) (by decide) (by decide)).2.2.2.2.1⟩

/-! ## Append then remove -/

/-- C7, as stated, fails on a full buffer: after `SDCardManager_WriteData` and
`SDCardManager_RemoveRecord`, both returning `true`, the count is `SD_BUFFER_SIZE - 1`,
not the `SD_BUFFER_SIZE` it was before the append. -/
theorem round_trip_on_full_buffer_loses_one :
    (full_state []).sd_initialized = true
      ∧ (full_state []).g_metadata.count = 204800
      ∧ (SDCardManager_WriteData (full_state [])
          1005 1103941837 1114898432 mode_PERIODIC).2 = true
      ∧ (SDCardManager_RemoveRecord (SDCardManager_WriteData (full_state [])
          1005 1103941837 1114898432 mode_PERIODIC).1).2 = true
      ∧ (SDCardManager_RemoveRecord (SDCardManager_WriteData (full_state [])
          1005 1103941837 1114898432 mode_PERIODIC).1).1.g_metadata.count = 204799 := by
  decide

/-- C7, amended (capacity round trip).  For an initialised manager with every driver call
succeeding and `count < SD_BUFFER_SIZE`, `SDCardManager_WriteData` followed by
`SDCardManager_RemoveRecord` (both return `true`) brings `count` back to its value before
the append; with `count = SD_BUFFER_SIZE` the pair leaves `count = SD_BUFFER_SIZE - 1`;
and if `count` was 0, `SDCardManager_ReadData` afterwards returns `false`. -/
theorem capacity_round_trip (s : ManagerState) (ts t h : Nat) (md : List Nat)
    (hinit : s.sd_initialized = true) (hio : s.card.replies = []) :
    (s.g_metadata.count < SD_BUFFER_SIZE →
        (SDCardManager_WriteData s ts t h md).2 = true
          ∧ (SDCardManager_RemoveRecord (SDCardManager_WriteData s ts t h md).1).2 = true
          ∧ (SDCardManager_RemoveRecord
              (SDCardManager_WriteData s ts t h md).1).1.g_metadata.count
            = s.g_metadata.count)
      ∧ (s.g_metadata.count = SD_BUFFER_SIZE →
        (SDCardManager_WriteData s ts t h md).2 = true
          ∧ (SDCardManager_RemoveRecord (SDCardManager_WriteData s ts t h md).1).2 = true
          ∧ (SDCardManager_RemoveRecord
              (SDCardManager_WriteData s ts t h md).1).1.g_metadata.count
            = SD_BUFFER_SIZE - 1)
      ∧ (s.g_metadata.count = 0 → ∀ record : Option sd_data_record_t,
          (SDCardManager_ReadData (SDCardManager_RemoveRecord
            (SDCardManager_WriteData s ts t h md).1).1 record).2.1 = false) := by
  obtain ⟨w2, wi, wio, wm, _, _⟩ := WriteData_ok s ts t h md hinit hio
  have key : ∀ c : Nat, (c = s.g_metadata.count → c ≤ SD_BUFFER_SIZE →
      (SDCardManager_RemoveRecord (SDCardManager_WriteData s ts t h md).1).2 = true
        ∧ (SDCardManager_RemoveRecord
            (SDCardManager_WriteData s ts t h md).1).1.g_metadata.count
          = if c < SD_BUFFER_SIZE then c else SD_BUFFER_SIZE - 1) := by
    intro c hc hle
    have hcnt : (SDCardManager_WriteData s ts t h md).1.g_metadata.count
        = if c < SD_BUFFER_SIZE then c + 1 else SD_BUFFER_SIZE := by
      rw [wm]
      simp only [make_room]
      split
      · split
        · omega
        · simp only [SD_BUFFER_SIZE, U32] at *
          omega
      · split
        · simp only [SD_BUFFER_SIZE, U32] at *
          omega
        · omega
    have hne : (SDCardManager_WriteData s ts t h md).1.g_metadata.count ≠ 0 := by
      rw [hcnt]
      split
      · omega
      · decide
    obtain ⟨r2, _, _, rm, _⟩ := RemoveRecord_ok _ wi wio hne
    refine ⟨r2, ?_⟩
    rw [rm]
    simp only []
    rw [hcnt]
    split
    · simp only [SD_BUFFER_SIZE, U32] at *
      omega
    · decide
  refine ⟨?_, ?_, ?_⟩
  · intro hlt
    obtain ⟨k1, k2⟩ := key _ rfl (by omega)
    rw [if_pos hlt] at k2
    exact ⟨w2, k1, k2⟩
  · intro heq
    obtain ⟨k1, k2⟩ := key _ rfl (by omega)
    rw [if_neg (by omega)] at k2
    exact ⟨w2, k1, k2⟩
  · intro h0 record
    obtain ⟨_, k2⟩ := key _ rfl (by rw [h0]; exact Nat.zero_le _)
    rw [if_pos (by rw [h0]; decide), h0] at k2
    rw [ReadData_empty _ _ k2]

/-- Witness for C7 (amended): an empty buffer on a blank card. -/
theorem capacity_round_trip_witness :
    (fresh_state.sd_initialized = true ∧ fresh_state.card.replies = []
        ∧ fresh_state.g_metadata.count < SD_BUFFER_SIZE ∧ fresh_state.g_metadata.count = 0)
      ∧ (SDCardManager_RemoveRecord (SDCardManager_WriteData fresh_state
            1000 1103888384 1114636288 mode_SINGLE).1).1.g_metadata.count
          = fresh_state.g_metadata.count
      ∧ (SDCardManager_ReadData (SDCardManager_RemoveRecord (SDCardManager_WriteData
            fresh_state 1000 1103888384 1114636288 mode_SINGLE).1).1
            (some zero_record)).2.1 = false :=
  ⟨⟨rfl, rfl, by decide, rfl⟩,
    ((capacity_round_trip fresh_state 1000 1103888384 1114636288 mode_SINGLE rfl rfl).1
      (by decide)).2.2,
    (capacity_round_trip fresh_state 1000 1103888384 1114636288 mode_SINGLE rfl rfl).2.2
      rfl (some zero_record)⟩

/-! ## Peek -/

theorem le32_rd32 (b : List Nat) (off : Nat) (hlen : off + 4 ≤ b.length)
    (hb : ∀ x ∈ b, x < 256) : le32 (rd32 b off) = (b.drop off).take 4 := by
  have h0 : off < b.length := by omega
  have h1 : off + 1 < b.length := by omega
  have h2 : off + 2 < b.length := by omega
  have h3 : off + 3 < b.length := by omega
  have e0 : b.getD off 0 = b[off] := by
    rw [List.getD_eq_getElem?_getD, List.getElem?_eq_getElem h0]; rfl
  have e1 : b.getD (off + 1) 0 = b[off + 1] := by
    rw [List.getD_eq_getElem?_getD, List.getElem?_eq_getElem h1]; rfl
  have e2 : b.getD (off + 2) 0 = b[off + 2] := by
    rw [List.getD_eq_getElem?_getD, List.getElem?_eq_getElem h2]; rfl
  have e3 : b.getD (off + 3) 0 = b[off + 3] := by
    rw [List.getD_eq_getElem?_getD, List.getElem?_eq_getElem h3]; rfl
  have b0 : b[off] < 256 := hb _ (List.getElem_mem h0)
  have b1 : b[off + 1] < 256 := hb _ (List.getElem_mem h1)
  have b2 : b[off + 2] < 256 := hb _ (List.getElem_mem h2)
  have b3 : b[off + 3] < 256 := hb _ (List.getElem_mem h3)
  have hd : (b.drop off).take 4 = [b[off], b[off + 1], b[off + 2], b[off + 3]] := by
    apply List.ext_getElem
    · simp only [List.length_take, List.length_drop, List.length_cons, List.length_nil]
      omega
    · intro n hn1 hn2
      simp only [List.length_cons, List.length_nil] at hn2
      simp only [List.getElem_take, List.getElem_drop]
      match n, hn2 with
      | 0, _ => rfl
      | 1, _ => rfl
      | 2, _ => rfl
      | 3, _ => rfl
  rw [hd]
  unfold rd32 le32
  rw [e0, e1, e2, e3]
  congr 1
  · omega
  · congr 1
    · omega
    · congr 1
      · omega
      · congr 1
        omega

theorem record_bytes_record_of_bytes (b : Block) (hlen : b.length = 512)
    (hb : ∀ x ∈ b, x < 256) : record_bytes (record_of_bytes b) = b := by
  unfold record_bytes record_of_bytes
  simp only []
  rw [le32_rd32 b 0 (by omega) hb, le32_rd32 b 4 (by omega) hb, le32_rd32 b 8 (by omega) hb,
    le32_rd32 b 28 (by omega) hb]
  rw [fitTo_eq_self 16 _ (by rw [List.length_take, List.length_drop]; omega),
    fitTo_eq_self 480 _ (by rw [List.length_take, List.length_drop]; omega)]
  have step : ∀ (n k : Nat), (b.drop n).take k ++ b.drop (n + k) = b.drop n := by
    intro n k
    rw [← List.drop_drop]
    exact List.take_append_drop k (b.drop n)
  have hlast : (b.drop 32).take 480 = b.drop 32 :=
    List.take_of_length_le (by rw [List.length_drop]; omega)
  rw [hlast]
  simp only [List.append_assoc]
  rw [step 28 4, step 12 16, step 8 4, step 4 4, step 0 4, List.drop_zero]

/-- C8 (peek).  On every path `SDCardManager_ReadData` leaves the metadata, the
initialised flag and every block of the card as they were, and issues no driver call other
than at most one read of the slot at `read_index`; a `false` return leaves the caller's
record untouched.  With `count = 0` it returns `false` and the state is unchanged.  On an
initialised manager with `count > 0`, a non-NULL record pointer and a block read answered
with status 0, it returns `true` and the record is the content of block
`SD_DATA_START_BLOCK + read_index mod SD_BUFFER_SIZE`, which is block
`SD_DATA_START_BLOCK + read_index` when `read_index < SD_BUFFER_SIZE`, byte for byte when
that block is 512 bytes.  Two consecutive calls that both return `true` deliver identical
records. -/
theorem ReadData_is_peek (s : ManagerState) (record : Option sd_data_record_t) :
    (SDCardManager_ReadData s record).1.g_metadata = s.g_metadata
      ∧ (SDCardManager_ReadData s record).1.sd_initialized = s.sd_initialized
      ∧ (SDCardManager_ReadData s record).1.card.blocks = s.card.blocks
      ∧ ((SDCardManager_ReadData s record).1.card.trace = s.card.trace
          ∨ (SDCardManager_ReadData s record).1.card.trace = s.card.trace ++
              [BusOp.read (SD_DATA_START_BLOCK + s.g_metadata.read_index % SD_BUFFER_SIZE)])
      ∧ ((SDCardManager_ReadData s record).2.1 = false →
          (SDCardManager_ReadData s record).2.2 = record)
      ∧ (s.sd_initialized = false ∨ s.g_metadata.count = 0 →
          SDCardManager_ReadData s record = (s, false, record))
      ∧ (s.sd_initialized = true → s.g_metadata.count > 0 → record ≠ none →
          s.card.nextRet = 0 →
          (SDCardManager_ReadData s record).2 = (true, some (record_of_bytes (s.card.blocks
              (SD_DATA_START_BLOCK + s.g_metadata.read_index % SD_BUFFER_SIZE))))
            ∧ (s.g_metadata.read_index < SD_BUFFER_SIZE →
                (SDCardManager_ReadData s record).2 = (true, some (record_of_bytes
                  (s.card.blocks (SD_DATA_START_BLOCK + s.g_metadata.read_index)))))
            ∧ (∀ r : sd_data_record_t, (SDCardManager_ReadData s record).2.2 = some r →
                (s.card.blocks (SD_DATA_START_BLOCK
                  + s.g_metadata.read_index % SD_BUFFER_SIZE)).length = 512 →
                (∀ x ∈ s.card.blocks (SD_DATA_START_BLOCK
                  + s.g_metadata.read_index % SD_BUFFER_SIZE), x < 256) →
                record_bytes r = s.card.blocks (SD_DATA_START_BLOCK
                  + s.g_metadata.read_index % SD_BUFFER_SIZE)))
      ∧ (∀ record2 : Option sd_data_record_t,
          (SDCardManager_ReadData s record).2.1 = true →
          (SDCardManager_ReadData (SDCardManager_ReadData s record).1 record2).2.1 = true →
          (SDCardManager_ReadData (SDCardManager_ReadData s record).1 record2).2.2
            = (SDCardManager_ReadData s record).2.2) := by
  have hframe : (SDCardManager_ReadData s record).1.g_metadata = s.g_metadata
      ∧ (SDCardManager_ReadData s record).1.sd_initialized = s.sd_initialized
      ∧ (SDCardManager_ReadData s record).1.card.blocks = s.card.blocks := by
    unfold SDCardManager_ReadData
    simp only []
    split
    · exact ⟨rfl, rfl, rfl⟩
    · split
      · exact ⟨rfl, rfl, rfl⟩
      · split <;> exact ⟨rfl, rfl, rfl⟩
  have hval : ∀ (s0 : ManagerState) (rec0 : Option sd_data_record_t),
      (SDCardManager_ReadData s0 rec0).2.1 = true →
      (SDCardManager_ReadData s0 rec0).2.2 = some (record_of_bytes (s0.card.blocks
        (SD_DATA_START_BLOCK + s0.g_metadata.read_index % SD_BUFFER_SIZE))) := by
    intro s0 rec0
    unfold SDCardManager_ReadData
    simp only []
    split
    · intro h; cases h
    · split
      · intro h; cases h
      · split
        · intro h; cases h
        · intro _; rfl
  refine ⟨hframe.1, hframe.2.1, hframe.2.2, ?_, ?_, ?_, ?_, ?_⟩
  · unfold SDCardManager_ReadData
    simp only []
    split
    · exact Or.inl rfl
    · split
      · exact Or.inl rfl
      · split <;> exact Or.inr rfl
  · unfold SDCardManager_ReadData
    simp only []
    split
    · intro _; rfl
    · split
      · intro _; rfl
      · split
        · intro _; rfl
        · intro h; cases h
  · intro h
    rcases h with h | h
    · unfold SDCardManager_ReadData
      rw [if_pos (Or.inl h)]
    · exact ReadData_empty s record h
  · intro hinit hcount hrec hret
    have hmain : (SDCardManager_ReadData s record).2 = (true, some (record_of_bytes
        (s.card.blocks (SD_DATA_START_BLOCK + s.g_metadata.read_index % SD_BUFFER_SIZE)))) := by
      unfold SDCardManager_ReadData
      simp only []
      rw [if_neg (by simp [hinit, hrec]), if_neg (by omega)]
      simp only [BlockDevice.SD_ReadBlock, hret, ne_eq, not_true_eq_false, if_false]
      rfl
    refine ⟨hmain, ?_, ?_⟩
    · intro hlt
      rw [hmain, Nat.mod_eq_of_lt hlt]
    · intro r hr hlen hbytes
      rw [hmain] at hr
      simp only [Option.some.injEq] at hr
      rw [← hr]
      exact record_bytes_record_of_bytes _ hlen hbytes
  · intro record2 h1 h2
    rw [hval _ _ h2, hval _ _ h1, hframe.1, hframe.2.2]

/-- Witness for C8: peeking at a buffer that holds one record. -/
theorem ReadData_is_peek_witness :
    ((one_record_state []).sd_initialized = true ∧ (one_record_state []).g_metadata.count > 0
        ∧ (some zero_record) ≠ none ∧ (one_record_state []).card.nextRet = 0)
      ∧ (SDCardManager_ReadData (one_record_state []) (some zero_record)).2
          = (true, some (record_of_bytes ((one_record_state []).card.blocks
              (SD_DATA_START_BLOCK
                + (one_record_state []).g_metadata.read_index % SD_BUFFER_SIZE)))) :=
  ⟨⟨rfl, by decide, by decide, rfl⟩,
    ((ReadData_is_peek (one_record_state []) (some zero_record)).2.2.2.2.2.2.1
      rfl (by decide) (by decide) rfl).1⟩

/-! ## Open, clear, not-initialised, layout -/

theorem nextRet_eq_retAt (c c2 : SDCard) (k : Nat) (h : c2.replies = c.replies.drop k) :
    c2.nextRet = c.retAt k := by
  unfold SDCard.nextRet SDCard.retAt
  rw [h]

theorem drop_one_eq_tail (l : List Reply) : l.drop 1 = l.tail := by
  cases l <;> rfl

theorem drop_two_eq_tail_tail (l : List Reply) : l.drop 2 = l.tail.tail := by
  cases l with
  | nil => rfl
  | cons a t => cases t <;> rfl

/-- C11 (open).  When `SD_Init` fails, `SDCardManager_Init` returns `false`, makes no other
driver call and leaves the manager not initialised.  When `SD_Init` succeeds and the read
of block 1 succeeds, it returns `true`, initialised, with the metadata decoded from block 1
and nothing written.  When the read of block 1 fails, the four fields are zero and are
written to block 1; it returns `true`, initialised, exactly when that write succeeds, and
`false`, not initialised, when it fails. -/
theorem Init_open (s : ManagerState) :
    (s.card.retAt 0 ≠ 0 →
        (SDCardManager_Init s).2 = false
          ∧ (SDCardManager_Init s).1.sd_initialized = false
          ∧ (SDCardManager_Init s).1.card.trace = s.card.trace ++ [BusOp.init]
          ∧ (SDCardManager_Init s).1.card.blocks = s.card.blocks)
      ∧ (s.card.retAt 0 = 0 → s.card.retAt 1 = 0 →
        (SDCardManager_Init s).2 = true
          ∧ (SDCardManager_Init s).1.sd_initialized = true
          ∧ (SDCardManager_Init s).1.g_metadata
              = metadata_of_bytes (s.card.blocks SD_DATA_BLOCK)
          ∧ (SDCardManager_Init s).1.card.trace
              = s.card.trace ++ [BusOp.init, BusOp.read SD_DATA_BLOCK]
          ∧ (SDCardManager_Init s).1.card.blocks = s.card.blocks)
      ∧ (s.card.retAt 0 = 0 → s.card.retAt 1 ≠ 0 →
        (SDCardManager_Init s).1.g_metadata = zero_metadata
          ∧ (SDCardManager_Init s).1.card.trace
              = s.card.trace ++ [BusOp.init, BusOp.read SD_DATA_BLOCK,
                  BusOp.write SD_DATA_BLOCK (metadata_bytes zero_metadata)]
          ∧ (s.card.retAt 2 = 0 →
              (SDCardManager_Init s).2 = true
                ∧ (SDCardManager_Init s).1.sd_initialized = true
                ∧ (SDCardManager_Init s).1.card.blocks SD_DATA_BLOCK
                    = metadata_bytes zero_metadata)
          ∧ (s.card.retAt 2 ≠ 0 →
              (SDCardManager_Init s).2 = false
                ∧ (SDCardManager_Init s).1.sd_initialized = false)) := by
  have h0 : s.card.nextRet = s.card.retAt 0 := nextRet_eq_retAt s.card s.card 0 rfl
  have h1 : ∀ (b : Nat → Block) (t : List BusOp),
      (SDCard.mk b s.card.replies.tail t).nextRet = s.card.retAt 1 :=
    fun b t => nextRet_eq_retAt s.card _ 1 (drop_one_eq_tail _).symm
  have h2 : ∀ (b : Nat → Block) (t : List BusOp),
      (SDCard.mk b s.card.replies.tail.tail t).nextRet = s.card.retAt 2 :=
    fun b t => nextRet_eq_retAt s.card _ 2 (drop_two_eq_tail_tail _).symm
  refine ⟨?_, ?_, ?_⟩
  · intro hf
    simp [SDCardManager_Init, BlockDevice.SD_Init, h0, hf]
  · intro hi hr
    simp [SDCardManager_Init, BlockDevice.SD_Init, _read_metadata, BlockDevice.SD_ReadBlock,
      h0, h1, hi, hr]
  · intro hi hr
    refine ⟨?_, ?_, ?_, ?_⟩
    · by_cases hw : s.card.retAt 2 = 0 <;>
        simp [SDCardManager_Init, BlockDevice.SD_Init, _read_metadata,
          BlockDevice.SD_ReadBlock, _write_metadata, BlockDevice.SD_WriteBlock, h0, h1, h2, hi,
          hr, hw]
    · by_cases hw : s.card.retAt 2 = 0 <;>
        simp [SDCardManager_Init, BlockDevice.SD_Init, _read_metadata,
          BlockDevice.SD_ReadBlock, _write_metadata, BlockDevice.SD_WriteBlock, h0, h1, h2, hi,
          hr, hw]
    · intro hw
      simp [SDCardManager_Init, BlockDevice.SD_Init, _read_metadata,
        BlockDevice.SD_ReadBlock, _write_metadata, BlockDevice.SD_WriteBlock, h0, h1, h2, hi,
        hr, hw, SDCard.store]
    · intro hw
      simp [SDCardManager_Init, BlockDevice.SD_Init, _read_metadata,
        BlockDevice.SD_ReadBlock, _write_metadata, BlockDevice.SD_WriteBlock, h0, h1, h2, hi,
        hr, hw]

/-- Witness for C11: power-up on a blank card whose metadata read fails with status 1. -/
theorem Init_open_witness :
    ((power_on { blank_card with replies := [Reply.mk 0 none, Reply.mk 1 none] }).card.retAt 0
          = 0
        ∧ (power_on { blank_card with replies := [Reply.mk 0 none, Reply.mk 1 none] }).card.retAt
            1 ≠ 0
        ∧ (power_on { blank_card with replies := [Reply.mk 0 none, Reply.mk 1 none] }).card.retAt
            2 = 0)
      ∧ (SDCardManager_Init
          (power_on { blank_card with replies := [Reply.mk 0 none, Reply.mk 1 none] })).2 = true
      ∧ (SDCardManager_Init
          (power_on { blank_card with
            replies := [Reply.mk 0 none, Reply.mk 1 none] })).1.g_metadata = zero_metadata :=
  ⟨⟨by decide, by decide, by decide⟩,
    (((Init_open (power_on { blank_card with
        replies := [Reply.mk 0 none, Reply.mk 1 none] })).2.2
      (by decide) (by decide)).2.2.1 (by decide)).1,
    ((Init_open (power_on { blank_card with
        replies := [Reply.mk 0 none, Reply.mk 1 none] })).2.2
      (by decide) (by decide)).1⟩

/-- C12 (clear).  On an initialised manager `SDCardManager_ClearBuffer` sets the four
metadata fields to 0, makes exactly one driver call, the write of the zeroed metadata to
block 1, leaves every other block as it was, and returns `true` exactly when that write
returned 0 (block 1 then holds the zeroed metadata); afterwards
`SDCardManager_GetBufferedCount` is 0 and `SDCardManager_ReadData` returns `false`. -/
theorem ClearBuffer_clears (s : ManagerState) (hinit : s.sd_initialized = true) :
    (SDCardManager_ClearBuffer s).1.g_metadata = zero_metadata
      ∧ (SDCardManager_ClearBuffer s).1.g_metadata.write_index = 0
      ∧ (SDCardManager_ClearBuffer s).1.g_metadata.read_index = 0
      ∧ (SDCardManager_ClearBuffer s).1.g_metadata.count = 0
      ∧ (SDCardManager_ClearBuffer s).1.g_metadata.sequence_num = 0
      ∧ (SDCardManager_ClearBuffer s).1.card.trace
          = s.card.trace ++ [BusOp.write SD_DATA_BLOCK (metadata_bytes zero_metadata)]
      ∧ (∀ a : Nat, a ≠ SD_DATA_BLOCK →
          (SDCardManager_ClearBuffer s).1.card.blocks a = s.card.blocks a)
      ∧ ((SDCardManager_ClearBuffer s).2 = true ↔ s.card.retAt 0 = 0)
      ∧ (s.card.retAt 0 = 0 →
          (SDCardManager_ClearBuffer s).1.card.blocks SD_DATA_BLOCK
            = metadata_bytes zero_metadata)
      ∧ (SDCardManager_ClearBuffer s).1.sd_initialized = true
      ∧ SDCardManager_GetBufferedCount (SDCardManager_ClearBuffer s).1 = 0
      ∧ (∀ record : Option sd_data_record_t,
          (SDCardManager_ReadData (SDCardManager_ClearBuffer s).1 record).2.1 = false) := by
  have h0 : s.card.nextRet = s.card.retAt 0 := nextRet_eq_retAt s.card s.card 0 rfl
  have hm : (SDCardManager_ClearBuffer s).1.g_metadata = zero_metadata := by
    unfold SDCardManager_ClearBuffer
    rw [if_neg (by simp [hinit]), write_metadata_g_metadata]
  have hi : (SDCardManager_ClearBuffer s).1.sd_initialized = true := by
    unfold SDCardManager_ClearBuffer _write_metadata
    rw [if_neg (by simp [hinit])]
    simp only []
    split <;> exact hinit
  refine ⟨hm, by rw [hm]; rfl, by rw [hm]; rfl, by rw [hm]; rfl, by rw [hm]; rfl,
    ?_, ?_, ?_, ?_, hi, ?_, ?_⟩
  · unfold SDCardManager_ClearBuffer _write_metadata
    rw [if_neg (by simp [hinit])]
    simp only []
    split <;> rfl
  · intro a ha
    by_cases hw : s.card.retAt 0 = 0
    · simp [SDCardManager_ClearBuffer, _write_metadata, BlockDevice.SD_WriteBlock, hinit, h0,
        hw, SDCard.store, ha]
    · cases hres : s.card.nextResidue <;>
        simp [SDCardManager_ClearBuffer, _write_metadata, BlockDevice.SD_WriteBlock, hinit, h0,
          hw, SDCard.store, ha, hres]
  · by_cases hw : s.card.retAt 0 = 0 <;>
      simp [SDCardManager_ClearBuffer, _write_metadata, BlockDevice.SD_WriteBlock, hinit, h0,
        hw]
  · intro hw
    simp [SDCardManager_ClearBuffer, _write_metadata, BlockDevice.SD_WriteBlock, hinit, h0,
      hw, SDCard.store]
  · simp only [SDCardManager_GetBufferedCount, hi, hm]
    rfl
  · intro record
    rw [ReadData_empty _ _ (by rw [hm]; rfl)]

/-- Witness for C12: clearing a full buffer on a card that accepts the write. -/
theorem ClearBuffer_clears_witness :
    (full_state []).sd_initialized = true
      ∧ (SDCardManager_ClearBuffer (full_state [])).1.g_metadata = zero_metadata
      ∧ SDCardManager_GetBufferedCount (SDCardManager_ClearBuffer (full_state [])).1 = 0 :=
  ⟨rfl, (ClearBuffer_clears (full_state []) rfl).1,
    (ClearBuffer_clears (full_state []) rfl).2.2.2.2.2.2.2.2.2.2.1⟩

/-- C13 (not-initialised degradation).  The manager is not initialised at power-up and
after every `SDCardManager_Init` that returns `false`.  While it is not initialised,
`SDCardManager_WriteData`, `SDCardManager_ReadData`, `SDCardManager_RemoveRecord` and
`SDCardManager_ClearBuffer` return `false` and `SDCardManager_GetBufferedCount` returns 0,
and each leaves the whole state as it was: no driver call, no block and no metadata field
changes. -/
theorem not_initialised_degradation :
    (∀ card : SDCard, (power_on card).sd_initialized = false)
      ∧ (∀ s : ManagerState, (SDCardManager_Init s).2 = false →
          (SDCardManager_Init s).1.sd_initialized = false)
      ∧ ∀ s : ManagerState, s.sd_initialized = false →
          (∀ (ts t h : Nat) (md : List Nat), SDCardManager_WriteData s ts t h md = (s, false))
            ∧ (∀ record : Option sd_data_record_t,
                SDCardManager_ReadData s record = (s, false, record))
            ∧ SDCardManager_RemoveRecord s = (s, false)
            ∧ SDCardManager_ClearBuffer s = (s, false)
            ∧ SDCardManager_GetBufferedCount s = 0 := by
  refine ⟨fun _ => rfl, ?_, ?_⟩
  · intro s
    unfold SDCardManager_Init
    simp only []
    split
    · intro _; rfl
    · split
      · split
        · intro _; rfl
        · intro h; cases h
      · intro h; cases h
  · intro s hs
    refine ⟨?_, ?_, ?_, ?_, ?_⟩
    · intro ts t h md
      simp [SDCardManager_WriteData, WriteData_record, hs]
    · intro record
      simp [SDCardManager_ReadData, hs]
    · simp [SDCardManager_RemoveRecord, hs]
    · simp [SDCardManager_ClearBuffer, hs]
    · simp [SDCardManager_GetBufferedCount, hs]

/-- Witness for C13: the manager at power-up on an erased card. -/
theorem not_initialised_degradation_witness :
    boot_state_erased.sd_initialized = false
      ∧ SDCardManager_WriteData boot_state_erased 1000 1103888384 1114636288 mode_SINGLE
          = (boot_state_erased, false)
      ∧ SDCardManager_RemoveRecord boot_state_erased = (boot_state_erased, false)
      ∧ SDCardManager_GetBufferedCount boot_state_erased = 0 :=
  ⟨rfl,
    (not_initialised_degradation.2.2 boot_state_erased rfl).1 1000 1103888384 1114636288
      mode_SINGLE,
    (not_initialised_degradation.2.2 boot_state_erased rfl).2.2.1,
    (not_initialised_degradation.2.2 boot_state_erased rfl).2.2.2.2⟩

theorem metadata_bytes_length (m : sd_buffer_metadata_t) : (metadata_bytes m).length = 512 := by
  simp only [metadata_bytes, List.length_append, le32_length, List.length_replicate]

theorem WriteData_record_trace (s : ManagerState) (ts t h : Nat) (md : List Nat)
    (hinit : s.sd_initialized = true) :
    (WriteData_record s ts t h md).1.card.trace = s.card.trace ++
      [BusOp.write (_get_data_block_addr s.g_metadata.write_index)
        (record_bytes (make_record ts t h md s.g_metadata.sequence_num))] := by
  unfold WriteData_record
  rw [if_neg (by simp [hinit])]
  simp only [make_room_write_index, make_room_sequence_num]
  split <;> rfl

/-- C14 (on-media layout).  The metadata buffer is 512 bytes: the four fields
`write_index`, `read_index`, `count`, `sequence_num` as little-endian 32-bit words in that
order, then 496 zero bytes.  `_write_metadata` writes that buffer to block 1 and
`_read_metadata` reads block 1, whatever the driver answers; after a successful
`_write_metadata`, a successful `_read_metadata` restores the four fields even if the
in-memory copy was altered in between.  `_get_data_block_addr i` is
`2 + i mod SD_BUFFER_SIZE`, lies in `[2, 2 + SD_BUFFER_SIZE - 1]`, is never the metadata
block, and is injective on indices below `SD_BUFFER_SIZE`; `SDCardManager_WriteData`
writes its record to the block of `write_index`. -/
theorem on_media_layout :
    (∀ m : sd_buffer_metadata_t,
        (metadata_bytes m).length = 512
          ∧ (metadata_bytes m).take 16
              = le32 m.write_index ++ le32 m.read_index ++ le32 m.count ++ le32 m.sequence_num
          ∧ (metadata_bytes m).drop 16 = List.replicate 496 0)
      ∧ (∀ x : Nat, x < U32 → rd32 (le32 x) 0 = x ∧ ∀ b ∈ le32 x, b < 256)
      ∧ (∀ s : ManagerState,
          (_write_metadata s).1.card.trace
              = s.card.trace ++ [BusOp.write SD_DATA_BLOCK (metadata_bytes s.g_metadata)]
            ∧ (_read_metadata s).1.card.trace = s.card.trace ++ [BusOp.read SD_DATA_BLOCK])
      ∧ (∀ (s : ManagerState) (m2 : sd_buffer_metadata_t), s.g_metadata.wellTyped →
          (_write_metadata s).2 = true →
          (_read_metadata { (_write_metadata s).1 with g_metadata := m2 }).2 = true →
          (_read_metadata { (_write_metadata s).1 with g_metadata := m2 }).1.g_metadata
            = s.g_metadata)
      ∧ (∀ i : Nat,
          _get_data_block_addr i = 2 + i % SD_BUFFER_SIZE
            ∧ 2 ≤ _get_data_block_addr i
            ∧ _get_data_block_addr i ≤ 2 + SD_BUFFER_SIZE - 1
            ∧ _get_data_block_addr i ≠ SD_DATA_BLOCK)
      ∧ (∀ i j : Nat, i < SD_BUFFER_SIZE → j < SD_BUFFER_SIZE →
          _get_data_block_addr i = _get_data_block_addr j → i = j)
      ∧ (∀ (s : ManagerState) (ts t h : Nat) (md : List Nat), s.sd_initialized = true →
          (WriteData_record s ts t h md).1.card.trace = s.card.trace ++
            [BusOp.write (_get_data_block_addr s.g_metadata.write_index)
              (record_bytes (make_record ts t h md s.g_metadata.sequence_num))]) := by
  refine ⟨?_, ?_, ?_, ?_, ?_, ?_, ?_⟩
  · intro m
    refine ⟨metadata_bytes_length m, ?_, ?_⟩
    · unfold metadata_bytes
      rw [List.take_left' (by simp only [List.length_append, le32_length])]
    · unfold metadata_bytes
      rw [List.drop_left' (by simp only [List.length_append, le32_length])]
  · intro x hx
    refine ⟨?_, ?_⟩
    · have := rd32_le32_append x [] hx
      rwa [List.append_nil] at this
    · intro b hb
      simp only [le32, List.mem_cons, List.mem_singleton, List.not_mem_nil, or_false] at hb
      rcases hb with h | h | h | h <;> rw [h] <;> exact Nat.mod_lt _ (by decide)
  · intro s
    refine ⟨?_, ?_⟩
    · unfold _write_metadata
      simp only []
      split <;> rfl
    · unfold _read_metadata
      simp only []
      split <;> rfl
  · intro s m2 hty hw hr
    have hret : s.card.nextRet = 0 := by
      by_contra hne
      simp [_write_metadata, BlockDevice.SD_WriteBlock, hne] at hw
    have hblk : (_write_metadata s).1.card.blocks SD_DATA_BLOCK = metadata_bytes s.g_metadata := by
      simp [_write_metadata, BlockDevice.SD_WriteBlock, hret, SDCard.store]
    unfold _read_metadata at hr ⊢
    simp only [] at hr ⊢
    split
    · rename_i hne
      rw [if_pos hne] at hr
      cases hr
    · show metadata_of_bytes ((_write_metadata s).1.card.blocks SD_DATA_BLOCK) = _
      rw [hblk, metadata_of_bytes_metadata_bytes _ hty]
  · intro i
    have hlt : i % SD_BUFFER_SIZE < SD_BUFFER_SIZE := Nat.mod_lt _ (by decide)
    refine ⟨rfl, ?_, ?_, ?_⟩ <;>
      simp only [_get_data_block_addr, SD_DATA_START_BLOCK, SD_DATA_BLOCK] <;> omega
  · intro i j hi hj h
    simp only [_get_data_block_addr] at h
    rw [Nat.mod_eq_of_lt hi, Nat.mod_eq_of_lt hj] at h
    omega
  · intro s ts t h md hinit
    exact WriteData_record_trace s ts t h md hinit

/-- Witness for C14: saving and reloading the metadata of a buffer that holds one record. -/
theorem on_media_layout_witness :
    ((one_record_state []).g_metadata.wellTyped
        ∧ (_write_metadata (one_record_state [])).2 = true
        ∧ (_read_metadata { (_write_metadata (one_record_state [])).1 with
              g_metadata := zero_metadata }).2 = true)
      ∧ (_read_metadata { (_write_metadata (one_record_state [])).1 with
            g_metadata := zero_metadata }).1.g_metadata
          = (one_record_state []).g_metadata :=
  ⟨⟨by decide, by decide, by decide⟩,
    on_media_layout.2.2.2.1 (one_record_state []) zero_metadata (by decide) (by decide)
      (by decide)⟩

/-! ## JSON formatting -/

theorem digitChar_toNat : ∀ d : Nat, d < 10 → (Nat.digitChar d).toNat = 48 + d := by
  decide

theorem toDigitsCore_value (fuel : Nat) : ∀ (n : Nat) (ds : List Char), n < fuel →
    List.foldl (fun acc c => 10 * acc + (c - 48)) 0
        ((Nat.toDigitsCore 10 fuel n ds).map (fun c => c.toNat))
      = List.foldl (fun acc c => 10 * acc + (c - 48)) n (ds.map (fun c => c.toNat)) := by
  induction fuel with
  | zero => intro n ds h; exact absurd h (Nat.not_lt_zero n)
  | succ fuel ih =>
    intro n ds h
    have hd : (Nat.digitChar (n % 10)).toNat - 48 = n % 10 := by
      rw [digitChar_toNat _ (Nat.mod_lt _ (by decide))]; omega
    unfold Nat.toDigitsCore
    simp only []
    split
    · rename_i h0
      simp only [List.map_cons, List.foldl_cons, hd]
      congr 1
      omega
    · rename_i h0
      rw [ih (n / 10) _ (by omega)]
      simp only [List.map_cons, List.foldl_cons, hd]
      congr 1
      omega

/-- Reading back the digits written for `%lu` gives the number. -/
theorem decimal_value_fmt_lu (n : Nat) : decimal_value (fmt_lu n) = n := by
  unfold decimal_value fmt_lu Nat.toDigits
  rw [toDigitsCore_value (n + 1) n [] (by omega)]
  rfl

theorem json_text_length_pos (mode : List Nat) (lib : CLib) (ts t h : Nat) :
    0 < (json_text lib mode ts t h).length := by
  simp only [json_text, List.length_append]
  have : (ascii "\x7b\"mode\":\"").length = 9 := by decide
  omega

theorem sensor_json_format_fits (lib : CLib) (rtc : RtcReading) (b : List Nat)
    (mode : List Nat) (t h ts : Nat)
    (hfit : (json_text lib mode (if ts = 0 then get_unix_timestamp rtc % U32 else ts)
      t h).length < 128) :
    sensor_json_format lib rtc (some b) 128 mode t h ts
      = (((json_text lib mode (if ts = 0 then get_unix_timestamp rtc % U32 else ts)
            t h).length : Int),
          some (json_text lib mode (if ts = 0 then get_unix_timestamp rtc % U32 else ts) t h))
      := by
  unfold sensor_json_format
  rw [if_neg (by simp)]
  simp only []
  rw [if_neg (by omega), List.take_of_length_le (by omega)]

theorem sensor_json_format_overflow (lib : CLib) (rtc : RtcReading) (b : List Nat)
    (mode : List Nat) (t h ts : Nat)
    (hbig : 128 ≤ (json_text lib mode (if ts = 0 then get_unix_timestamp rtc % U32 else ts)
      t h).length) :
    (sensor_json_format lib rtc (some b) 128 mode t h ts).1 = -1 := by
  unfold sensor_json_format
  rw [if_neg (by simp)]
  simp only []
  rw [if_pos (by omega)]

theorem sensor_json_output_send_spec (lib : CLib) (rtc : RtcReading) (tx : List (List Nat))
    (mode : List Nat) (t h : Nat) :
    ((json_text lib mode (get_unix_timestamp rtc % U32) t h).length < 128 →
        sensor_json_output_send lib rtc tx mode t h
          = tx ++ [json_text lib mode (get_unix_timestamp rtc % U32) t h])
      ∧ (128 ≤ (json_text lib mode (get_unix_timestamp rtc % U32) t h).length →
        sensor_json_output_send lib rtc tx mode t h = tx ++ [ERROR_JSON]) := by
  refine ⟨?_, ?_⟩
  · intro hfit
    have hpos := json_text_length_pos mode lib (get_unix_timestamp rtc % U32) t h
    unfold sensor_json_output_send
    simp only [JSON_BUFFER_SIZE]
    rw [sensor_json_format_fits lib rtc [] mode t h 0 (by simpa using hfit)]
    simp only [if_true, Option.getD_some]
    rw [if_neg (by omega)]
    unfold PRINT_CLI
    rw [if_pos (by omega)]
  · intro hbig
    unfold sensor_json_output_send
    simp only [JSON_BUFFER_SIZE]
    rw [if_pos (by rw [sensor_json_format_overflow lib rtc [] mode t h 0 (by simpa using hbig)];
                   decide)]
    unfold PRINT_CLI
    rw [if_pos (by decide)]

/-! ## Data manager -/

theorem DataManager_call_invariant (lib : CLib) (st : data_manager_state_t × List (List Nat))
    (c : DataManagerCall) (h : data_manager_invariant st.1) :
    data_manager_invariant (DataManager_call lib st c).1 := by
  cases c with
  | Init => intro hr; cases hr
  | UpdateSingle t hu => intro _; exact ⟨rfl, Or.inl rfl⟩
  | UpdatePeriodic t hu => intro _; exact ⟨rfl, Or.inr rfl⟩
  | Print rtc =>
    show data_manager_invariant (DataManager_Print lib rtc st.1 st.2).1
    unfold DataManager_Print
    split
    · exact h
    · split
      · exact h
      · split
        · intro hr; cases hr
        · intro hr; cases hr
        · exact h
  | ClearDataReady => intro hr; cases hr

theorem DataManager_run_invariant (lib : CLib) (calls : List DataManagerCall) :
    ∀ st : data_manager_state_t × List (List Nat), data_manager_invariant st.1 →
      data_manager_invariant (DataManager_run lib st calls).1 := by
  induction calls with
  | nil => intro st h; exact h
  | cons c cs ih =>
    intro st h
    exact ih _ (DataManager_call_invariant lib st c h)

theorem DataManager_Print_of_invariant (lib : CLib) (rtc : RtcReading)
    (g : data_manager_state_t) (tx : List (List Nat)) (hinv : data_manager_invariant g) :
    (g.data_ready = true →
        DataManager_Print lib rtc g tx
          = ({ g with data_ready := false },
              sensor_json_output_send lib rtc tx (print_mode_str g.mode) g.sht3x.temperature
                g.sht3x.humidity,
              true))
      ∧ (g.data_ready = false → DataManager_Print lib rtc g tx = (g, tx, false)) := by
  refine ⟨?_, ?_⟩
  · intro hr
    obtain ⟨hv, hm⟩ := hinv hr
    unfold DataManager_Print
    rw [if_neg (by simp [hr]), if_neg (by simp [hv])]
    rcases hm with hm | hm <;> rw [hm] <;> rfl
  · intro hr
    unfold DataManager_Print
    rw [if_pos hr]

/-- C17 (live emit consumes the pending event).  In every data manager state reached from
`DataManager_Init` by any sequence of `DataManager_Init`, `DataManager_UpdateSingle`,
`DataManager_UpdatePeriodic`, `DataManager_Print` and `DataManager_ClearDataReady`,
`data_ready` implies `sht3x.valid` and a mode of SINGLE or PERIODIC.  In such a state, when
`data_ready` is set `DataManager_Print` hands the pending temperature and humidity with
the mode string of the pending mode to `sensor_json_output_send`, clears `data_ready` and
returns `true`; that call sends one line, the JSON object of the measurement when it fits
the 128-byte buffer (the overflow error line otherwise).  When `data_ready` is clear
`DataManager_Print` changes nothing, sends nothing and returns `false`. -/
theorem live_emit_consumes_pending (lib : CLib) (g0 : data_manager_state_t)
    (tx0 : List (List Nat)) (calls : List DataManagerCall) :
    data_manager_invariant (DataManager_run lib (DataManager_Init g0, tx0) calls).1
      ∧ ∀ rtc : RtcReading,
          ((DataManager_run lib (DataManager_Init g0, tx0) calls).1.data_ready = true →
              DataManager_Print lib rtc
                  (DataManager_run lib (DataManager_Init g0, tx0) calls).1
                  (DataManager_run lib (DataManager_Init g0, tx0) calls).2
                = ({ (DataManager_run lib (DataManager_Init g0, tx0) calls).1 with
                      data_ready := false },
                    sensor_json_output_send lib rtc
                      (DataManager_run lib (DataManager_Init g0, tx0) calls).2
                      (print_mode_str (DataManager_run lib (DataManager_Init g0, tx0) calls).1.mode)
                      (DataManager_run lib (DataManager_Init g0, tx0)
                        calls).1.sht3x.temperature
                      (DataManager_run lib (DataManager_Init g0, tx0) calls).1.sht3x.humidity,
                    true)
                ∧ ((DataManager_run lib (DataManager_Init g0, tx0) calls).1.mode
                      = data_manager_mode_t.DATA_MANAGER_MODE_SINGLE →
                    print_mode_str (DataManager_run lib (DataManager_Init g0, tx0) calls).1.mode
                      = ascii "SINGLE")
                ∧ ((DataManager_run lib (DataManager_Init g0, tx0) calls).1.mode
                      = data_manager_mode_t.DATA_MANAGER_MODE_PERIODIC →
                    print_mode_str (DataManager_run lib (DataManager_Init g0, tx0) calls).1.mode
                      = ascii "PERIODIC"))
            ∧ ((DataManager_run lib (DataManager_Init g0, tx0) calls).1.data_ready = false →
              DataManager_Print lib rtc
                  (DataManager_run lib (DataManager_Init g0, tx0) calls).1
                  (DataManager_run lib (DataManager_Init g0, tx0) calls).2
                = ((DataManager_run lib (DataManager_Init g0, tx0) calls).1,
                    (DataManager_run lib (DataManager_Init g0, tx0) calls).2, false))
            ∧ (∀ (tx : List (List Nat)) (mode : List Nat) (t h : Nat),
                ((json_text lib mode (get_unix_timestamp rtc % U32) t h).length < 128 →
                    sensor_json_output_send lib rtc tx mode t h
                      = tx ++ [json_text lib mode (get_unix_timestamp rtc % U32) t h])
                  ∧ (128 ≤ (json_text lib mode (get_unix_timestamp rtc % U32) t h).length →
                    sensor_json_output_send lib rtc tx mode t h = tx ++ [ERROR_JSON])) := by
  have hinv : data_manager_invariant (DataManager_run lib (DataManager_Init g0, tx0) calls).1 :=
    DataManager_run_invariant lib calls _ (by intro hr; cases hr)
  refine ⟨hinv, ?_⟩
  intro rtc
  obtain ⟨p1, p2⟩ := DataManager_Print_of_invariant lib rtc _
    (DataManager_run lib (DataManager_Init g0, tx0) calls).2 hinv
  refine ⟨?_, p2, ?_⟩
  · intro hr
    refine ⟨p1 hr, ?_, ?_⟩
    · intro hm; rw [hm]; decide
    · intro hm; rw [hm]; decide
  · intro tx mode t h
    exact sensor_json_output_send_spec lib rtc tx mode t h

/-- Witness for C17: a SINGLE measurement of 25.50 C and 60.00 % is pending. -/
theorem live_emit_consumes_pending_witness :
    (DataManager_run reference_clib
          (DataManager_Init (firmware_start fresh_state).g_data_manager_state, [])
          [DataManagerCall.UpdateSingle 1103888384 1114636288]).1.data_ready = true
      ∧ (DataManager_Print reference_clib (some 1000)
          (DataManager_run reference_clib
            (DataManager_Init (firmware_start fresh_state).g_data_manager_state, [])
            [DataManagerCall.UpdateSingle 1103888384 1114636288]).1
          (DataManager_run reference_clib
            (DataManager_Init (firmware_start fresh_state).g_data_manager_state, [])
            [DataManagerCall.UpdateSingle 1103888384 1114636288]).2).2.2 = true :=
  ⟨rfl, by
    rw [((live_emit_consumes_pending reference_clib
      (firmware_start fresh_state).g_data_manager_state []
      [DataManagerCall.UpdateSingle 1103888384 1114636288]).2 (some 1000)).1 rfl |>.1]⟩

/-- C18, as stated, fails for a stored timestamp of 0.  A SINGLE measurement taken while
disconnected, 500 ms after start with the RTC not answering, is buffered with timestamp
`500 / 1000 = 0`; when the gateway connects and the RTC reads 1700000000, the drain sends
that record's line with `"timestamp":1700000000`. -/
theorem drained_zero_timestamp_replaced :
    (SDCardManager_ReadData
        (main_loop_iteration reference_clib (firmware_start fresh_state)
          single_without_rtc).sd (some zero_record)).2.2.map (fun r => r.timestamp) = some 0
      ∧ (main_loop_iteration reference_clib (firmware_start fresh_state)
          single_without_rtc).uart_tx = []
      ∧ (main_loop_iteration reference_clib
          (main_loop_iteration reference_clib (firmware_start fresh_state)
            single_without_rtc) connect_with_rtc).uart_tx
          = [ascii ("\x7b\"mode\":\"SINGLE\",\"timestamp\":1700000000,"
              ++ "\"temperature\":25.50,\"humidity\":60.00\x7d\r\n")]
      ∧ SDCardManager_GetBufferedCount (main_loop_iteration reference_clib
          (main_loop_iteration reference_clib (firmware_start fresh_state)
            single_without_rtc) connect_with_rtc).sd = 0 := by
  refine ⟨by decide, by decide, by decide, by decide⟩

/-- C18, amended (drained records carry their own timestamp).  For every record whose
stored timestamp is not 0, the call of `sensor_json_format` made by the drain does not
depend on the RTC reading, and when the text fits the 128-byte buffer it returns the
object whose timestamp field is the decimal form of the stored timestamp.  For a stored
timestamp of 0 the timestamp field is the RTC time (0 when the RTC read fails). -/
theorem drained_record_timestamp (lib : CLib) (rtc : RtcReading) (r : sd_data_record_t)
    (buf : List Nat) :
    (r.timestamp ≠ 0 →
        (∀ rtc2 : RtcReading,
          sensor_json_format lib rtc (some buf) 128 (record_mode_cstr r) r.temperature
              r.humidity r.timestamp
            = sensor_json_format lib rtc2 (some buf) 128 (record_mode_cstr r) r.temperature
              r.humidity r.timestamp)
          ∧ ((json_text lib (record_mode_cstr r) r.timestamp r.temperature
                r.humidity).length < 128 →
              (sensor_json_format lib rtc (some buf) 128 (record_mode_cstr r) r.temperature
                  r.humidity r.timestamp).2
                = some (ascii "\x7b\"mode\":\"" ++ record_mode_cstr r
                    ++ ascii "\",\"timestamp\":" ++ fmt_lu r.timestamp
                    ++ ascii ",\"temperature\":" ++ lib.fmt_f2 r.temperature
                    ++ ascii ",\"humidity\":" ++ lib.fmt_f2 r.humidity ++ ascii "\x7d\r\n")
                ∧ (sensor_json_format lib rtc (some buf) 128 (record_mode_cstr r)
                    r.temperature r.humidity r.timestamp).1 > 0)
          ∧ decimal_value (fmt_lu r.timestamp) = r.timestamp)
      ∧ (r.timestamp = 0 →
          (json_text lib (record_mode_cstr r) (get_unix_timestamp rtc % U32) r.temperature
              r.humidity).length < 128 →
          (sensor_json_format lib rtc (some buf) 128 (record_mode_cstr r) r.temperature
              r.humidity r.timestamp).2
            = some (ascii "\x7b\"mode\":\"" ++ record_mode_cstr r
                ++ ascii "\",\"timestamp\":" ++ fmt_lu (get_unix_timestamp rtc % U32)
                ++ ascii ",\"temperature\":" ++ lib.fmt_f2 r.temperature
                ++ ascii ",\"humidity\":" ++ lib.fmt_f2 r.humidity ++ ascii "\x7d\r\n")) := by
  refine ⟨?_, ?_⟩
  · intro hts
    refine ⟨?_, ?_, decimal_value_fmt_lu _⟩
    · intro rtc2
      simp only [sensor_json_format, hts, if_false]
    · intro hfit
      rw [sensor_json_format_fits lib rtc buf _ _ _ _ (by rw [if_neg hts]; exact hfit)]
      rw [if_neg hts]
      refine ⟨rfl, ?_⟩
      have := json_text_length_pos (record_mode_cstr r) lib r.timestamp r.temperature
        r.humidity
      show ((json_text lib (record_mode_cstr r) r.timestamp r.temperature
        r.humidity).length : Int) > 0
      omega
  · intro hts hfit
    rw [sensor_json_format_fits lib rtc buf _ _ _ _ (by rw [if_pos hts]; exact hfit)]
    rw [if_pos hts]
    rfl

/-- Witness for C18 (amended): the record of the end-to-end example with timestamp 1005. -/
theorem drained_record_timestamp_witness :
    (make_record 1005 1103941837 1114898432 mode_PERIODIC 1).timestamp ≠ 0
      ∧ decimal_value (fmt_lu (make_record 1005 1103941837 1114898432 mode_PERIODIC
          1).timestamp) = (make_record 1005 1103941837 1114898432 mode_PERIODIC 1).timestamp :=
  ⟨by decide,
    ((drained_record_timestamp reference_clib none
      (make_record 1005 1103941837 1114898432 mode_PERIODIC 1) []).1 (by decide)).2.2⟩

/-! ## Counts and flags along every path -/

theorem write_metadata_sd_initialized (s : ManagerState) :
    (_write_metadata s).1.sd_initialized = s.sd_initialized := by
  unfold _write_metadata
  simp only []
  split <;> rfl

theorem WriteData_record_flag (s : ManagerState) (ts t h : Nat) (md : List Nat) :
    ((WriteData_record s ts t h md).2 = true ↔ s.sd_initialized = true ∧ s.card.nextRet = 0)
      ∧ (WriteData_record s ts t h md).1.sd_initialized = s.sd_initialized := by
  unfold WriteData_record
  cases hi : s.sd_initialized
  · simp [hi]
  · by_cases hr : s.card.nextRet = 0 <;> simp [BlockDevice.SD_WriteBlock, hr, hi]

theorem WriteData_sd_initialized (s : ManagerState) (ts t h : Nat) (md : List Nat) :
    (SDCardManager_WriteData s ts t h md).1.sd_initialized = s.sd_initialized := by
  unfold SDCardManager_WriteData
  simp only []
  split
  · unfold WriteData_commit
    simp only []
    split <;> rw [write_metadata_sd_initialized] <;> exact (WriteData_record_flag s ts t h md).2
  · exact (WriteData_record_flag s ts t h md).2

theorem ReadData_frame (s : ManagerState) (record : Option sd_data_record_t) :
    (SDCardManager_ReadData s record).1.g_metadata = s.g_metadata
      ∧ (SDCardManager_ReadData s record).1.sd_initialized = s.sd_initialized
      ∧ (SDCardManager_ReadData s record).1.card.blocks = s.card.blocks := by
  unfold SDCardManager_ReadData
  simp only []
  split
  · exact ⟨rfl, rfl, rfl⟩
  · split
    · exact ⟨rfl, rfl, rfl⟩
    · split <;> exact ⟨rfl, rfl, rfl⟩

theorem RemoveRecord_sd_initialized (s : ManagerState) :
    (SDCardManager_RemoveRecord s).1.sd_initialized = s.sd_initialized := by
  unfold SDCardManager_RemoveRecord
  split
  · rfl
  · rw [write_metadata_sd_initialized]

theorem RemoveRecord_count (s : ManagerState) (hty : s.g_metadata.count < U32) :
    (SDCardManager_RemoveRecord s).1.g_metadata.count + 1 ≥ s.g_metadata.count := by
  unfold SDCardManager_RemoveRecord
  split
  · exact Nat.le_succ _
  · rw [write_metadata_g_metadata]
    simp only [U32] at *
    omega

/-- Across `SDCardManager_WriteData` the count does not decrease, except by one when the
buffer is full and the data-block write fails. -/
theorem WriteData_count (s : ManagerState) (ts t h : Nat) (md : List Nat)
    (hty : s.g_metadata.count < U32) :
    (SDCardManager_WriteData s ts t h md).1.g_metadata.count + 1 ≥ s.g_metadata.count
      ∧ (s.g_metadata.count < SD_BUFFER_SIZE ∨ s.card.nextRet = 0 →
          (SDCardManager_WriteData s ts t h md).1.g_metadata.count ≥ s.g_metadata.count) := by
  have hflag := (WriteData_record_flag s ts t h md).1
  have hrec := WriteData_record_g_metadata s ts t h md
  have hroom : (make_room s.g_metadata).count + 1 ≥ s.g_metadata.count
      ∧ (s.g_metadata.count < SD_BUFFER_SIZE →
          (make_room s.g_metadata).count = s.g_metadata.count)
      ∧ (¬ s.g_metadata.count < SD_BUFFER_SIZE →
          (make_room s.g_metadata).count + 1 = s.g_metadata.count) := by
    unfold make_room
    split
    · simp only [SD_BUFFER_SIZE, U32] at *
      refine ⟨by omega, by omega, by omega⟩
    · refine ⟨by omega, fun _ => rfl, by omega⟩
  unfold SDCardManager_WriteData
  simp only []
  split
  · rename_i h2
    obtain ⟨hi, _⟩ := hflag.mp h2
    rw [WriteData_commit_g_metadata, hrec, if_neg (by simp [hi])]
    simp only [SD_BUFFER_SIZE, U32] at *
    refine ⟨by omega, fun _ => by omega⟩
  · rename_i h2
    rw [hrec]
    split
    · exact ⟨by omega, fun _ => Nat.le_refl _⟩
    · rename_i hi
      refine ⟨hroom.1, ?_⟩
      intro hc
      rcases hc with hc | hc
      · rw [hroom.2.1 hc]
      · exfalso
        apply h2
        apply hflag.mpr
        refine ⟨?_, hc⟩
        cases hs : s.sd_initialized
        · exact absurd hs hi
        · rfl

/-! ## Routing -/

/-- C16 (disconnected routing).  In a pass of the routing block with the connectivity state
not connected and `data_ready` set, the buffer manager ends in the state produced by one
call of `SDCardManager_WriteData` with the pending temperature and humidity, the mode
string `SINGLE` when the mode is SINGLE and `PERIODIC` otherwise, and the timestamp
`(uint32_t) mktime` when the RTC read succeeds and `tick / 1000` when it fails; nothing is
added to the JSON output; `data_ready` is cleared whatever `SDCardManager_WriteData`
returned; nothing else changes. -/
theorem disconnected_routing (lib : CLib) (w : Firmware) (i : RouteInput)
    (hdis : w.mqtt_current_state ≠ mqtt_state_t.MQTT_STATE_CONNECTED)
    (hready : w.g_data_manager_state.data_ready = true) :
    (∀ t : Nat, i.rtc = some t →
        (route lib w i).sd = (SDCardManager_WriteData w.sd (t % U32)
          w.g_data_manager_state.sht3x.temperature w.g_data_manager_state.sht3x.humidity
          (if w.g_data_manager_state.mode = data_manager_mode_t.DATA_MANAGER_MODE_SINGLE
            then ascii "SINGLE" else ascii "PERIODIC")).1)
      ∧ (i.rtc = none →
        (route lib w i).sd = (SDCardManager_WriteData w.sd (i.tick / 1000)
          w.g_data_manager_state.sht3x.temperature w.g_data_manager_state.sht3x.humidity
          (if w.g_data_manager_state.mode = data_manager_mode_t.DATA_MANAGER_MODE_SINGLE
            then ascii "SINGLE" else ascii "PERIODIC")).1)
      ∧ (route lib w i).uart_tx = w.uart_tx
      ∧ (route lib w i).g_data_manager_state
          = { w.g_data_manager_state with data_ready := false }
      ∧ (route lib w i).g_data_manager_state.data_ready = false
      ∧ (route lib w i).mqtt_current_state = w.mqtt_current_state
      ∧ (route lib w i).last_sd_send_ms = w.last_sd_send_ms
      ∧ (route lib w i).buffered_record = w.buffered_record := by
  have hS : ascii "SINGLE" = mode_SINGLE := by decide
  have hP : ascii "PERIODIC" = mode_PERIODIC := by decide
  have hr : route lib w i = buffer_step w i := by
    unfold route
    rw [if_neg hdis]
  rw [hr, hS, hP]
  unfold buffer_step
  rw [if_pos (by simpa [DataManager_IsDataReady] using hready)]
  refine ⟨?_, ?_, rfl, rfl, rfl, rfl, rfl, rfl⟩
  · intro t ht
    simp only [ht]
  · intro ht
    simp only [ht]

/-- Witness for C16: a SINGLE measurement pending while disconnected, the RTC silent. -/
theorem disconnected_routing_witness :
    ((before_route (firmware_start fresh_state) single_without_rtc).mqtt_current_state
          ≠ mqtt_state_t.MQTT_STATE_CONNECTED
        ∧ (before_route (firmware_start fresh_state)
            single_without_rtc).g_data_manager_state.data_ready = true)
      ∧ (route reference_clib (before_route (firmware_start fresh_state) single_without_rtc)
          single_without_rtc.route).uart_tx
          = (before_route (firmware_start fresh_state) single_without_rtc).uart_tx
      ∧ (route reference_clib (before_route (firmware_start fresh_state) single_without_rtc)
          single_without_rtc.route).g_data_manager_state.data_ready = false :=
  ⟨⟨by decide, by decide⟩,
    (disconnected_routing reference_clib
      (before_route (firmware_start fresh_state) single_without_rtc)
      single_without_rtc.route (by decide) (by decide)).2.2.1,
    (disconnected_routing reference_clib
      (before_route (firmware_start fresh_state) single_without_rtc)
      single_without_rtc.route (by decide) (by decide)).2.2.2.2.1⟩

/-- C15, as stated, fails for a pass of the main loop in which `UART_Handle` runs the
SD CLEAR command: with three records buffered and the connectivity state disconnected, the
buffered count goes from 3 to 0 in that single pass. -/
theorem sd_clear_drops_count_in_one_pass :
    (firmware_start (appendAll fresh_state three_samples).1).mqtt_current_state
        = mqtt_state_t.MQTT_STATE_DISCONNECTED
      ∧ SDCardManager_GetBufferedCount
          (firmware_start (appendAll fresh_state three_samples).1).sd = 3
      ∧ SDCardManager_GetBufferedCount
          (main_loop_iteration reference_clib
            (firmware_start (appendAll fresh_state three_samples).1) sd_clear_pass).sd = 0
      ∧ (main_loop_iteration reference_clib
            (firmware_start (appendAll fresh_state three_samples).1) sd_clear_pass).uart_tx
          = [] := by
  refine ⟨rfl, by decide, by decide, by decide⟩

theorem GetBufferedCount_eq (s s2 : ManagerState)
    (hi : s2.sd_initialized = s.sd_initialized) (hm : s2.g_metadata = s.g_metadata) :
    SDCardManager_GetBufferedCount s2 = SDCardManager_GetBufferedCount s := by
  unfold SDCardManager_GetBufferedCount
  rw [hi, hm]

theorem GetBufferedCount_step (s s2 : ManagerState)
    (hi : s2.sd_initialized = s.sd_initialized)
    (hc : s2.g_metadata.count + 1 ≥ s.g_metadata.count) :
    SDCardManager_GetBufferedCount s2 + 1 ≥ SDCardManager_GetBufferedCount s := by
  unfold SDCardManager_GetBufferedCount
  rw [hi]
  split
  · exact Nat.le_succ _
  · exact hc

theorem before_route_sd (w : Firmware) (inp : LoopInput)
    (hcmd : ∀ argc : Nat, inp.dispatch ≠ some (Dispatch.sd_clear argc)) :
    (before_route w inp).sd = w.sd := by
  have hu : (UART_Handle w inp.dispatch).sd = w.sd := by
    unfold UART_Handle
    split
    · rfl
    · unfold SINGLE_PARSER; split
      · rfl
      · split <;> rfl
    · unfold PERIODIC_ON_PARSER; split
      · rfl
      · split <;> rfl
    · unfold MQTT_CONNECTED_PARSER; split <;> rfl
    · unfold MQTT_DISCONNECTED_PARSER; split <;> rfl
    · rename_i argc hd
      exact absurd hd (hcmd argc)
    · rfl
  unfold before_route
  split
  · exact hu
  · exact hu

theorem ReadData_some (s : ManagerState) (buf : sd_data_record_t) :
    (SDCardManager_ReadData s (some buf)).2.2 ≠ none := by
  unfold SDCardManager_ReadData
  simp only []
  split
  · intro h; cases h
  · split
    · intro h; cases h
    · split <;> intro h <;> cases h

/-- The two outcomes of the drain: either the four conditions hold and the line is sent,
the record removed and the send time recorded, or the buffer metadata is untouched. -/
theorem drain_step_cases (lib : CLib) (w : Firmware) (i : RouteInput) :
    (SDCardManager_GetBufferedCount w.sd > 0
        ∧ (i.tick + U32 - w.last_sd_send_ms) % U32 ≥ 100
        ∧ (SDCardManager_ReadData w.sd (some w.buffered_record)).2.1 = true
        ∧ (sensor_json_format lib i.rtc (some []) 128
            (record_mode_cstr ((SDCardManager_ReadData w.sd
              (some w.buffered_record)).2.2.getD w.buffered_record))
            ((SDCardManager_ReadData w.sd
              (some w.buffered_record)).2.2.getD w.buffered_record).temperature
            ((SDCardManager_ReadData w.sd
              (some w.buffered_record)).2.2.getD w.buffered_record).humidity
            ((SDCardManager_ReadData w.sd
              (some w.buffered_record)).2.2.getD w.buffered_record).timestamp).1 > 0
        ∧ (drain_step lib w i).sd
            = (SDCardManager_RemoveRecord
                (SDCardManager_ReadData w.sd (some w.buffered_record)).1).1
        ∧ (drain_step lib w i).uart_tx
            = PRINT_CLI w.uart_tx ((sensor_json_format lib i.rtc (some []) 128
                (record_mode_cstr ((SDCardManager_ReadData w.sd
                  (some w.buffered_record)).2.2.getD w.buffered_record))
                ((SDCardManager_ReadData w.sd
                  (some w.buffered_record)).2.2.getD w.buffered_record).temperature
                ((SDCardManager_ReadData w.sd
                  (some w.buffered_record)).2.2.getD w.buffered_record).humidity
                ((SDCardManager_ReadData w.sd
                  (some w.buffered_record)).2.2.getD w.buffered_record).timestamp).2.getD [])
        ∧ (drain_step lib w i).last_sd_send_ms = i.tick)
      ∨ ((drain_step lib w i).sd.g_metadata = w.sd.g_metadata
        ∧ (drain_step lib w i).sd.sd_initialized = w.sd.sd_initialized
        ∧ (drain_step lib w i).uart_tx = w.uart_tx
        ∧ (drain_step lib w i).last_sd_send_ms = w.last_sd_send_ms) := by
  by_cases hc : SDCardManager_GetBufferedCount w.sd > 0
      ∧ (i.tick + U32 - w.last_sd_send_ms) % U32 ≥ 100
  · by_cases hr : (SDCardManager_ReadData w.sd (some w.buffered_record)).2.1 = true
    · by_cases hf : (sensor_json_format lib i.rtc (some []) 128
          (record_mode_cstr ((SDCardManager_ReadData w.sd
            (some w.buffered_record)).2.2.getD w.buffered_record))
          ((SDCardManager_ReadData w.sd
            (some w.buffered_record)).2.2.getD w.buffered_record).temperature
          ((SDCardManager_ReadData w.sd
            (some w.buffered_record)).2.2.getD w.buffered_record).humidity
          ((SDCardManager_ReadData w.sd
            (some w.buffered_record)).2.2.getD w.buffered_record).timestamp).1 > 0
      · refine Or.inl ⟨hc.1, hc.2, hr, hf, ?_, ?_, ?_⟩ <;>
          (unfold drain_step; rw [if_pos hc]; dsimp only; rw [if_pos hr, if_pos hf])
      · refine Or.inr ⟨?_, ?_, ?_, ?_⟩ <;>
          (unfold drain_step; rw [if_pos hc]; dsimp only; rw [if_pos hr, if_neg hf])
        · exact (ReadData_frame _ _).1
        · exact (ReadData_frame _ _).2.1
    · refine Or.inr ⟨?_, ?_, ?_, ?_⟩ <;>
        (unfold drain_step; rw [if_pos hc]; dsimp only; rw [if_neg hr])
      · exact (ReadData_frame _ _).1
      · exact (ReadData_frame _ _).2.1
  · refine Or.inr ⟨?_, ?_, ?_, ?_⟩ <;> (unfold drain_step; rw [if_neg hc])

/-- C15, amended (drain pacing).  Take a pass of the main loop in which `UART_Handle` does
not run SD CLEAR.  Up to the routing block the buffer manager is untouched, and over the
whole pass the buffered count decreases by at most one.  If the connectivity state at the
routing block is `MQTT_STATE_CONNECTED` and the count has decreased, then the count was
above 0, at least 100 ms (modulo 2^32) had elapsed since `last_sd_send_ms`,
`SDCardManager_ReadData` returned `true` and `sensor_json_format` returned a positive
length; the line of the record just read was handed to `PRINT_CLI`, the removal was
applied to the buffer state left by that read, and `last_sd_send_ms` is the current tick.
If the state is not connected, the count does not decrease when the buffer is not full or
the data-block write succeeds. -/
theorem drain_pacing (lib : CLib) (w : Firmware) (inp : LoopInput)
    (hty : w.sd.g_metadata.count < U32)
    (hcmd : ∀ argc : Nat, inp.dispatch ≠ some (Dispatch.sd_clear argc)) :
    (before_route w inp).sd = w.sd
      ∧ SDCardManager_GetBufferedCount (main_loop_iteration lib w inp).sd + 1
          ≥ SDCardManager_GetBufferedCount w.sd
      ∧ ((before_route w inp).mqtt_current_state = mqtt_state_t.MQTT_STATE_CONNECTED →
          SDCardManager_GetBufferedCount (main_loop_iteration lib w inp).sd
              < SDCardManager_GetBufferedCount w.sd →
          SDCardManager_GetBufferedCount w.sd > 0
            ∧ (inp.route.tick + U32 - (before_route w inp).last_sd_send_ms) % U32 ≥ 100
            ∧ (SDCardManager_ReadData w.sd (some (before_route w inp).buffered_record)).2.1
                = true
            ∧ (∃ r : sd_data_record_t,
                (SDCardManager_ReadData w.sd
                    (some (before_route w inp).buffered_record)).2.2 = some r
                  ∧ (sensor_json_format lib inp.route.rtc (some []) 128 (record_mode_cstr r)
                      r.temperature r.humidity r.timestamp).1 > 0
                  ∧ (main_loop_iteration lib w inp).uart_tx
                      = PRINT_CLI (DataManager_Print lib inp.route.rtc_live
                            (before_route w inp).g_data_manager_state
                            (before_route w inp).uart_tx).2.1
                          ((sensor_json_format lib inp.route.rtc (some []) 128
                            (record_mode_cstr r) r.temperature r.humidity
                            r.timestamp).2.getD []))
            ∧ (main_loop_iteration lib w inp).sd
                = (SDCardManager_RemoveRecord (SDCardManager_ReadData w.sd
                    (some (before_route w inp).buffered_record)).1).1
            ∧ (main_loop_iteration lib w inp).last_sd_send_ms = inp.route.tick)
      ∧ ((before_route w inp).mqtt_current_state ≠ mqtt_state_t.MQTT_STATE_CONNECTED →
          (w.sd.g_metadata.count < SD_BUFFER_SIZE ∨ w.sd.card.retAt 0 = 0) →
          SDCardManager_GetBufferedCount (main_loop_iteration lib w inp).sd
            ≥ SDCardManager_GetBufferedCount w.sd) := by
  have hsd := before_route_sd w inp hcmd
  have hnr : w.sd.card.nextRet = w.sd.card.retAt 0 := nextRet_eq_retAt _ _ 0 rfl
  have hcases := drain_step_cases lib (live_emit lib (before_route w inp) inp.route) inp.route
  have e1 : (live_emit lib (before_route w inp) inp.route).sd = w.sd := hsd
  have e2 : (live_emit lib (before_route w inp) inp.route).buffered_record
      = (before_route w inp).buffered_record := rfl
  have e3 : (live_emit lib (before_route w inp) inp.route).last_sd_send_ms
      = (before_route w inp).last_sd_send_ms := rfl
  have e4 : (live_emit lib (before_route w inp) inp.route).uart_tx
      = (DataManager_Print lib inp.route.rtc_live (before_route w inp).g_data_manager_state
          (before_route w inp).uart_tx).2.1 := rfl
  rw [e1, e2, e3, e4] at hcases
  refine ⟨hsd, ?_, ?_, ?_⟩
  · unfold main_loop_iteration route
    split
    · rcases hcases with h | h
      · obtain ⟨_, _, _, _, hs, _, _⟩ := h
        rw [hs]
        apply GetBufferedCount_step
        · rw [RemoveRecord_sd_initialized, (ReadData_frame _ _).2.1]
        · have := RemoveRecord_count (SDCardManager_ReadData w.sd
            (some (before_route w inp).buffered_record)).1
            (by rw [(ReadData_frame _ _).1]; exact hty)
          rw [(ReadData_frame _ _).1] at this
          exact this
      · obtain ⟨hm, hi, _, _⟩ := h
        rw [GetBufferedCount_eq _ _ hi hm]
        exact Nat.le_succ _
    · unfold buffer_step
      split
      · show SDCardManager_GetBufferedCount (SDCardManager_WriteData (before_route w inp).sd
          _ _ _ _).1 + 1 ≥ _
        rw [hsd]
        apply GetBufferedCount_step
        · exact WriteData_sd_initialized _ _ _ _ _
        · exact (WriteData_count _ _ _ _ _ hty).1
      · rw [hsd]
        exact Nat.le_succ _
  · intro hconn hdec
    unfold main_loop_iteration route at hdec ⊢
    rw [if_pos hconn] at hdec ⊢
    rcases hcases with h | h
    · obtain ⟨h1, h2, h3, h4, h5, h6, h7⟩ := h
      refine ⟨h1, h2, h3, ?_, h5, h7⟩
      cases hrec : (SDCardManager_ReadData w.sd
          (some (before_route w inp).buffered_record)).2.2 with
      | none =>
        exfalso
        have hsome := (ReadData_some w.sd (before_route w inp).buffered_record)
        rw [hrec] at hsome
        exact hsome rfl
      | some r =>
        rw [hrec] at h4 h6
        simp only [Option.getD_some] at h4 h6
        exact ⟨r, rfl, h4, h6⟩
    · obtain ⟨hm, hi, _, _⟩ := h
      rw [GetBufferedCount_eq _ _ hi hm] at hdec
      exact absurd hdec (Nat.lt_irrefl _)
  · intro hdis hok
    unfold main_loop_iteration route
    rw [if_neg hdis]
    unfold buffer_step
    split
    · show SDCardManager_GetBufferedCount (SDCardManager_WriteData (before_route w inp).sd
        _ _ _ _).1 ≥ _
      rw [hsd]
      unfold SDCardManager_GetBufferedCount
      rw [WriteData_sd_initialized]
      split
      · exact Nat.le_refl _
      · exact (WriteData_count _ _ _ _ _ hty).2 (by rw [hnr]; exact hok)
    · rw [hsd]

/-! ## Appending to any buffer with room -/

/-- Appending without overflow to a buffer that holds `k` records from slot `read_index`
on: the samples land in the following slots (modulo `SD_BUFFER_SIZE`) with consecutive
sequence numbers (modulo 2^32), and nothing else but the metadata block changes. -/
theorem appendAll_from (xs : List Sample) : ∀ (s : ManagerState) (k : Nat),
    s.sd_initialized = true → s.card.replies = [] →
    s.g_metadata.read_index < SD_BUFFER_SIZE → s.g_metadata.count = k →
    s.g_metadata.write_index = (s.g_metadata.read_index + k) % SD_BUFFER_SIZE →
    s.g_metadata.sequence_num < U32 → k + xs.length ≤ SD_BUFFER_SIZE →
    (appendAll s xs).2 = List.replicate xs.length true
      ∧ (appendAll s xs).1.sd_initialized = true
      ∧ (appendAll s xs).1.card.replies = []
      ∧ (appendAll s xs).1.g_metadata =
          sd_buffer_metadata_t.mk ((s.g_metadata.read_index + k + xs.length) % SD_BUFFER_SIZE)
            s.g_metadata.read_index (k + xs.length)
            ((s.g_metadata.sequence_num + xs.length) % U32)
      ∧ (∀ (i : Nat) (x : Sample), xs[i]? = some x →
          (appendAll s xs).1.card.blocks
              (SD_DATA_START_BLOCK + (s.g_metadata.read_index + k + i) % SD_BUFFER_SIZE)
            = record_bytes (x.record ((s.g_metadata.sequence_num + i) % U32)))
      ∧ (∀ a : Nat, a ≠ SD_DATA_BLOCK →
          (∀ i : Nat, i < xs.length →
            a ≠ SD_DATA_START_BLOCK + (s.g_metadata.read_index + k + i) % SD_BUFFER_SIZE) →
          (appendAll s xs).1.card.blocks a = s.card.blocks a) := by
  induction xs with
  | nil =>
    intro s k hinit hio hr hc hw hq _
    refine ⟨rfl, hinit, hio, ?_, ?_, ?_⟩
    · show s.g_metadata = _
      cases hm : s.g_metadata with
      | mk w r c q =>
        rw [hm] at hr hc hw hq
        simp only [] at hr hc hw hq
        simp only [List.length_nil, Nat.add_zero, sd_buffer_metadata_t.mk.injEq]
        simp only [SD_BUFFER_SIZE, U32] at *
        refine ⟨hw, trivial, hc, ?_⟩
        omega
    · intro i x hx; simp at hx
    · intro a _ _; rfl
  | cons y ys ih =>
    intro s k hinit hio hr hc hw hq hlen
    simp only [List.length_cons] at hlen
    obtain ⟨w2, wi, wio, wm, wb, _⟩ :=
      WriteData_ok s y.timestamp y.temperature y.humidity y.mode_str hinit hio
    have hk : k < SD_BUFFER_SIZE := by omega
    have hroom : make_room s.g_metadata = s.g_metadata :=
      make_room_of_lt _ (by rw [hc]; exact hk)
    have wm1 : (SDCardManager_WriteData s y.timestamp y.temperature y.humidity
        y.mode_str).1.g_metadata = sd_buffer_metadata_t.mk
          ((s.g_metadata.read_index + (k + 1)) % SD_BUFFER_SIZE) s.g_metadata.read_index
          (k + 1) ((s.g_metadata.sequence_num + 1) % U32) := by
      rw [wm, hroom, hc, hw]
      simp only [sd_buffer_metadata_t.mk.injEq]
      simp only [SD_BUFFER_SIZE, U32] at *
      refine ⟨by omega, trivial, by omega, trivial⟩
    obtain ⟨i1, i2, i3, i4, i5, i6⟩ := ih
      (SDCardManager_WriteData s y.timestamp y.temperature y.humidity y.mode_str).1 (k + 1)
      wi wio (by rw [wm1]; exact hr) (by rw [wm1]) (by rw [wm1])
      (by rw [wm1]; exact Nat.mod_lt _ (by decide)) (by omega)
    rw [wm1] at i4 i5 i6
    simp only [] at i4 i5 i6
    have haddr : _get_data_block_addr s.g_metadata.write_index
        = SD_DATA_START_BLOCK + (s.g_metadata.read_index + k) % SD_BUFFER_SIZE := by
      rw [hw]
      simp only [_get_data_block_addr, SD_BUFFER_SIZE]
      omega
    refine ⟨?_, i2, i3, ?_, ?_, ?_⟩
    · simp only [appendAll, i1, w2, List.length_cons, List.replicate_succ]
    · simp only [appendAll, i4, List.length_cons, sd_buffer_metadata_t.mk.injEq]
      simp only [SD_BUFFER_SIZE, U32] at *
      refine ⟨by omega, trivial, by omega, by omega⟩
    · intro i x hx
      cases i with
      | zero =>
        simp only [List.getElem?_cons_zero, Option.some.injEq] at hx
        subst hx
        simp only [appendAll, Nat.add_zero]
        rw [i6 _ (by simp only [SD_DATA_START_BLOCK, SD_DATA_BLOCK]; omega) ?_, wb, haddr]
        · have hne : ¬ (SD_DATA_START_BLOCK + (s.g_metadata.read_index + k) % SD_BUFFER_SIZE
              = SD_DATA_BLOCK) := by
            simp only [SD_DATA_START_BLOCK, SD_DATA_BLOCK]; omega
          simp only [hne, if_false, if_true, Sample.record]
          rw [Nat.mod_eq_of_lt hq]
        · intro i hi
          simp only [SD_BUFFER_SIZE] at *
          omega
      | succ j =>
        simp only [List.getElem?_cons_succ] at hx
        simp only [appendAll]
        have := i5 j x hx
        rw [show s.g_metadata.read_index + k + (j + 1)
            = s.g_metadata.read_index + (k + 1) + j by omega,
          show (s.g_metadata.sequence_num + (j + 1)) % U32
            = ((s.g_metadata.sequence_num + 1) % U32 + j) % U32 by
              simp only [U32]; omega]
        exact this
    · intro a ha hrange
      simp only [appendAll]
      rw [i6 a ha ?_, wb, haddr]
      · have hne : ¬ (a = SD_DATA_START_BLOCK
            + (s.g_metadata.read_index + k) % SD_BUFFER_SIZE) := by
          have := hrange 0 (by simp)
          simpa using this
        simp only [ha, hne, if_false]
      · intro i hi
        have := hrange (i + 1) (by simp only [List.length_cons]; omega)
        rw [show s.g_metadata.read_index + k + (i + 1)
            = s.g_metadata.read_index + (k + 1) + i by omega] at this
        exact this

/-! ## Mode switch -/

theorem event_pass_spec (lib : CLib) (w : Firmware) (e : MeasurementEvent)
    (hdis : w.mqtt_current_state = mqtt_state_t.MQTT_STATE_DISCONNECTED) :
    (main_loop_iteration lib w e.pass).sd
        = (SDCardManager_WriteData w.sd e.sample.timestamp e.sample.temperature
            e.sample.humidity e.sample.mode_str).1
      ∧ (main_loop_iteration lib w e.pass).uart_tx = w.uart_tx
      ∧ (main_loop_iteration lib w e.pass).mqtt_current_state = w.mqtt_current_state
      ∧ (main_loop_iteration lib w e.pass).last_sd_send_ms = w.last_sd_send_ms
      ∧ (main_loop_iteration lib w e.pass).g_data_manager_state.data_ready = false := by
  cases hp : e.periodic <;>
    simp [main_loop_iteration, before_route, UART_Handle, SINGLE_PARSER, route, buffer_step,
      MeasurementEvent.pass, MeasurementEvent.sample, hp, hdis, DataManager_IsDataReady,
      DataManager_UpdateSingle, DataManager_UpdatePeriodic, DataManager_ClearDataReady]

theorem sample_wellTyped (e : MeasurementEvent) (h : e.wellTyped) : e.sample.wellTyped := by
  obtain ⟨h1, h2, h3⟩ := h
  refine ⟨?_, h1, h2⟩
  unfold MeasurementEvent.sample
  simp only []
  split
  · exact Nat.mod_lt _ (by decide)
  · simp only [U32] at *
    omega

theorem drain_print (lib : CLib) (rtc : RtcReading) (r : sd_data_record_t)
    (tx : List (List Nat)) (h : drain_len lib rtc r > 0) :
    PRINT_CLI tx (drain_line lib rtc r) = tx ++ [drain_line lib rtc r] := by
  by_cases hlen : (json_text lib (record_mode_cstr r)
      (if r.timestamp = 0 then get_unix_timestamp rtc % U32 else r.timestamp)
      r.temperature r.humidity).length < 128
  · have hpos := json_text_length_pos (record_mode_cstr r) lib
      (if r.timestamp = 0 then get_unix_timestamp rtc % U32 else r.timestamp)
      r.temperature r.humidity
    unfold drain_line PRINT_CLI
    rw [sensor_json_format_fits lib rtc [] _ _ _ _ hlen]
    simp only [Option.getD_some]
    rw [if_pos (by omega)]
  · exfalso
    unfold drain_len at h
    rw [sensor_json_format_overflow lib rtc [] _ _ _ _ (by omega)] at h
    exact absurd h (by decide)

/-- One pass of the routing block that drains the record `r` held in the slot at
`read_index`. -/
theorem drain_pass_spec (lib : CLib) (w : Firmware) (i : RouteInput) (r : sd_data_record_t)
    (hconn : w.mqtt_current_state = mqtt_state_t.MQTT_STATE_CONNECTED)
    (hready : w.g_data_manager_state.data_ready = false)
    (hinit : w.sd.sd_initialized = true) (hio : w.sd.card.replies = [])
    (hcount : w.sd.g_metadata.count ≠ 0)
    (hspace : (i.tick + U32 - w.last_sd_send_ms) % U32 ≥ 100)
    (hblock : w.sd.card.blocks (_get_data_block_addr w.sd.g_metadata.read_index)
      = record_bytes r)
    (hwt : r.wellTyped) (hfit : drain_len lib i.rtc r > 0) :
    (route lib w i).uart_tx = w.uart_tx ++ [drain_line lib i.rtc r]
      ∧ (route lib w i).sd.g_metadata
          = { w.sd.g_metadata with
              read_index := ((w.sd.g_metadata.read_index + 1) % U32) % SD_BUFFER_SIZE,
              count := (w.sd.g_metadata.count + U32 - 1) % U32 }
      ∧ (route lib w i).sd.sd_initialized = true
      ∧ (route lib w i).sd.card.replies = []
      ∧ (∀ a : Nat, a ≠ SD_DATA_BLOCK →
          (route lib w i).sd.card.blocks a = w.sd.card.blocks a)
      ∧ (route lib w i).last_sd_send_ms = i.tick
      ∧ (route lib w i).mqtt_current_state = mqtt_state_t.MQTT_STATE_CONNECTED
      ∧ (route lib w i).g_data_manager_state.data_ready = false := by
  have hlive : live_emit lib w i = w := by
    unfold live_emit DataManager_Print
    rw [if_pos hready]
  obtain ⟨rd2, rdi, rdio, rdm, rdb⟩ := ReadData_ok w.sd w.buffered_record hinit hio hcount
  rw [hblock, record_of_bytes_record_bytes r hwt] at rd2
  have hcount1 : (SDCardManager_ReadData w.sd (some w.buffered_record)).1.g_metadata.count
      ≠ 0 := by rw [rdm]; exact hcount
  obtain ⟨rm2, rmi, rmio, rmm, rmb⟩ :=
    RemoveRecord_ok (SDCardManager_ReadData w.sd (some w.buffered_record)).1 rdi rdio hcount1
  rw [rdm] at rmm
  rw [rdb] at rmb
  have hgc : SDCardManager_GetBufferedCount w.sd > 0
      ∧ (i.tick + U32 - w.last_sd_send_ms) % U32 ≥ 100 := by
    refine ⟨?_, hspace⟩
    simp only [SDCardManager_GetBufferedCount, hinit]
    exact Nat.pos_of_ne_zero hcount
  have hr1 : (SDCardManager_ReadData w.sd (some w.buffered_record)).2.1 = true := by
    rw [rd2]
  have hrec : (SDCardManager_ReadData w.sd (some w.buffered_record)).2.2.getD
      w.buffered_record = r := by rw [rd2]; rfl
  have hstep : drain_step lib w i =
      { w with
        sd := (SDCardManager_RemoveRecord
          (SDCardManager_ReadData w.sd (some w.buffered_record)).1).1,
        buffered_record := r,
        uart_tx := w.uart_tx ++ [drain_line lib i.rtc r],
        last_sd_send_ms := i.tick } := by
    unfold drain_step
    rw [if_pos hgc]
    dsimp only
    rw [if_pos hr1, hrec]
    have hfit2 : (sensor_json_format lib i.rtc (some []) 128 (record_mode_cstr r)
        r.temperature r.humidity r.timestamp).1 > 0 := hfit
    rw [if_pos hfit2]
    have hp := drain_print lib i.rtc r w.uart_tx hfit
    unfold drain_line at hp
    rw [hp]
    rfl
  unfold route
  rw [if_pos hconn, hlive, hstep]
  refine ⟨rfl, rmm, rmi, rmio, ?_, rfl, hconn, hready⟩
  intro a ha
  show (SDCardManager_RemoveRecord
    (SDCardManager_ReadData w.sd (some w.buffered_record)).1).1.card.blocks a = _
  rw [rmb]
  simp only [ha, if_false]

/-- C19 (router mode switch).  Start from an initialised, empty buffer on a card whose
driver calls all succeed, with the connectivity state disconnected.  Three measurement
events, each routed by one pass of the main loop, leave the JSON output as it was and the
buffer holding their three records in append order.  When the gateway then reports MQTT
CONNECTED and no new measurement arrives, three passes that each come at least 100 ms
(modulo 2^32) after the previous drain send, and whose lines fit the 128-byte buffer, each
send exactly the line of the oldest remaining record and remove it: the output grows by
the lines of record 1, 2, 3 in that order and the count goes 3, 2, 1, 0. -/
theorem router_mode_switch (lib : CLib) (w0 : Firmware) (e1 e2 e3 : MeasurementEvent)
    (d1 d2 d3 : RouteInput)
    (hinit : w0.sd.sd_initialized = true) (hio : w0.sd.card.replies = [])
    (hempty : w0.sd.g_metadata.count = 0) (hinv : metadata_invariant w0.sd.g_metadata)
    (hseq : w0.sd.g_metadata.sequence_num < U32)
    (hdis : w0.mqtt_current_state = mqtt_state_t.MQTT_STATE_DISCONNECTED)
    (hty1 : e1.wellTyped) (hty2 : e2.wellTyped) (hty3 : e3.wellTyped)
    (hs1 : (d1.tick + U32 - w0.last_sd_send_ms) % U32 ≥ 100)
    (hs2 : (d2.tick + U32 - d1.tick) % U32 ≥ 100)
    (hs3 : (d3.tick + U32 - d2.tick) % U32 ≥ 100)
    (hf1 : drain_len lib d1.rtc (e1.sample.record w0.sd.g_metadata.sequence_num) > 0)
    (hf2 : drain_len lib d2.rtc
      (e2.sample.record ((w0.sd.g_metadata.sequence_num + 1) % U32)) > 0)
    (hf3 : drain_len lib d3.rtc
      (e3.sample.record ((w0.sd.g_metadata.sequence_num + 2) % U32)) > 0) :
    (main_loop_iteration lib (main_loop_iteration lib (main_loop_iteration lib w0 e1.pass)
        e2.pass) e3.pass).uart_tx = w0.uart_tx
      ∧ SDCardManager_GetBufferedCount (main_loop_iteration lib (main_loop_iteration lib
          (main_loop_iteration lib w0 e1.pass) e2.pass) e3.pass).sd = 3
      ∧ (drainAll (main_loop_iteration lib (main_loop_iteration lib
          (main_loop_iteration lib w0 e1.pass) e2.pass) e3.pass).sd 3).2
          = [DrainStep.mk true (some (e1.sample.record w0.sd.g_metadata.sequence_num)) true,
             DrainStep.mk true
               (some (e2.sample.record ((w0.sd.g_metadata.sequence_num + 1) % U32))) true,
             DrainStep.mk true
               (some (e3.sample.record ((w0.sd.g_metadata.sequence_num + 2) % U32))) true]
      ∧ (main_loop_iteration lib (main_loop_iteration lib (main_loop_iteration lib
          (main_loop_iteration lib w0 e1.pass) e2.pass) e3.pass) (connect_pass d1)).uart_tx
          = w0.uart_tx
              ++ [drain_line lib d1.rtc (e1.sample.record w0.sd.g_metadata.sequence_num)]
      ∧ SDCardManager_GetBufferedCount (main_loop_iteration lib (main_loop_iteration lib
          (main_loop_iteration lib (main_loop_iteration lib w0 e1.pass) e2.pass) e3.pass)
          (connect_pass d1)).sd = 2
      ∧ (main_loop_iteration lib (main_loop_iteration lib (main_loop_iteration lib
          (main_loop_iteration lib (main_loop_iteration lib w0 e1.pass) e2.pass) e3.pass)
          (connect_pass d1)) (idle_pass d2)).uart_tx
          = w0.uart_tx
              ++ [drain_line lib d1.rtc (e1.sample.record w0.sd.g_metadata.sequence_num),
                  drain_line lib d2.rtc
                    (e2.sample.record ((w0.sd.g_metadata.sequence_num + 1) % U32))]
      ∧ SDCardManager_GetBufferedCount (main_loop_iteration lib (main_loop_iteration lib
          (main_loop_iteration lib (main_loop_iteration lib (main_loop_iteration lib w0
          e1.pass) e2.pass) e3.pass) (connect_pass d1)) (idle_pass d2)).sd = 1
      ∧ (main_loop_iteration lib (main_loop_iteration lib (main_loop_iteration lib
          (main_loop_iteration lib (main_loop_iteration lib (main_loop_iteration lib w0
          e1.pass) e2.pass) e3.pass) (connect_pass d1)) (idle_pass d2)) (idle_pass d3)).uart_tx
          = w0.uart_tx
              ++ [drain_line lib d1.rtc (e1.sample.record w0.sd.g_metadata.sequence_num),
                  drain_line lib d2.rtc
                    (e2.sample.record ((w0.sd.g_metadata.sequence_num + 1) % U32)),
                  drain_line lib d3.rtc
                    (e3.sample.record ((w0.sd.g_metadata.sequence_num + 2) % U32))]
      ∧ SDCardManager_GetBufferedCount (main_loop_iteration lib (main_loop_iteration lib
          (main_loop_iteration lib (main_loop_iteration lib (main_loop_iteration lib
          (main_loop_iteration lib w0 e1.pass) e2.pass) e3.pass) (connect_pass d1))
          (idle_pass d2)) (idle_pass d3)).sd = 0 := by
  obtain ⟨hw, hr, _, hwe⟩ := hinv
  -- the three buffering passes
  obtain ⟨a1, a2, a3, a4, _⟩ := event_pass_spec lib w0 e1 hdis
  obtain ⟨b1, b2, b3, b4, _⟩ := event_pass_spec lib (main_loop_iteration lib w0 e1.pass) e2
    (by rw [a3]; exact hdis)
  obtain ⟨c1, c2, c3, c4, c5⟩ := event_pass_spec lib
    (main_loop_iteration lib (main_loop_iteration lib w0 e1.pass) e2.pass) e3
    (by rw [b3, a3]; exact hdis)
  have hsd3 : (main_loop_iteration lib (main_loop_iteration lib (main_loop_iteration lib w0
      e1.pass) e2.pass) e3.pass).sd
        = (appendAll w0.sd [e1.sample, e2.sample, e3.sample]).1 := by
    rw [c1, b1, a1]
    rfl
  generalize hW3 : main_loop_iteration lib (main_loop_iteration lib (main_loop_iteration lib
    w0 e1.pass) e2.pass) e3.pass = w3 at *
  have htx3 : w3.uart_tx = w0.uart_tx := by rw [c2, b2, a2]
  have hlast3 : w3.last_sd_send_ms = w0.last_sd_send_ms := by rw [c4, b4, a4]
  obtain ⟨_, p2, p3, p4, p5, _⟩ := appendAll_from [e1.sample, e2.sample, e3.sample] w0.sd 0
    hinit hio hr hempty (by rw [hwe, hempty]) hseq
    (by show 0 + 3 ≤ SD_BUFFER_SIZE; decide)
  rw [← hsd3] at p2 p3 p4 p5
  have p4 : w3.sd.g_metadata = sd_buffer_metadata_t.mk
      ((w0.sd.g_metadata.read_index + 3) % SD_BUFFER_SIZE) w0.sd.g_metadata.read_index 3
      ((w0.sd.g_metadata.sequence_num + 3) % U32) := p4
  have hidx1 : ∀ r : Nat, r < SD_BUFFER_SIZE →
      ((r + 1) % U32) % SD_BUFFER_SIZE = (r + 1) % SD_BUFFER_SIZE := by
    intro r hr
    simp only [SD_BUFFER_SIZE, U32] at *
    omega
  have hidx2 : ((w0.sd.g_metadata.read_index + 1) % SD_BUFFER_SIZE + 1) % SD_BUFFER_SIZE
      = (w0.sd.g_metadata.read_index + 2) % SD_BUFFER_SIZE := by
    simp only [SD_BUFFER_SIZE]
    omega
  have hmodlt : ∀ n : Nat, n % SD_BUFFER_SIZE < SD_BUFFER_SIZE :=
    fun n => Nat.mod_lt _ (by decide)
  have hwt1 : (e1.sample.record w0.sd.g_metadata.sequence_num).wellTyped := by
    obtain ⟨t1, t2, t3⟩ := sample_wellTyped e1 hty1
    exact make_record_wellTyped _ _ _ _ _ t1 t2 t3 hseq
  have hwt2 : (e2.sample.record ((w0.sd.g_metadata.sequence_num + 1) % U32)).wellTyped := by
    obtain ⟨t1, t2, t3⟩ := sample_wellTyped e2 hty2
    exact make_record_wellTyped _ _ _ _ _ t1 t2 t3 (Nat.mod_lt _ (by decide))
  have hwt3 : (e3.sample.record ((w0.sd.g_metadata.sequence_num + 2) % U32)).wellTyped := by
    obtain ⟨t1, t2, t3⟩ := sample_wellTyped e3 hty3
    exact make_record_wellTyped _ _ _ _ _ t1 t2 t3 (Nat.mod_lt _ (by decide))
  have hb1 : w3.sd.card.blocks
      (SD_DATA_START_BLOCK + w0.sd.g_metadata.read_index % SD_BUFFER_SIZE)
        = record_bytes (e1.sample.record (w0.sd.g_metadata.sequence_num % U32)) :=
    p5 0 e1.sample rfl
  have hb2 : w3.sd.card.blocks
      (SD_DATA_START_BLOCK + (w0.sd.g_metadata.read_index + 1) % SD_BUFFER_SIZE)
        = record_bytes (e2.sample.record ((w0.sd.g_metadata.sequence_num + 1) % U32)) :=
    p5 1 e2.sample rfl
  have hb3 : w3.sd.card.blocks
      (SD_DATA_START_BLOCK + (w0.sd.g_metadata.read_index + 2) % SD_BUFFER_SIZE)
        = record_bytes (e3.sample.record ((w0.sd.g_metadata.sequence_num + 2) % U32)) :=
    p5 2 e3.sample rfl
  rw [Nat.mod_eq_of_lt hseq] at hb1
  have hS : SD_BUFFER_SIZE < U32 := by decide
  -- what the buffer holds
  obtain ⟨q1, _, _, _⟩ := drainAll_spec 3 w3.sd p2 p3 (by rw [p4]; exact hr)
    (by rw [p4]) (by rw [p4]; show 3 < U32; decide)
  have hhold : (drainAll w3.sd 3).2
      = [DrainStep.mk true (some (e1.sample.record w0.sd.g_metadata.sequence_num)) true,
         DrainStep.mk true
           (some (e2.sample.record ((w0.sd.g_metadata.sequence_num + 1) % U32))) true,
         DrainStep.mk true
           (some (e3.sample.record ((w0.sd.g_metadata.sequence_num + 2) % U32))) true] := by
    apply List.ext_getElem?
    intro n
    rcases Nat.lt_or_ge n 3 with hn | hn
    · rw [q1 n hn, p4]
      simp only []
      match n, hn with
      | 0, _ =>
        rw [Nat.add_zero, hb1, record_of_bytes_record_bytes _ hwt1]; rfl
      | 1, _ =>
        rw [hb2, record_of_bytes_record_bytes _ hwt2]; rfl
      | 2, _ =>
        rw [hb3, record_of_bytes_record_bytes _ hwt3]; rfl
    · rw [List.getElem?_eq_none (by rw [drainAll_length]; exact hn),
        List.getElem?_eq_none (by simpa using hn)]
  -- the connect pass
  have hpass4 : main_loop_iteration lib w3 (connect_pass d1)
      = route lib { w3 with mqtt_current_state := mqtt_state_t.MQTT_STATE_CONNECTED } d1 := by
    simp [main_loop_iteration, before_route, connect_pass, UART_Handle,
      MQTT_CONNECTED_PARSER]
  obtain ⟨x1, x2, x3, x4, x5, x6, x7, x8⟩ := drain_pass_spec lib
    { w3 with mqtt_current_state := mqtt_state_t.MQTT_STATE_CONNECTED } d1
    (e1.sample.record w0.sd.g_metadata.sequence_num) rfl c5 p2 p3
    (by show w3.sd.g_metadata.count ≠ 0; rw [p4]; show (3 : Nat) ≠ 0; decide)
    (by show (d1.tick + U32 - w3.last_sd_send_ms) % U32 ≥ 100; rw [hlast3]; exact hs1)
    (by
      show w3.sd.card.blocks (_get_data_block_addr w3.sd.g_metadata.read_index) = _
      rw [p4, ← hb1]
      rfl)
    hwt1 hf1
  rw [← hpass4] at x1 x2 x3 x4 x5 x6 x7 x8
  generalize hW4 : main_loop_iteration lib w3 (connect_pass d1) = w4 at *
  have x1' : w4.uart_tx
      = w0.uart_tx ++ [drain_line lib d1.rtc (e1.sample.record w0.sd.g_metadata.sequence_num)]
      := by rw [x1]; show w3.uart_tx ++ _ = _; rw [htx3]
  have x2' : w4.sd.g_metadata = sd_buffer_metadata_t.mk
      ((w0.sd.g_metadata.read_index + 3) % SD_BUFFER_SIZE)
      ((w0.sd.g_metadata.read_index + 1) % SD_BUFFER_SIZE) 2
      ((w0.sd.g_metadata.sequence_num + 3) % U32) := by
    rw [x2]
    show sd_buffer_metadata_t.mk w3.sd.g_metadata.write_index _ _ w3.sd.g_metadata.sequence_num
      = _
    rw [p4]
    show sd_buffer_metadata_t.mk _ ((w0.sd.g_metadata.read_index + 1) % U32 % SD_BUFFER_SIZE)
      ((3 + U32 - 1) % U32) _ = _
    rw [hidx1 _ hr]
    rfl
  have x5' : ∀ a : Nat, a ≠ SD_DATA_BLOCK → w4.sd.card.blocks a = w3.sd.card.blocks a := x5
  -- the second drain pass
  have hpass5 : main_loop_iteration lib w4 (idle_pass d2) = route lib w4 d2 := rfl
  obtain ⟨y1, y2, y3, y4, y5, y6, y7, y8⟩ := drain_pass_spec lib w4 d2
    (e2.sample.record ((w0.sd.g_metadata.sequence_num + 1) % U32)) x7 x8 x3 x4
    (by rw [x2']; show (2 : Nat) ≠ 0; decide)
    (by rw [x6]; exact hs2)
    (by
      rw [x2', x5' _ (data_block_addr_ne_metadata _), ← hb2]
      show w3.sd.card.blocks (SD_DATA_START_BLOCK
        + (w0.sd.g_metadata.read_index + 1) % SD_BUFFER_SIZE % SD_BUFFER_SIZE) = _
      rw [Nat.mod_mod])
    hwt2 hf2
  rw [← hpass5] at y1 y2 y3 y4 y5 y6 y7 y8
  generalize hW5 : main_loop_iteration lib w4 (idle_pass d2) = w5 at *
  have y2' : w5.sd.g_metadata = sd_buffer_metadata_t.mk
      ((w0.sd.g_metadata.read_index + 3) % SD_BUFFER_SIZE)
      ((w0.sd.g_metadata.read_index + 2) % SD_BUFFER_SIZE) 1
      ((w0.sd.g_metadata.sequence_num + 3) % U32) := by
    rw [y2, x2']
    show sd_buffer_metadata_t.mk _
      (((w0.sd.g_metadata.read_index + 1) % SD_BUFFER_SIZE + 1) % U32 % SD_BUFFER_SIZE)
      ((2 + U32 - 1) % U32) _ = _
    rw [hidx1 _ (hmodlt _), hidx2]
    rfl
  -- the third drain pass
  have hpass6 : main_loop_iteration lib w5 (idle_pass d3) = route lib w5 d3 := rfl
  obtain ⟨z1, z2, z3, _, _, _, _, _⟩ := drain_pass_spec lib w5 d3
    (e3.sample.record ((w0.sd.g_metadata.sequence_num + 2) % U32)) y7 y8 y3 y4
    (by rw [y2']; show (1 : Nat) ≠ 0; decide)
    (by rw [y6]; exact hs3)
    (by
      rw [y2', y5 _ (data_block_addr_ne_metadata _), x5' _ (data_block_addr_ne_metadata _),
        ← hb3]
      show w3.sd.card.blocks (SD_DATA_START_BLOCK
        + (w0.sd.g_metadata.read_index + 2) % SD_BUFFER_SIZE % SD_BUFFER_SIZE) = _
      rw [Nat.mod_mod])
    hwt3 hf3
  rw [← hpass6] at z1 z2 z3
  refine ⟨htx3, ?_, hhold, x1', ?_, ?_, ?_, ?_, ?_⟩
  · simp only [SDCardManager_GetBufferedCount, p2, p4]; rfl
  · simp only [SDCardManager_GetBufferedCount, x3, x2']; rfl
  · rw [y1, x1', List.append_assoc]; rfl
  · simp only [SDCardManager_GetBufferedCount, y3, y2']; rfl
  · rw [z1, y1, x1', List.append_assoc, List.append_assoc]; rfl
  · simp only [SDCardManager_GetBufferedCount, z3, z2, y2']; rfl

/-- Witness for C19: the mode-switch example on a fresh buffer. -/
theorem router_mode_switch_witness :
    ((firmware_start fresh_state).sd.sd_initialized = true
        ∧ (firmware_start fresh_state).sd.card.replies = []
        ∧ (firmware_start fresh_state).sd.g_metadata.count = 0
        ∧ metadata_invariant (firmware_start fresh_state).sd.g_metadata
        ∧ (firmware_start fresh_state).mqtt_current_state
            = mqtt_state_t.MQTT_STATE_DISCONNECTED
        ∧ switch_events.1.wellTyped ∧ switch_events.2.1.wellTyped
        ∧ switch_events.2.2.wellTyped
        ∧ drain_len reference_clib switch_drains.1.rtc
            (switch_events.1.sample.record 0) > 0)
      ∧ SDCardManager_GetBufferedCount (main_loop_iteration reference_clib
          (main_loop_iteration reference_clib (main_loop_iteration reference_clib
          (main_loop_iteration reference_clib (main_loop_iteration reference_clib
          (main_loop_iteration reference_clib (firmware_start fresh_state)
            switch_events.1.pass) switch_events.2.1.pass) switch_events.2.2.pass)
          (connect_pass switch_drains.1)) (idle_pass switch_drains.2.1))
          (idle_pass switch_drains.2.2)).sd = 0 :=
  ⟨⟨rfl, rfl, rfl, by decide, rfl, by decide, by decide, by decide, by decide⟩,
    (router_mode_switch reference_clib (firmware_start fresh_state)
      switch_events.1 switch_events.2.1 switch_events.2.2
      switch_drains.1 switch_drains.2.1 switch_drains.2.2
      rfl rfl rfl (by decide) (by decide) rfl (by decide) (by decide) (by decide)
      (by decide) (by decide) (by decide) (by decide) (by decide)
      (by decide)).2.2.2.2.2.2.2.2⟩

/-- Witness for C15 (amended): the pass in which the gateway connects while one record is
buffered. -/
theorem drain_pacing_witness :
    ((main_loop_iteration reference_clib (firmware_start fresh_state)
          single_without_rtc).sd.g_metadata.count < U32
        ∧ ∀ argc : Nat, connect_with_rtc.dispatch ≠ some (Dispatch.sd_clear argc))
      ∧ SDCardManager_GetBufferedCount (main_loop_iteration reference_clib
          (main_loop_iteration reference_clib (firmware_start fresh_state)
            single_without_rtc) connect_with_rtc).sd + 1
          ≥ SDCardManager_GetBufferedCount (main_loop_iteration reference_clib
              (firmware_start fresh_state) single_without_rtc).sd :=
  ⟨⟨by decide, fun argc h => by cases h⟩,
    (drain_pacing reference_clib
      (main_loop_iteration reference_clib (firmware_start fresh_state) single_without_rtc)
      connect_with_rtc (by decide) (fun argc h => by cases h)).2.1⟩

/-! ## The SPI block driver: bounded waits -/

theorem within_refl (b : Spi) : b.within b 0 :=
  ⟨Nat.le_refl _, Nat.le_refl _⟩

theorem within_trans {a b c : Spi} {n m k : Nat} (h1 : a.within b n) (h2 : b.within c m)
    (h : n + m ≤ k) : a.within c k := by
  unfold Spi.within at *
  omega

theorem within_mono {a b : Spi} {n k : Nat} (h1 : a.within b n) (h : n ≤ k) :
    a.within b k := by
  unfold Spi.within at *
  omega

theorem frame_refl (b : Spi) : b.frame b :=
  ⟨rfl, rfl, rfl⟩

theorem frame_trans {a b c : Spi} (h1 : a.frame b) (h2 : b.frame c) : a.frame c :=
  ⟨h2.1.trans h1.1, h2.2.1.trans h1.2.1, h2.2.2.trans h1.2.2⟩

theorem ReadWrite_within (b : Spi) (d : Nat) : b.within (SD_SPI_ReadWrite b d).1 1 := by
  unfold SD_SPI_ReadWrite Spi.within
  split <;> simp

theorem ReadWrite_frame (b : Spi) (d : Nat) : b.frame (SD_SPI_ReadWrite b d).1 := by
  unfold SD_SPI_ReadWrite Spi.frame
  split <;> simp

theorem ReadWrite_selects (b : Spi) (d : Nat) :
    selects (SD_SPI_ReadWrite b d).1.log = selects b.log := by
  unfold SD_SPI_ReadWrite selects
  split <;> simp [List.countP_append, List.countP_cons]

theorem ReadWrite_live (b : Spi) (d : Nat) (h : b.g_hspi = true) :
    (SD_SPI_ReadWrite b d).2 = b.miso b.pos % 256 ∧
      (SD_SPI_ReadWrite b d).1.pos = b.pos + 1 := by
  unfold SD_SPI_ReadWrite
  simp [h]

theorem ReadWrite_null (b : Spi) (d : Nat) (h : b.g_hspi = false) :
    (SD_SPI_ReadWrite b d).2 = 0xFF := by
  unfold SD_SPI_ReadWrite
  simp [h]

theorem CS_Low_within (b : Spi) : b.within (SD_CS_Low b) 0 := within_refl b

theorem CS_High_within (b : Spi) : b.within (SD_CS_High b) 0 := within_refl b

theorem Delay_within (b : Spi) (ms : Nat) : b.within (HAL_Delay b ms) 0 := within_refl b

theorem CS_Low_frame (b : Spi) : b.frame (SD_CS_Low b) := frame_refl b

theorem CS_High_frame (b : Spi) : b.frame (SD_CS_High b) := frame_refl b

theorem Delay_frame (b : Spi) (ms : Nat) : b.frame (HAL_Delay b ms) := frame_refl b

theorem CS_Low_selects (b : Spi) : selects (SD_CS_Low b).log = selects b.log + 1 := by
  simp [SD_CS_Low, selects, List.countP_append, List.countP_cons]

theorem CS_High_selects (b : Spi) : selects (SD_CS_High b).log = selects b.log := by
  simp [SD_CS_High, selects, List.countP_append, List.countP_cons]

theorem Delay_selects (b : Spi) (ms : Nat) : selects (HAL_Delay b ms).log = selects b.log := by
  simp [HAL_Delay, selects, List.countP_append, List.countP_cons]

theorem SendClock_within (n : Nat) (b : Spi) : b.within (SD_SendClock n b) n := by
  induction n generalizing b with
  | zero => exact within_refl b
  | succ n ih =>
    unfold SD_SendClock
    exact within_trans (ReadWrite_within b 0xFF) (ih _) (by omega)

theorem SendClock_frame (n : Nat) (b : Spi) : b.frame (SD_SendClock n b) := by
  induction n generalizing b with
  | zero => exact frame_refl b
  | succ n ih =>
    unfold SD_SendClock
    exact frame_trans (ReadWrite_frame b 0xFF) (ih _)

theorem SendClock_selects (n : Nat) (b : Spi) :
    selects (SD_SendClock n b).log = selects b.log := by
  induction n generalizing b with
  | zero => rfl
  | succ n ih =>
    unfold SD_SendClock
    rw [ih, ReadWrite_selects]

theorem wait_r1_within (fuel retry : Nat) (b : Spi) :
    b.within (wait_r1 fuel retry b).1 fuel := by
  induction fuel generalizing retry b with
  | zero => exact within_refl b
  | succ fuel ih =>
    unfold wait_r1
    split
    · split
      · exact within_mono (ReadWrite_within b 0xFF) (by omega)
      · exact within_trans (ReadWrite_within b 0xFF) (ih _ _) (by omega)
    · exact within_mono (ReadWrite_within b 0xFF) (by omega)

theorem wait_r1_frame (fuel retry : Nat) (b : Spi) :
    b.frame (wait_r1 fuel retry b).1 := by
  induction fuel generalizing retry b with
  | zero => exact frame_refl b
  | succ fuel ih =>
    unfold wait_r1
    split
    · split
      · exact ReadWrite_frame b 0xFF
      · exact frame_trans (ReadWrite_frame b 0xFF) (ih _ _)
    · exact ReadWrite_frame b 0xFF

theorem wait_r1_selects (fuel retry : Nat) (b : Spi) :
    selects (wait_r1 fuel retry b).1.log = selects b.log := by
  induction fuel generalizing retry b with
  | zero => rfl
  | succ fuel ih =>
    unfold wait_r1
    split
    · split
      · exact ReadWrite_selects b 0xFF
      · rw [ih, ReadWrite_selects]
    · exact ReadWrite_selects b 0xFF

theorem wait_r1_fuel (f1 f2 retry : Nat) (b : Spi) (hr : retry < 10)
    (h1 : 10 ≤ f1 + retry) (h2 : 10 ≤ f2 + retry) :
    wait_r1 f1 retry b = wait_r1 f2 retry b := by
  induction f1 generalizing f2 retry b with
  | zero => omega
  | succ f1 ih =>
    cases f2 with
    | zero => omega
    | succ f2 =>
      unfold wait_r1
      split
      · split
        · rfl
        · have e : (retry + 1) % 65536 = retry + 1 := Nat.mod_eq_of_lt (by omega)
          rw [e]
          exact ih f2 (retry + 1) _ (by omega) (by omega) (by omega)
      · rfl

theorem SendCommandRaw_within (b : Spi) (cmd arg crc : Nat) :
    b.within (SD_SendCommandRaw b cmd arg crc).1 16 := by
  unfold SD_SendCommandRaw
  exact within_trans (within_trans (within_trans (within_trans (within_trans (within_trans
    (ReadWrite_within _ _) (ReadWrite_within _ _) (Nat.le_refl 2))
    (ReadWrite_within _ _) (Nat.le_refl 3)) (ReadWrite_within _ _) (Nat.le_refl 4))
    (ReadWrite_within _ _) (Nat.le_refl 5)) (ReadWrite_within _ _) (Nat.le_refl 6))
    (wait_r1_within 10 0 _) (Nat.le_refl 16)

theorem SendCommandRaw_frame (b : Spi) (cmd arg crc : Nat) :
    b.frame (SD_SendCommandRaw b cmd arg crc).1 := by
  unfold SD_SendCommandRaw
  exact frame_trans (frame_trans (frame_trans (frame_trans (frame_trans (frame_trans
    (ReadWrite_frame _ _) (ReadWrite_frame _ _))
    (ReadWrite_frame _ _)) (ReadWrite_frame _ _))
    (ReadWrite_frame _ _)) (ReadWrite_frame _ _))
    (wait_r1_frame 10 0 _)

theorem SendCommandRaw_selects (b : Spi) (cmd arg crc : Nat) :
    selects (SD_SendCommandRaw b cmd arg crc).1.log = selects b.log := by
  unfold SD_SendCommandRaw
  simp only [wait_r1_selects, ReadWrite_selects]

theorem SendCommand_within (b : Spi) (cmd arg crc : Nat) :
    b.within (SD_SendCommand b cmd arg crc).1 19 := by
  unfold SD_SendCommand
  exact within_trans (within_trans (within_trans (within_trans (within_trans
    (CS_Low_within b) (ReadWrite_within _ _) (Nat.le_refl 1))
    (SendCommandRaw_within _ cmd arg crc) (Nat.le_refl 17))
    (ReadWrite_within _ _) (Nat.le_refl 18)) (CS_High_within _) (Nat.le_refl 18))
    (ReadWrite_within _ _) (Nat.le_refl 19)

theorem SendCommand_selects (b : Spi) (cmd arg crc : Nat) :
    selects (SD_SendCommand b cmd arg crc).1.log = selects b.log + 1 := by
  unfold SD_SendCommand
  simp only [ReadWrite_selects, CS_High_selects, SendCommandRaw_selects, CS_Low_selects]

theorem cmd0_loop_within (fuel retry r1 : Nat) (b : Spi) :
    b.within (cmd0_loop fuel retry r1 b).1 (fuel * 19) := by
  induction fuel generalizing retry r1 b with
  | zero => exact within_mono (within_refl b) (by omega)
  | succ fuel ih =>
    unfold cmd0_loop
    split
    · split
      · exact within_mono (SendCommand_within b CMD0 0 0x95) (by omega)
      · exact within_trans (within_trans (SendCommand_within b CMD0 0 0x95)
          (Delay_within _ 10) (Nat.le_refl 19)) (ih _ _ _) (by omega)
    · exact within_mono (within_refl b) (by omega)

theorem cmd0_loop_selects (fuel retry r1 : Nat) (b : Spi) :
    selects (cmd0_loop fuel retry r1 b).1.log ≤ selects b.log + fuel := by
  induction fuel generalizing retry r1 b with
  | zero => exact Nat.le_refl _
  | succ fuel ih =>
    unfold cmd0_loop
    split
    · split
      · rw [SendCommand_selects]
        omega
      · have h := ih ((retry + 1) % 65536) (SD_SendCommand b CMD0 0 0x95).2
          (HAL_Delay (SD_SendCommand b CMD0 0 0x95).1 10)
        rw [Delay_selects, SendCommand_selects] at h
        omega
    · exact Nat.le_add_right _ _

theorem cmd0_loop_fuel (f1 f2 retry r1 : Nat) (b : Spi)
    (h1 : 100 ≤ f1 + retry) (h2 : 100 ≤ f2 + retry) :
    cmd0_loop f1 retry r1 b = cmd0_loop f2 retry r1 b := by
  induction f1 generalizing f2 retry r1 b with
  | zero =>
    cases f2 with
    | zero => rfl
    | succ f2 =>
      unfold cmd0_loop
      rw [if_neg (by omega)]
  | succ f1 ih =>
    cases f2 with
    | zero =>
      unfold cmd0_loop
      rw [if_neg (by omega)]
    | succ f2 =>
      unfold cmd0_loop
      split
      · split
        · rfl
        · have e : (retry + 1) % 65536 = retry + 1 := Nat.mod_eq_of_lt (by omega)
          rw [e]
          exact ih f2 (retry + 1) _ _ (by omega) (by omega)
      · rfl

theorem acmd41_attempt_within (b : Spi) (arg : Nat) :
    b.within (acmd41_attempt b arg).1 35 := by
  unfold acmd41_attempt
  exact within_trans (within_trans (within_trans (within_trans (within_trans (within_trans
    (CS_Low_within b) (ReadWrite_within _ _) (Nat.le_refl 1))
    (SendCommandRaw_within _ CMD55 0 0) (Nat.le_refl 17))
    (SendCommandRaw_within _ CMD41 arg 0) (Nat.le_refl 33))
    (ReadWrite_within _ _) (Nat.le_refl 34)) (CS_High_within _) (Nat.le_refl 34))
    (ReadWrite_within _ _) (Nat.le_refl 35)

theorem acmd41_attempt_selects (b : Spi) (arg : Nat) :
    selects (acmd41_attempt b arg).1.log = selects b.log + 1 := by
  unfold acmd41_attempt
  simp only [ReadWrite_selects, CS_High_selects, SendCommandRaw_selects, CS_Low_selects]

theorem acmd41_loop_within (fuel retry r1 arg : Nat) (b : Spi) :
    b.within (acmd41_loop fuel retry r1 arg b).1 (fuel * 35) := by
  induction fuel generalizing retry r1 b with
  | zero => exact within_mono (within_refl b) (by omega)
  | succ fuel ih =>
    unfold acmd41_loop
    split
    · split
      · exact within_mono (acmd41_attempt_within b arg) (by omega)
      · exact within_trans (within_trans (acmd41_attempt_within b arg)
          (Delay_within _ 10) (Nat.le_refl 35)) (ih _ _ _) (by omega)
    · exact within_mono (within_refl b) (by omega)

theorem acmd41_loop_selects (fuel retry r1 arg : Nat) (b : Spi) :
    selects (acmd41_loop fuel retry r1 arg b).1.log ≤ selects b.log + fuel := by
  induction fuel generalizing retry r1 b with
  | zero => exact Nat.le_refl _
  | succ fuel ih =>
    unfold acmd41_loop
    split
    · split
      · rw [acmd41_attempt_selects]
        omega
      · have h := ih ((retry + 1) % 65536) (acmd41_attempt b arg).2
          (HAL_Delay (acmd41_attempt b arg).1 10)
        rw [Delay_selects, acmd41_attempt_selects] at h
        omega
    · exact Nat.le_add_right _ _

theorem acmd41_loop_fuel (f1 f2 retry r1 arg : Nat) (b : Spi)
    (h1 : 200 ≤ f1 + retry) (h2 : 200 ≤ f2 + retry) :
    acmd41_loop f1 retry r1 arg b = acmd41_loop f2 retry r1 arg b := by
  induction f1 generalizing f2 retry r1 b with
  | zero =>
    cases f2 with
    | zero => rfl
    | succ f2 =>
      unfold acmd41_loop
      rw [if_neg (by omega)]
  | succ f1 ih =>
    cases f2 with
    | zero =>
      unfold acmd41_loop
      rw [if_neg (by omega)]
    | succ f2 =>
      unfold acmd41_loop
      split
      · split
        · rfl
        · have e : (retry + 1) % 65536 = retry + 1 := Nat.mod_eq_of_lt (by omega)
          rw [e]
          exact ih f2 (retry + 1) _ _ (by omega) (by omega)
      · rfl

theorem wait_token_within (fuel retry : Nat) (b : Spi) :
    b.within (wait_token fuel retry b).1 fuel := by
  induction fuel generalizing retry b with
  | zero => exact within_refl b
  | succ fuel ih =>
    unfold wait_token
    split
    · split
      · exact within_trans (ReadWrite_within b 0xFF) (CS_High_within _) (by omega)
      · exact within_trans (ReadWrite_within b 0xFF) (ih _ _) (by omega)
    · exact within_mono (ReadWrite_within b 0xFF) (by omega)

theorem wait_token_fuel (f1 f2 retry : Nat) (b : Spi) (hr : retry < 10002)
    (h1 : 10002 ≤ f1 + retry) (h2 : 10002 ≤ f2 + retry) :
    wait_token f1 retry b = wait_token f2 retry b := by
  induction f1 generalizing f2 retry b with
  | zero => omega
  | succ f1 ih =>
    cases f2 with
    | zero => omega
    | succ f2 =>
      unfold wait_token
      split
      · split
        · rfl
        · have e : (retry + 1) % 65536 = retry + 1 := Nat.mod_eq_of_lt (by omega)
          rw [e]
          exact ih f2 (retry + 1) _ (by omega) (by omega) (by omega)
      · rfl

theorem wait_busy_within (fuel retry : Nat) (b : Spi) :
    b.within (wait_busy fuel retry b).1 fuel := by
  induction fuel generalizing retry b with
  | zero => exact within_refl b
  | succ fuel ih =>
    unfold wait_busy
    split
    · split
      · exact within_trans (ReadWrite_within b 0xFF) (CS_High_within _) (by omega)
      · exact within_trans (ReadWrite_within b 0xFF) (ih _ _) (by omega)
    · exact within_mono (ReadWrite_within b 0xFF) (by omega)

theorem wait_busy_fuel (f1 f2 retry : Nat) (b : Spi) (hr : retry < 50002)
    (h1 : 50002 ≤ f1 + retry) (h2 : 50002 ≤ f2 + retry) :
    wait_busy f1 retry b = wait_busy f2 retry b := by
  induction f1 generalizing f2 retry b with
  | zero => omega
  | succ f1 ih =>
    cases f2 with
    | zero => omega
    | succ f2 =>
      unfold wait_busy
      split
      · split
        · rfl
        · have e : (retry + 1) % 65536 = retry + 1 := Nat.mod_eq_of_lt (by omega)
          rw [e]
          exact ih f2 (retry + 1) _ (by omega) (by omega) (by omega)
      · rfl

theorem wait_response_within (fuel retry response : Nat) (b : Spi) :
    b.within (wait_response fuel retry response b).1 fuel := by
  induction fuel generalizing retry response b with
  | zero => exact within_refl b
  | succ fuel ih =>
    unfold wait_response
    split
    · exact within_trans (ReadWrite_within b 0xFF) (ih _ _ _) (by omega)
    · exact within_mono (within_refl b) (by omega)

theorem wait_response_fuel (f1 f2 retry response : Nat) (b : Spi)
    (h1 : 100 ≤ f1 + retry) (h2 : 100 ≤ f2 + retry) :
    wait_response f1 retry response b = wait_response f2 retry response b := by
  induction f1 generalizing f2 retry response b with
  | zero =>
    cases f2 with
    | zero => rfl
    | succ f2 =>
      unfold wait_response
      rw [if_neg (by omega)]
  | succ f1 ih =>
    cases f2 with
    | zero =>
      unfold wait_response
      rw [if_neg (by omega)]
    | succ f2 =>
      unfold wait_response
      split
      · have e : (retry + 1) % 65536 = retry + 1 := Nat.mod_eq_of_lt (by omega)
        rw [e]
        exact ih f2 (retry + 1) _ _ (by omega) (by omega)
      · rfl

theorem read_bytes_within (n : Nat) (b : Spi) : b.within (read_bytes n b).1 n := by
  induction n generalizing b with
  | zero => exact within_refl b
  | succ n ih =>
    unfold read_bytes
    exact within_trans (ReadWrite_within b 0xFF) (ih _) (by omega)

theorem write_bytes_within (xs : List Nat) (b : Spi) :
    b.within (write_bytes xs b) xs.length := by
  induction xs generalizing b with
  | nil => exact within_refl b
  | cons x xs ih =>
    unfold write_bytes
    exact within_trans (ReadWrite_within b x) (ih _) (by simp only [List.length_cons]; omega)

theorem select_within (b : Spi) (cmd arg crc : Nat) :
    b.within (SD_SendCommandRaw (SD_SPI_ReadWrite (SD_CS_Low b) 0xFF).1 cmd arg crc).1 17 :=
  within_trans (within_trans (CS_Low_within b) (ReadWrite_within _ _) (Nat.le_refl 1))
    (SendCommandRaw_within _ cmd arg crc) (Nat.le_refl 17)

theorem deselect_within (b : Spi) :
    b.within (SD_SPI_ReadWrite (SD_CS_High (SD_SPI_ReadWrite b 0xFF).1) 0xFF).1 2 :=
  within_trans (within_trans (ReadWrite_within b 0xFF) (CS_High_within _) (Nat.le_refl 1))
    (ReadWrite_within _ _) (Nat.le_refl 2)

theorem abort_within (b : Spi) :
    b.within (SD_CS_High (SD_SPI_ReadWrite b 0xFF).1) 1 :=
  within_trans (ReadWrite_within b 0xFF) (CS_High_within _) (Nat.le_refl 1)

theorem ReadBlock_within (b : Spi) (block_addr : Nat) (buffer : List Nat) :
    b.within (SD_ReadBlock b block_addr buffer).1 10535 := by
  unfold SD_ReadBlock
  dsimp only
  have hc := select_within b CMD17 (card_address b block_addr) 0
  generalize SD_SendCommandRaw (SD_SPI_ReadWrite (SD_CS_Low b) 0xFF).1 CMD17
    (card_address b block_addr) 0 = c at hc ⊢
  split
  · exact within_trans hc (abort_within _) (by omega)
  · have ht := wait_token_within 10002 0 c.1
    generalize wait_token 10002 0 c.1 = t at ht ⊢
    split
    · dsimp only [Spi.within] at *
      omega
    · have hd := read_bytes_within 512 t.1
      generalize read_bytes 512 t.1 = d at hd ⊢
      have h2 := SendClock_within 2 d.1
      generalize SD_SendClock 2 d.1 = b1 at h2 ⊢
      have h3 := deselect_within b1
      dsimp only [Spi.within] at *
      omega

theorem fitTo_length_eq (n : Nat) (l : List Nat) : (fitTo n l).length = n := by
  unfold fitTo
  simp

theorem WriteBlock_within (b : Spi) (block_addr : Nat) (buffer : List Nat) :
    b.within (SD_WriteBlock b block_addr buffer).1 50639 := by
  unfold SD_WriteBlock
  dsimp only
  have hc := select_within b CMD24 (card_address b block_addr) 0
  generalize SD_SendCommandRaw (SD_SPI_ReadWrite (SD_CS_Low b) 0xFF).1 CMD24
    (card_address b block_addr) 0 = c at hc ⊢
  split
  · exact within_trans hc (abort_within _) (by omega)
  · have h1 := SendClock_within 2 c.1
    generalize SD_SendClock 2 c.1 = b0 at h1 ⊢
    have h2 := ReadWrite_within b0 0xFE
    generalize (SD_SPI_ReadWrite b0 0xFE).1 = b1 at h2 ⊢
    have h3 := write_bytes_within (fitTo SD_BLOCK_SIZE buffer) b1
    rw [fitTo_length_eq] at h3
    generalize write_bytes (fitTo SD_BLOCK_SIZE buffer) b1 = bw at h3 ⊢
    have h4 := SendClock_within 2 bw
    generalize SD_SendClock 2 bw = b2 at h4 ⊢
    have h5 := ReadWrite_within b2 0xFF
    generalize SD_SPI_ReadWrite b2 0xFF = x at h5 ⊢
    rw [wait_response_fuel 101 100 0 x.2 x.1 (by omega) (by omega)]
    have h6 := wait_response_within 100 0 x.2 x.1
    generalize wait_response 100 0 x.2 x.1 = r at h6 ⊢
    split
    · have h7 := abort_within r.1
      dsimp only [Spi.within] at *
      simp only [SD_BLOCK_SIZE] at h3
      omega
    · have h8 := wait_busy_within 50002 0 r.1
      generalize wait_busy 50002 0 r.1 = w at h8 ⊢
      split
      · dsimp only [Spi.within] at *
        simp only [SD_BLOCK_SIZE] at h3
        omega
      · have h9 := deselect_within w.1
        dsimp only [Spi.within] at *
        simp only [SD_BLOCK_SIZE] at h3
        omega

theorem SPI_Init_within (b : Spi) (hspi_valid : Bool) :
    b.within (SD_SPI_Init b hspi_valid).1 0 := by
  unfold SD_SPI_Init SD_SetSpeedLow
  split
  · exact within_refl b
  · dsimp only
    split <;> exact ⟨Nat.le_refl _, Nat.le_refl _⟩

theorem print_line_within (b : Spi) (msg : String) : b.within (print_line b msg) 0 :=
  within_refl b

theorem power_up_within (b : Spi) :
    b.within (HAL_Delay (SD_SendClock 20 (SD_CS_High (HAL_Delay (SD_CS_High
      (HAL_Delay (SD_CS_Low (SD_GPIO_Init b)) 1)) 50))) 10) 20 :=
  have h : b.within (SD_CS_High (HAL_Delay (SD_CS_High
      (HAL_Delay (SD_CS_Low (SD_GPIO_Init b)) 1)) 50)) 0 := ⟨Nat.le_refl _, Nat.le_refl _⟩
  within_trans (within_trans h (SendClock_within 20 _) (Nat.le_refl 20))
    (Delay_within _ 10) (Nat.le_refl 20)

theorem SetSpeedHigh_within (b : Spi) : b.within (SD_SetSpeedHigh b) 0 := by
  unfold SD_SetSpeedHigh
  split <;> exact ⟨Nat.le_refl _, Nat.le_refl _⟩

theorem read_ocr_within (b : Spi) : b.within (read_ocr b) 4 := by
  unfold read_ocr
  dsimp only
  have h1 := ReadWrite_within b 0xFF
  generalize SD_SPI_ReadWrite b 0xFF = x at h1 ⊢
  split
  · exact within_trans (within_trans h1 (within_refl _) (Nat.le_refl 1))
      (SendClock_within 3 _) (Nat.le_refl 4)
  · exact within_trans h1 (SendClock_within 3 _) (Nat.le_refl 4)

theorem Init_within (b : Spi) (hspi_valid : Bool) :
    b.within (SD_Init b hspi_valid).1 8972 := by
  unfold SD_Init
  dsimp only
  have h0 := SPI_Init_within b hspi_valid
  generalize SD_SPI_Init b hspi_valid = i0 at h0 ⊢
  split
  · exact within_mono h0 (by omega)
  · have h1 := power_up_within i0.1
    generalize HAL_Delay (SD_SendClock 20 (SD_CS_High (HAL_Delay (SD_CS_High
      (HAL_Delay (SD_CS_Low (SD_GPIO_Init i0.1)) 1)) 50))) 10 = b3 at h1 ⊢
    rw [cmd0_loop_fuel 101 100 0 0xFF b3 (by omega) (by omega)]
    have h2 := cmd0_loop_within 100 0 0xFF b3
    generalize cmd0_loop 100 0 0xFF b3 = c0 at h2 ⊢
    split
    · have h3 : b.within c0.1 1920 := by
        dsimp only [Spi.within] at *
        omega
      exact within_trans h3 (print_line_within c0.1 _) (by omega)
    · have h3 : c0.1.within (HAL_Delay (SD_SendClock 2
          (print_line c0.1 "[SD] CMD0 OK! Card in IDLE state.\r\n")) 1) 2 :=
        within_trans (within_trans (print_line_within c0.1 _) (SendClock_within 2 _)
          (Nat.le_refl 2)) (Delay_within _ 1) (Nat.le_refl 2)
      generalize HAL_Delay (SD_SendClock 2
          (print_line c0.1 "[SD] CMD0 OK! Card in IDLE state.\r\n")) 1 = b4 at h3 ⊢
      have h4 := select_within b4 CMD8 0x1AA 0x87
      generalize SD_SendCommandRaw (SD_SPI_ReadWrite (SD_CS_Low b4) 0xFF).1 CMD8 0x1AA 0x87
        = c8 at h4 ⊢
      have h5 : c8.1.within (if c8.2 = R1_IDLE_STATE then
          { SD_SendClock 4 c8.1 with SD_Type := SD_TYPE_SDV2 }
          else { c8.1 with SD_Type := SD_TYPE_SDV1 }) 4 := by
        split
        · exact within_trans (SendClock_within 4 c8.1) (within_refl _) (Nat.le_refl 4)
        · exact within_mono (within_refl c8.1) (by omega)
      generalize (if c8.2 = R1_IDLE_STATE then
          { SD_SendClock 4 c8.1 with SD_Type := SD_TYPE_SDV2 }
          else { c8.1 with SD_Type := SD_TYPE_SDV1 }) = b5 at h5 ⊢
      generalize (if c8.2 = R1_IDLE_STATE then 0x40000000 else 0) = arg
      have h6 := deselect_within b5
      generalize (SD_SPI_ReadWrite (SD_CS_High (SD_SPI_ReadWrite b5 0xFF).1) 0xFF).1 = b6
        at h6 ⊢
      have h7 : b6.within (HAL_Delay (SD_SendClock 2 b6) 1) 2 :=
        within_trans (SendClock_within 2 b6) (Delay_within _ 1) (Nat.le_refl 2)
      generalize HAL_Delay (SD_SendClock 2 b6) 1 = b7 at h7 ⊢
      rw [acmd41_loop_fuel 201 200 0 0xFF arg b7 (by omega) (by omega)]
      have h8 := acmd41_loop_within 200 0 0xFF arg b7
      generalize acmd41_loop 200 0 0xFF arg b7 = c41 at h8 ⊢
      have h9 : b.within c41.1 8947 := by
        dsimp only [Spi.within] at *
        omega
      split
      · exact within_mono h9 (by omega)
      · have h10 := select_within c41.1 CMD58 0 0
        generalize SD_SendCommandRaw (SD_SPI_ReadWrite (SD_CS_Low c41.1) 0xFF).1 CMD58 0 0
          = c58 at h10 ⊢
        split
        · exact within_trans (within_trans h9 h10 (Nat.le_refl _)) (CS_High_within _)
            (by omega)
        · have h11 := read_ocr_within c58.1
          generalize read_ocr c58.1 = b8 at h11 ⊢
          have h12 := deselect_within b8
          generalize (SD_SPI_ReadWrite (SD_CS_High (SD_SPI_ReadWrite b8 0xFF).1) 0xFF).1 = b9
            at h12 ⊢
          have h13 := SendClock_within 2 b9
          generalize SD_SendClock 2 b9 = b10 at h13 ⊢
          have h14 := SetSpeedHigh_within b10
          generalize SD_SetSpeedHigh b10 = b11 at h14 ⊢
          dsimp only [Spi.within] at *
          omega

theorem SendClock_pos (n : Nat) (b : Spi) (hg : b.g_hspi = true) :
    (SD_SendClock n b).pos = b.pos + n := by
  induction n generalizing b with
  | zero => rfl
  | succ n ih =>
    unfold SD_SendClock
    rw [ih _ ((ReadWrite_frame b 0xFF).2.1.trans hg), (ReadWrite_live b 0xFF hg).2]
    omega

theorem write_bytes_frame (xs : List Nat) (b : Spi) : b.frame (write_bytes xs b) := by
  induction xs generalizing b with
  | nil => exact frame_refl b
  | cons x xs ih =>
    unfold write_bytes
    exact frame_trans (ReadWrite_frame b x) (ih _)

theorem write_bytes_pos (xs : List Nat) (b : Spi) (hg : b.g_hspi = true) :
    (write_bytes xs b).pos = b.pos + xs.length := by
  induction xs generalizing b with
  | nil => rfl
  | cons x xs ih =>
    unfold write_bytes
    rw [ih _ ((ReadWrite_frame b x).2.1.trans hg), (ReadWrite_live b x hg).2,
      List.length_cons]
    omega

theorem wait_r1_skip (i : Nat) : ∀ (fuel retry : Nat) (b : Spi), b.g_hspi = true →
    retry + i ≤ 9 → i ≤ fuel → (∀ k, k < i → b.miso (b.pos + k) % 256 = 0xFF) →
    wait_r1 fuel retry b = wait_r1 (fuel - i) (retry + i) (SD_SendClock i b) := by
  induction i with
  | zero =>
    intro fuel retry b _ _ _ _
    rfl
  | succ i ih =>
    intro fuel retry b hg hr hf h
    obtain ⟨f, rfl⟩ : ∃ f, fuel = f + 1 := ⟨fuel - 1, by omega⟩
    have h0 := h 0 (by omega)
    have hl := ReadWrite_live b 0xFF hg
    have hfr := ReadWrite_frame b 0xFF
    have e : (retry + 1) % 65536 = retry + 1 := Nat.mod_eq_of_lt (by omega)
    have e1 : f + 1 - (i + 1) = f - i := by omega
    have e2 : retry + (i + 1) = retry + 1 + i := by omega
    rw [wait_r1, if_pos (by rw [hl.1]; exact h0), if_neg (by omega), e,
      ih f (retry + 1) _ (hfr.2.1.trans hg) (by omega) (by omega)
        (fun k hk => by
          rw [hfr.1, hl.2]
          have hk1 := h (k + 1) (by omega)
          rwa [show b.pos + 1 + k = b.pos + (k + 1) by omega]), e1, e2]
    rfl

theorem wait_token_skip (i : Nat) : ∀ (fuel retry : Nat) (b : Spi), b.g_hspi = true →
    retry + i ≤ 10001 → i ≤ fuel → (∀ k, k < i → b.miso (b.pos + k) % 256 ≠ 0xFE) →
    wait_token fuel retry b = wait_token (fuel - i) (retry + i) (SD_SendClock i b) := by
  induction i with
  | zero =>
    intro fuel retry b _ _ _ _
    rfl
  | succ i ih =>
    intro fuel retry b hg hr hf h
    obtain ⟨f, rfl⟩ : ∃ f, fuel = f + 1 := ⟨fuel - 1, by omega⟩
    have h0 := h 0 (by omega)
    have hl := ReadWrite_live b 0xFF hg
    have hfr := ReadWrite_frame b 0xFF
    have e : (retry + 1) % 65536 = retry + 1 := Nat.mod_eq_of_lt (by omega)
    have e1 : f + 1 - (i + 1) = f - i := by omega
    have e2 : retry + (i + 1) = retry + 1 + i := by omega
    rw [wait_token, if_pos (by rw [hl.1]; exact h0), if_neg (by omega), e,
      ih f (retry + 1) _ (hfr.2.1.trans hg) (by omega) (by omega)
        (fun k hk => by
          rw [hfr.1, hl.2]
          have hk1 := h (k + 1) (by omega)
          rwa [show b.pos + 1 + k = b.pos + (k + 1) by omega]), e1, e2]
    rfl

theorem wait_busy_skip (i : Nat) : ∀ (fuel retry : Nat) (b : Spi), b.g_hspi = true →
    retry + i ≤ 50001 → i ≤ fuel → (∀ k, k < i → b.miso (b.pos + k) % 256 = 0x00) →
    wait_busy fuel retry b = wait_busy (fuel - i) (retry + i) (SD_SendClock i b) := by
  induction i with
  | zero =>
    intro fuel retry b _ _ _ _
    rfl
  | succ i ih =>
    intro fuel retry b hg hr hf h
    obtain ⟨f, rfl⟩ : ∃ f, fuel = f + 1 := ⟨fuel - 1, by omega⟩
    have h0 := h 0 (by omega)
    have hl := ReadWrite_live b 0xFF hg
    have hfr := ReadWrite_frame b 0xFF
    have e : (retry + 1) % 65536 = retry + 1 := Nat.mod_eq_of_lt (by omega)
    have e1 : f + 1 - (i + 1) = f - i := by omega
    have e2 : retry + (i + 1) = retry + 1 + i := by omega
    rw [wait_busy, if_pos (by rw [hl.1]; exact h0), if_neg (by omega), e,
      ih f (retry + 1) _ (hfr.2.1.trans hg) (by omega) (by omega)
        (fun k hk => by
          rw [hfr.1, hl.2]
          have hk1 := h (k + 1) (by omega)
          rwa [show b.pos + 1 + k = b.pos + (k + 1) by omega]), e1, e2]
    rfl

theorem wait_response_skip (i : Nat) : ∀ (fuel retry : Nat) (b : Spi), b.g_hspi = true →
    retry + i ≤ 100 → i ≤ fuel → (∀ k, k < i → b.miso (b.pos + k) % 256 = 0xFF) →
    wait_response fuel retry 0xFF b =
      wait_response (fuel - i) (retry + i) 0xFF (SD_SendClock i b) := by
  induction i with
  | zero =>
    intro fuel retry b _ _ _ _
    rfl
  | succ i ih =>
    intro fuel retry b hg hr hf h
    obtain ⟨f, rfl⟩ : ∃ f, fuel = f + 1 := ⟨fuel - 1, by omega⟩
    have h0 : b.miso b.pos % 256 = 0xFF := h 0 (by omega)
    have hl := ReadWrite_live b 0xFF hg
    have hfr := ReadWrite_frame b 0xFF
    have e : (retry + 1) % 65536 = retry + 1 := Nat.mod_eq_of_lt (by omega)
    have e1 : f + 1 - (i + 1) = f - i := by omega
    have e2 : retry + (i + 1) = retry + 1 + i := by omega
    rw [wait_response, if_pos ⟨rfl, by omega⟩, e, hl.1, h0,
      ih f (retry + 1) _ (hfr.2.1.trans hg) (by omega) (by omega)
        (fun k hk => by
          rw [hfr.1, hl.2]
          have hk1 := h (k + 1) (by omega)
          rwa [show b.pos + 1 + k = b.pos + (k + 1) by omega]), e1, e2]
    rfl

theorem wait_r1_null (fuel retry : Nat) (b : Spi) (hg : b.g_hspi = false) :
    (wait_r1 fuel retry b).2 = 0xFF := by
  induction fuel generalizing retry b with
  | zero => rfl
  | succ fuel ih =>
    unfold wait_r1
    rw [if_pos (ReadWrite_null b 0xFF hg)]
    split
    · exact ReadWrite_null b 0xFF hg
    · exact ih _ _ ((ReadWrite_frame b 0xFF).2.1.trans hg)

theorem live_step (b : Spi) (d : Nat) (hg : b.g_hspi = true) :
    (SD_SPI_ReadWrite b d).1.g_hspi = true ∧ (SD_SPI_ReadWrite b d).1.miso = b.miso ∧
      (SD_SPI_ReadWrite b d).1.pos = b.pos + 1 :=
  ⟨(ReadWrite_frame b d).2.1.trans hg, (ReadWrite_frame b d).1, (ReadWrite_live b d hg).2⟩

theorem live_clock (n : Nat) (b : Spi) (hg : b.g_hspi = true) :
    (SD_SendClock n b).g_hspi = true ∧ (SD_SendClock n b).miso = b.miso ∧
      (SD_SendClock n b).pos = b.pos + n :=
  ⟨(SendClock_frame n b).2.1.trans hg, (SendClock_frame n b).1, SendClock_pos n b hg⟩

theorem live_write (xs : List Nat) (b : Spi) (hg : b.g_hspi = true) :
    (write_bytes xs b).g_hspi = true ∧ (write_bytes xs b).miso = b.miso ∧
      (write_bytes xs b).pos = b.pos + xs.length :=
  ⟨(write_bytes_frame xs b).2.1.trans hg, (write_bytes_frame xs b).1, write_bytes_pos xs b hg⟩

theorem wait_r1_capped (b : Spi) (hg : b.g_hspi = true)
    (h : ∀ k, k < 10 → b.miso (b.pos + k) % 256 = 0xFF) : (wait_r1 10 0 b).2 = 0xFF := by
  rw [wait_r1_skip 9 10 0 b hg (by omega) (by omega) (fun k hk => h k (by omega))]
  obtain ⟨g9, m9, p9⟩ := live_clock 9 b hg
  have hl := ReadWrite_live (SD_SendClock 9 b) 0xFF g9
  have h9 : (SD_SPI_ReadWrite (SD_SendClock 9 b) 0xFF).2 = 0xFF := by
    rw [hl.1, m9, p9]
    exact h 9 (by omega)
  show (wait_r1 (0 + 1) 9 (SD_SendClock 9 b)).2 = 0xFF
  rw [wait_r1, if_pos h9, if_pos (by omega)]
  exact h9

theorem wait_token_capped (b : Spi) (hg : b.g_hspi = true)
    (h : ∀ k, k < 10002 → b.miso (b.pos + k) % 256 ≠ 0xFE) :
    (wait_token 10002 0 b).2 = false := by
  rw [wait_token_skip 10001 10002 0 b hg (by omega) (by omega) (fun k hk => h k (by omega))]
  obtain ⟨g9, m9, p9⟩ := live_clock 10001 b hg
  have hl := ReadWrite_live (SD_SendClock 10001 b) 0xFF g9
  have h9 : (SD_SPI_ReadWrite (SD_SendClock 10001 b) 0xFF).2 ≠ 0xFE := by
    rw [hl.1, m9, p9]
    exact h 10001 (by omega)
  show (wait_token (0 + 1) 10001 (SD_SendClock 10001 b)).2 = false
  rw [wait_token, if_pos h9, if_pos (by omega)]

theorem wait_busy_capped (b : Spi) (hg : b.g_hspi = true)
    (h : ∀ k, k < 50002 → b.miso (b.pos + k) % 256 = 0x00) :
    (wait_busy 50002 0 b).2 = false := by
  rw [wait_busy_skip 50001 50002 0 b hg (by omega) (by omega) (fun k hk => h k (by omega))]
  obtain ⟨g9, m9, p9⟩ := live_clock 50001 b hg
  have hl := ReadWrite_live (SD_SendClock 50001 b) 0xFF g9
  have h9 : (SD_SPI_ReadWrite (SD_SendClock 50001 b) 0xFF).2 = 0x00 := by
    rw [hl.1, m9, p9]
    exact h 50001 (by omega)
  show (wait_busy (0 + 1) 50001 (SD_SendClock 50001 b)).2 = false
  rw [wait_busy, if_pos h9, if_pos (by omega)]

theorem wait_response_capped (b : Spi) (hg : b.g_hspi = true)
    (h : ∀ k, k < 100 → b.miso (b.pos + k) % 256 = 0xFF) :
    (wait_response 101 0 0xFF b).2 = 0xFF := by
  rw [wait_response_skip 100 101 0 b hg (by omega) (by omega) h]
  show (wait_response (0 + 1) 100 0xFF (SD_SendClock 100 b)).2 = 0xFF
  rw [wait_response, if_neg (by omega)]

theorem wait_response_found (b : Spi) (i : Nat) (hg : b.g_hspi = true) (hi : i < 100)
    (h : ∀ k, k < i → b.miso (b.pos + k) % 256 = 0xFF)
    (hx : b.miso (b.pos + i) % 256 ≠ 0xFF) :
    wait_response 101 0 0xFF b =
      ((SD_SPI_ReadWrite (SD_SendClock i b) 0xFF).1, b.miso (b.pos + i) % 256) := by
  rw [wait_response_skip i 101 0 b hg (by omega) (by omega) h]
  obtain ⟨gi, mi, pi⟩ := live_clock i b hg
  have hl := ReadWrite_live (SD_SendClock i b) 0xFF gi
  obtain ⟨f, hf⟩ : ∃ f, 101 - i = f + 1 + 1 := ⟨101 - i - 2, by omega⟩
  rw [hf, wait_response, if_pos ⟨rfl, by omega⟩, wait_response, hl.1, mi, pi,
    if_neg (fun hc => hx hc.1)]

theorem SendCommandRaw_live (b : Spi) (cmd arg crc : Nat) (hg : b.g_hspi = true) :
    (SD_SendCommandRaw b cmd arg crc).1.g_hspi = true ∧
      (SD_SendCommandRaw b cmd arg crc).1.miso = b.miso :=
  ⟨(SendCommandRaw_frame b cmd arg crc).2.1.trans hg, (SendCommandRaw_frame b cmd arg crc).1⟩

theorem SendCommandRaw_capped (b : Spi) (cmd arg crc : Nat) (hg : b.g_hspi = true)
    (h : ∀ k, k < 10 → b.miso (b.pos + 6 + k) % 256 = 0xFF) :
    (SD_SendCommandRaw b cmd arg crc).2 = 0xFF := by
  unfold SD_SendCommandRaw
  dsimp only
  obtain ⟨g1, m1, p1⟩ := live_step b ((0x40 ||| cmd) % 256) hg
  generalize (SD_SPI_ReadWrite b ((0x40 ||| cmd) % 256)).1 = b1 at g1 m1 p1 ⊢
  obtain ⟨g2, m2, p2⟩ := live_step b1 (arg / 16777216 % 256) g1
  generalize (SD_SPI_ReadWrite b1 (arg / 16777216 % 256)).1 = b2 at g2 m2 p2 ⊢
  obtain ⟨g3, m3, p3⟩ := live_step b2 (arg / 65536 % 256) g2
  generalize (SD_SPI_ReadWrite b2 (arg / 65536 % 256)).1 = b3 at g3 m3 p3 ⊢
  obtain ⟨g4, m4, p4⟩ := live_step b3 (arg / 256 % 256) g3
  generalize (SD_SPI_ReadWrite b3 (arg / 256 % 256)).1 = b4 at g4 m4 p4 ⊢
  obtain ⟨g5, m5, p5⟩ := live_step b4 (arg % 256) g4
  generalize (SD_SPI_ReadWrite b4 (arg % 256)).1 = b5 at g5 m5 p5 ⊢
  obtain ⟨g6, m6, p6⟩ := live_step b5 crc g5
  generalize (SD_SPI_ReadWrite b5 crc).1 = b6 at g6 m6 p6 ⊢
  apply wait_r1_capped b6 g6
  intro k hk
  have e : b6.pos + k = b.pos + 6 + k := by omega
  rw [m6, m5, m4, m3, m2, m1, e]
  exact h k hk

theorem SendCommandRaw_null (b : Spi) (cmd arg crc : Nat) (hg : b.g_hspi = false) :
    (SD_SendCommandRaw b cmd arg crc).2 = 0xFF := by
  unfold SD_SendCommandRaw
  dsimp only
  apply wait_r1_null
  exact (frame_trans (frame_trans (frame_trans (frame_trans (frame_trans
    (ReadWrite_frame _ _) (ReadWrite_frame _ _))
    (ReadWrite_frame _ _)) (ReadWrite_frame _ _))
    (ReadWrite_frame _ _)) (ReadWrite_frame _ _)).2.1.trans hg

theorem select_live (b : Spi) (hg : b.g_hspi = true) :
    (SD_SPI_ReadWrite (SD_CS_Low b) 0xFF).1.g_hspi = true ∧
      (SD_SPI_ReadWrite (SD_CS_Low b) 0xFF).1.miso = b.miso ∧
      (SD_SPI_ReadWrite (SD_CS_Low b) 0xFF).1.pos = b.pos + 1 :=
  live_step (SD_CS_Low b) 0xFF hg

theorem command_capped (b : Spi) (cmd arg crc : Nat) (hg : b.g_hspi = true)
    (h : ∀ k, k < 10 → b.miso (b.pos + 7 + k) % 256 = 0xFF) :
    (SD_SendCommandRaw (SD_SPI_ReadWrite (SD_CS_Low b) 0xFF).1 cmd arg crc).2 = 0xFF := by
  obtain ⟨g1, m1, p1⟩ := select_live b hg
  apply SendCommandRaw_capped _ cmd arg crc g1
  intro k hk
  have e : (SD_SPI_ReadWrite (SD_CS_Low b) 0xFF).1.pos + 6 + k = b.pos + 7 + k := by
    rw [p1]
  rw [m1, e]
  exact h k hk

theorem command_null (b : Spi) (cmd arg crc : Nat) (hg : b.g_hspi = false) :
    (SD_SendCommandRaw (SD_SPI_ReadWrite (SD_CS_Low b) 0xFF).1 cmd arg crc).2 = 0xFF :=
  SendCommandRaw_null _ cmd arg crc ((ReadWrite_frame (SD_CS_Low b) 0xFF).2.1.trans hg)

theorem command_live (b : Spi) (cmd arg crc : Nat) (hg : b.g_hspi = true) :
    (SD_SendCommandRaw (SD_SPI_ReadWrite (SD_CS_Low b) 0xFF).1 cmd arg crc).1.g_hspi = true ∧
      (SD_SendCommandRaw (SD_SPI_ReadWrite (SD_CS_Low b) 0xFF).1 cmd arg crc).1.miso
        = b.miso := by
  obtain ⟨g1, m1, _⟩ := select_live b hg
  obtain ⟨g2, m2⟩ := SendCommandRaw_live (SD_SPI_ReadWrite (SD_CS_Low b) 0xFF).1 cmd arg crc g1
  exact ⟨g2, m2.trans m1⟩

theorem ReadBlock_of_r1 (b : Spi) (block_addr : Nat) (buffer : List Nat)
    (h : (SD_SendCommandRaw (SD_SPI_ReadWrite (SD_CS_Low b) 0xFF).1 CMD17
      (card_address b block_addr) 0).2 ≠ R1_READY) :
    (SD_ReadBlock b block_addr buffer).2 = (1, buffer) := by
  unfold SD_ReadBlock
  dsimp only
  rw [if_pos h]

theorem ReadBlock_token_timeout (b : Spi) (block_addr : Nat) (buffer : List Nat)
    (h : (SD_SendCommandRaw (SD_SPI_ReadWrite (SD_CS_Low b) 0xFF).1 CMD17
      (card_address b block_addr) 0).2 = R1_READY)
    (ht : (wait_token 10002 0 (SD_SendCommandRaw (SD_SPI_ReadWrite (SD_CS_Low b) 0xFF).1 CMD17
      (card_address b block_addr) 0).1).2 = false) :
    (SD_ReadBlock b block_addr buffer).2 = (2, buffer) := by
  unfold SD_ReadBlock
  dsimp only
  rw [if_neg (fun hc => hc h), if_pos ht]

theorem WriteBlock_of_r1 (b : Spi) (block_addr : Nat) (buffer : List Nat)
    (h : (SD_SendCommandRaw (SD_SPI_ReadWrite (SD_CS_Low b) 0xFF).1 CMD24
      (card_address b block_addr) 0).2 ≠ R1_READY) :
    (SD_WriteBlock b block_addr buffer).2 = 1 := by
  unfold SD_WriteBlock
  dsimp only
  rw [if_pos h]

theorem data_phase_live (c : Spi) (buffer : List Nat) (hg : c.g_hspi = true) :
    (SD_SendClock 2 (write_bytes (fitTo SD_BLOCK_SIZE buffer)
        (SD_SPI_ReadWrite (SD_SendClock 2 c) 0xFE).1)).g_hspi = true ∧
      (SD_SendClock 2 (write_bytes (fitTo SD_BLOCK_SIZE buffer)
        (SD_SPI_ReadWrite (SD_SendClock 2 c) 0xFE).1)).miso = c.miso ∧
      (SD_SendClock 2 (write_bytes (fitTo SD_BLOCK_SIZE buffer)
        (SD_SPI_ReadWrite (SD_SendClock 2 c) 0xFE).1)).pos = c.pos + 517 := by
  obtain ⟨g1, m1, p1⟩ := live_clock 2 c hg
  generalize SD_SendClock 2 c = b0 at g1 m1 p1 ⊢
  obtain ⟨g2, m2, p2⟩ := live_step b0 0xFE g1
  generalize (SD_SPI_ReadWrite b0 0xFE).1 = b1 at g2 m2 p2 ⊢
  obtain ⟨g3, m3, p3⟩ := live_write (fitTo SD_BLOCK_SIZE buffer) b1 g2
  rw [fitTo_length_eq] at p3
  generalize write_bytes (fitTo SD_BLOCK_SIZE buffer) b1 = bw at g3 m3 p3 ⊢
  obtain ⟨g4, m4, p4⟩ := live_clock 2 bw g3
  refine ⟨g4, ?_, ?_⟩
  · rw [m4, m3, m2, m1]
  · rw [p4, p3, p2, p1]
    simp only [SD_BLOCK_SIZE]

theorem WriteBlock_response (b : Spi) (block_addr : Nat) (buffer : List Nat)
    (h : (SD_SendCommandRaw (SD_SPI_ReadWrite (SD_CS_Low b) 0xFF).1 CMD24
      (card_address b block_addr) 0).2 = R1_READY) (r : Spi × Nat)
    (hr : wait_response 101 0
      (SD_SPI_ReadWrite (SD_SendClock 2 (write_bytes (fitTo SD_BLOCK_SIZE buffer)
        (SD_SPI_ReadWrite (SD_SendClock 2 (SD_SendCommandRaw
          (SD_SPI_ReadWrite (SD_CS_Low b) 0xFF).1 CMD24 (card_address b block_addr) 0).1)
          0xFE).1)) 0xFF).2
      (SD_SPI_ReadWrite (SD_SendClock 2 (write_bytes (fitTo SD_BLOCK_SIZE buffer)
        (SD_SPI_ReadWrite (SD_SendClock 2 (SD_SendCommandRaw
          (SD_SPI_ReadWrite (SD_CS_Low b) 0xFF).1 CMD24 (card_address b block_addr) 0).1)
          0xFE).1)) 0xFF).1 = r) :
    (SD_WriteBlock b block_addr buffer).2 =
      if r.2 % 32 ≠ 0x05 then 2
      else if (wait_busy 50002 0 r.1).2 = false then 3 else 0 := by
  unfold SD_WriteBlock
  dsimp only
  rw [if_neg (fun hc => hc h), hr]
  split
  · rfl
  · split <;> rfl

theorem response_found (b2 : Spi) (i : Nat) (hg : b2.g_hspi = true) (hi : i < 101)
    (h : ∀ k, k < i → b2.miso (b2.pos + k) % 256 = 0xFF)
    (hx : b2.miso (b2.pos + i) % 256 ≠ 0xFF) :
    (wait_response 101 0 (SD_SPI_ReadWrite b2 0xFF).2 (SD_SPI_ReadWrite b2 0xFF).1).2
        = b2.miso (b2.pos + i) % 256 ∧
      (wait_response 101 0 (SD_SPI_ReadWrite b2 0xFF).2 (SD_SPI_ReadWrite b2 0xFF).1).1.g_hspi
        = true ∧
      (wait_response 101 0 (SD_SPI_ReadWrite b2 0xFF).2 (SD_SPI_ReadWrite b2 0xFF).1).1.miso
        = b2.miso ∧
      (wait_response 101 0 (SD_SPI_ReadWrite b2 0xFF).2 (SD_SPI_ReadWrite b2 0xFF).1).1.pos
        = b2.pos + i + 1 := by
  have hl := ReadWrite_live b2 0xFF hg
  obtain ⟨g1, m1, p1⟩ := live_step b2 0xFF hg
  cases i with
  | zero =>
    have e : wait_response 101 0 (SD_SPI_ReadWrite b2 0xFF).2 (SD_SPI_ReadWrite b2 0xFF).1
        = ((SD_SPI_ReadWrite b2 0xFF).1, (SD_SPI_ReadWrite b2 0xFF).2) := by
      show wait_response (100 + 1) 0 _ _ = _
      rw [wait_response, if_neg (fun hc => hx (hl.1 ▸ hc.1))]
    rw [e]
    exact ⟨hl.1, g1, m1, p1⟩
  | succ j =>
    have h0 : (SD_SPI_ReadWrite b2 0xFF).2 = 0xFF := by
      rw [hl.1]
      exact h 0 (by omega)
    have e := wait_response_found (SD_SPI_ReadWrite b2 0xFF).1 j g1 (by omega)
      (fun k hk => by
        rw [m1, p1]
        have hk1 := h (k + 1) (by omega)
        rwa [show b2.pos + 1 + k = b2.pos + (k + 1) by omega])
      (by
        rw [m1, p1]
        rwa [show b2.pos + 1 + j = b2.pos + (j + 1) by omega])
    rw [h0, e]
    obtain ⟨g2, m2, p2⟩ := live_clock j (SD_SPI_ReadWrite b2 0xFF).1 g1
    obtain ⟨g3, m3, p3⟩ := live_step (SD_SendClock j (SD_SPI_ReadWrite b2 0xFF).1) 0xFF g2
    refine ⟨?_, g3, ?_, ?_⟩
    · rw [m1, p1]
      rw [show b2.pos + 1 + j = b2.pos + (j + 1) by omega]
    · rw [m3, m2, m1]
    · rw [p3, p2, p1]
      omega

theorem response_capped (b2 : Spi) (hg : b2.g_hspi = true)
    (h : ∀ k, k < 101 → b2.miso (b2.pos + k) % 256 = 0xFF) :
    (wait_response 101 0 (SD_SPI_ReadWrite b2 0xFF).2 (SD_SPI_ReadWrite b2 0xFF).1).2
      = 0xFF := by
  have hl := ReadWrite_live b2 0xFF hg
  obtain ⟨g1, m1, p1⟩ := live_step b2 0xFF hg
  have h0 : (SD_SPI_ReadWrite b2 0xFF).2 = 0xFF := by
    rw [hl.1]
    exact h 0 (by omega)
  rw [h0]
  apply wait_response_capped _ g1
  intro k hk
  rw [m1, p1]
  have hk1 := h (k + 1) (by omega)
  rwa [show b2.pos + 1 + k = b2.pos + (k + 1) by omega]

theorem WriteBlock_response_capped (b : Spi) (block_addr : Nat) (buffer : List Nat)
    (hg : b.g_hspi = true)
    (h : (SD_SendCommandRaw (SD_SPI_ReadWrite (SD_CS_Low b) 0xFF).1 CMD24
      (card_address b block_addr) 0).2 = R1_READY)
    (hx : ∀ k, k < 101 → b.miso ((SD_SendCommandRaw (SD_SPI_ReadWrite (SD_CS_Low b) 0xFF).1
      CMD24 (card_address b block_addr) 0).1.pos + 517 + k) % 256 = 0xFF) :
    (SD_WriteBlock b block_addr buffer).2 = 2 := by
  rw [WriteBlock_response b block_addr buffer h _ rfl]
  obtain ⟨gc, mc⟩ := command_live b CMD24 (card_address b block_addr) 0 hg
  generalize SD_SendCommandRaw (SD_SPI_ReadWrite (SD_CS_Low b) 0xFF).1 CMD24
    (card_address b block_addr) 0 = c at gc mc hx ⊢
  obtain ⟨g2, m2, p2⟩ := data_phase_live c.1 buffer gc
  generalize SD_SendClock 2 (write_bytes (fitTo SD_BLOCK_SIZE buffer)
    (SD_SPI_ReadWrite (SD_SendClock 2 c.1) 0xFE).1) = b2 at g2 m2 p2 ⊢
  rw [response_capped b2 g2 (fun k hk => by
    rw [m2, p2, mc]
    exact hx k hk)]
  rfl

theorem WriteBlock_busy_capped (b : Spi) (block_addr : Nat) (buffer : List Nat) (i : Nat)
    (hg : b.g_hspi = true)
    (h : (SD_SendCommandRaw (SD_SPI_ReadWrite (SD_CS_Low b) 0xFF).1 CMD24
      (card_address b block_addr) 0).2 = R1_READY)
    (hi : i < 101)
    (hx : ∀ k, k < i → b.miso ((SD_SendCommandRaw (SD_SPI_ReadWrite (SD_CS_Low b) 0xFF).1
      CMD24 (card_address b block_addr) 0).1.pos + 517 + k) % 256 = 0xFF)
    (ha : b.miso ((SD_SendCommandRaw (SD_SPI_ReadWrite (SD_CS_Low b) 0xFF).1
      CMD24 (card_address b block_addr) 0).1.pos + 517 + i) % 256 % 32 = 0x05)
    (hb : ∀ k, k < 50002 → b.miso ((SD_SendCommandRaw (SD_SPI_ReadWrite (SD_CS_Low b) 0xFF).1
      CMD24 (card_address b block_addr) 0).1.pos + 518 + i + k) % 256 = 0x00) :
    (SD_WriteBlock b block_addr buffer).2 = 3 := by
  rw [WriteBlock_response b block_addr buffer h _ rfl]
  obtain ⟨gc, mc⟩ := command_live b CMD24 (card_address b block_addr) 0 hg
  generalize SD_SendCommandRaw (SD_SPI_ReadWrite (SD_CS_Low b) 0xFF).1 CMD24
    (card_address b block_addr) 0 = c at gc mc hx ha hb ⊢
  obtain ⟨g2, m2, p2⟩ := data_phase_live c.1 buffer gc
  generalize SD_SendClock 2 (write_bytes (fitTo SD_BLOCK_SIZE buffer)
    (SD_SPI_ReadWrite (SD_SendClock 2 c.1) 0xFE).1) = b2 at g2 m2 p2 ⊢
  have hne : b2.miso (b2.pos + i) % 256 ≠ 0xFF := by
    rw [m2, p2, mc]
    intro hc
    rw [hc] at ha
    exact absurd ha (by decide)
  obtain ⟨r2, rg, rm, rp⟩ := response_found b2 i g2 hi (fun k hk => by
    rw [m2, p2, mc]
    exact hx k hk) hne
  generalize wait_response 101 0 (SD_SPI_ReadWrite b2 0xFF).2 (SD_SPI_ReadWrite b2 0xFF).1
    = r at r2 rg rm rp ⊢
  have hr5 : r.2 % 32 = 0x05 := by
    rw [r2, m2, p2, mc]
    exact ha
  rw [if_neg (fun hc => hc hr5), if_pos (wait_busy_capped r.1 rg (fun k hk => by
    rw [rm, rp, m2, p2, mc]
    have hk1 := hb k hk
    rwa [show c.1.pos + 517 + i + 1 + k = c.1.pos + 518 + i + k by omega]))]

theorem ReadBlock_token_capped (b : Spi) (block_addr : Nat) (buffer : List Nat)
    (hg : b.g_hspi = true)
    (h : (SD_SendCommandRaw (SD_SPI_ReadWrite (SD_CS_Low b) 0xFF).1 CMD17
      (card_address b block_addr) 0).2 = R1_READY)
    (hx : ∀ k, k < 10002 → b.miso ((SD_SendCommandRaw (SD_SPI_ReadWrite (SD_CS_Low b) 0xFF).1
      CMD17 (card_address b block_addr) 0).1.pos + k) % 256 ≠ 0xFE) :
    (SD_ReadBlock b block_addr buffer).2 = (2, buffer) := by
  obtain ⟨gc, mc⟩ := command_live b CMD17 (card_address b block_addr) 0 hg
  exact ReadBlock_token_timeout b block_addr buffer h
    (wait_token_capped _ gc (fun k hk => by
      rw [mc]
      exact hx k hk))

/-- C20: no unbounded wait.  For every card byte sequence `b.miso`, and whether or not the
SPI handle is set, `SD_SendCommand`, `SD_Init`, `SD_ReadBlock` and `SD_WriteBlock` return
after at most 19, 8972, 10535 and 50639 calls of `SD_SPI_ReadWrite` (hence byte exchanges).
Each loop is ended by its own guard, not by the fuel of the model: any larger fuel gives the
same result.  The R1 wait makes at most 10 polls, the data-token wait at most 10002, the
data-response wait at most 101 (one read before the loop, 100 in it), the busy wait at most
50002; the CMD0 loop selects the card at most 100 times and the ACMD41 loop at most 200
times.  In `SD_ReadBlock` and `SD_WriteBlock` a wait that reaches its cap gives a non-zero
return value: 1 when the R1 wait reads `0xFF` ten times (or no handle is set), 2 when the
token wait reads 10002 bytes other than `0xFE`, 2 when the response wait reads `0xFF` 101
times, 3 when the busy wait reads `0x00` 50002 times. -/
theorem no_unbounded_wait (b : Spi) (cmd arg crc block_addr : Nat) (buffer : List Nat)
    (hspi_valid : Bool) :
    (b.within (SD_SendCommand b cmd arg crc).1 19 ∧
      b.within (SD_Init b hspi_valid).1 8972 ∧
      b.within (SD_ReadBlock b block_addr buffer).1 10535 ∧
      b.within (SD_WriteBlock b block_addr buffer).1 50639) ∧
    ((∀ fuel, 10 ≤ fuel → wait_r1 fuel 0 b = wait_r1 10 0 b) ∧
      b.within (wait_r1 10 0 b).1 10 ∧
      (∀ fuel, 10002 ≤ fuel → wait_token fuel 0 b = wait_token 10002 0 b) ∧
      b.within (wait_token 10002 0 b).1 10002 ∧
      (∀ fuel x, 101 ≤ fuel → wait_response fuel 0 x b = wait_response 101 0 x b) ∧
      b.within (wait_response 101 0 (SD_SPI_ReadWrite b 0xFF).2
        (SD_SPI_ReadWrite b 0xFF).1).1 101 ∧
      (∀ fuel, 50002 ≤ fuel → wait_busy fuel 0 b = wait_busy 50002 0 b) ∧
      b.within (wait_busy 50002 0 b).1 50002) ∧
    ((∀ fuel r1, 101 ≤ fuel → cmd0_loop fuel 0 r1 b = cmd0_loop 101 0 r1 b) ∧
      (∀ r1, selects (cmd0_loop 101 0 r1 b).1.log ≤ selects b.log + 100) ∧
      (∀ fuel r1, 201 ≤ fuel → acmd41_loop fuel 0 r1 arg b = acmd41_loop 201 0 r1 arg b) ∧
      (∀ r1, selects (acmd41_loop 201 0 r1 arg b).1.log ≤ selects b.log + 200)) ∧
    (b.g_hspi = false →
      (SD_ReadBlock b block_addr buffer).2 = (1, buffer) ∧
        (SD_WriteBlock b block_addr buffer).2 = 1) ∧
    (b.g_hspi = true → (∀ k, k < 10 → b.miso (b.pos + 7 + k) % 256 = 0xFF) →
      (SD_ReadBlock b block_addr buffer).2 = (1, buffer) ∧
        (SD_WriteBlock b block_addr buffer).2 = 1) ∧
    (b.g_hspi = true →
      (select_and_send b CMD17 (card_address b block_addr)).2 = R1_READY →
      (∀ k, k < 10002 →
        b.miso ((select_and_send b CMD17 (card_address b block_addr)).1.pos + k) % 256
          ≠ 0xFE) →
      (SD_ReadBlock b block_addr buffer).2 = (2, buffer)) ∧
    (b.g_hspi = true →
      (select_and_send b CMD24 (card_address b block_addr)).2 = R1_READY →
      (∀ k, k < 101 →
        b.miso ((select_and_send b CMD24 (card_address b block_addr)).1.pos + 517 + k) % 256
          = 0xFF) →
      (SD_WriteBlock b block_addr buffer).2 = 2) ∧
    (b.g_hspi = true →
      (select_and_send b CMD24 (card_address b block_addr)).2 = R1_READY →
      ∀ i, i < 101 →
      (∀ k, k < i →
        b.miso ((select_and_send b CMD24 (card_address b block_addr)).1.pos + 517 + k) % 256
          = 0xFF) →
      b.miso ((select_and_send b CMD24 (card_address b block_addr)).1.pos + 517 + i) % 256
        % 32 = 0x05 →
      (∀ k, k < 50002 →
        b.miso ((select_and_send b CMD24 (card_address b block_addr)).1.pos + 518 + i + k)
          % 256 = 0x00) →
      (SD_WriteBlock b block_addr buffer).2 = 3) := by
  refine ⟨⟨SendCommand_within b cmd arg crc, Init_within b hspi_valid,
    ReadBlock_within b block_addr buffer, WriteBlock_within b block_addr buffer⟩,
    ⟨fun fuel hf => wait_r1_fuel fuel 10 0 b (by omega) (by omega) (by omega),
      wait_r1_within 10 0 b,
      fun fuel hf => wait_token_fuel fuel 10002 0 b (by omega) (by omega) (by omega),
      wait_token_within 10002 0 b,
      fun fuel x hf => wait_response_fuel fuel 101 0 x b (by omega) (by omega),
      ?_,
      fun fuel hf => wait_busy_fuel fuel 50002 0 b (by omega) (by omega) (by omega),
      wait_busy_within 50002 0 b⟩,
    ⟨fun fuel r1 hf => cmd0_loop_fuel fuel 101 0 r1 b (by omega) (by omega), ?_,
      fun fuel r1 hf => acmd41_loop_fuel fuel 201 0 r1 arg b (by omega) (by omega), ?_⟩,
    ?_, ?_, ?_, ?_, ?_⟩
  · rw [wait_response_fuel 101 100 0 _ _ (by omega) (by omega)]
    exact within_trans (ReadWrite_within b 0xFF) (wait_response_within 100 0 _ _)
      (Nat.le_refl 101)
  · intro r1
    rw [cmd0_loop_fuel 101 100 0 r1 b (by omega) (by omega)]
    exact cmd0_loop_selects 100 0 r1 b
  · intro r1
    rw [acmd41_loop_fuel 201 200 0 r1 arg b (by omega) (by omega)]
    exact acmd41_loop_selects 200 0 r1 arg b
  · intro hg
    refine ⟨ReadBlock_of_r1 b block_addr buffer ?_, WriteBlock_of_r1 b block_addr buffer ?_⟩
    · rw [command_null b CMD17 _ 0 hg]
      decide
    · rw [command_null b CMD24 _ 0 hg]
      decide
  · intro hg h
    refine ⟨ReadBlock_of_r1 b block_addr buffer ?_, WriteBlock_of_r1 b block_addr buffer ?_⟩
    · rw [command_capped b CMD17 _ 0 hg h]
      decide
    · rw [command_capped b CMD24 _ 0 hg h]
      decide
  · intro hg h hx
    exact ReadBlock_token_capped b block_addr buffer hg h hx
  · intro hg h hx
    exact WriteBlock_response_capped b block_addr buffer hg h hx
  · intro hg h i hi hx ha hb
    exact WriteBlock_busy_capped b block_addr buffer i hg h hi hx ha hb

theorem no_unbounded_wait_witness :
    ((SD_ReadBlock no_handle 0 []).2 = (1, []) ∧ (SD_WriteBlock no_handle 0 []).2 = 1) ∧
    ((SD_ReadBlock silent_card 0 []).2 = (1, []) ∧ (SD_WriteBlock silent_card 0 []).2 = 1) ∧
    (SD_ReadBlock ready_then_silent 0 []).2 = (2, []) ∧
    (SD_WriteBlock ready_then_silent 0 []).2 = 2 ∧
    (SD_WriteBlock busy_for_ever 0 []).2 = 3 := by
  have p17 : (select_and_send ready_then_silent CMD17
      (card_address ready_then_silent 0)).1.pos = 8 := by decide
  have p24 : (select_and_send ready_then_silent CMD24
      (card_address ready_then_silent 0)).1.pos = 8 := by decide
  have q24 : (select_and_send busy_for_ever CMD24
      (card_address busy_for_ever 0)).1.pos = 8 := by decide
  refine ⟨(no_unbounded_wait no_handle 0 0 0 0 [] true).2.2.2.1 rfl,
    (no_unbounded_wait silent_card 0 0 0 0 [] true).2.2.2.2.1 rfl (fun _ _ => rfl),
    (no_unbounded_wait ready_then_silent 0 0 0 0 [] true).2.2.2.2.2.1 rfl (by decide) ?_,
    (no_unbounded_wait ready_then_silent 0 0 0 0 [] true).2.2.2.2.2.2.1 rfl (by decide) ?_,
    (no_unbounded_wait busy_for_ever 0 0 0 0 [] true).2.2.2.2.2.2.2 rfl (by decide) 2
      (by decide) ?_ ?_ ?_⟩
  · intro k hk
    rw [p17]
    show (if 8 + k = 7 then 0x00 else 0xFF) % 256 ≠ 0xFE
    rw [if_neg (by omega)]
    decide
  · intro k hk
    rw [p24]
    show (if 8 + 517 + k = 7 then 0x00 else 0xFF) % 256 = 0xFF
    rw [if_neg (by omega)]
  · intro k hk
    rw [q24]
    show (if 8 + 517 + k = 7 then 0x00 else if 8 + 517 + k < 527 then 0xFF
      else if 8 + 517 + k = 527 then 0xE5 else 0x00) % 256 = 0xFF
    rw [if_neg (by omega), if_pos (by omega)]
  · rw [q24]
    decide
  · intro k hk
    rw [q24]
    show (if 8 + 518 + 2 + k = 7 then 0x00 else if 8 + 518 + 2 + k < 527 then 0xFF
      else if 8 + 518 + 2 + k = 527 then 0xE5 else 0x00) % 256 = 0x00
    rw [if_neg (by omega), if_neg (by omega), if_neg (by omega)]

/-! ## Write acceptance -/

theorem wait_response_frame (fuel retry response : Nat) (b : Spi) :
    b.frame (wait_response fuel retry response b).1 := by
  induction fuel generalizing retry response b with
  | zero => exact frame_refl b
  | succ fuel ih =>
    unfold wait_response
    split
    · exact frame_trans (ReadWrite_frame b 0xFF) (ih _ _ _)
    · exact frame_refl b

theorem send_live (b : Spi) (cmd arg : Nat) (hg : b.g_hspi = true) :
    (select_and_send b cmd arg).1.g_hspi = true ∧ (select_and_send b cmd arg).1.miso = b.miso :=
  command_live b cmd arg 0 hg

theorem data_response_live (b : Spi) (block_addr : Nat) (buffer : List Nat)
    (hg : b.g_hspi = true) :
    (data_response b block_addr buffer).1.g_hspi = true ∧
      (data_response b block_addr buffer).1.miso = b.miso := by
  obtain ⟨gc, mc⟩ := send_live b CMD24 (card_address b block_addr) hg
  obtain ⟨g2, m2, _⟩ := data_phase_live
    (select_and_send b CMD24 (card_address b block_addr)).1 buffer gc
  obtain ⟨g3, m3, _⟩ := live_step (SD_SendClock 2 (write_bytes (fitTo SD_BLOCK_SIZE buffer)
      (SD_SPI_ReadWrite (SD_SendClock 2
        (select_and_send b CMD24 (card_address b block_addr)).1) 0xFE).1)) 0xFF g2
  have hf := wait_response_frame 101 0
    (SD_SPI_ReadWrite (SD_SendClock 2 (write_bytes (fitTo SD_BLOCK_SIZE buffer)
      (SD_SPI_ReadWrite (SD_SendClock 2
        (select_and_send b CMD24 (card_address b block_addr)).1) 0xFE).1)) 0xFF).2
    (SD_SPI_ReadWrite (SD_SendClock 2 (write_bytes (fitTo SD_BLOCK_SIZE buffer)
      (SD_SPI_ReadWrite (SD_SendClock 2
        (select_and_send b CMD24 (card_address b block_addr)).1) 0xFE).1)) 0xFF).1
  exact ⟨hf.2.1.trans g3, hf.1.trans (m3.trans (m2.trans mc))⟩

theorem WriteBlock_by_response (b : Spi) (block_addr : Nat) (buffer : List Nat)
    (h : (select_and_send b CMD24 (card_address b block_addr)).2 = R1_READY) :
    (SD_WriteBlock b block_addr buffer).2 =
      if (data_response b block_addr buffer).2 % 32 ≠ 0x05 then 2
      else if (wait_busy 50002 0 (data_response b block_addr buffer).1).2 = false then 3
      else 0 :=
  WriteBlock_response b block_addr buffer h (data_response b block_addr buffer) rfl

theorem data_response_found (b : Spi) (block_addr : Nat) (buffer : List Nat) (i : Nat)
    (hg : b.g_hspi = true) (hi : i < 101)
    (hx : ∀ k, k < i → b.miso ((select_and_send b CMD24
      (card_address b block_addr)).1.pos + 517 + k) % 256 = 0xFF)
    (ht : b.miso ((select_and_send b CMD24
      (card_address b block_addr)).1.pos + 517 + i) % 256 ≠ 0xFF) :
    (data_response b block_addr buffer).2
        = b.miso ((select_and_send b CMD24 (card_address b block_addr)).1.pos + 517 + i)
            % 256 ∧
      (data_response b block_addr buffer).1.pos
        = (select_and_send b CMD24 (card_address b block_addr)).1.pos + 518 + i := by
  obtain ⟨gc, mc⟩ := send_live b CMD24 (card_address b block_addr) hg
  obtain ⟨g2, m2, p2⟩ := data_phase_live
    (select_and_send b CMD24 (card_address b block_addr)).1 buffer gc
  obtain ⟨r2, _, _, rp⟩ := response_found _ i g2 hi
    (fun k hk => by
      rw [m2, p2, mc]
      exact hx k hk)
    (by
      rw [m2, p2, mc]
      exact ht)
  refine ⟨?_, ?_⟩
  · show (wait_response 101 0 _ _).2 = _
    rw [r2, m2, p2, mc]
  · show (wait_response 101 0 _ _).1.pos = _
    rw [rp, p2]
    omega

theorem data_response_none (b : Spi) (block_addr : Nat) (buffer : List Nat)
    (hg : b.g_hspi = true)
    (hx : ∀ k, k < 101 → b.miso ((select_and_send b CMD24
      (card_address b block_addr)).1.pos + 517 + k) % 256 = 0xFF) :
    (data_response b block_addr buffer).2 = 0xFF := by
  obtain ⟨gc, mc⟩ := send_live b CMD24 (card_address b block_addr) hg
  obtain ⟨g2, m2, p2⟩ := data_phase_live
    (select_and_send b CMD24 (card_address b block_addr)).1 buffer gc
  exact response_capped _ g2 (fun k hk => by
    rw [m2, p2, mc]
    exact hx k hk)

theorem wait_busy_done (b : Spi) (j : Nat) (hg : b.g_hspi = true) (hj : j < 50002)
    (h : ∀ k, k < j → b.miso (b.pos + k) % 256 = 0x00)
    (hx : b.miso (b.pos + j) % 256 ≠ 0x00) :
    wait_busy 50002 0 b = ((SD_SPI_ReadWrite (SD_SendClock j b) 0xFF).1, true) := by
  rw [wait_busy_skip j 50002 0 b hg (by omega) (by omega) h]
  obtain ⟨gj, mj, pj⟩ := live_clock j b hg
  have hl := ReadWrite_live (SD_SendClock j b) 0xFF gj
  obtain ⟨f, hf⟩ : ∃ f, 50002 - j = f + 1 := ⟨50002 - j - 1, by omega⟩
  rw [hf, wait_busy, if_neg (by rw [hl.1, mj, pj]; exact hx)]

/-- C21, as stated, fails for a data-response token whose low nibble is `0x5` and whose bit
4 is set: CMD24 is answered ready, the token read is `0x15`, and `SD_WriteBlock` returns
the write-rejected code 2. -/
theorem token_0x15_rejected :
    (select_and_send token_0x15_card CMD24 (card_address token_0x15_card 0)).2 = R1_READY
      ∧ (data_response token_0x15_card 0 []).2 = 0x15
      ∧ 0x15 % 16 = 0x5
      ∧ (SD_WriteBlock token_0x15_card 0 []).2 = 2 := by
  have h : (select_and_send token_0x15_card CMD24 (card_address token_0x15_card 0)).2
      = R1_READY := by decide
  have p : (select_and_send token_0x15_card CMD24 (card_address token_0x15_card 0)).1.pos
      = 8 := by decide
  have ht : (data_response token_0x15_card 0 []).2 = 0x15 := by
    rw [(data_response_found token_0x15_card 0 [] 0 rfl (by decide)
      (fun k hk => absurd hk (Nat.not_lt_zero k))
      (by rw [p]; decide)).1, p]
    decide
  refine ⟨h, ht, by decide, ?_⟩
  rw [WriteBlock_by_response token_0x15_card 0 [] h, ht]
  decide

/-- C21, amended (write acceptance).  Given that the SPI handle is set and CMD24 was
answered with ready, `SD_WriteBlock` returns 2 exactly when the low five bits of the
data-response token it read differ from `0x05`.  The token it read is the first byte other
than `0xFF` among the 101 bytes after the CRC, and `0xFF` when all 101 are `0xFF`.  When the
low five bits are `0x05` it goes on to the busy wait: it returns 0 when a byte other than
`0x00` arrives within 50002 polls, and 3 when all 50002 polled bytes are `0x00`. -/
theorem write_acceptance (b : Spi) (block_addr : Nat) (buffer : List Nat)
    (hg : b.g_hspi = true)
    (h : (select_and_send b CMD24 (card_address b block_addr)).2 = R1_READY) :
    ((SD_WriteBlock b block_addr buffer).2 = 2 ↔
        (data_response b block_addr buffer).2 % 32 ≠ 0x05)
      ∧ (∀ i, i < 101 →
          (∀ k, k < i → b.miso ((select_and_send b CMD24
            (card_address b block_addr)).1.pos + 517 + k) % 256 = 0xFF) →
          b.miso ((select_and_send b CMD24
            (card_address b block_addr)).1.pos + 517 + i) % 256 ≠ 0xFF →
          (data_response b block_addr buffer).2
              = b.miso ((select_and_send b CMD24 (card_address b block_addr)).1.pos
                  + 517 + i) % 256
            ∧ (data_response b block_addr buffer).1.pos
              = (select_and_send b CMD24 (card_address b block_addr)).1.pos + 518 + i)
      ∧ ((∀ k, k < 101 → b.miso ((select_and_send b CMD24
            (card_address b block_addr)).1.pos + 517 + k) % 256 = 0xFF) →
          (data_response b block_addr buffer).2 = 0xFF)
      ∧ ((data_response b block_addr buffer).2 % 32 = 0x05 →
          (∀ j, j < 50002 →
            (∀ k, k < j →
              b.miso ((data_response b block_addr buffer).1.pos + k) % 256 = 0x00) →
            b.miso ((data_response b block_addr buffer).1.pos + j) % 256 ≠ 0x00 →
            (SD_WriteBlock b block_addr buffer).2 = 0)
          ∧ ((∀ k, k < 50002 →
              b.miso ((data_response b block_addr buffer).1.pos + k) % 256 = 0x00) →
            (SD_WriteBlock b block_addr buffer).2 = 3)) := by
  obtain ⟨rg, rm⟩ := data_response_live b block_addr buffer hg
  have hw := WriteBlock_by_response b block_addr buffer h
  refine ⟨?_, ?_, ?_, ?_⟩
  · rw [hw]
    by_cases h5 : (data_response b block_addr buffer).2 % 32 ≠ 0x05
    · rw [if_pos h5]
      exact ⟨fun _ => h5, fun _ => rfl⟩
    · rw [if_neg h5]
      constructor
      · intro h2
        split at h2 <;> cases h2
      · intro hc
        exact absurd hc h5
  · intro i hi hx ht
    exact data_response_found b block_addr buffer i hg hi hx ht
  · intro hx
    exact data_response_none b block_addr buffer hg hx
  · intro h5
    rw [hw, if_neg (fun hc => hc h5)]
    constructor
    · intro j hj hx hy
      rw [wait_busy_done _ j rg hj (fun k hk => by rw [rm]; exact hx k hk)
        (by rw [rm]; exact hy)]
      rfl
    · intro hx
      rw [if_pos (wait_busy_capped _ rg (fun k hk => by rw [rm]; exact hx k hk))]

/-- Witness for C21 (amended): a card that accepts the data with token `0xE5`, is busy for
three bytes and then idle; `SD_WriteBlock` returns 0. -/
theorem write_acceptance_witness :
    accepting_card.g_hspi = true
      ∧ (select_and_send accepting_card CMD24 (card_address accepting_card 0)).2 = R1_READY
      ∧ (data_response accepting_card 0 []).2 = 0xE5
      ∧ (SD_WriteBlock accepting_card 0 []).2 = 0 := by
  have h : (select_and_send accepting_card CMD24 (card_address accepting_card 0)).2
      = R1_READY := by decide
  have p : (select_and_send accepting_card CMD24 (card_address accepting_card 0)).1.pos
      = 8 := by decide
  have T := write_acceptance accepting_card 0 [] rfl h
  obtain ⟨ht, hp⟩ := T.2.1 0 (by decide) (fun k hk => absurd hk (Nat.not_lt_zero k))
    (by rw [p]; decide)
  rw [p] at ht hp
  have ht2 : (data_response accepting_card 0 []).2 = 0xE5 := by
    rw [ht]
    decide
  refine ⟨rfl, h, ht2, (T.2.2.2 (by rw [ht2])).1 3 (by decide) ?_ ?_⟩
  · intro k hk
    rw [hp]
    show (if 8 + 518 + 0 + k = 7 then 0x00 else if 8 + 518 + 0 + k = 525 then 0xE5
      else if 526 ≤ 8 + 518 + 0 + k ∧ 8 + 518 + 0 + k < 529 then 0x00 else 0xFF) % 256 = 0
    rw [if_neg (by omega), if_neg (by omega), if_pos (by omega)]
  · rw [hp]
    decide

/-! ## Bus traces of the driver -/

theorem exchanges_refl (b : Spi) : b.exchanges b :=
  ⟨[], (List.append_nil _).symm, rfl⟩

theorem exchanges_trans {a b c : Spi} (h1 : a.exchanges b) (h2 : b.exchanges c) :
    a.exchanges c := by
  obtain ⟨e1, l1, x1⟩ := h1
  obtain ⟨e2, l2, x2⟩ := h2
  refine ⟨e1 ++ e2, ?_, ?_⟩
  · rw [l2, l1, List.append_assoc]
  · rw [List.all_append, x1, x2]
    rfl

theorem ReadWrite_log (b : Spi) (d : Nat) (hg : b.g_hspi = true) :
    (SD_SPI_ReadWrite b d).1.log = b.log ++ [SpiEvent.xfer d (b.miso b.pos % 256)] := by
  unfold SD_SPI_ReadWrite
  simp [hg]

theorem ReadWrite_exchanges (b : Spi) (d : Nat) : b.exchanges (SD_SPI_ReadWrite b d).1 := by
  unfold SD_SPI_ReadWrite
  split
  · exact ⟨[], (List.append_nil _).symm, rfl⟩
  · exact ⟨[SpiEvent.xfer d (b.miso b.pos % 256)], rfl, rfl⟩

theorem SendClock_exchanges (n : Nat) (b : Spi) : b.exchanges (SD_SendClock n b) := by
  induction n generalizing b with
  | zero => exact exchanges_refl b
  | succ n ih =>
    unfold SD_SendClock
    exact exchanges_trans (ReadWrite_exchanges b 0xFF) (ih _)

theorem wait_r1_exchanges (fuel retry : Nat) (b : Spi) :
    b.exchanges (wait_r1 fuel retry b).1 := by
  induction fuel generalizing retry b with
  | zero => exact exchanges_refl b
  | succ fuel ih =>
    unfold wait_r1
    split
    · split
      · exact ReadWrite_exchanges b 0xFF
      · exact exchanges_trans (ReadWrite_exchanges b 0xFF) (ih _ _)
    · exact ReadWrite_exchanges b 0xFF

theorem wait_response_exchanges (fuel retry response : Nat) (b : Spi) :
    b.exchanges (wait_response fuel retry response b).1 := by
  induction fuel generalizing retry response b with
  | zero => exact exchanges_refl b
  | succ fuel ih =>
    unfold wait_response
    split
    · exact exchanges_trans (ReadWrite_exchanges b 0xFF) (ih _ _ _)
    · exact exchanges_refl b

theorem read_bytes_exchanges (n : Nat) (b : Spi) : b.exchanges (read_bytes n b).1 := by
  induction n generalizing b with
  | zero => exact exchanges_refl b
  | succ n ih =>
    unfold read_bytes
    exact exchanges_trans (ReadWrite_exchanges b 0xFF) (ih _)

theorem write_bytes_exchanges (xs : List Nat) (b : Spi) : b.exchanges (write_bytes xs b) := by
  induction xs generalizing b with
  | nil => exact exchanges_refl b
  | cons x xs ih =>
    unfold write_bytes
    exact exchanges_trans (ReadWrite_exchanges b x) (ih _)

theorem wait_token_exchanges (fuel retry : Nat) (b : Spi)
    (h : (wait_token fuel retry b).2 = true) : b.exchanges (wait_token fuel retry b).1 := by
  induction fuel generalizing retry b with
  | zero => cases h
  | succ fuel ih =>
    unfold wait_token at h ⊢
    split at h
    · split at h
      · cases h
      · rw [if_pos (by assumption), if_neg (by assumption)]
        exact exchanges_trans (ReadWrite_exchanges b 0xFF) (ih _ _ h)
    · rw [if_neg (by assumption)]
      exact ReadWrite_exchanges b 0xFF

theorem wait_busy_exchanges (fuel retry : Nat) (b : Spi)
    (h : (wait_busy fuel retry b).2 = true) : b.exchanges (wait_busy fuel retry b).1 := by
  induction fuel generalizing retry b with
  | zero => cases h
  | succ fuel ih =>
    unfold wait_busy at h ⊢
    split at h
    · split at h
      · cases h
      · rw [if_pos (by assumption), if_neg (by assumption)]
        exact exchanges_trans (ReadWrite_exchanges b 0xFF) (ih _ _ h)
    · rw [if_neg (by assumption)]
      exact ReadWrite_exchanges b 0xFF

theorem wait_token_timeout_log (fuel retry : Nat) (b : Spi) (hg : b.g_hspi = true)
    (hr : retry ≤ 10001) (hf : 10002 ≤ fuel + retry)
    (h : (wait_token fuel retry b).2 = false) :
    ∃ ext rx, (wait_token fuel retry b).1.log
        = b.log ++ ext ++ [SpiEvent.xfer 0xFF rx, SpiEvent.cs_high]
      ∧ ext.all SpiEvent.isXfer = true := by
  induction fuel generalizing retry b with
  | zero => omega
  | succ fuel ih =>
    unfold wait_token at h ⊢
    split at h
    · split at h
      · rw [if_pos (by assumption), if_pos (by assumption)]
        refine ⟨[], b.miso b.pos % 256, ?_, rfl⟩
        show (SD_SPI_ReadWrite b 0xFF).1.log ++ [SpiEvent.cs_high] = _
        rw [ReadWrite_log b 0xFF hg]
        simp
      · rw [if_pos (by assumption), if_neg (by assumption)]
        have e : (retry + 1) % 65536 = retry + 1 := Nat.mod_eq_of_lt (by omega)
        rw [e] at h ⊢
        obtain ⟨ext, rx, hl, hx⟩ := ih (retry + 1) (SD_SPI_ReadWrite b 0xFF).1
          ((ReadWrite_frame b 0xFF).2.1.trans hg) (by omega) (by omega) h
        refine ⟨SpiEvent.xfer 0xFF (b.miso b.pos % 256) :: ext, rx, ?_, ?_⟩
        · rw [hl, ReadWrite_log b 0xFF hg]
          simp
        · rw [List.all_cons, hx]
          rfl
    · cases h

theorem wait_busy_timeout_log (fuel retry : Nat) (b : Spi) (hg : b.g_hspi = true)
    (hr : retry ≤ 50001) (hf : 50002 ≤ fuel + retry)
    (h : (wait_busy fuel retry b).2 = false) :
    ∃ ext rx, (wait_busy fuel retry b).1.log
        = b.log ++ ext ++ [SpiEvent.xfer 0xFF rx, SpiEvent.cs_high]
      ∧ ext.all SpiEvent.isXfer = true := by
  induction fuel generalizing retry b with
  | zero => omega
  | succ fuel ih =>
    unfold wait_busy at h ⊢
    split at h
    · split at h
      · rw [if_pos (by assumption), if_pos (by assumption)]
        refine ⟨[], b.miso b.pos % 256, ?_, rfl⟩
        show (SD_SPI_ReadWrite b 0xFF).1.log ++ [SpiEvent.cs_high] = _
        rw [ReadWrite_log b 0xFF hg]
        simp
      · rw [if_pos (by assumption), if_neg (by assumption)]
        have e : (retry + 1) % 65536 = retry + 1 := Nat.mod_eq_of_lt (by omega)
        rw [e] at h ⊢
        obtain ⟨ext, rx, hl, hx⟩ := ih (retry + 1) (SD_SPI_ReadWrite b 0xFF).1
          ((ReadWrite_frame b 0xFF).2.1.trans hg) (by omega) (by omega) h
        refine ⟨SpiEvent.xfer 0xFF (b.miso b.pos % 256) :: ext, rx, ?_, ?_⟩
        · rw [hl, ReadWrite_log b 0xFF hg]
          simp
        · rw [List.all_cons, hx]
          rfl
    · cases h

theorem SendCommandRaw_log (b : Spi) (cmd arg crc : Nat) (hg : b.g_hspi = true) :
    ∃ (r1 r2 r3 r4 r5 r6 : Nat) (polls : List SpiEvent),
      (SD_SendCommandRaw b cmd arg crc).1.log
          = b.log ++ [SpiEvent.xfer ((0x40 ||| cmd) % 256) r1,
              SpiEvent.xfer (arg / 16777216 % 256) r2, SpiEvent.xfer (arg / 65536 % 256) r3,
              SpiEvent.xfer (arg / 256 % 256) r4, SpiEvent.xfer (arg % 256) r5,
              SpiEvent.xfer crc r6] ++ polls
        ∧ polls.all SpiEvent.isXfer = true := by
  unfold SD_SendCommandRaw
  dsimp only
  obtain ⟨g1, _, _⟩ := live_step b ((0x40 ||| cmd) % 256) hg
  have l1 := ReadWrite_log b ((0x40 ||| cmd) % 256) hg
  generalize (SD_SPI_ReadWrite b ((0x40 ||| cmd) % 256)).1 = b1 at g1 l1 ⊢
  obtain ⟨g2, _, _⟩ := live_step b1 (arg / 16777216 % 256) g1
  have l2 := ReadWrite_log b1 (arg / 16777216 % 256) g1
  generalize (SD_SPI_ReadWrite b1 (arg / 16777216 % 256)).1 = b2 at g2 l2 ⊢
  obtain ⟨g3, _, _⟩ := live_step b2 (arg / 65536 % 256) g2
  have l3 := ReadWrite_log b2 (arg / 65536 % 256) g2
  generalize (SD_SPI_ReadWrite b2 (arg / 65536 % 256)).1 = b3 at g3 l3 ⊢
  obtain ⟨g4, _, _⟩ := live_step b3 (arg / 256 % 256) g3
  have l4 := ReadWrite_log b3 (arg / 256 % 256) g3
  generalize (SD_SPI_ReadWrite b3 (arg / 256 % 256)).1 = b4 at g4 l4 ⊢
  obtain ⟨g5, _, _⟩ := live_step b4 (arg % 256) g4
  have l5 := ReadWrite_log b4 (arg % 256) g4
  generalize (SD_SPI_ReadWrite b4 (arg % 256)).1 = b5 at g5 l5 ⊢
  have l6 := ReadWrite_log b5 crc g5
  generalize (SD_SPI_ReadWrite b5 crc).1 = b6 at l6 ⊢
  obtain ⟨polls, lp, xp⟩ := wait_r1_exchanges 10 0 b6
  refine ⟨b.miso b.pos % 256, b1.miso b1.pos % 256, b2.miso b2.pos % 256,
    b3.miso b3.pos % 256, b4.miso b4.pos % 256, b5.miso b5.pos % 256, polls, ?_, xp⟩
  rw [lp, l6, l5, l4, l3, l2, l1]
  simp

theorem wait_token_frame (fuel retry : Nat) (b : Spi) :
    b.frame (wait_token fuel retry b).1 := by
  induction fuel generalizing retry b with
  | zero => exact frame_refl b
  | succ fuel ih =>
    unfold wait_token
    split
    · split
      · exact frame_trans (ReadWrite_frame b 0xFF) (CS_High_frame _)
      · exact frame_trans (ReadWrite_frame b 0xFF) (ih _ _)
    · exact ReadWrite_frame b 0xFF

theorem wait_busy_frame (fuel retry : Nat) (b : Spi) :
    b.frame (wait_busy fuel retry b).1 := by
  induction fuel generalizing retry b with
  | zero => exact frame_refl b
  | succ fuel ih =>
    unfold wait_busy
    split
    · split
      · exact frame_trans (ReadWrite_frame b 0xFF) (CS_High_frame _)
      · exact frame_trans (ReadWrite_frame b 0xFF) (ih _ _)
    · exact ReadWrite_frame b 0xFF

theorem read_bytes_frame (n : Nat) (b : Spi) : b.frame (read_bytes n b).1 := by
  induction n generalizing b with
  | zero => exact frame_refl b
  | succ n ih =>
    unfold read_bytes
    exact frame_trans (ReadWrite_frame b 0xFF) (ih _)

theorem select_log (b : Spi) (hg : b.g_hspi = true) :
    (SD_SPI_ReadWrite (SD_CS_Low b) 0xFF).1.log
      = b.log ++ [SpiEvent.cs_low, SpiEvent.xfer 0xFF (b.miso b.pos % 256)] := by
  rw [ReadWrite_log (SD_CS_Low b) 0xFF hg]
  show b.log ++ [SpiEvent.cs_low] ++ [SpiEvent.xfer 0xFF (b.miso b.pos % 256)] = _
  simp

theorem abort_log (b : Spi) (hg : b.g_hspi = true) :
    (SD_CS_High (SD_SPI_ReadWrite b 0xFF).1).log
      = b.log ++ [SpiEvent.xfer 0xFF (b.miso b.pos % 256), SpiEvent.cs_high] := by
  show (SD_SPI_ReadWrite b 0xFF).1.log ++ [SpiEvent.cs_high] = _
  rw [ReadWrite_log b 0xFF hg]
  simp

theorem deselect_log (b : Spi) (hg : b.g_hspi = true) :
    ∃ rx, (SD_SPI_ReadWrite (SD_CS_High (SD_SPI_ReadWrite b 0xFF).1) 0xFF).1.log
      = b.log ++ [SpiEvent.xfer 0xFF (b.miso b.pos % 256), SpiEvent.cs_high,
          SpiEvent.xfer 0xFF rx] := by
  refine ⟨(SD_CS_High (SD_SPI_ReadWrite b 0xFF).1).miso
    (SD_CS_High (SD_SPI_ReadWrite b 0xFF).1).pos % 256, ?_⟩
  rw [ReadWrite_log (SD_CS_High (SD_SPI_ReadWrite b 0xFF).1) 0xFF
    ((ReadWrite_frame b 0xFF).2.1.trans hg), abort_log b hg]
  simp

theorem command_log (b : Spi) (cmd arg crc : Nat) (hg : b.g_hspi = true) :
    ∃ (rx0 r1 r2 r3 r4 r5 r6 : Nat) (polls : List SpiEvent),
      (SD_SendCommandRaw (SD_SPI_ReadWrite (SD_CS_Low b) 0xFF).1 cmd arg crc).1.log
          = b.log ++ [SpiEvent.cs_low, SpiEvent.xfer 0xFF rx0,
              SpiEvent.xfer ((0x40 ||| cmd) % 256) r1,
              SpiEvent.xfer (arg / 16777216 % 256) r2, SpiEvent.xfer (arg / 65536 % 256) r3,
              SpiEvent.xfer (arg / 256 % 256) r4, SpiEvent.xfer (arg % 256) r5,
              SpiEvent.xfer crc r6] ++ polls
        ∧ polls.all SpiEvent.isXfer = true := by
  obtain ⟨g1, _, _⟩ := select_live b hg
  obtain ⟨r1, r2, r3, r4, r5, r6, polls, hl, hx⟩ :=
    SendCommandRaw_log (SD_SPI_ReadWrite (SD_CS_Low b) 0xFF).1 cmd arg crc g1
  refine ⟨b.miso b.pos % 256, r1, r2, r3, r4, r5, r6, polls, ?_, hx⟩
  rw [hl, select_log b hg]
  simp

theorem SendCommand_trace (b : Spi) (cmd arg crc : Nat) (hg : b.g_hspi = true) :
    ∃ ext, (SD_SendCommand b cmd arg crc).1.log = b.log ++ ext
      ∧ call_trace cmd arg crc ext true := by
  obtain ⟨rx0, r1, r2, r3, r4, r5, r6, polls, hl, hx⟩ := command_log b cmd arg crc hg
  obtain ⟨gc, _⟩ := command_live b cmd arg crc hg
  unfold SD_SendCommand
  dsimp only
  generalize SD_SendCommandRaw (SD_SPI_ReadWrite (SD_CS_Low b) 0xFF).1 cmd arg crc = c
    at hl gc ⊢
  obtain ⟨rx, hd⟩ := deselect_log c.1 gc
  refine ⟨_, ?_, rx0, r1, r2, r3, r4, r5, r6, c.1.miso c.1.pos % 256, polls,
    [SpiEvent.xfer 0xFF rx], rfl, hx, fun _ => ⟨rx, rfl⟩, fun h => by cases h⟩
  rw [hd, hl]
  simp

theorem ReadBlock_trace (b : Spi) (block_addr : Nat) (buffer : List Nat)
    (hg : b.g_hspi = true) :
    ∃ ext, (SD_ReadBlock b block_addr buffer).1.log = b.log ++ ext
      ∧ call_trace CMD17 (card_address b block_addr) 0 ext
          ((SD_ReadBlock b block_addr buffer).2.1 == 0) := by
  obtain ⟨rx0, r1, r2, r3, r4, r5, r6, polls, hl, hx⟩ :=
    command_log b CMD17 (card_address b block_addr) 0 hg
  obtain ⟨gc, _⟩ := command_live b CMD17 (card_address b block_addr) 0 hg
  unfold SD_ReadBlock
  dsimp only
  generalize SD_SendCommandRaw (SD_SPI_ReadWrite (SD_CS_Low b) 0xFF).1 CMD17
    (card_address b block_addr) 0 = c at hl gc ⊢
  split
  · refine ⟨_, ?_, rx0, r1, r2, r3, r4, r5, r6, c.1.miso c.1.pos % 256, polls, [], rfl, hx,
      (fun h => by change false = true at h; cases h), fun _ => rfl⟩
    rw [abort_log c.1 gc, hl]
    simp
  · have gt := (wait_token_frame 10002 0 c.1).2.1.trans gc
    split
    · rename_i ht
      obtain ⟨ext, rx, hlt, hxt⟩ := wait_token_timeout_log 10002 0 c.1 gc (by omega)
        (by omega) ht
      refine ⟨_, ?_, rx0, r1, r2, r3, r4, r5, r6, rx, polls ++ ext, [], rfl, ?_,
        (fun h => by change false = true at h; cases h), fun _ => rfl⟩
      · show (wait_token 10002 0 c.1).1.log = _
        rw [hlt, hl]
        simp
      · rw [List.all_append, hx, hxt]
        rfl
    · rename_i ht
      have ht1 : (wait_token 10002 0 c.1).2 = true := by
        cases hv : (wait_token 10002 0 c.1).2
        · exact absurd hv ht
        · rfl
      obtain ⟨e1, l1, x1⟩ := wait_token_exchanges 10002 0 c.1 ht1
      generalize wait_token 10002 0 c.1 = t at gt l1 ⊢
      obtain ⟨e2, l2, x2⟩ := read_bytes_exchanges 512 t.1
      have gd := (read_bytes_frame 512 t.1).2.1.trans gt
      generalize read_bytes 512 t.1 = d at gd l2 ⊢
      obtain ⟨e3, l3, x3⟩ := SendClock_exchanges 2 d.1
      have g3 := (SendClock_frame 2 d.1).2.1.trans gd
      generalize SD_SendClock 2 d.1 = b1 at g3 l3 ⊢
      obtain ⟨rx, hd⟩ := deselect_log b1 g3
      refine ⟨_, ?_, rx0, r1, r2, r3, r4, r5, r6, b1.miso b1.pos % 256,
        polls ++ e1 ++ e2 ++ e3, [SpiEvent.xfer 0xFF rx], rfl, ?_, fun _ => ⟨rx, rfl⟩,
        fun h => by change true = false at h; cases h⟩
      · show (SD_SPI_ReadWrite (SD_CS_High (SD_SPI_ReadWrite b1 0xFF).1) 0xFF).1.log = _
        rw [hd, l3, l2, l1, hl]
        simp
      · rw [List.all_append, List.all_append, List.all_append, hx, x1, x2, x3]
        rfl

theorem response_phase_exchanges (c : Spi) (buffer : List Nat) :
    c.exchanges (wait_response 101 0
      (SD_SPI_ReadWrite (SD_SendClock 2 (write_bytes (fitTo SD_BLOCK_SIZE buffer)
        (SD_SPI_ReadWrite (SD_SendClock 2 c) 0xFE).1)) 0xFF).2
      (SD_SPI_ReadWrite (SD_SendClock 2 (write_bytes (fitTo SD_BLOCK_SIZE buffer)
        (SD_SPI_ReadWrite (SD_SendClock 2 c) 0xFE).1)) 0xFF).1).1 :=
  exchanges_trans (exchanges_trans (exchanges_trans (exchanges_trans (exchanges_trans
    (SendClock_exchanges 2 c) (ReadWrite_exchanges _ 0xFE)) (write_bytes_exchanges _ _))
    (SendClock_exchanges 2 _)) (ReadWrite_exchanges _ 0xFF))
    (wait_response_exchanges 101 0 _ _)

theorem response_phase_frame (c : Spi) (buffer : List Nat) :
    c.frame (wait_response 101 0
      (SD_SPI_ReadWrite (SD_SendClock 2 (write_bytes (fitTo SD_BLOCK_SIZE buffer)
        (SD_SPI_ReadWrite (SD_SendClock 2 c) 0xFE).1)) 0xFF).2
      (SD_SPI_ReadWrite (SD_SendClock 2 (write_bytes (fitTo SD_BLOCK_SIZE buffer)
        (SD_SPI_ReadWrite (SD_SendClock 2 c) 0xFE).1)) 0xFF).1).1 :=
  frame_trans (frame_trans (frame_trans (frame_trans (frame_trans
    (SendClock_frame 2 c) (ReadWrite_frame _ 0xFE)) (write_bytes_frame _ _))
    (SendClock_frame 2 _)) (ReadWrite_frame _ 0xFF))
    (wait_response_frame 101 0 _ _)

theorem WriteBlock_trace (b : Spi) (block_addr : Nat) (buffer : List Nat)
    (hg : b.g_hspi = true) :
    ∃ ext, (SD_WriteBlock b block_addr buffer).1.log = b.log ++ ext
      ∧ call_trace CMD24 (card_address b block_addr) 0 ext
          ((SD_WriteBlock b block_addr buffer).2 == 0) := by
  obtain ⟨rx0, r1, r2, r3, r4, r5, r6, polls, hl, hx⟩ :=
    command_log b CMD24 (card_address b block_addr) 0 hg
  obtain ⟨gc, _⟩ := command_live b CMD24 (card_address b block_addr) 0 hg
  unfold SD_WriteBlock
  dsimp only
  generalize SD_SendCommandRaw (SD_SPI_ReadWrite (SD_CS_Low b) 0xFF).1 CMD24
    (card_address b block_addr) 0 = c at hl gc ⊢
  split
  · refine ⟨_, ?_, rx0, r1, r2, r3, r4, r5, r6, c.1.miso c.1.pos % 256, polls, [], rfl, hx,
      (fun h => by change false = true at h; cases h), fun _ => rfl⟩
    rw [abort_log c.1 gc, hl]
    simp
  · obtain ⟨e1, l1, x1⟩ := response_phase_exchanges c.1 buffer
    have gr := (response_phase_frame c.1 buffer).2.1.trans gc
    generalize wait_response 101 0
      (SD_SPI_ReadWrite (SD_SendClock 2 (write_bytes (fitTo SD_BLOCK_SIZE buffer)
        (SD_SPI_ReadWrite (SD_SendClock 2 c.1) 0xFE).1)) 0xFF).2
      (SD_SPI_ReadWrite (SD_SendClock 2 (write_bytes (fitTo SD_BLOCK_SIZE buffer)
        (SD_SPI_ReadWrite (SD_SendClock 2 c.1) 0xFE).1)) 0xFF).1 = r at l1 gr ⊢
    split
    · refine ⟨_, ?_, rx0, r1, r2, r3, r4, r5, r6, r.1.miso r.1.pos % 256, polls ++ e1, [],
        rfl, ?_, (fun h => by change false = true at h; cases h), fun _ => rfl⟩
      · rw [abort_log r.1 gr, l1, hl]
        simp
      · rw [List.all_append, hx, x1]
        rfl
    · split
      · rename_i hw
        obtain ⟨ext, rx, hlt, hxt⟩ := wait_busy_timeout_log 50002 0 r.1 gr (by omega)
          (by omega) hw
        refine ⟨_, ?_, rx0, r1, r2, r3, r4, r5, r6, rx, polls ++ e1 ++ ext, [], rfl, ?_,
          (fun h => by change false = true at h; cases h), fun _ => rfl⟩
        · show (wait_busy 50002 0 r.1).1.log = _
          rw [hlt, l1, hl]
          simp
        · rw [List.all_append, List.all_append, hx, x1, hxt]
          rfl
      · rename_i hw
        have hw1 : (wait_busy 50002 0 r.1).2 = true := by
          cases hv : (wait_busy 50002 0 r.1).2
          · exact absurd hv hw
          · rfl
        obtain ⟨e2, l2, x2⟩ := wait_busy_exchanges 50002 0 r.1 hw1
        have gw := (wait_busy_frame 50002 0 r.1).2.1.trans gr
        generalize wait_busy 50002 0 r.1 = w at gw l2 ⊢
        obtain ⟨rx, hd⟩ := deselect_log w.1 gw
        refine ⟨_, ?_, rx0, r1, r2, r3, r4, r5, r6, w.1.miso w.1.pos % 256,
          polls ++ e1 ++ e2, [SpiEvent.xfer 0xFF rx], rfl, ?_, fun _ => ⟨rx, rfl⟩,
          fun h => by change true = false at h; cases h⟩
        · show (SD_SPI_ReadWrite (SD_CS_High (SD_SPI_ReadWrite w.1 0xFF).1) 0xFF).1.log = _
          rw [hd, l2, l1, hl]
          simp
        · rw [List.all_append, List.all_append, hx, x1, x2]
          rfl

/-! ## Bus-release bracket -/

theorem each_followed_cons2 (p q : SpiEvent → Bool) (e1 e2 : SpiEvent)
    (rest : List SpiEvent) :
    each_followed p q (e1 :: e2 :: rest)
      = ((!p e1 || q e2) && each_followed p q (e2 :: rest)) := rfl

theorem each_followed_none (p q : SpiEvent → Bool) (l : List SpiEvent)
    (h : l.all (fun e => !p e) = true) : each_followed p q l = true := by
  induction l with
  | nil => rfl
  | cons e1 l ih =>
    rw [List.all_cons, Bool.and_eq_true] at h
    cases l with
    | nil => exact h.1
    | cons e2 rest =>
      rw [each_followed_cons2, ih h.2, Bool.and_true, Bool.or_eq_true]
      exact Or.inl h.1

theorem each_followed_skip (p q : SpiEvent → Bool) (pre : List SpiEvent) (e : SpiEvent)
    (rest : List SpiEvent) (h : pre.all (fun x => !p x) = true) :
    each_followed p q (pre ++ e :: rest) = each_followed p q (e :: rest) := by
  induction pre with
  | nil => rfl
  | cons x pre ih =>
    rw [List.all_cons, Bool.and_eq_true] at h
    have ih1 := ih h.2
    cases pre with
    | nil =>
      show each_followed p q (x :: e :: rest) = _
      rw [each_followed_cons2, h.1, Bool.true_or, Bool.true_and]
    | cons y pre =>
      show each_followed p q (x :: y :: (pre ++ e :: rest)) = _
      rw [each_followed_cons2, h.1, Bool.true_or, Bool.true_and]
      exact ih1

theorem all_not_low (l : List SpiEvent) (h : l.all SpiEvent.isXfer = true) :
    l.all (fun e => !SpiEvent.isLow e) = true := by
  rw [List.all_eq_true] at h ⊢
  intro e he
  have hx := h e he
  cases e <;> first | rfl | cases hx

theorem all_not_high (l : List SpiEvent) (h : l.all SpiEvent.isXfer = true) :
    l.all (fun e => !SpiEvent.isHigh e) = true := by
  rw [List.all_eq_true] at h ⊢
  intro e he
  have hx := h e he
  cases e <;> first | rfl | cases hx

theorem call_trace_bracket (cmd arg crc : Nat) (ext : List SpiEvent) (done : Bool)
    (h : call_trace cmd arg crc ext done) :
    each_followed SpiEvent.isLow SpiEvent.isIdle ext = true
      ∧ each_preceded SpiEvent.isHigh SpiEvent.isIdle ext = true
      ∧ (done = true → each_followed SpiEvent.isHigh SpiEvent.isIdle ext = true) := by
  obtain ⟨rx0, r1, r2, r3, r4, r5, r6, rxl, body, tail, he, hb, ht, hf⟩ := h
  have htail : tail.all SpiEvent.isXfer = true := by
    cases done with
    | true =>
      obtain ⟨rx, hrx⟩ := ht rfl
      rw [hrx]
      rfl
    | false =>
      rw [hf rfl]
      rfl
  refine ⟨?_, ?_, ?_⟩
  · have hc : ext = SpiEvent.cs_low :: SpiEvent.xfer 0xFF rx0 ::
        ([SpiEvent.xfer ((0x40 ||| cmd) % 256) r1,
          SpiEvent.xfer (arg / 16777216 % 256) r2, SpiEvent.xfer (arg / 65536 % 256) r3,
          SpiEvent.xfer (arg / 256 % 256) r4, SpiEvent.xfer (arg % 256) r5,
          SpiEvent.xfer crc r6] ++ body ++ [SpiEvent.xfer 0xFF rxl, SpiEvent.cs_high]
            ++ tail) := by
      rw [he]
      rfl
    rw [hc, each_followed_cons2, each_followed_none]
    · rfl
    · rw [List.all_cons, List.all_append, List.all_append, List.all_append,
        all_not_low body hb, all_not_low tail htail]
      rfl
  · unfold each_preceded
    rw [he]
    have hr : ([SpiEvent.cs_low, SpiEvent.xfer 0xFF rx0,
        SpiEvent.xfer ((0x40 ||| cmd) % 256) r1,
        SpiEvent.xfer (arg / 16777216 % 256) r2, SpiEvent.xfer (arg / 65536 % 256) r3,
        SpiEvent.xfer (arg / 256 % 256) r4, SpiEvent.xfer (arg % 256) r5,
        SpiEvent.xfer crc r6] ++ body ++ [SpiEvent.xfer 0xFF rxl, SpiEvent.cs_high]
          ++ tail).reverse
        = tail.reverse ++ SpiEvent.cs_high :: (SpiEvent.xfer 0xFF rxl :: (body.reverse ++
            [SpiEvent.xfer crc r6, SpiEvent.xfer (arg % 256) r5,
              SpiEvent.xfer (arg / 256 % 256) r4, SpiEvent.xfer (arg / 65536 % 256) r3,
              SpiEvent.xfer (arg / 16777216 % 256) r2,
              SpiEvent.xfer ((0x40 ||| cmd) % 256) r1, SpiEvent.xfer 0xFF rx0,
              SpiEvent.cs_low])) := by
      simp
    have hbr : body.reverse.all SpiEvent.isXfer = true := by
      rw [List.all_reverse]
      exact hb
    have htr : tail.reverse.all SpiEvent.isXfer = true := by
      rw [List.all_reverse]
      exact htail
    rw [hr, each_followed_skip _ _ _ _ _ (all_not_high _ htr), each_followed_cons2,
      each_followed_none]
    · rfl
    · rw [List.all_cons, List.all_append, all_not_high _ hbr]
      rfl
  · intro hd
    obtain ⟨rx, hrx⟩ := ht hd
    rw [he, hrx]
    have hr : [SpiEvent.cs_low, SpiEvent.xfer 0xFF rx0,
        SpiEvent.xfer ((0x40 ||| cmd) % 256) r1,
        SpiEvent.xfer (arg / 16777216 % 256) r2, SpiEvent.xfer (arg / 65536 % 256) r3,
        SpiEvent.xfer (arg / 256 % 256) r4, SpiEvent.xfer (arg % 256) r5,
        SpiEvent.xfer crc r6] ++ body ++ [SpiEvent.xfer 0xFF rxl, SpiEvent.cs_high]
          ++ [SpiEvent.xfer 0xFF rx]
        = ([SpiEvent.cs_low, SpiEvent.xfer 0xFF rx0,
            SpiEvent.xfer ((0x40 ||| cmd) % 256) r1,
            SpiEvent.xfer (arg / 16777216 % 256) r2, SpiEvent.xfer (arg / 65536 % 256) r3,
            SpiEvent.xfer (arg / 256 % 256) r4, SpiEvent.xfer (arg % 256) r5,
            SpiEvent.xfer crc r6] ++ body ++ [SpiEvent.xfer 0xFF rxl])
          ++ SpiEvent.cs_high :: [SpiEvent.xfer 0xFF rx] := by
      simp
    rw [hr, each_followed_skip]
    · rfl
    · rw [List.all_append, List.all_append, all_not_high body hb]
      rfl

theorem new_events_of_log (b r : Spi) (ext : List SpiEvent) (h : r.log = b.log ++ ext) :
    new_events b.log.length r = ext := by
  unfold new_events
  rw [h, List.drop_left]

/-- C26, as stated, fails.  A read that the card rejects (CMD17 answered `0x04`) returns
1 with the trace below: the chip-select low transition is the first operation and is
followed, not preceded, by the idle byte, and the chip-select high transition is the last
operation, with no idle byte after it.  When the read is issued again, the chip-select
high transition of the first call is immediately followed by the chip-select low
transition of the second, so both halves of the claim also fail inside the joint trace
(after its first operation, and within its first twelve operations). -/
theorem bracket_fails_on_rejected_read :
    (SD_ReadBlock rejecting_card 0 []).2.1 = 1
      ∧ new_events 0 (SD_ReadBlock rejecting_card 0 []).1
          = [SpiEvent.cs_low, SpiEvent.xfer 0xFF 0xFF, SpiEvent.xfer 0x51 0xFF,
              SpiEvent.xfer 0 0xFF, SpiEvent.xfer 0 0xFF, SpiEvent.xfer 0 0xFF,
              SpiEvent.xfer 0 0xFF, SpiEvent.xfer 0 0xFF, SpiEvent.xfer 0xFF 0x04,
              SpiEvent.xfer 0xFF 0xFF, SpiEvent.cs_high]
      ∧ each_preceded SpiEvent.isLow SpiEvent.isIdle
          (new_events 0 (SD_ReadBlock rejecting_card 0 []).1) = false
      ∧ each_followed SpiEvent.isHigh SpiEvent.isIdle
          (new_events 0 (SD_ReadBlock rejecting_card 0 []).1) = false
      ∧ ((new_events 0
            (SD_ReadBlock (SD_ReadBlock rejecting_card 0 []).1 0 []).1).drop 10).take 2
          = [SpiEvent.cs_high, SpiEvent.cs_low]
      ∧ each_preceded SpiEvent.isLow SpiEvent.isIdle
          ((new_events 0 (SD_ReadBlock (SD_ReadBlock rejecting_card 0 []).1 0 []).1).drop 1)
          = false
      ∧ each_followed SpiEvent.isHigh SpiEvent.isIdle
          ((new_events 0
            (SD_ReadBlock (SD_ReadBlock rejecting_card 0 []).1 0 []).1).take 12) = false := by
  decide

/-- C26, amended (bus-release bracket).  With the SPI handle set, the operations that one
call of `SD_SendCommand`, `SD_ReadBlock` or `SD_WriteBlock` adds to the bus trace, on every
return, are such that each chip-select low transition is immediately followed by one idle
byte (`0xFF`) exchange and each chip-select high transition is immediately preceded by one
idle byte exchange.  On every return of `SD_SendCommand`, and on the returns of
`SD_ReadBlock` and `SD_WriteBlock` with value 0, each chip-select high transition is also
immediately followed by one idle byte exchange. -/
theorem bus_bracket (b : Spi) (cmd arg crc block_addr : Nat) (buffer : List Nat)
    (hg : b.g_hspi = true) :
    ((SD_SendCommand b cmd arg crc).1.log
          = b.log ++ new_events b.log.length (SD_SendCommand b cmd arg crc).1
        ∧ each_followed SpiEvent.isLow SpiEvent.isIdle
            (new_events b.log.length (SD_SendCommand b cmd arg crc).1) = true
        ∧ each_preceded SpiEvent.isHigh SpiEvent.isIdle
            (new_events b.log.length (SD_SendCommand b cmd arg crc).1) = true
        ∧ each_followed SpiEvent.isHigh SpiEvent.isIdle
            (new_events b.log.length (SD_SendCommand b cmd arg crc).1) = true)
      ∧ ((SD_ReadBlock b block_addr buffer).1.log
          = b.log ++ new_events b.log.length (SD_ReadBlock b block_addr buffer).1
        ∧ each_followed SpiEvent.isLow SpiEvent.isIdle
            (new_events b.log.length (SD_ReadBlock b block_addr buffer).1) = true
        ∧ each_preceded SpiEvent.isHigh SpiEvent.isIdle
            (new_events b.log.length (SD_ReadBlock b block_addr buffer).1) = true
        ∧ ((SD_ReadBlock b block_addr buffer).2.1 = 0 →
            each_followed SpiEvent.isHigh SpiEvent.isIdle
              (new_events b.log.length (SD_ReadBlock b block_addr buffer).1) = true))
      ∧ ((SD_WriteBlock b block_addr buffer).1.log
          = b.log ++ new_events b.log.length (SD_WriteBlock b block_addr buffer).1
        ∧ each_followed SpiEvent.isLow SpiEvent.isIdle
            (new_events b.log.length (SD_WriteBlock b block_addr buffer).1) = true
        ∧ each_preceded SpiEvent.isHigh SpiEvent.isIdle
            (new_events b.log.length (SD_WriteBlock b block_addr buffer).1) = true
        ∧ ((SD_WriteBlock b block_addr buffer).2 = 0 →
            each_followed SpiEvent.isHigh SpiEvent.isIdle
              (new_events b.log.length (SD_WriteBlock b block_addr buffer).1) = true)) := by
  refine ⟨?_, ?_, ?_⟩
  · obtain ⟨ext, hl, ht⟩ := SendCommand_trace b cmd arg crc hg
    obtain ⟨h1, h2, h3⟩ := call_trace_bracket _ _ _ _ _ ht
    rw [new_events_of_log b _ ext hl]
    exact ⟨hl, h1, h2, h3 rfl⟩
  · obtain ⟨ext, hl, ht⟩ := ReadBlock_trace b block_addr buffer hg
    obtain ⟨h1, h2, h3⟩ := call_trace_bracket _ _ _ _ _ ht
    rw [new_events_of_log b _ ext hl]
    refine ⟨hl, h1, h2, fun h0 => h3 ?_⟩
    rw [h0]
    rfl
  · obtain ⟨ext, hl, ht⟩ := WriteBlock_trace b block_addr buffer hg
    obtain ⟨h1, h2, h3⟩ := call_trace_bracket _ _ _ _ _ ht
    rw [new_events_of_log b _ ext hl]
    refine ⟨hl, h1, h2, fun h0 => h3 ?_⟩
    rw [h0]
    rfl

/-- Witness for C26 (amended): the command CMD0 sent to a card that never answers. -/
theorem bus_bracket_witness :
    silent_card.g_hspi = true
      ∧ each_followed SpiEvent.isLow SpiEvent.isIdle
          (new_events 0 (SD_SendCommand silent_card CMD0 0 0x95).1) = true
      ∧ each_preceded SpiEvent.isHigh SpiEvent.isIdle
          (new_events 0 (SD_SendCommand silent_card CMD0 0 0x95).1) = true
      ∧ each_followed SpiEvent.isHigh SpiEvent.isIdle
          (new_events 0 (SD_SendCommand silent_card CMD0 0 0x95).1) = true :=
  ⟨rfl, (bus_bracket silent_card CMD0 0 0x95 0 [] rfl).1.2⟩

/-! ## Block addressing -/

/-- C24 (block addressing).  With the SPI handle set and a block number that fits
`uint32_t`, the argument of CMD17 in `SD_ReadBlock` and of CMD24 in `SD_WriteBlock` is the
block number itself when `SD_Type` is `SD_TYPE_SDHC` and `(block_addr * 512) mod 2^32`
otherwise.  Each call starts with chip-select low, one idle byte, the command byte (`0x51`
for CMD17, `0x58` for CMD24), then the four bytes of the argument, most significant first,
then the CRC byte 0; the four bytes are the base-256 digits of the argument. -/
theorem block_addressing (b : Spi) (block_addr : Nat) (buffer : List Nat)
    (hg : b.g_hspi = true) (ha : block_addr < U32) :
    (b.SD_Type = SD_TYPE_SDHC → card_address b block_addr = block_addr)
      ∧ (b.SD_Type ≠ SD_TYPE_SDHC → card_address b block_addr = (block_addr * 512) % U32)
      ∧ card_address b block_addr < U32
      ∧ (∃ (rx0 r1 r2 r3 r4 r5 r6 : Nat) (rest : List SpiEvent),
          new_events b.log.length (SD_ReadBlock b block_addr buffer).1
            = SpiEvent.cs_low :: SpiEvent.xfer 0xFF rx0 :: SpiEvent.xfer 0x51 r1
              :: SpiEvent.xfer (card_address b block_addr / 16777216 % 256) r2
              :: SpiEvent.xfer (card_address b block_addr / 65536 % 256) r3
              :: SpiEvent.xfer (card_address b block_addr / 256 % 256) r4
              :: SpiEvent.xfer (card_address b block_addr % 256) r5
              :: SpiEvent.xfer 0 r6 :: rest)
      ∧ (∃ (rx0 r1 r2 r3 r4 r5 r6 : Nat) (rest : List SpiEvent),
          new_events b.log.length (SD_WriteBlock b block_addr buffer).1
            = SpiEvent.cs_low :: SpiEvent.xfer 0xFF rx0 :: SpiEvent.xfer 0x58 r1
              :: SpiEvent.xfer (card_address b block_addr / 16777216 % 256) r2
              :: SpiEvent.xfer (card_address b block_addr / 65536 % 256) r3
              :: SpiEvent.xfer (card_address b block_addr / 256 % 256) r4
              :: SpiEvent.xfer (card_address b block_addr % 256) r5
              :: SpiEvent.xfer 0 r6 :: rest)
      ∧ (card_address b block_addr / 16777216 % 256) * 16777216
          + (card_address b block_addr / 65536 % 256) * 65536
          + (card_address b block_addr / 256 % 256) * 256
          + card_address b block_addr % 256 = card_address b block_addr := by
  have hlt : card_address b block_addr < U32 := by
    unfold card_address
    split
    · exact Nat.mod_lt _ (by decide)
    · exact ha
  refine ⟨?_, ?_, hlt, ?_, ?_, ?_⟩
  · intro h
    unfold card_address
    rw [if_neg (fun hc => hc h)]
  · intro h
    unfold card_address
    rw [if_pos h]
  · obtain ⟨ext, hl, rx0, r1, r2, r3, r4, r5, r6, rxl, body, tail, he, _⟩ :=
      ReadBlock_trace b block_addr buffer hg
    rw [new_events_of_log b _ ext hl, he]
    exact ⟨rx0, r1, r2, r3, r4, r5, r6, _, rfl⟩
  · obtain ⟨ext, hl, rx0, r1, r2, r3, r4, r5, r6, rxl, body, tail, he, _⟩ :=
      WriteBlock_trace b block_addr buffer hg
    rw [new_events_of_log b _ ext hl, he]
    exact ⟨rx0, r1, r2, r3, r4, r5, r6, _, rfl⟩
  · simp only [U32] at hlt
    omega

/-- Witness for C24: block 3 read from a standard-capacity card is addressed as byte
`0x00000600`. -/
theorem block_addressing_witness :
    silent_card.g_hspi = true ∧ 3 < U32
      ∧ card_address silent_card 3 = 1536
      ∧ ∃ (rx0 r1 r2 r3 r4 r5 r6 : Nat) (rest : List SpiEvent),
          new_events 0 (SD_ReadBlock silent_card 3 []).1
            = SpiEvent.cs_low :: SpiEvent.xfer 0xFF rx0 :: SpiEvent.xfer 0x51 r1
              :: SpiEvent.xfer 0x00 r2 :: SpiEvent.xfer 0x00 r3 :: SpiEvent.xfer 0x06 r4
              :: SpiEvent.xfer 0x00 r5 :: SpiEvent.xfer 0 r6 :: rest :=
  ⟨rfl, by decide, by decide, (block_addressing silent_card 3 [] rfl (by decide)).2.2.2.1⟩

/-! ## Read protocol -/

theorem wait_r1_found (b : Spi) (j : Nat) (hg : b.g_hspi = true) (hj : j < 10)
    (h : ∀ k, k < j → b.miso (b.pos + k) % 256 = 0xFF)
    (hx : b.miso (b.pos + j) % 256 ≠ 0xFF) :
    wait_r1 10 0 b = SD_SPI_ReadWrite (SD_SendClock j b) 0xFF := by
  rw [wait_r1_skip j 10 0 b hg (by omega) (by omega) h]
  obtain ⟨gj, mj, pj⟩ := live_clock j b hg
  have hl := ReadWrite_live (SD_SendClock j b) 0xFF gj
  obtain ⟨f, hf⟩ : ∃ f, 10 - j = f + 1 := ⟨10 - j - 1, by omega⟩
  rw [hf, wait_r1, if_neg (by rw [hl.1, mj, pj]; exact hx)]

theorem SendCommandRaw_found (b : Spi) (cmd arg crc j : Nat) (hg : b.g_hspi = true)
    (hj : j < 10) (h : ∀ k, k < j → b.miso (b.pos + 6 + k) % 256 = 0xFF)
    (hx : b.miso (b.pos + 6 + j) % 256 ≠ 0xFF) :
    (SD_SendCommandRaw b cmd arg crc).2 = b.miso (b.pos + 6 + j) % 256
      ∧ (SD_SendCommandRaw b cmd arg crc).1.pos = b.pos + 7 + j := by
  unfold SD_SendCommandRaw
  dsimp only
  obtain ⟨g1, m1, p1⟩ := live_step b ((0x40 ||| cmd) % 256) hg
  generalize (SD_SPI_ReadWrite b ((0x40 ||| cmd) % 256)).1 = b1 at g1 m1 p1 ⊢
  obtain ⟨g2, m2, p2⟩ := live_step b1 (arg / 16777216 % 256) g1
  generalize (SD_SPI_ReadWrite b1 (arg / 16777216 % 256)).1 = b2 at g2 m2 p2 ⊢
  obtain ⟨g3, m3, p3⟩ := live_step b2 (arg / 65536 % 256) g2
  generalize (SD_SPI_ReadWrite b2 (arg / 65536 % 256)).1 = b3 at g3 m3 p3 ⊢
  obtain ⟨g4, m4, p4⟩ := live_step b3 (arg / 256 % 256) g3
  generalize (SD_SPI_ReadWrite b3 (arg / 256 % 256)).1 = b4 at g4 m4 p4 ⊢
  obtain ⟨g5, m5, p5⟩ := live_step b4 (arg % 256) g4
  generalize (SD_SPI_ReadWrite b4 (arg % 256)).1 = b5 at g5 m5 p5 ⊢
  obtain ⟨g6, m6, p6⟩ := live_step b5 crc g5
  generalize (SD_SPI_ReadWrite b5 crc).1 = b6 at g6 m6 p6 ⊢
  have hm : b6.miso = b.miso := by rw [m6, m5, m4, m3, m2, m1]
  have hp : b6.pos = b.pos + 6 := by omega
  rw [wait_r1_found b6 j g6 hj
    (fun k hk => by rw [hm, hp]; exact h k hk) (by rw [hm, hp]; exact hx)]
  obtain ⟨gj, mj, pj⟩ := live_clock j b6 g6
  obtain ⟨_, _, ps⟩ := live_step (SD_SendClock j b6) 0xFF gj
  refine ⟨?_, ?_⟩
  · rw [(ReadWrite_live (SD_SendClock j b6) 0xFF gj).1, mj, pj, hm, hp]
  · rw [ps, pj, hp]
    omega

theorem select_and_send_found (b : Spi) (cmd arg j : Nat) (hg : b.g_hspi = true)
    (hj : j < 10) (h : ∀ k, k < j → b.miso (b.pos + 7 + k) % 256 = 0xFF)
    (hx : b.miso (b.pos + 7 + j) % 256 ≠ 0xFF) :
    (select_and_send b cmd arg).2 = b.miso (b.pos + 7 + j) % 256
      ∧ (select_and_send b cmd arg).1.pos = b.pos + 8 + j := by
  obtain ⟨g1, m1, p1⟩ := select_live b hg
  have p1b : (SD_SPI_ReadWrite (SD_CS_Low b) 0xFF).1.pos = b.pos + 1 := p1
  obtain ⟨r, p⟩ := SendCommandRaw_found (SD_SPI_ReadWrite (SD_CS_Low b) 0xFF).1 cmd arg 0 j g1
    hj (fun k hk => by
      rw [m1, p1b]
      have hk1 := h k hk
      rwa [show b.pos + 1 + 6 + k = b.pos + 7 + k by omega])
    (by
      rw [m1, p1b]
      rwa [show b.pos + 1 + 6 + j = b.pos + 7 + j by omega])
  refine ⟨?_, ?_⟩
  · show (SD_SendCommandRaw _ cmd arg 0).2 = _
    rw [r, m1, p1b]
  · show (SD_SendCommandRaw _ cmd arg 0).1.pos = _
    rw [p, p1b]

theorem wait_token_found (b : Spi) (i : Nat) (hg : b.g_hspi = true) (hi : i < 10002)
    (h : ∀ k, k < i → b.miso (b.pos + k) % 256 ≠ 0xFE)
    (hx : b.miso (b.pos + i) % 256 = 0xFE) :
    wait_token 10002 0 b = ((SD_SPI_ReadWrite (SD_SendClock i b) 0xFF).1, true) := by
  rw [wait_token_skip i 10002 0 b hg (by omega) (by omega) h]
  obtain ⟨gi, mi, pi⟩ := live_clock i b hg
  have hl := ReadWrite_live (SD_SendClock i b) 0xFF gi
  obtain ⟨f, hf⟩ : ∃ f, 10002 - i = f + 1 := ⟨10002 - i - 1, by omega⟩
  rw [hf, wait_token, if_neg (by rw [hl.1, mi, pi]; exact fun hc => hc hx)]

theorem read_bytes_spec (n : Nat) (b : Spi) (hg : b.g_hspi = true) :
    (read_bytes n b).2 = (List.range n).map (fun j => b.miso (b.pos + j) % 256)
      ∧ (read_bytes n b).1.pos = b.pos + n := by
  induction n generalizing b with
  | zero => exact ⟨rfl, rfl⟩
  | succ n ih =>
    obtain ⟨g1, m1, p1⟩ := live_step b 0xFF hg
    obtain ⟨hv, hp⟩ := ih (SD_SPI_ReadWrite b 0xFF).1 g1
    unfold read_bytes
    refine ⟨?_, ?_⟩
    · show (SD_SPI_ReadWrite b 0xFF).2 :: (read_bytes n (SD_SPI_ReadWrite b 0xFF).1).2 = _
      rw [hv, (ReadWrite_live b 0xFF hg).1, List.range_succ_eq_map, List.map_cons,
        List.map_map, m1, p1]
      congr 1
      apply List.map_congr_left
      intro j _
      show b.miso (b.pos + 1 + j) % 256 = b.miso (b.pos + (j + 1)) % 256
      rw [show b.pos + 1 + j = b.pos + (j + 1) by omega]
    · show (read_bytes n (SD_SPI_ReadWrite b 0xFF).1).1.pos = _
      rw [hp, p1]
      omega

theorem ReadBlock_data (b : Spi) (block_addr : Nat) (buffer : List Nat) (i : Nat)
    (hg : b.g_hspi = true)
    (h : (select_and_send b CMD17 (card_address b block_addr)).2 = R1_READY)
    (hi : i < 10002)
    (hx : ∀ k, k < i → b.miso ((select_and_send b CMD17
      (card_address b block_addr)).1.pos + k) % 256 ≠ 0xFE)
    (ht : b.miso ((select_and_send b CMD17
      (card_address b block_addr)).1.pos + i) % 256 = 0xFE) :
    (SD_ReadBlock b block_addr buffer).2
        = (0, (List.range 512).map (fun j => b.miso ((select_and_send b CMD17
            (card_address b block_addr)).1.pos + i + 1 + j) % 256))
      ∧ (SD_ReadBlock b block_addr buffer).1.pos
        = (select_and_send b CMD17 (card_address b block_addr)).1.pos + i + 1 + 512 + 2
            + 2 := by
  unfold select_and_send at h hx ht ⊢
  obtain ⟨gc, mc⟩ := command_live b CMD17 (card_address b block_addr) 0 hg
  have hw := wait_token_found (SD_SendCommandRaw (SD_SPI_ReadWrite (SD_CS_Low b) 0xFF).1
    CMD17 (card_address b block_addr) 0).1 i gc hi
    (fun k hk => by rw [mc]; exact hx k hk) (by rw [mc]; exact ht)
  unfold SD_ReadBlock
  dsimp only
  rw [if_neg (fun hc => hc h), hw, if_neg (by simp)]
  generalize SD_SendCommandRaw (SD_SPI_ReadWrite (SD_CS_Low b) 0xFF).1
    CMD17 (card_address b block_addr) 0 = c at gc mc hw ⊢
  obtain ⟨gi, mi, pi⟩ := live_clock i c.1 gc
  obtain ⟨gt, mt, pt⟩ := live_step (SD_SendClock i c.1) 0xFF gi
  generalize (SD_SPI_ReadWrite (SD_SendClock i c.1) 0xFF).1 = t at gt mt pt ⊢
  obtain ⟨hv, hp⟩ := read_bytes_spec 512 t gt
  have gd := (read_bytes_frame 512 t).2.1.trans gt
  generalize read_bytes 512 t = d at hv hp gd ⊢
  obtain ⟨g2, _, p2⟩ := live_clock 2 d.1 gd
  generalize SD_SendClock 2 d.1 = b1 at g2 p2 ⊢
  obtain ⟨g3, _, p3⟩ := live_step b1 0xFF g2
  obtain ⟨_, _, p4⟩ := live_step (SD_CS_High (SD_SPI_ReadWrite b1 0xFF).1) 0xFF g3
  have p3b : (SD_CS_High (SD_SPI_ReadWrite b1 0xFF).1).pos = b1.pos + 1 := p3
  refine ⟨?_, ?_⟩
  · show (0, d.2) = _
    rw [hv, mt, mi, mc, pt, pi]
  · show (SD_SPI_ReadWrite (SD_CS_High (SD_SPI_ReadWrite b1 0xFF).1) 0xFF).1.pos = _
    rw [p4, p3b, p2, hp, pt, pi]

/-- C27 (read protocol).  With the SPI handle set, the answer to CMD17 is the first byte
other than `0xFF` among the ten bytes after the command frame (`0xFF` if there is none).
If that answer is not ready, `SD_ReadBlock` returns 1 and leaves the buffer as it was.  If
it is ready and none of the next 10002 bytes is `0xFE`, it returns 2 and leaves the buffer
as it was.  If it is ready and the first `0xFE` is byte `i < 10002` after the answer, it
returns 0 and the buffer holds exactly the 512 bytes that follow that token; the call
ends four exchanges after the last data byte (two CRC bytes and the two idle bytes around
chip-select high), and the CRC bytes do not occur in the result. -/
theorem read_protocol (b : Spi) (block_addr : Nat) (buffer : List Nat)
    (hg : b.g_hspi = true) :
    (∀ j, j < 10 → (∀ k, k < j → b.miso (b.pos + 7 + k) % 256 = 0xFF) →
        b.miso (b.pos + 7 + j) % 256 ≠ 0xFF →
        (select_and_send b CMD17 (card_address b block_addr)).2
            = b.miso (b.pos + 7 + j) % 256
          ∧ (select_and_send b CMD17 (card_address b block_addr)).1.pos = b.pos + 8 + j)
      ∧ ((∀ k, k < 10 → b.miso (b.pos + 7 + k) % 256 = 0xFF) →
          (select_and_send b CMD17 (card_address b block_addr)).2 = 0xFF)
      ∧ ((select_and_send b CMD17 (card_address b block_addr)).2 ≠ R1_READY →
          (SD_ReadBlock b block_addr buffer).2 = (1, buffer))
      ∧ ((select_and_send b CMD17 (card_address b block_addr)).2 = R1_READY →
          (∀ k, k < 10002 → b.miso ((select_and_send b CMD17
            (card_address b block_addr)).1.pos + k) % 256 ≠ 0xFE) →
          (SD_ReadBlock b block_addr buffer).2 = (2, buffer))
      ∧ ((select_and_send b CMD17 (card_address b block_addr)).2 = R1_READY →
          ∀ i, i < 10002 →
          (∀ k, k < i → b.miso ((select_and_send b CMD17
            (card_address b block_addr)).1.pos + k) % 256 ≠ 0xFE) →
          b.miso ((select_and_send b CMD17
            (card_address b block_addr)).1.pos + i) % 256 = 0xFE →
          (SD_ReadBlock b block_addr buffer).2
              = (0, (List.range 512).map (fun j => b.miso ((select_and_send b CMD17
                  (card_address b block_addr)).1.pos + i + 1 + j) % 256))
            ∧ (SD_ReadBlock b block_addr buffer).1.pos
              = (select_and_send b CMD17 (card_address b block_addr)).1.pos + i + 1 + 512
                  + 2 + 2) := by
  refine ⟨?_, ?_, ?_, ?_, ?_⟩
  · intro j hj h hx
    exact select_and_send_found b CMD17 _ j hg hj h hx
  · intro h
    exact command_capped b CMD17 _ 0 hg h
  · intro h
    exact ReadBlock_of_r1 b block_addr buffer h
  · intro h hx
    exact ReadBlock_token_capped b block_addr buffer hg h hx
  · intro h i hi hx ht
    exact ReadBlock_data b block_addr buffer i hg h hi hx ht

/-- Witness for C27: a card that answers CMD17 with ready at once and sends the token as
third byte after that; the buffer holds the 512 bytes of exchanges 11 to 522. -/
theorem read_protocol_witness :
    reading_card.g_hspi = true
      ∧ (select_and_send reading_card CMD17 (card_address reading_card 0)).2 = R1_READY
      ∧ (SD_ReadBlock reading_card 0 []).2
          = (0, (List.range 512).map (fun j => (11 + j) % 251 % 256))
      ∧ (SD_ReadBlock reading_card 0 []).1.pos = 527 := by
  have h : (select_and_send reading_card CMD17 (card_address reading_card 0)).2
      = R1_READY := by decide
  have p : (select_and_send reading_card CMD17 (card_address reading_card 0)).1.pos
      = 8 := by decide
  obtain ⟨hv, hp⟩ := (read_protocol reading_card 0 [] rfl).2.2.2.2 h 2 (by decide)
    (fun k hk => by
      rw [p]
      show (if 8 + k = 7 then 0x00 else if 8 + k < 10 then 0xFF
        else if 8 + k = 10 then 0xFE else (8 + k) % 251) % 256 ≠ 0xFE
      rw [if_neg (by omega), if_pos (by omega)]
      decide)
    (by rw [p]; decide)
  refine ⟨rfl, h, ?_, ?_⟩
  · have hf : (fun j => reading_card.miso (8 + 2 + 1 + j) % 256)
        = (fun j => (11 + j) % 251 % 256) := by
      funext j
      show (if 8 + 2 + 1 + j = 7 then 0x00 else if 8 + 2 + 1 + j < 10 then 0xFF
        else if 8 + 2 + 1 + j = 10 then 0xFE else (8 + 2 + 1 + j) % 251) % 256 = _
      rw [if_neg (by omega), if_neg (by omega), if_neg (by omega),
        show 8 + 2 + 1 + j = 11 + j by omega]
    rw [hv, p, hf]
  · rw [hp, p]

/-! ## Card initialisation -/

theorem SD_Init_phases (b : Spi) :
    SD_Init b true =
      if (init_cmd0 b).2 ≠ R1_IDLE_STATE then
        (print_line (init_cmd0 b).1 "[SD] CMD0 FAILED\r\n", 1)
      else if (init_acmd41 b).2 ≠ R1_READY then ((init_acmd41 b).1, 2)
      else if (init_cmd58 b).2 ≠ R1_READY then (SD_CS_High (init_cmd58 b).1, 3)
      else (init_finish b, 0) := by
  have h0 : ¬ (SD_SPI_Init b true).2 ≠ 0 := by
    unfold SD_SPI_Init
    simp
  unfold SD_Init init_finish init_cmd58 init_acmd41 init_before_acmd41 init_card_type
    init_acmd41_arg init_cmd8 init_cmd0 init_power_up
  rw [if_neg h0]

theorem SD_Init_invalid (b : Spi) : SD_Init b false = (b, 1) := by
  unfold SD_Init SD_SPI_Init
  simp

theorem cmd0_loop_spec (fuel retry r1 : Nat) (b : Spi) (h1 : r1 ≠ R1_IDLE_STATE) :
    (cmd0_loop fuel retry r1 b).2 = R1_IDLE_STATE ↔
      ∃ k, retry + k < 100 ∧ k < fuel ∧ (cmd0_try k b).2 = R1_IDLE_STATE := by
  induction fuel generalizing retry r1 b with
  | zero =>
    constructor
    · intro h
      exact absurd h h1
    · rintro ⟨k, _, hk, _⟩
      omega
  | succ fuel ih =>
    unfold cmd0_loop
    by_cases hgd : r1 ≠ R1_IDLE_STATE ∧ retry < 100
    · rw [if_pos hgd]
      by_cases ha : (SD_SendCommand b CMD0 0 0x95).2 = R1_IDLE_STATE
      · rw [if_pos ha]
        exact ⟨fun _ => ⟨0, by omega, by omega, ha⟩, fun _ => ha⟩
      · rw [if_neg ha]
        have e : (retry + 1) % 65536 = retry + 1 := Nat.mod_eq_of_lt (by omega)
        rw [e, ih (retry + 1) _ _ ha]
        constructor
        · rintro ⟨k, hk1, hk2, hk3⟩
          exact ⟨k + 1, by omega, by omega, hk3⟩
        · rintro ⟨k, hk1, hk2, hk3⟩
          cases k with
          | zero => exact absurd hk3 ha
          | succ k => exact ⟨k, by omega, by omega, hk3⟩
    · rw [if_neg hgd]
      constructor
      · intro h
        exact absurd h h1
      · rintro ⟨k, hk, _, _⟩
        exact absurd ⟨h1, by omega⟩ hgd

theorem acmd41_loop_spec (fuel retry r1 arg : Nat) (b : Spi) (h1 : r1 ≠ R1_READY) :
    (acmd41_loop fuel retry r1 arg b).2 = R1_READY ↔
      ∃ k, retry + k < 200 ∧ k < fuel ∧ (acmd41_try k arg b).2 = R1_READY := by
  induction fuel generalizing retry r1 b with
  | zero =>
    constructor
    · intro h
      exact absurd h h1
    · rintro ⟨k, _, hk, _⟩
      omega
  | succ fuel ih =>
    unfold acmd41_loop
    by_cases hgd : r1 ≠ R1_READY ∧ retry < 200
    · rw [if_pos hgd]
      by_cases ha : (acmd41_attempt b arg).2 = R1_READY
      · rw [if_pos ha]
        exact ⟨fun _ => ⟨0, by omega, by omega, ha⟩, fun _ => ha⟩
      · rw [if_neg ha]
        have e : (retry + 1) % 65536 = retry + 1 := Nat.mod_eq_of_lt (by omega)
        rw [e, ih (retry + 1) _ _ ha]
        constructor
        · rintro ⟨k, hk1, hk2, hk3⟩
          exact ⟨k + 1, by omega, by omega, hk3⟩
        · rintro ⟨k, hk1, hk2, hk3⟩
          cases k with
          | zero => exact absurd hk3 ha
          | succ k => exact ⟨k, by omega, by omega, hk3⟩
    · rw [if_neg hgd]
      constructor
      · intro h
        exact absurd h h1
      · rintro ⟨k, hk, _, _⟩
        exact absurd ⟨h1, by omega⟩ hgd

theorem init_cmd0_spec (b : Spi) :
    (init_cmd0 b).2 = R1_IDLE_STATE ↔
      ∃ k, k < 100 ∧ (cmd0_try k (init_power_up b)).2 = R1_IDLE_STATE := by
  unfold init_cmd0
  rw [cmd0_loop_spec 101 0 0xFF _ (by decide)]
  constructor
  · rintro ⟨k, hk, _, h⟩
    exact ⟨k, by omega, h⟩
  · rintro ⟨k, hk, h⟩
    exact ⟨k, by omega, by omega, h⟩

theorem init_acmd41_spec (b : Spi) :
    (init_acmd41 b).2 = R1_READY ↔
      ∃ k, k < 200 ∧ (acmd41_try k (init_acmd41_arg b) (init_before_acmd41 b)).2
        = R1_READY := by
  unfold init_acmd41
  rw [acmd41_loop_spec 201 0 0xFF _ _ (by decide)]
  constructor
  · rintro ⟨k, hk, _, h⟩
    exact ⟨k, by omega, h⟩
  · rintro ⟨k, hk, h⟩
    exact ⟨k, by omega, by omega, h⟩

theorem grows_refl (b : Spi) : b.grows b := ⟨[], (List.append_nil _).symm⟩

theorem grows_trans {a b c : Spi} (h1 : a.grows b) (h2 : b.grows c) : a.grows c := by
  obtain ⟨e1, l1⟩ := h1
  obtain ⟨e2, l2⟩ := h2
  exact ⟨e1 ++ e2, by rw [l2, l1, List.append_assoc]⟩

theorem grows_of_exchanges {a b : Spi} (h : a.exchanges b) : a.grows b := by
  obtain ⟨e, l, _⟩ := h
  exact ⟨e, l⟩

theorem Delay_grows (b : Spi) (ms : Nat) : b.grows (HAL_Delay b ms) := ⟨_, rfl⟩

theorem CS_High_grows (b : Spi) : b.grows (SD_CS_High b) := ⟨_, rfl⟩

theorem CS_Low_grows (b : Spi) : b.grows (SD_CS_Low b) := ⟨_, rfl⟩

theorem SetSpeedHigh_grows (b : Spi) : b.grows (SD_SetSpeedHigh b) := by
  unfold SD_SetSpeedHigh
  split
  · exact grows_refl b
  · exact ⟨_, rfl⟩

theorem SendCommandRaw_exchanges (b : Spi) (cmd arg crc : Nat) :
    b.exchanges (SD_SendCommandRaw b cmd arg crc).1 := by
  unfold SD_SendCommandRaw
  exact exchanges_trans (exchanges_trans (exchanges_trans (exchanges_trans (exchanges_trans
    (exchanges_trans (ReadWrite_exchanges _ _) (ReadWrite_exchanges _ _))
    (ReadWrite_exchanges _ _)) (ReadWrite_exchanges _ _))
    (ReadWrite_exchanges _ _)) (ReadWrite_exchanges _ _))
    (wait_r1_exchanges 10 0 _)

theorem deselect_grows (b : Spi) :
    b.grows (SD_SPI_ReadWrite (SD_CS_High (SD_SPI_ReadWrite b 0xFF).1) 0xFF).1 :=
  grows_trans (grows_trans (grows_of_exchanges (ReadWrite_exchanges b 0xFF))
    (CS_High_grows _)) (grows_of_exchanges (ReadWrite_exchanges _ 0xFF))

theorem select_grows (b : Spi) (cmd arg crc : Nat) :
    b.grows (SD_SendCommandRaw (SD_SPI_ReadWrite (SD_CS_Low b) 0xFF).1 cmd arg crc).1 :=
  grows_trans (grows_trans (CS_Low_grows b) (grows_of_exchanges (ReadWrite_exchanges _ 0xFF)))
    (grows_of_exchanges (SendCommandRaw_exchanges _ cmd arg crc))

theorem acmd41_attempt_grows (b : Spi) (arg : Nat) : b.grows (acmd41_attempt b arg).1 := by
  unfold acmd41_attempt
  exact grows_trans (grows_trans (select_grows b CMD55 0 0)
    (grows_of_exchanges (SendCommandRaw_exchanges _ CMD41 arg 0))) (deselect_grows _)

theorem acmd41_loop_grows (fuel retry r1 arg : Nat) (b : Spi) :
    b.grows (acmd41_loop fuel retry r1 arg b).1 := by
  induction fuel generalizing retry r1 b with
  | zero => exact grows_refl b
  | succ fuel ih =>
    unfold acmd41_loop
    split
    · split
      · exact acmd41_attempt_grows b arg
      · exact grows_trans (grows_trans (acmd41_attempt_grows b arg) (Delay_grows _ 10))
          (ih _ _ _)
    · exact grows_refl b

theorem read_ocr_grows (b : Spi) : b.grows (read_ocr b) := by
  unfold read_ocr
  dsimp only
  split
  · exact grows_trans (grows_of_exchanges (ReadWrite_exchanges b 0xFF))
      (grows_trans (grows_refl _) (grows_of_exchanges (SendClock_exchanges 3 _)))
  · exact grows_trans (grows_of_exchanges (ReadWrite_exchanges b 0xFF))
      (grows_of_exchanges (SendClock_exchanges 3 _))

theorem SendCommand_frame (b : Spi) (cmd arg crc : Nat) :
    b.frame (SD_SendCommand b cmd arg crc).1 := by
  unfold SD_SendCommand
  exact frame_trans (frame_trans (frame_trans (frame_trans (frame_trans
    (CS_Low_frame b) (ReadWrite_frame _ _)) (SendCommandRaw_frame _ cmd arg crc))
    (ReadWrite_frame _ _)) (CS_High_frame _)) (ReadWrite_frame _ _)

theorem cmd0_loop_frame (fuel retry r1 : Nat) (b : Spi) :
    b.frame (cmd0_loop fuel retry r1 b).1 := by
  induction fuel generalizing retry r1 b with
  | zero => exact frame_refl b
  | succ fuel ih =>
    unfold cmd0_loop
    split
    · split
      · exact SendCommand_frame b CMD0 0 0x95
      · exact frame_trans (frame_trans (SendCommand_frame b CMD0 0 0x95) (Delay_frame _ 10))
          (ih _ _ _)
    · exact frame_refl b

theorem SPI_Init_live (b : Spi) : (SD_SPI_Init b true).1.g_hspi = true := by
  unfold SD_SPI_Init SD_SetSpeedLow
  simp

theorem init_power_up_live (b : Spi) : (init_power_up b).g_hspi = true := by
  unfold init_power_up
  generalize hx : SD_CS_High (HAL_Delay (SD_CS_High
    (HAL_Delay (SD_CS_Low (SD_GPIO_Init (SD_SPI_Init b true).1)) 1)) 50) = x
  have h : x.g_hspi = true := by
    rw [← hx]
    exact SPI_Init_live b
  obtain ⟨_, hf, _⟩ := SendClock_frame 20 x
  exact hf.trans h

theorem cmd0_loop_live (fuel retry r1 : Nat) (b : Spi) (hg : b.g_hspi = true) :
    (cmd0_loop fuel retry r1 b).1.g_hspi = true :=
  (cmd0_loop_frame fuel retry r1 b).2.1.trans hg

theorem init_cmd8_live (b : Spi) : (init_cmd8 b).1.g_hspi = true := by
  unfold init_cmd8 init_cmd0
  have h1 := cmd0_loop_live 101 0 0xFF (init_power_up b) (init_power_up_live b)
  generalize cmd0_loop 101 0 0xFF (init_power_up b) = c0 at h1 ⊢
  have h2 : (print_line c0.1 "[SD] CMD0 OK! Card in IDLE state.\r\n").g_hspi = true := h1
  generalize print_line c0.1 "[SD] CMD0 OK! Card in IDLE state.\r\n" = c1 at h2 ⊢
  obtain ⟨_, hf, _⟩ := SendClock_frame 2 c1
  have h3 : (HAL_Delay (SD_SendClock 2 c1) 1).g_hspi = true := hf.trans h2
  exact (command_live _ CMD8 0x1AA 0x87 h3).1

theorem with_type_g_hspi (x : Spi) (t : Nat) : ({ x with SD_Type := t }).g_hspi = x.g_hspi :=
  rfl

theorem with_type_SD_Type (x : Spi) (t : Nat) : ({ x with SD_Type := t }).SD_Type = t := rfl

theorem with_type_log (x : Spi) (t : Nat) : ({ x with SD_Type := t }).log = x.log := rfl

theorem init_card_type_spec (b : Spi) :
    (init_card_type b).g_hspi = true
      ∧ ((init_cmd8 b).2 = R1_IDLE_STATE → (init_card_type b).SD_Type = SD_TYPE_SDV2)
      ∧ ((init_cmd8 b).2 ≠ R1_IDLE_STATE → (init_card_type b).SD_Type = SD_TYPE_SDV1) := by
  unfold init_card_type
  have hl := init_cmd8_live b
  generalize init_cmd8 b = c8 at hl ⊢
  refine ⟨?_, ?_, ?_⟩
  · split
    · rw [with_type_g_hspi]
      obtain ⟨_, hf, _⟩ := SendClock_frame 4 c8.1
      exact hf.trans hl
    · rw [with_type_g_hspi]
      exact hl
  · intro h
    rw [if_pos h, with_type_SD_Type]
  · intro h
    rw [if_neg h, with_type_SD_Type]

theorem init_before_acmd41_spec (b : Spi) :
    (init_before_acmd41 b).g_hspi = true
      ∧ (init_before_acmd41 b).SD_Type = (init_card_type b).SD_Type := by
  unfold init_before_acmd41
  have hl := (init_card_type_spec b).1
  generalize init_card_type b = x at hl ⊢
  have hf := frame_trans (frame_trans (frame_trans (frame_trans
    (ReadWrite_frame x 0xFF) (CS_High_frame _)) (ReadWrite_frame _ 0xFF))
    (SendClock_frame 2 _)) (Delay_frame _ 1)
  exact ⟨hf.2.1.trans hl, hf.2.2⟩

theorem acmd41_first_attempt (arg : Nat) (x : Spi) :
    (acmd41_attempt x arg).1.grows (acmd41_loop 201 0 0xFF arg x).1 := by
  show (acmd41_attempt x arg).1.grows (acmd41_loop (200 + 1) 0 0xFF arg x).1
  rw [acmd41_loop, if_pos ⟨by decide, by decide⟩]
  split
  · exact grows_refl _
  · exact grows_trans (Delay_grows _ 10) (acmd41_loop_grows _ _ _ _ _)

theorem acmd41_attempt_log (x : Spi) (arg : Nat) (hg : x.g_hspi = true) :
    ∃ (rx0 r1 r2 r3 r4 r5 r6 s1 s2 s3 s4 s5 s6 : Nat) (polls rest : List SpiEvent),
      (acmd41_attempt x arg).1.log
          = x.log ++ [SpiEvent.cs_low, SpiEvent.xfer 0xFF rx0, SpiEvent.xfer 0x77 r1,
              SpiEvent.xfer 0 r2, SpiEvent.xfer 0 r3, SpiEvent.xfer 0 r4, SpiEvent.xfer 0 r5,
              SpiEvent.xfer 0 r6] ++ polls
            ++ [SpiEvent.xfer 0x69 s1, SpiEvent.xfer (arg / 16777216 % 256) s2,
              SpiEvent.xfer (arg / 65536 % 256) s3, SpiEvent.xfer (arg / 256 % 256) s4,
              SpiEvent.xfer (arg % 256) s5, SpiEvent.xfer 0 s6] ++ rest
        ∧ polls.all SpiEvent.isXfer = true := by
  obtain ⟨rx0, r1, r2, r3, r4, r5, r6, polls, hl, hx⟩ := command_log x CMD55 0 0 hg
  obtain ⟨gc, _⟩ := command_live x CMD55 0 0 hg
  unfold acmd41_attempt
  dsimp only
  generalize SD_SendCommandRaw (SD_SPI_ReadWrite (SD_CS_Low x) 0xFF).1 CMD55 0 0 = c55
    at hl gc ⊢
  obtain ⟨s1, s2, s3, s4, s5, s6, polls2, hl2, _⟩ := SendCommandRaw_log c55.1 CMD41 arg 0 gc
  generalize SD_SendCommandRaw c55.1 CMD41 arg 0 = c41 at hl2 ⊢
  obtain ⟨ext, hd⟩ := deselect_grows c41.1
  refine ⟨rx0, r1, r2, r3, r4, r5, r6, s1, s2, s3, s4, s5, s6, polls, polls2 ++ ext, ?_, hx⟩
  rw [hd, hl2, hl]
  simp only [List.append_assoc]
  rfl

theorem init_finish_grows (b : Spi) : (init_acmd41 b).1.grows (init_finish b) := by
  unfold init_finish init_cmd58
  exact grows_trans (grows_trans (grows_trans (grows_trans (select_grows _ CMD58 0 0)
    (read_ocr_grows _)) (deselect_grows _)) (grows_of_exchanges (SendClock_exchanges 2 _)))
    (SetSpeedHigh_grows _)

theorem SD_Init_after_cmd0 (b : Spi) (h0 : (init_cmd0 b).2 = R1_IDLE_STATE) :
    SD_Init b true =
      if (init_acmd41 b).2 ≠ R1_READY then ((init_acmd41 b).1, 2)
      else if (init_cmd58 b).2 ≠ R1_READY then (SD_CS_High (init_cmd58 b).1, 3)
      else (init_finish b, 0) := by
  rw [SD_Init_phases, if_neg (fun hc => hc h0)]

theorem SD_Init_grows_from_acmd41 (b : Spi) (h0 : (init_cmd0 b).2 = R1_IDLE_STATE) :
    (init_acmd41 b).1.grows (SD_Init b true).1 := by
  rw [SD_Init_after_cmd0 b h0]
  by_cases h41 : (init_acmd41 b).2 ≠ R1_READY
  · rw [if_pos h41]
    dsimp only
    exact grows_refl (init_acmd41 b).1
  · rw [if_neg h41]
    by_cases h58 : (init_cmd58 b).2 ≠ R1_READY
    · rw [if_pos h58]
      dsimp only
      have hg : (init_acmd41 b).1.grows (SD_CS_High (init_cmd58 b).1) := by
        unfold init_cmd58
        exact grows_trans (select_grows (init_acmd41 b).1 CMD58 0 0) (CS_High_grows _)
      exact hg
    · rw [if_neg h58]
      dsimp only
      exact init_finish_grows b

theorem init_acmd41_first (b : Spi) :
    (acmd41_attempt (init_before_acmd41 b) (init_acmd41_arg b)).1.grows (init_acmd41 b).1 := by
  unfold init_acmd41
  exact acmd41_first_attempt _ _

set_option maxRecDepth 100000 in
/-- C22, as stated, fails for a CMD8 answer that is neither `0x01` nor `0x05`.  The card
answers CMD0 with idle and CMD8 with `0x09`; `SD_Init` does not fail: it takes the legacy
path, sends CMD41 with argument 0 (log positions 67 to 72) and returns 0 with
`SD_TYPE_SDV1`. -/
theorem odd_cmd8_answer_accepted :
    (init_cmd0 odd_cmd8_card).2 = R1_IDLE_STATE
      ∧ (init_cmd8 odd_cmd8_card).2 = 0x09
      ∧ (SD_Init odd_cmd8_card true).2 = 0
      ∧ (SD_Init odd_cmd8_card true).1.SD_Type = SD_TYPE_SDV1
      ∧ (((SD_Init odd_cmd8_card true).1.log.drop 67).take 6).map
          (fun e => match e with
            | SpiEvent.xfer tx _ => tx
            | _ => 256)
          = [0x69, 0, 0, 0, 0, 0] := by
  decide

/-- C22, amended (interface-condition check).  In `SD_Init`, called with a valid handle,
after CMD0 was answered idle: a CMD8 answer of `0x01` selects `SD_TYPE_SDV2` and the
argument `0x40000000` for ACMD41; an answer of `0x05`, and likewise every other answer,
selects `SD_TYPE_SDV1` and the argument 0.  In every case `SD_Init` goes on to the ACMD41
loop: it does not return 1, its result is decided by the ACMD41 loop and CMD58 alone, and
its log continues from the state before the loop with CMD55 (`0x77`, argument 0) and CMD41
(`0x69`) carrying the selected argument, most significant byte first. -/
theorem cmd8_selects_path (b : Spi) (h0 : (init_cmd0 b).2 = R1_IDLE_STATE) :
    ((init_cmd8 b).2 = R1_IDLE_STATE →
        init_acmd41_arg b = 0x40000000 ∧ (init_before_acmd41 b).SD_Type = SD_TYPE_SDV2)
      ∧ ((init_cmd8 b).2 = R1_IDLE_STATE ||| R1_ILLEGAL_COMMAND →
        init_acmd41_arg b = 0 ∧ (init_before_acmd41 b).SD_Type = SD_TYPE_SDV1)
      ∧ ((init_cmd8 b).2 ≠ R1_IDLE_STATE →
        init_acmd41_arg b = 0 ∧ (init_before_acmd41 b).SD_Type = SD_TYPE_SDV1)
      ∧ (SD_Init b true).2 ≠ 1
      ∧ SD_Init b true =
          (if (init_acmd41 b).2 ≠ R1_READY then ((init_acmd41 b).1, 2)
           else if (init_cmd58 b).2 ≠ R1_READY then (SD_CS_High (init_cmd58 b).1, 3)
           else (init_finish b, 0))
      ∧ ∃ (rx0 r1 r2 r3 r4 r5 r6 s1 s2 s3 s4 s5 s6 : Nat) (polls rest : List SpiEvent),
          (SD_Init b true).1.log
              = (init_before_acmd41 b).log
                ++ [SpiEvent.cs_low, SpiEvent.xfer 0xFF rx0, SpiEvent.xfer 0x77 r1,
                  SpiEvent.xfer 0 r2, SpiEvent.xfer 0 r3, SpiEvent.xfer 0 r4,
                  SpiEvent.xfer 0 r5, SpiEvent.xfer 0 r6] ++ polls
                ++ [SpiEvent.xfer 0x69 s1,
                  SpiEvent.xfer (init_acmd41_arg b / 16777216 % 256) s2,
                  SpiEvent.xfer (init_acmd41_arg b / 65536 % 256) s3,
                  SpiEvent.xfer (init_acmd41_arg b / 256 % 256) s4,
                  SpiEvent.xfer (init_acmd41_arg b % 256) s5, SpiEvent.xfer 0 s6] ++ rest
            ∧ polls.all SpiEvent.isXfer = true := by
  obtain ⟨hg, ht⟩ := init_before_acmd41_spec b
  obtain ⟨_, t2, t1⟩ := init_card_type_spec b
  have hother : (init_cmd8 b).2 ≠ R1_IDLE_STATE →
      init_acmd41_arg b = 0 ∧ (init_before_acmd41 b).SD_Type = SD_TYPE_SDV1 := by
    intro h
    refine ⟨?_, ht.trans (t1 h)⟩
    unfold init_acmd41_arg
    rw [if_neg h]
  have hphase := SD_Init_after_cmd0 b h0
  refine ⟨?_, ?_, hother, ?_, hphase, ?_⟩
  · intro h
    refine ⟨?_, ht.trans (t2 h)⟩
    unfold init_acmd41_arg
    rw [if_pos h]
  · intro h
    apply hother
    rw [h]
    decide
  · rw [hphase]
    by_cases h41 : (init_acmd41 b).2 ≠ R1_READY
    · rw [if_pos h41]
      dsimp only
      decide
    · rw [if_neg h41]
      by_cases h58 : (init_cmd58 b).2 ≠ R1_READY
      · rw [if_pos h58]
        dsimp only
        decide
      · rw [if_neg h58]
        dsimp only
        decide
  · obtain ⟨rx0, r1, r2, r3, r4, r5, r6, s1, s2, s3, s4, s5, s6, polls, rest, hl, hx⟩ :=
      acmd41_attempt_log (init_before_acmd41 b) (init_acmd41_arg b) hg
    obtain ⟨e1, l1⟩ := init_acmd41_first b
    obtain ⟨e2, l2⟩ := SD_Init_grows_from_acmd41 b h0
    refine ⟨rx0, r1, r2, r3, r4, r5, r6, s1, s2, s3, s4, s5, s6, polls, rest ++ e1 ++ e2,
      ?_, hx⟩
    rw [l2, l1, hl]
    simp only [List.append_assoc]

set_option maxRecDepth 100000 in
/-- Witness for C22 (amended): a card that answers every byte with `0x01`; CMD0 and CMD8
are answered idle, so the v2 path with argument `0x40000000` is taken. -/
theorem cmd8_selects_path_witness :
    (init_cmd0 idle_card).2 = R1_IDLE_STATE
      ∧ (init_cmd8 idle_card).2 = R1_IDLE_STATE
      ∧ init_acmd41_arg idle_card = 0x40000000
      ∧ (init_before_acmd41 idle_card).SD_Type = SD_TYPE_SDV2
      ∧ (SD_Init idle_card true).2 ≠ 1 :=
  ⟨by decide, by decide,
    ((cmd8_selects_path idle_card (by decide)).1 (by decide)).1,
    ((cmd8_selects_path idle_card (by decide)).1 (by decide)).2,
    (cmd8_selects_path idle_card (by decide)).2.2.2.1⟩

set_option maxRecDepth 100000 in
/-- C23, as stated, fails: the value 1 is not returned for a failure of the CMD0 step only.
Called with an invalid handle, `SD_Init` returns 1 before any bus operation, on a card
whose first CMD0 attempt would be answered idle; called with a valid handle on the same
card it does not return 1. -/
theorem init_invalid_handle_returns_1 :
    (SD_Init idle_card false).2 = 1
      ∧ (SD_Init idle_card false).1.log = []
      ∧ (SD_Init idle_card false).1.calls = 0
      ∧ (cmd0_try 0 (init_power_up idle_card)).2 = R1_IDLE_STATE
      ∧ (SD_Init idle_card true).2 = 2 := by
  decide

/-- C23, amended (initialisation failures are reported distinctly).  Called with an invalid
handle, `SD_Init` returns 1 and does nothing else.  Called with a valid handle it returns
1 exactly when none of the 100 CMD0 attempts is answered idle (`0x01`); 2 exactly when a
CMD0 attempt is answered idle and none of the 200 ACMD41 attempts is answered ready
(`0x00`); 3 exactly when both loops succeed and CMD58 is not answered ready; 0 exactly when
all three steps succeed; it returns no other value. -/
theorem init_failures_distinct (b : Spi) :
    SD_Init b false = (b, 1)
      ∧ ((SD_Init b true).2 = 1 ↔
          ¬ ∃ k, k < 100 ∧ (cmd0_try k (init_power_up b)).2 = R1_IDLE_STATE)
      ∧ ((SD_Init b true).2 = 2 ↔
          (∃ k, k < 100 ∧ (cmd0_try k (init_power_up b)).2 = R1_IDLE_STATE)
            ∧ ¬ ∃ k, k < 200 ∧
                (acmd41_try k (init_acmd41_arg b) (init_before_acmd41 b)).2 = R1_READY)
      ∧ ((SD_Init b true).2 = 3 ↔
          (∃ k, k < 100 ∧ (cmd0_try k (init_power_up b)).2 = R1_IDLE_STATE)
            ∧ (∃ k, k < 200 ∧
                (acmd41_try k (init_acmd41_arg b) (init_before_acmd41 b)).2 = R1_READY)
            ∧ (init_cmd58 b).2 ≠ R1_READY)
      ∧ ((SD_Init b true).2 = 0 ↔
          (∃ k, k < 100 ∧ (cmd0_try k (init_power_up b)).2 = R1_IDLE_STATE)
            ∧ (∃ k, k < 200 ∧
                (acmd41_try k (init_acmd41_arg b) (init_before_acmd41 b)).2 = R1_READY)
            ∧ (init_cmd58 b).2 = R1_READY)
      ∧ ((SD_Init b true).2 = 0 ∨ (SD_Init b true).2 = 1 ∨ (SD_Init b true).2 = 2
          ∨ (SD_Init b true).2 = 3) := by
  rw [← init_cmd0_spec, ← init_acmd41_spec, SD_Init_phases]
  refine ⟨SD_Init_invalid b, ?_⟩
  by_cases h0 : (init_cmd0 b).2 ≠ R1_IDLE_STATE
  · rw [if_pos h0]
    dsimp only
    have h0b : ¬ (init_cmd0 b).2 = R1_IDLE_STATE := h0
    simp [h0b]
  · rw [if_neg h0]
    have h0b : (init_cmd0 b).2 = R1_IDLE_STATE := Decidable.not_not.mp h0
    by_cases h41 : (init_acmd41 b).2 ≠ R1_READY
    · rw [if_pos h41]
      dsimp only
      have h41b : ¬ (init_acmd41 b).2 = R1_READY := h41
      simp [h0b, h41b]
    · rw [if_neg h41]
      have h41b : (init_acmd41 b).2 = R1_READY := Decidable.not_not.mp h41
      by_cases h58 : (init_cmd58 b).2 ≠ R1_READY
      · rw [if_pos h58]
        dsimp only
        have h58b : ¬ (init_cmd58 b).2 = R1_READY := h58
        simp [h0b, h41b, h58b]
      · rw [if_neg h58]
        dsimp only
        have h58b : (init_cmd58 b).2 = R1_READY := Decidable.not_not.mp h58
        simp [h0b, h41b, h58b]

/-- Witness for C23 (amended): the card that answers every byte with `0x01`. -/
theorem init_failures_distinct_witness :
    SD_Init idle_card false = (idle_card, 1)
      ∧ ((SD_Init idle_card true).2 = 0 ∨ (SD_Init idle_card true).2 = 1
          ∨ (SD_Init idle_card true).2 = 2 ∨ (SD_Init idle_card true).2 = 3) :=
  ⟨(init_failures_distinct idle_card).1, (init_failures_distinct idle_card).2.2.2.2.2⟩

/-! ## Byte addresses on standard-capacity cards -/

/-- C29 (no address overflow on standard-capacity cards).  The manager addresses the
metadata as block 1 and every record as a block `2 + i` with `i < SD_BUFFER_SIZE`.  When
`SD_Type` is not `SD_TYPE_SDHC`, for each of these block numbers the byte address
`block_addr << 9` computed in 32 bits is below `2^32` and equals `block_addr * 512`, and
two different block numbers give 512-byte ranges that do not overlap. -/
theorem no_address_overflow (b : Spi) (hstd : b.SD_Type ≠ SD_TYPE_SDHC) :
    manager_block SD_DATA_BLOCK
      ∧ (∀ index : Nat, manager_block (_get_data_block_addr index))
      ∧ (∀ a : Nat, manager_block a →
          a * 512 < U32 ∧ card_address b a = a * 512)
      ∧ (∀ a1 a2 : Nat, manager_block a1 → manager_block a2 → a1 ≠ a2 →
          card_address b a1 + 512 ≤ card_address b a2
            ∨ card_address b a2 + 512 ≤ card_address b a1) := by
  have key : ∀ a : Nat, manager_block a → a * 512 < U32 ∧ card_address b a = a * 512 := by
    intro a ha
    have hlt : a * 512 < U32 := by
      rcases ha with h | ⟨i, hi, h⟩
      · rw [h]
        decide
      · simp only [SD_BUFFER_SIZE] at hi
        simp only [SD_DATA_START_BLOCK] at h
        simp only [U32]
        omega
    refine ⟨hlt, ?_⟩
    unfold card_address
    rw [if_pos hstd]
    exact Nat.mod_eq_of_lt hlt
  refine ⟨Or.inl rfl, ?_, key, ?_⟩
  · intro index
    refine Or.inr ⟨index % SD_BUFFER_SIZE, Nat.mod_lt _ (by decide), rfl⟩
  · intro a1 a2 h1 h2 hne
    rw [(key a1 h1).2, (key a2 h2).2]
    omega

/-- Witness for C29: a card whose type is still `SD_TYPE_UNKNOWN`; the last data block,
`204801`, is at byte address `104858112`. -/
theorem no_address_overflow_witness :
    silent_card.SD_Type ≠ SD_TYPE_SDHC
      ∧ manager_block (_get_data_block_addr 204799)
      ∧ card_address silent_card (_get_data_block_addr 204799) = 104858112 :=
  ⟨by decide, (no_address_overflow silent_card (by decide)).2.1 204799,
    ((no_address_overflow silent_card (by decide)).2.2.1 _
      ((no_address_overflow silent_card (by decide)).2.1 204799)).2⟩

/-! ## Ring buffer -/

theorem ring_contents_length (rb : ring_buffer_t) :
    (ring_contents rb).length
      = (rb.head + RING_BUFFER_SIZE - rb.tail) % RING_BUFFER_SIZE := by
  unfold ring_contents
  rw [List.length_map, List.length_range]

theorem Put_full_iff (rb : ring_buffer_t) (data : Nat) (hh : rb.head < RING_BUFFER_SIZE)
    (ht : rb.tail < RING_BUFFER_SIZE) :
    (RingBuffer_Put rb data).2 = false ↔ (ring_contents rb).length = 255 := by
  rw [ring_contents_length]
  unfold RingBuffer_Put
  simp only [RING_BUFFER_SIZE] at *
  by_cases h : (rb.head + 1) % 256 = rb.tail
  · rw [if_pos h]
    constructor
    · intro _
      omega
    · intro _
      rfl
  · rw [if_neg h]
    constructor
    · intro hc
      cases hc
    · intro hc
      omega

theorem Put_full_unchanged (rb : ring_buffer_t) (data : Nat)
    (h : (RingBuffer_Put rb data).2 = false) : (RingBuffer_Put rb data).1 = rb := by
  unfold RingBuffer_Put at h ⊢
  dsimp only at h ⊢
  split
  · rfl
  · rename_i hn
    rw [if_neg hn] at h
    cases h

theorem Put_tail (rb : ring_buffer_t) (data : Nat) :
    (RingBuffer_Put rb data).1.tail = rb.tail := by
  unfold RingBuffer_Put
  dsimp only
  split <;> rfl

theorem Put_bounds (rb : ring_buffer_t) (data : Nat) (hh : rb.head < RING_BUFFER_SIZE) :
    (RingBuffer_Put rb data).1.head < RING_BUFFER_SIZE := by
  unfold RingBuffer_Put
  dsimp only
  split
  · exact hh
  · exact Nat.mod_lt _ (by decide)

theorem Put_appends (rb : ring_buffer_t) (data : Nat) (hh : rb.head < RING_BUFFER_SIZE)
    (ht : rb.tail < RING_BUFFER_SIZE) (h : (RingBuffer_Put rb data).2 = true) :
    ring_contents (RingBuffer_Put rb data).1 = ring_contents rb ++ [data] := by
  unfold RingBuffer_Put at h ⊢
  dsimp only at h ⊢
  by_cases hn : (rb.head + 1) % RING_BUFFER_SIZE = rb.tail
  · rw [if_pos hn] at h
    cases h
  · rw [if_neg hn]
    unfold ring_contents
    dsimp only
    simp only [RING_BUFFER_SIZE] at *
    have hlen : ((rb.head + 1) % 256 + 256 - rb.tail) % 256
        = (rb.head + 256 - rb.tail) % 256 + 1 := by omega
    rw [hlen, List.range_succ, List.map_append, List.map_singleton]
    congr 1
    · apply List.map_congr_left
      intro i hi
      rw [List.mem_range] at hi
      rw [if_neg (by omega)]
    · rw [if_pos (by omega)]

theorem Get_empty_iff (rb : ring_buffer_t) (data : Nat) (hh : rb.head < RING_BUFFER_SIZE)
    (ht : rb.tail < RING_BUFFER_SIZE) :
    (RingBuffer_Get rb data).2.1 = false ↔ ring_contents rb = [] := by
  rw [← List.length_eq_zero, ring_contents_length]
  unfold RingBuffer_Get
  simp only [RING_BUFFER_SIZE] at *
  by_cases h : rb.head = rb.tail
  · rw [if_pos h]
    constructor
    · intro _
      omega
    · intro _
      rfl
  · rw [if_neg h]
    constructor
    · intro hc
      cases hc
    · intro hc
      omega

theorem Get_frame (rb : ring_buffer_t) (data : Nat) :
    (RingBuffer_Get rb data).1.head = rb.head
      ∧ (RingBuffer_Get rb data).1.buffer = rb.buffer := by
  unfold RingBuffer_Get
  split <;> exact ⟨rfl, rfl⟩

theorem Get_bounds (rb : ring_buffer_t) (data : Nat) (ht : rb.tail < RING_BUFFER_SIZE) :
    (RingBuffer_Get rb data).1.tail < RING_BUFFER_SIZE := by
  unfold RingBuffer_Get
  split
  · exact ht
  · exact Nat.mod_lt _ (by decide)

theorem Get_oldest (rb : ring_buffer_t) (data : Nat) (hh : rb.head < RING_BUFFER_SIZE)
    (ht : rb.tail < RING_BUFFER_SIZE) (h : (RingBuffer_Get rb data).2.1 = true) :
    ring_contents rb
      = (RingBuffer_Get rb data).2.2 :: ring_contents (RingBuffer_Get rb data).1 := by
  unfold RingBuffer_Get at h ⊢
  by_cases hn : rb.head = rb.tail
  · rw [if_pos hn] at h
    cases h
  · rw [if_neg hn]
    unfold ring_contents
    dsimp only
    simp only [RING_BUFFER_SIZE] at *
    obtain ⟨n, hlen⟩ : ∃ n, (rb.head + 256 - rb.tail) % 256 = n + 1 :=
      ⟨(rb.head + 256 - rb.tail) % 256 - 1, by omega⟩
    have hlen2 : (rb.head + 256 - (rb.tail + 1) % 256) % 256 = n := by omega
    rw [hlen, hlen2, List.range_succ_eq_map, List.map_cons, List.map_map]
    congr 1
    · rw [Nat.add_zero, Nat.mod_eq_of_lt ht]
    · apply List.map_congr_left
      intro i _
      show rb.buffer ((rb.tail + (i + 1)) % 256) = rb.buffer (((rb.tail + 1) % 256 + i) % 256)
      congr 1
      omega

theorem Get_not_stored (rb : ring_buffer_t) (data : Nat)
    (h : (RingBuffer_Get rb data).2.1 = false) :
    (RingBuffer_Get rb data).1 = rb ∧ (RingBuffer_Get rb data).2.2 = data := by
  unfold RingBuffer_Get at h ⊢
  split
  · exact ⟨rfl, rfl⟩
  · rename_i hn
    rw [if_neg hn] at h
    cases h

theorem Put_refines (rb : ring_buffer_t) (data : Nat) (hh : rb.head < RING_BUFFER_SIZE)
    (ht : rb.tail < RING_BUFFER_SIZE) :
    (RingBuffer_Put rb data).2 = (queue_put (ring_contents rb) data).2
      ∧ ring_contents (RingBuffer_Put rb data).1 = (queue_put (ring_contents rb) data).1 := by
  unfold queue_put
  simp only [QUEUE_CAPACITY]
  by_cases hf : (ring_contents rb).length = 255
  · have h1 := (Put_full_iff rb data hh ht).mpr hf
    rw [if_pos hf, h1, Put_full_unchanged rb data h1]
    exact ⟨rfl, rfl⟩
  · have h1 : (RingBuffer_Put rb data).2 = true := by
      cases hv : (RingBuffer_Put rb data).2
      · exact absurd ((Put_full_iff rb data hh ht).mp hv) hf
      · rfl
    rw [if_neg hf, h1, Put_appends rb data hh ht h1]
    exact ⟨rfl, rfl⟩

theorem Get_refines (rb : ring_buffer_t) (data : Nat) (hh : rb.head < RING_BUFFER_SIZE)
    (ht : rb.tail < RING_BUFFER_SIZE) :
    (RingBuffer_Get rb data).2.1 = (queue_get (ring_contents rb)).2.1
      ∧ (if (RingBuffer_Get rb data).2.1 = true then some (RingBuffer_Get rb data).2.2
          else none) = (queue_get (ring_contents rb)).2.2
      ∧ ring_contents (RingBuffer_Get rb data).1 = (queue_get (ring_contents rb)).1 := by
  cases hv : (RingBuffer_Get rb data).2.1
  · have he := (Get_empty_iff rb data hh ht).mp hv
    rw [(Get_not_stored rb data hv).1, he]
    exact ⟨rfl, rfl, rfl⟩
  · rw [Get_oldest rb data hh ht hv]
    exact ⟨rfl, rfl, rfl⟩

theorem ring_run_refines (ops : List RingOp) : ∀ (rb : ring_buffer_t),
    rb.head < RING_BUFFER_SIZE → rb.tail < RING_BUFFER_SIZE →
    (ring_run rb ops).2 = (queue_run (ring_contents rb) ops).2
      ∧ ring_contents (ring_run rb ops).1 = (queue_run (ring_contents rb) ops).1
      ∧ (ring_run rb ops).1.head < RING_BUFFER_SIZE
      ∧ (ring_run rb ops).1.tail < RING_BUFFER_SIZE := by
  induction ops with
  | nil =>
    intro rb hh ht
    exact ⟨rfl, rfl, hh, ht⟩
  | cons op ops ih =>
    intro rb hh ht
    cases op with
    | put data =>
      obtain ⟨r1, r2⟩ := Put_refines rb data hh ht
      obtain ⟨i1, i2, i3, i4⟩ := ih (RingBuffer_Put rb data).1 (Put_bounds rb data hh)
        (by rw [Put_tail]; exact ht)
      unfold ring_run queue_run
      dsimp only
      rw [← r2, ← r1, i1, i2]
      exact ⟨rfl, rfl, i3, i4⟩
    | get =>
      obtain ⟨r1, r2, r3⟩ := Get_refines rb 0 hh ht
      obtain ⟨i1, i2, i3, i4⟩ := ih (RingBuffer_Get rb 0).1
        (by rw [(Get_frame rb 0).1]; exact hh) (Get_bounds rb 0 ht)
      unfold ring_run queue_run
      dsimp only
      rw [← r3, ← r2, ← r1, i1, i2]
      exact ⟨rfl, rfl, i3, i4⟩

/-- C25 (the ring buffer refines a bounded FIFO queue of capacity 255).  After
`RingBuffer_Init`, on any array contents, every sequence of `RingBuffer_Put` and
`RingBuffer_Get` calls returns exactly what the same calls return on the specification
queue started empty, and the stored bytes are the queue.  In every state reached, `head`
and `tail` are below `RING_BUFFER_SIZE` and at most 255 bytes are stored; `RingBuffer_Put`
returns `false` exactly when 255 bytes are stored and then changes nothing, otherwise it
appends the byte and returns `true`, and it never changes `tail`; `RingBuffer_Get` returns
`false` exactly when no byte is stored and then changes nothing, otherwise it stores the
oldest byte through the pointer and removes it, and it never changes `head` or the
array. -/
theorem ring_buffer_refines_queue (rb0 : ring_buffer_t) (ops : List RingOp) :
    (ring_run (RingBuffer_Init rb0) ops).2 = (queue_run [] ops).2
      ∧ ring_contents (ring_run (RingBuffer_Init rb0) ops).1 = (queue_run [] ops).1
      ∧ (ring_run (RingBuffer_Init rb0) ops).1.head < RING_BUFFER_SIZE
      ∧ (ring_run (RingBuffer_Init rb0) ops).1.tail < RING_BUFFER_SIZE
      ∧ (ring_contents (ring_run (RingBuffer_Init rb0) ops).1).length ≤ 255
      ∧ (∀ data : Nat,
          ((RingBuffer_Put (ring_run (RingBuffer_Init rb0) ops).1 data).2 = false ↔
              (ring_contents (ring_run (RingBuffer_Init rb0) ops).1).length = 255)
            ∧ ((RingBuffer_Put (ring_run (RingBuffer_Init rb0) ops).1 data).2 = false →
              (RingBuffer_Put (ring_run (RingBuffer_Init rb0) ops).1 data).1
                = (ring_run (RingBuffer_Init rb0) ops).1)
            ∧ ((RingBuffer_Put (ring_run (RingBuffer_Init rb0) ops).1 data).2 = true →
              ring_contents (RingBuffer_Put (ring_run (RingBuffer_Init rb0) ops).1 data).1
                = ring_contents (ring_run (RingBuffer_Init rb0) ops).1 ++ [data])
            ∧ (RingBuffer_Put (ring_run (RingBuffer_Init rb0) ops).1 data).1.tail
                = (ring_run (RingBuffer_Init rb0) ops).1.tail)
      ∧ (∀ data : Nat,
          ((RingBuffer_Get (ring_run (RingBuffer_Init rb0) ops).1 data).2.1 = false ↔
              ring_contents (ring_run (RingBuffer_Init rb0) ops).1 = [])
            ∧ ((RingBuffer_Get (ring_run (RingBuffer_Init rb0) ops).1 data).2.1 = false →
              (RingBuffer_Get (ring_run (RingBuffer_Init rb0) ops).1 data).1
                  = (ring_run (RingBuffer_Init rb0) ops).1
                ∧ (RingBuffer_Get (ring_run (RingBuffer_Init rb0) ops).1 data).2.2 = data)
            ∧ ((RingBuffer_Get (ring_run (RingBuffer_Init rb0) ops).1 data).2.1 = true →
              ring_contents (ring_run (RingBuffer_Init rb0) ops).1
                = (RingBuffer_Get (ring_run (RingBuffer_Init rb0) ops).1 data).2.2
                  :: ring_contents
                      (RingBuffer_Get (ring_run (RingBuffer_Init rb0) ops).1 data).1)
            ∧ (RingBuffer_Get (ring_run (RingBuffer_Init rb0) ops).1 data).1.head
                = (ring_run (RingBuffer_Init rb0) ops).1.head
            ∧ (RingBuffer_Get (ring_run (RingBuffer_Init rb0) ops).1 data).1.buffer
                = (ring_run (RingBuffer_Init rb0) ops).1.buffer) := by
  have h0 : (RingBuffer_Init rb0).head < RING_BUFFER_SIZE := by
    show 0 < 256
    decide
  have t0 : (RingBuffer_Init rb0).tail < RING_BUFFER_SIZE := by
    show 0 < 256
    decide
  have e0 : ring_contents (RingBuffer_Init rb0) = [] := by
    rw [← List.length_eq_zero, ring_contents_length]
    show (0 + 256 - 0) % 256 = 0
    decide
  obtain ⟨r1, r2, hh, ht⟩ := ring_run_refines ops (RingBuffer_Init rb0) h0 t0
  rw [e0] at r1 r2
  generalize (ring_run (RingBuffer_Init rb0) ops).1 = rb at r2 hh ht ⊢
  refine ⟨r1, r2, hh, ht, ?_, ?_, ?_⟩
  · rw [ring_contents_length]
    simp only [RING_BUFFER_SIZE]
    omega
  · intro data
    exact ⟨Put_full_iff rb data hh ht, Put_full_unchanged rb data,
      Put_appends rb data hh ht, Put_tail rb data⟩
  · intro data
    exact ⟨Get_empty_iff rb data hh ht, Get_not_stored rb data, Get_oldest rb data hh ht,
      (Get_frame rb data).1, (Get_frame rb data).2⟩

/-- Witness for C25: on a stale buffer, put 7, put 9, get, get, get return true, true,
7, 9 and false. -/
theorem ring_buffer_refines_queue_witness :
    (ring_run (RingBuffer_Init stale_ring)
        [RingOp.put 7, RingOp.put 9, RingOp.get, RingOp.get, RingOp.get]).2
      = [(true, none), (true, none), (true, some 7), (true, some 9), (false, none)] :=
  (ring_buffer_refines_queue stale_ring
    [RingOp.put 7, RingOp.put 9, RingOp.get, RingOp.get, RingOp.get]).1

/-! ## Sequence numbers order the buffer -/

theorem record_sequence_num (r : sd_data_record_t) (h : r.sequence_num < U32) :
    (record_of_bytes (record_bytes r)).sequence_num = r.sequence_num := by
  unfold record_of_bytes record_bytes
  show rd32 _ 28 = _
  rw [List.append_assoc (le32 r.timestamp ++ le32 r.temperature ++ le32 r.humidity
      ++ fitTo 16 r.mode),
    rd32_skip _ _ 28 28 (by simp [le32_length, fitTo_length]) (Nat.le_refl _)]
  exact rd32_le32_append _ _ h

theorem seq_at_congr (blocks : Nat → Block) (i k : Nat)
    (h : i % SD_BUFFER_SIZE = k % SD_BUFFER_SIZE) : seq_at blocks i = seq_at blocks k := by
  unfold seq_at _get_data_block_addr
  rw [h]

theorem ordered_blocks (blocks blocks2 : Nat → Block) (m : sd_buffer_metadata_t)
    (h : ∀ j, j < m.count → seq_at blocks2 (m.read_index + j) = seq_at blocks (m.read_index + j))
    (ho : ordered blocks m) : ordered blocks2 m := by
  refine ⟨?_, ?_⟩
  · intro j k hjk hk
    rw [h j (by omega), h k hk]
    exact ho.1 j k hjk hk
  · intro j hj
    rw [h j hj]
    exact ho.2 j hj

theorem ordered_pop (blocks : Nat → Block) (m : sd_buffer_metadata_t)
    (hinv : metadata_invariant m) (hc : 0 < m.count) (ho : ordered blocks m) :
    ordered blocks { m with
      read_index := ((m.read_index + 1) % U32) % SD_BUFFER_SIZE,
      count := (m.count + U32 - 1) % U32 } := by
  obtain ⟨hw, hr, hcnt, _⟩ := hinv
  have hcount : (m.count + U32 - 1) % U32 = m.count - 1 := by
    simp only [SD_BUFFER_SIZE, U32] at *
    omega
  have hshift : ∀ j, seq_at blocks (((m.read_index + 1) % U32) % SD_BUFFER_SIZE + j)
      = seq_at blocks (m.read_index + (j + 1)) := by
    intro j
    apply seq_at_congr
    simp only [SD_BUFFER_SIZE, U32] at *
    omega
  refine ⟨?_, ?_⟩
  · intro j k hjk hk
    dsimp only at hk ⊢
    rw [hcount] at hk
    rw [hshift, hshift]
    exact ho.1 (j + 1) (k + 1) (by omega) (by omega)
  · intro j hj
    dsimp only at hj ⊢
    rw [hcount] at hj
    rw [hshift]
    exact ho.2 (j + 1) (by omega)

theorem ordered_make_room (blocks : Nat → Block) (m : sd_buffer_metadata_t)
    (hinv : metadata_invariant m) (ho : ordered blocks m) : ordered blocks (make_room m) := by
  unfold make_room
  split
  · rename_i hfull
    exact ordered_pop blocks m hinv
      (by simp only [SD_BUFFER_SIZE] at hfull; omega) ho
  · exact ho

theorem ordered_bump (blocks : Nat → Block) (m : sd_buffer_metadata_t)
    (hs : m.sequence_num + 1 < U32) (ho : ordered blocks m) :
    ordered blocks { m with sequence_num := (m.sequence_num + 1) % U32 } := by
  refine ⟨ho.1, ?_⟩
  intro j hj
  have h := ho.2 j hj
  show seq_at blocks (m.read_index + j) < (m.sequence_num + 1) % U32
  rw [Nat.mod_eq_of_lt hs]
  omega

theorem ordered_push (blocks blocks2 : Nat → Block) (m : sd_buffer_metadata_t)
    (hinv : metadata_invariant m) (hc : m.count < SD_BUFFER_SIZE)
    (hs : m.sequence_num + 1 < U32) (ho : ordered blocks m)
    (hkeep : ∀ a, a ≠ _get_data_block_addr m.write_index → a ≠ SD_DATA_BLOCK →
      blocks2 a = blocks a)
    (hnew : (record_of_bytes (blocks2 (_get_data_block_addr m.write_index))).sequence_num
      = m.sequence_num) :
    ordered blocks2 { m with
      sequence_num := (m.sequence_num + 1) % U32,
      write_index := ((m.write_index + 1) % U32) % SD_BUFFER_SIZE,
      count := (m.count + 1) % U32 } := by
  obtain ⟨hw, hr, hcnt, hwi⟩ := hinv
  have hcount : (m.count + 1) % U32 = m.count + 1 := by
    simp only [SD_BUFFER_SIZE, U32] at *
    omega
  have hold : ∀ j, j < m.count →
      seq_at blocks2 (m.read_index + j) = seq_at blocks (m.read_index + j) := by
    intro j hj
    unfold seq_at
    rw [hkeep _ ?_ (data_block_addr_ne_metadata _)]
    unfold _get_data_block_addr
    simp only [SD_BUFFER_SIZE, SD_DATA_START_BLOCK] at *
    omega
  have hlast : seq_at blocks2 (m.read_index + m.count) = m.sequence_num := by
    rw [seq_at_congr blocks2 (m.read_index + m.count) m.write_index
      (by rw [hwi, Nat.mod_mod])]
    exact hnew
  refine ⟨?_, ?_⟩
  · intro j k hjk hk
    dsimp only at hk ⊢
    rw [hcount] at hk
    by_cases hkc : k < m.count
    · rw [hold j (by omega), hold k hkc]
      exact ho.1 j k hjk hkc
    · have hk2 : k = m.count := by omega
      rw [hk2, hlast, hold j (by omega)]
      exact ho.2 j (by omega)
  · intro j hj
    dsimp only at hj ⊢
    rw [hcount] at hj
    rw [Nat.mod_eq_of_lt hs]
    by_cases hjc : j < m.count
    · rw [hold j hjc]
      have h := ho.2 j hjc
      omega
    · have hj2 : j = m.count := by omega
      rw [hj2, hlast]
      omega

theorem SD_WriteBlock_other (c : SDCard) (addr : Nat) (data : Block) (a : Nat)
    (h : a ≠ addr) : (BlockDevice.SD_WriteBlock c addr data).1.blocks a = c.blocks a := by
  unfold BlockDevice.SD_WriteBlock SDCard.store
  dsimp only
  by_cases h0 : c.nextRet = 0
  · rw [if_pos h0]
    exact if_neg h
  · rw [if_neg h0]
    cases c.nextResidue with
    | none => rfl
    | some b => exact if_neg h

theorem SD_WriteBlock_stored (c : SDCard) (addr : Nat) (data : Block)
    (h : (BlockDevice.SD_WriteBlock c addr data).2 = 0) :
    (BlockDevice.SD_WriteBlock c addr data).1.blocks addr = data := by
  have h0 : c.nextRet = 0 := h
  unfold BlockDevice.SD_WriteBlock SDCard.store
  dsimp only
  rw [if_pos h0]
  exact if_pos rfl

theorem write_metadata_other (s : ManagerState) (a : Nat) (h : a ≠ SD_DATA_BLOCK) :
    (_write_metadata s).1.card.blocks a = s.card.blocks a := by
  unfold _write_metadata
  dsimp only
  split <;> exact SD_WriteBlock_other s.card SD_DATA_BLOCK _ a h

theorem WriteData_effect (s : ManagerState) (ts t h : Nat) (md : List Nat)
    (hinit : s.sd_initialized = true) :
    (∀ a, a ≠ _get_data_block_addr (make_room s.g_metadata).write_index →
        a ≠ SD_DATA_BLOCK →
        (SDCardManager_WriteData s ts t h md).1.card.blocks a = s.card.blocks a)
      ∧ ((SDCardManager_WriteData s ts t h md).1.g_metadata
            = { make_room s.g_metadata with
                sequence_num := ((make_room s.g_metadata).sequence_num + 1) % U32 }
        ∨ ((SDCardManager_WriteData s ts t h md).1.g_metadata
            = { make_room s.g_metadata with
                sequence_num := ((make_room s.g_metadata).sequence_num + 1) % U32,
                write_index :=
                  (((make_room s.g_metadata).write_index + 1) % U32) % SD_BUFFER_SIZE,
                count := ((make_room s.g_metadata).count + 1) % U32 }
          ∧ (SDCardManager_WriteData s ts t h md).1.card.blocks
                (_get_data_block_addr (make_room s.g_metadata).write_index)
              = record_bytes (make_record ts t h md (make_room s.g_metadata).sequence_num))) := by
  have hne : ¬ s.sd_initialized = false := by rw [hinit]; decide
  unfold SDCardManager_WriteData WriteData_record
  rw [if_neg hne]
  dsimp only
  by_cases hw : (BlockDevice.SD_WriteBlock s.card
      (_get_data_block_addr (make_room s.g_metadata).write_index)
      (record_bytes (make_record ts t h md (make_room s.g_metadata).sequence_num))).2 ≠ 0
  · rw [if_pos hw]
    dsimp only
    rw [if_neg (by decide)]
    dsimp only
    refine ⟨?_, Or.inl rfl⟩
    intro a ha _
    exact SD_WriteBlock_other s.card _ _ a ha
  · rw [if_neg hw]
    dsimp only
    rw [if_pos rfl]
    have hw0 := Decidable.not_not.mp hw
    refine ⟨?_, Or.inr ⟨?_, ?_⟩⟩
    · intro a ha h1
      unfold WriteData_commit
      dsimp only
      have e : ∀ x : ManagerState × Bool,
          (if x.2 = false then (x.1, false) else (x.1, true)).1 = x.1 := by
        intro x
        split <;> rfl
      rw [e, write_metadata_other _ a h1]
      exact SD_WriteBlock_other s.card _ _ a ha
    · rw [WriteData_commit_g_metadata]
    · unfold WriteData_commit
      dsimp only
      have e : ∀ x : ManagerState × Bool,
          (if x.2 = false then (x.1, false) else (x.1, true)).1 = x.1 := by
        intro x
        split <;> rfl
      rw [e, write_metadata_other _ _ (data_block_addr_ne_metadata _)]
      exact SD_WriteBlock_stored s.card _ _ hw0

theorem RemoveRecord_effect (s : ManagerState) :
    (∀ a, a ≠ SD_DATA_BLOCK →
        (SDCardManager_RemoveRecord s).1.card.blocks a = s.card.blocks a)
      ∧ ((SDCardManager_RemoveRecord s).1.g_metadata = s.g_metadata
        ∨ (0 < s.g_metadata.count
          ∧ (SDCardManager_RemoveRecord s).1.g_metadata
            = { s.g_metadata with
                read_index := ((s.g_metadata.read_index + 1) % U32) % SD_BUFFER_SIZE,
                count := (s.g_metadata.count + U32 - 1) % U32 })) := by
  unfold SDCardManager_RemoveRecord
  split
  · exact ⟨fun _ _ => rfl, Or.inl rfl⟩
  · rename_i hc
    refine ⟨fun a ha => write_metadata_other _ a ha, Or.inr ⟨?_, ?_⟩⟩
    · have : ¬ s.g_metadata.count = 0 := fun h0 => hc (Or.inr h0)
      omega
    · rw [write_metadata_g_metadata]

theorem ClearBuffer_effect (s : ManagerState) :
    (SDCardManager_ClearBuffer s).1 = s
      ∨ (SDCardManager_ClearBuffer s).1.g_metadata = zero_metadata := by
  unfold SDCardManager_ClearBuffer
  split
  · exact Or.inl rfl
  · exact Or.inr (write_metadata_g_metadata _)

theorem step_keeps_order (s : ManagerState) (op : ManagerOp) (n : Nat)
    (hinv : metadata_invariant s.g_metadata) (hseq : s.g_metadata.sequence_num ≤ n)
    (ho : sequence_ordered s) (hn : n + write_attempts [op] < U32) :
    metadata_invariant (ManagerOp.step s op).g_metadata
      ∧ (ManagerOp.step s op).g_metadata.sequence_num ≤ n + write_attempts [op]
      ∧ sequence_ordered (ManagerOp.step s op) := by
  cases op with
  | write ts t h md =>
    have hn1 : n + 1 < U32 := hn
    refine ⟨WriteData_invariant s ts t h md hinv, ?_⟩
    show (SDCardManager_WriteData s ts t h md).1.g_metadata.sequence_num ≤ n + 1
      ∧ sequence_ordered (SDCardManager_WriteData s ts t h md).1
    by_cases hinit : s.sd_initialized = true
    · obtain ⟨hkeep, hmeta⟩ := WriteData_effect s ts t h md hinit
      obtain ⟨hinv1, hc1⟩ := metadata_invariant_make_room s.g_metadata hinv
      have ho1 := ordered_make_room s.card.blocks s.g_metadata hinv ho
      have hs1 : (make_room s.g_metadata).sequence_num = s.g_metadata.sequence_num :=
        make_room_sequence_num _
      have hs2 : (make_room s.g_metadata).sequence_num + 1 < U32 := by
        rw [hs1]
        omega
      unfold sequence_ordered
      rcases hmeta with hm | ⟨hm, hrec⟩
      · rw [hm]
        refine ⟨?_, ?_⟩
        · show ((make_room s.g_metadata).sequence_num + 1) % U32 ≤ n + 1
          rw [Nat.mod_eq_of_lt hs2, hs1]
          omega
        · apply ordered_bump _ _ hs2
          apply ordered_blocks s.card.blocks _ _ _ ho1
          intro j hj
          unfold seq_at
          rw [hkeep _ ?_ (data_block_addr_ne_metadata _)]
          obtain ⟨hw, hr, hcnt, hwi⟩ := hinv1
          unfold _get_data_block_addr
          simp only [SD_BUFFER_SIZE, SD_DATA_START_BLOCK] at *
          omega
      · rw [hm]
        refine ⟨?_, ?_⟩
        · show ((make_room s.g_metadata).sequence_num + 1) % U32 ≤ n + 1
          rw [Nat.mod_eq_of_lt hs2, hs1]
          omega
        · apply ordered_push s.card.blocks _ (make_room s.g_metadata) hinv1 hc1 hs2 ho1
          · intro a ha h1
            exact hkeep a ha h1
          · rw [hrec]
            exact record_sequence_num _ (by
              show (make_room s.g_metadata).sequence_num < U32
              omega)
    · have hni : s.sd_initialized = false := by
        cases hv : s.sd_initialized
        · rfl
        · exact absurd hv hinit
      have e : SDCardManager_WriteData s ts t h md = (s, false) := by
        simp [SDCardManager_WriteData, WriteData_record, hni]
      rw [e]
      exact ⟨by show s.g_metadata.sequence_num ≤ n + 1; omega, ho⟩
  | remove =>
    refine ⟨RemoveRecord_invariant s hinv, ?_⟩
    show (SDCardManager_RemoveRecord s).1.g_metadata.sequence_num ≤ n + 0
      ∧ sequence_ordered (SDCardManager_RemoveRecord s).1
    obtain ⟨hkeep, hmeta⟩ := RemoveRecord_effect s
    have hb : ∀ (m : sd_buffer_metadata_t), ordered s.card.blocks m →
        ordered (SDCardManager_RemoveRecord s).1.card.blocks m := by
      intro m hm
      apply ordered_blocks s.card.blocks _ _ _ hm
      intro j _
      unfold seq_at
      rw [hkeep _ (data_block_addr_ne_metadata _)]
    unfold sequence_ordered
    rcases hmeta with hm | ⟨hc, hm⟩
    · rw [hm]
      exact ⟨hseq, hb _ ho⟩
    · rw [hm]
      exact ⟨hseq, hb _ (ordered_pop s.card.blocks s.g_metadata hinv hc ho)⟩
  | read record =>
    obtain ⟨hm, _, hb⟩ := ReadData_frame s record
    show metadata_invariant (SDCardManager_ReadData s record).1.g_metadata
      ∧ (SDCardManager_ReadData s record).1.g_metadata.sequence_num ≤ n + 0
      ∧ sequence_ordered (SDCardManager_ReadData s record).1
    unfold sequence_ordered
    rw [hm, hb]
    exact ⟨hinv, hseq, ho⟩
  | clear =>
    show metadata_invariant (SDCardManager_ClearBuffer s).1.g_metadata
      ∧ (SDCardManager_ClearBuffer s).1.g_metadata.sequence_num ≤ n + 0
      ∧ sequence_ordered (SDCardManager_ClearBuffer s).1
    refine ⟨ClearBuffer_invariant s hinv, ?_⟩
    rcases ClearBuffer_effect s with he | hz
    · rw [he]
      exact ⟨hseq, ho⟩
    · unfold sequence_ordered
      rw [hz]
      refine ⟨Nat.zero_le _, ?_, ?_⟩
      · intro j k _ hk
        exact absurd hk (Nat.not_lt_zero _)
      · intro j hj
        exact absurd hj (Nat.not_lt_zero _)

theorem write_attempts_cons (op : ManagerOp) (ops : List ManagerOp) :
    write_attempts (op :: ops) = write_attempts [op] + write_attempts ops := by
  cases op <;> (simp only [write_attempts]; omega)

theorem run_keeps_order (ops : List ManagerOp) : ∀ (s : ManagerState) (n : Nat),
    metadata_invariant s.g_metadata → s.g_metadata.sequence_num ≤ n →
    sequence_ordered s → n + write_attempts ops < U32 →
    metadata_invariant (run_ops s ops).g_metadata
      ∧ (run_ops s ops).g_metadata.sequence_num ≤ n + write_attempts ops
      ∧ sequence_ordered (run_ops s ops) := by
  induction ops with
  | nil =>
    intro s n hinv hseq ho _
    exact ⟨hinv, hseq, ho⟩
  | cons op ops ih =>
    intro s n hinv hseq ho hn
    rw [write_attempts_cons] at hn ⊢
    obtain ⟨i1, i2, i3⟩ := step_keeps_order s op n hinv hseq ho (by omega)
    have h := ih (ManagerOp.step s op) (n + write_attempts [op]) i1 i2 i3 (by omega)
    rw [Nat.add_assoc] at h
    exact h

/-- C28 (sequence numbers order the buffer).  Start from any manager state whose in-memory
metadata is zeroed (as `SDCardManager_Init` on a blank card and `SDCardManager_ClearBuffer`
leave it), on any card contents and with any outcomes of the driver calls.  After any
sequence of `SDCardManager_WriteData`, `SDCardManager_RemoveRecord`,
`SDCardManager_ReadData` and `SDCardManager_ClearBuffer` calls with fewer than `2^32`
write attempts, the records in the `count` live slots starting at `read_index` have
strictly increasing `sequence_num` and each is below the metadata `sequence_num`; the
metadata invariant holds and the metadata `sequence_num` is at most the number of write
attempts. -/
theorem sequence_numbers_ordered (s0 : ManagerState) (ops : List ManagerOp)
    (hzero : s0.g_metadata = zero_metadata) (hn : write_attempts ops < U32) :
    (∀ j k, j < k → k < (run_ops s0 ops).g_metadata.count →
        seq_at (run_ops s0 ops).card.blocks ((run_ops s0 ops).g_metadata.read_index + j)
          < seq_at (run_ops s0 ops).card.blocks
              ((run_ops s0 ops).g_metadata.read_index + k))
      ∧ (∀ j, j < (run_ops s0 ops).g_metadata.count →
        seq_at (run_ops s0 ops).card.blocks ((run_ops s0 ops).g_metadata.read_index + j)
          < (run_ops s0 ops).g_metadata.sequence_num)
      ∧ metadata_invariant (run_ops s0 ops).g_metadata
      ∧ (run_ops s0 ops).g_metadata.sequence_num ≤ write_attempts ops := by
  have hinv : metadata_invariant s0.g_metadata := by
    rw [hzero]
    decide
  have hseq : s0.g_metadata.sequence_num ≤ 0 := by
    rw [hzero]
    exact Nat.le_refl _
  have ho : sequence_ordered s0 := by
    unfold sequence_ordered
    rw [hzero]
    exact ⟨fun j k _ hk => absurd hk (Nat.not_lt_zero _),
      fun j hj => absurd hj (Nat.not_lt_zero _)⟩
  obtain ⟨i1, i2, i3⟩ := run_keeps_order ops s0 0 hinv hseq ho (by omega)
  rw [Nat.zero_add] at i2
  exact ⟨i3.1, i3.2, i1, i2⟩

/-- Witness for C28: five appends, two of them with a failing driver call, a removal and a
read, on a blank card. -/
theorem sequence_numbers_ordered_witness :
    flaky_state.g_metadata = zero_metadata ∧ write_attempts mixed_ops < U32
      ∧ (∀ j k, j < k → k < (run_ops flaky_state mixed_ops).g_metadata.count →
          seq_at (run_ops flaky_state mixed_ops).card.blocks
              ((run_ops flaky_state mixed_ops).g_metadata.read_index + j)
            < seq_at (run_ops flaky_state mixed_ops).card.blocks
                ((run_ops flaky_state mixed_ops).g_metadata.read_index + k))
      ∧ (run_ops flaky_state mixed_ops).g_metadata.sequence_num ≤ 5 :=
  ⟨rfl, by decide, (sequence_numbers_ordered flaky_state mixed_ops rfl (by decide)).1,
    (sequence_numbers_ordered flaky_state mixed_ops rfl (by decide)).2.2.2⟩

/-! ## Command dispatch -/

/-- An entry returned by the table loop is an entry of the table, has no more tokens than
the line, and its command string is the line's leading tokens joined by single spaces. -/
theorem find_in_sound (argv : List (List Nat)) (tbl : List command_function_t)
    (e : command_function_t) (h : find_in argv tbl = some e) :
    e ∈ tbl
      ∧ (strtok_tokens (ascii " ") e.cmdString).length % 256 ≤ argv.length
      ∧ e.cmdString
          = join_tokens (argv.take ((strtok_tokens (ascii " ") e.cmdString).length % 256)) := by
  induction tbl with
  | nil => simp [find_in] at h
  | cons x rest ih =>
    unfold find_in at h
    dsimp only at h
    by_cases h1 : (strtok_tokens (ascii " ") x.cmdString).length % 256 > argv.length
    · rw [if_pos h1] at h
      have := ih h
      exact ⟨List.mem_cons_of_mem _ this.1, this.2⟩
    · rw [if_neg h1] at h
      by_cases h2 : x.cmdString
          = join_tokens (argv.take ((strtok_tokens (ascii " ") x.cmdString).length % 256))
      · rw [if_pos h2] at h
        cases h
        exact ⟨List.mem_cons_self _ _, by omega, h2⟩
      · rw [if_neg h2] at h
        have := ih h
        exact ⟨List.mem_cons_of_mem _ this.1, this.2⟩

/-- The table loop returns `NULL` exactly when no entry of the table matches the line's
leading tokens. -/
theorem find_in_none_iff (argv : List (List Nat)) (tbl : List command_function_t) :
    find_in argv tbl = none
      ↔ ∀ e, e ∈ tbl →
          ¬ ((strtok_tokens (ascii " ") e.cmdString).length % 256 ≤ argv.length
              ∧ e.cmdString
                  = join_tokens
                      (argv.take ((strtok_tokens (ascii " ") e.cmdString).length % 256))) := by
  induction tbl with
  | nil => simp [find_in]
  | cons x rest ih =>
    unfold find_in
    dsimp only
    by_cases h1 : (strtok_tokens (ascii " ") x.cmdString).length % 256 > argv.length
    · rw [if_pos h1, ih]
      constructor
      · intro h e he
        rcases List.mem_cons.mp he with rfl | he
        · intro hc
          omega
        · exact h e he
      · intro h e he
        exact h e (List.mem_cons_of_mem _ he)
    · rw [if_neg h1]
      by_cases h2 : x.cmdString
          = join_tokens (argv.take ((strtok_tokens (ascii " ") x.cmdString).length % 256))
      · rw [if_pos h2]
        constructor
        · intro h
          cases h
        · intro h
          exact absurd ⟨by omega, h2⟩ (h x (List.mem_cons_self _ _))
      · rw [if_neg h2, ih]
        constructor
        · intro h e he
          rcases List.mem_cons.mp he with rfl | he
          · intro hc
            exact h2 hc.2
          · exact h e he
        · intro h e he
          exact h e (List.mem_cons_of_mem _ he)

/-- No command string of the table has 256 tokens or more, so the 8-bit token counter of
`find_command` holds the number of tokens. -/
theorem cmdTable_token_counts :
    ∀ e, e ∈ cmdTable →
      (strtok_tokens (ascii " ") e.cmdString).length % 256
        = (strtok_tokens (ascii " ") e.cmdString).length := by
  decide

/-- The three ways in which `COMMAND_EXECUTE` ends on a line. -/
theorem COMMAND_EXECUTE_cases (line : List Nat) :
    (tokenize_string ((cstring line).take 255) 20 = []
        ∧ COMMAND_EXECUTE (some line) = ExecResult.returned)
      ∨ (0 < (tokenize_string ((cstring line).take 255) 20).length
          ∧ ∃ e, find_command (tokenize_string ((cstring line).take 255) 20) = some e
              ∧ e ∈ cmdTable
              ∧ e.cmdString
                  = join_tokens
                      ((tokenize_string ((cstring line).take 255) 20).take
                        (strtok_tokens (ascii " ") e.cmdString).length)
              ∧ COMMAND_EXECUTE (some line)
                  = ExecResult.called e
                      (tokenize_string ((cstring line).take 255) 20).length
                      (tokenize_string ((cstring line).take 255) 20))
      ∨ (0 < (tokenize_string ((cstring line).take 255) 20).length
          ∧ find_command (tokenize_string ((cstring line).take 255) 20) = none
          ∧ COMMAND_EXECUTE (some line)
              = ExecResult.null_dereference
                  (tokenize_string ((cstring line).take 255) 20).length
                  (tokenize_string ((cstring line).take 255) 20)) := by
  unfold COMMAND_EXECUTE
  dsimp only
  generalize tokenize_string ((cstring line).take 255) 20 = argv
  by_cases h0 : argv.length = 0
  · left
    rw [if_pos h0]
    exact ⟨List.length_eq_zero.mp h0, rfl⟩
  · right
    rw [if_neg h0]
    cases hf : find_command argv with
    | none =>
      right
      exact ⟨by omega, rfl, rfl⟩
    | some e =>
      left
      have hin : find_in argv cmdTable = some e := by
        unfold find_command at hf
        rw [if_neg h0] at hf
        exact hf
      have hs := find_in_sound argv cmdTable e hin
      have hk := cmdTable_token_counts e hs.1
      rw [hk] at hs
      exact ⟨by omega, e, rfl, hs.1, hs.2.2, rfl⟩

set_option maxRecDepth 100000 in
/-- C30 (command dispatch), where the code departs from the claim.  On the line `HELLO`
followed by CR LF the tokenizer finds the one token `HELLO`, `find_command` finds no table
entry for it and returns `NULL`, and `COMMAND_EXECUTE` then evaluates `command->func` with
`command == NULL` instead of returning; the same happens on the line `MQTT`.  For every
line: with no token `COMMAND_EXECUTE` returns without calling a handler; with a token and
a matching table entry it calls the handler of that entry, whose command string equals
the line's leading tokens joined by single spaces; with a token and no matching entry it
dereferences the `NULL` returned by `find_command`. -/
theorem unmatched_line_dereferences_null :
    tokenize_string ((cstring (ascii "HELLO\r\n")).take 255) 20 = [ascii "HELLO"]
      ∧ find_command [ascii "HELLO"] = none
      ∧ COMMAND_EXECUTE (some (ascii "HELLO\r\n"))
          = ExecResult.null_dereference 1 [ascii "HELLO"]
      ∧ COMMAND_EXECUTE (some (ascii "MQTT\n"))
          = ExecResult.null_dereference 1 [ascii "MQTT"]
      ∧ COMMAND_EXECUTE (some (ascii "MQTT CONNECTED\r\n"))
          = ExecResult.called
              { cmdString := ascii "MQTT CONNECTED",
                func := CmdHandlerFunc.MQTT_CONNECTED_PARSER }
              2 [ascii "MQTT", ascii "CONNECTED"]
      ∧ COMMAND_EXECUTE (some (ascii "\r\n")) = ExecResult.returned
      ∧ ∀ line : List Nat,
          (tokenize_string ((cstring line).take 255) 20 = []
              ∧ COMMAND_EXECUTE (some line) = ExecResult.returned)
            ∨ (0 < (tokenize_string ((cstring line).take 255) 20).length
                ∧ ∃ e, find_command (tokenize_string ((cstring line).take 255) 20) = some e
                    ∧ e ∈ cmdTable
                    ∧ e.cmdString
                        = join_tokens
                            ((tokenize_string ((cstring line).take 255) 20).take
                              (strtok_tokens (ascii " ") e.cmdString).length)
                    ∧ COMMAND_EXECUTE (some line)
                        = ExecResult.called e
                            (tokenize_string ((cstring line).take 255) 20).length
                            (tokenize_string ((cstring line).take 255) 20))
            ∨ (0 < (tokenize_string ((cstring line).take 255) 20).length
                ∧ find_command (tokenize_string ((cstring line).take 255) 20) = none
                ∧ COMMAND_EXECUTE (some line)
                    = ExecResult.null_dereference
                        (tokenize_string ((cstring line).take 255) 20).length
                        (tokenize_string ((cstring line).take 255) 20)) :=
  ⟨by decide, by decide, by decide, by decide, by decide, by decide, COMMAND_EXECUTE_cases⟩

end Datalogger
